import Mathlib

/-!
# BACnet transaction state machine and ReadPropertyMultiple handler

A shallow embedding of `src/bacnet/basic/tsm/tsm.c` and
`src/bacnet/basic/service/h_rpm.c`.

* The process-wide statics (`TSM_List`, `Current_Invoke_ID`, `TSM_Peer_Ids`,
  `Duplicate_Count`, `Timeout_Function`) are the fields of one record `TSM`
  that every operation takes and returns.
* Everything handed to the datalink layer, and every call of the timeout
  callback, is appended to the trace `TSM.sent`. A send out of a slot's own
  buffer records the table index of that slot.
* Machine integers are natural numbers; `u8`, `u16` and `u32` are the
  truncations of C assignments to 8, 16 and 32 bit unsigned objects.
* Compile-time knobs and host-supplied run-time parameters are the fields of
  `Config`.
-/

namespace Bacnet

/-! ## Machine integers -/

/-- Truncation to `uint8_t`. -/
def u8 (n : Nat) : Nat := n % 256

/-- Truncation to `uint16_t`. -/
def u16 (n : Nat) : Nat := n % 65536

/-- Truncation to `uint32_t`. -/
def u32 (n : Nat) : Nat := n % 4294967296

/-- Conversion of an `int` to `uint32_t`. -/
def u32i (n : Int) : Nat := (n % 4294967296).toNat

/-- Conversion of an integer to a 32 bit `int` (two's complement). -/
def i32 (n : Int) : Int := (n + 2147483648) % 4294967296 - 2147483648

/-- Unsigned 32 bit subtraction. -/
def u32sub (a b : Nat) : Nat := u32i ((a : Int) - (b : Int))

/-- The effect of `memcpy(&buf[off], data, data.length)` on the bytes of `buf`. -/
def writeBytes (buf : List Nat) (off : Nat) (data : List Nat) : List Nat :=
  buf.take off ++ data ++ buf.drop (off + data.length)

/-! ## Data model -/

/-- Modelled from the spec: the transaction states of `BACNET_TSM_STATE`
(declared in tsm.h); the four states the code under `tsm.c` uses. -/
inductive BACNET_TSM_STATE
  | TSM_STATE_IDLE
  | TSM_STATE_AWAIT_CONFIRMATION
  | TSM_STATE_SEGMENTED_REQUEST_SERVER
  | TSM_STATE_SEGMENTED_RESPONSE_SERVER
  deriving DecidableEq

open BACNET_TSM_STATE

/-- Modelled from the spec: a peer network address `BACNET_ADDRESS`
(declared in bacdef.h): a network number and the MAC bytes. -/
structure BACNET_ADDRESS where
  net : Nat
  mac : List Nat
  deriving DecidableEq

/-- Modelled from the spec: `address_match` (bacaddr.c), "MAC-level equality
(network, length, bytes)". -/
def address_match (a b : BACNET_ADDRESS) : Bool :=
  a.net == b.net && a.mac == b.mac

/-- Modelled from the spec: the NPDU parameters kept for retransmission
(`BACNET_NPDU_DATA`, declared in npdu.h). -/
structure BACNET_NPDU_DATA where
  data_expecting_reply : Bool
  priority : Nat
  deriving DecidableEq

/-- The PDU types `get_apdu_header_typical_size` distinguishes. -/
inductive BACNET_PDU_TYPE
  | PDU_TYPE_CONFIRMED_SERVICE_REQUEST
  | PDU_TYPE_COMPLEX_ACK
  | PDU_TYPE_OTHER
  deriving DecidableEq

open BACNET_PDU_TYPE

/-- Modelled from the spec: the cached fixed-header parameters
`BACNET_APDU_FIXED_HEADER` (declared in apdu.h), "rewritten per segment
(segmented flag, more-follows, sequence number)". -/
structure BACNET_APDU_FIXED_HEADER where
  pdu_type : BACNET_PDU_TYPE
  invoke_id : Nat
  service_choice : Nat
  max_resp : Nat
  segmented_message : Bool
  more_follows : Bool
  sequence_number : Nat
  proposed_window_number : Nat
  deriving DecidableEq

/-- Modelled from the spec: the transaction slot `BACNET_TSM_DATA` (declared in
tsm.h). `apdu` and `apdu_blob` are heap pointers in the source: `none` is the
null pointer and `some b` an allocation holding the bytes `b`. The counters
`RetryCount`, `SegmentRetryCount`, `ReceivedSegmentsCount`, the window sizes
and `LastSequenceNumber` are 8 bit, the two timers 16 bit, the lengths and
`InitialSequenceNumber` 32 bit. -/
structure BACNET_TSM_DATA where
  InvokeID : Nat
  state : BACNET_TSM_STATE
  RequestTimer : Nat
  SegmentTimer : Nat
  RetryCount : Nat
  SegmentRetryCount : Nat
  SentAllSegments : Bool
  LastSequenceNumber : Nat
  InitialSequenceNumber : Nat
  ActualWindowSize : Nat
  ProposedWindowSize : Nat
  ReceivedSegmentsCount : Nat
  dest : BACNET_ADDRESS
  npdu_data : BACNET_NPDU_DATA
  apdu_fixed_header : BACNET_APDU_FIXED_HEADER
  apdu_maximum_length : Nat
  maximum_transmittable_length : Nat
  apdu_blob : Option (List Nat)
  apdu_blob_allocated : Nat
  apdu_blob_size : Nat
  apdu : Option (List Nat)
  apdu_len : Nat
  deriving DecidableEq

/-- A zero-initialised slot (static storage). -/
def BACNET_TSM_DATA.zero : BACNET_TSM_DATA where
  InvokeID := 0
  state := TSM_STATE_IDLE
  RequestTimer := 0
  SegmentTimer := 0
  RetryCount := 0
  SegmentRetryCount := 0
  SentAllSegments := false
  LastSequenceNumber := 0
  InitialSequenceNumber := 0
  ActualWindowSize := 0
  ProposedWindowSize := 0
  ReceivedSegmentsCount := 0
  dest := ⟨0, []⟩
  npdu_data := ⟨false, 0⟩
  apdu_fixed_header := ⟨PDU_TYPE_CONFIRMED_SERVICE_REQUEST, 0, 0, 0, false, false, 0, 0⟩
  apdu_maximum_length := 0
  maximum_transmittable_length := 0
  apdu_blob := none
  apdu_blob_allocated := 0
  apdu_blob_size := 0
  apdu := none
  apdu_len := 0

instance : Inhabited BACNET_TSM_DATA := ⟨BACNET_TSM_DATA.zero⟩

/-- Modelled from the spec: a peer-mapping entry `BACNET_TSM_INDIRECT_DATA`
(declared in tsm.h): "local-invoke-id (0 = free), peer-invoke-id,
peer-address". -/
structure BACNET_TSM_INDIRECT_DATA where
  InternalInvokeID : Nat
  PeerInvokeID : Nat
  PeerAddress : BACNET_ADDRESS
  deriving DecidableEq

instance : Inhabited BACNET_TSM_INDIRECT_DATA := ⟨⟨0, 0, ⟨0, []⟩⟩⟩

/-- Abort reasons used by the transaction layer. -/
inductive BACNET_ABORT_REASON
  | ABORT_REASON_OTHER
  | ABORT_REASON_BUFFER_OVERFLOW
  | ABORT_REASON_INVALID_APDU_IN_THIS_STATE
  | ABORT_REASON_PREEMPTED_BY_HIGHER_PRIORITY_TASK
  | ABORT_REASON_SEGMENTATION_NOT_SUPPORTED
  | ABORT_REASON_WINDOW_SIZE_OUT_OF_RANGE
  | ABORT_REASON_APPLICATION_EXCEEDED_REPLY_TIME
  deriving DecidableEq

open BACNET_ABORT_REASON

/-- What leaves the transaction layer: PDUs handed to the datalink and calls of
the registered timeout callback. -/
inductive Event
  /-- Call of `datalink_send_pdu` on the APDU stored in `TSM_List[slot]`. -/
  | pdu (slot : Nat) (dest : BACNET_ADDRESS) (apdu : List Nat)
  /-- Call of `datalink_send_pdu` by `tsm_pdu_send` on `TSM_List[slot]`: fixed
  header and payload. -/
  | segment (slot : Nat) (dest : BACNET_ADDRESS) (header : BACNET_APDU_FIXED_HEADER)
      (payload : List Nat)
  /-- Call of `segmentack_pdu_send`. -/
  | segmentack (dest : BACNET_ADDRESS) (negativeack server : Bool)
      (invoke_id sequence_number actual_window_size : Nat)
  /-- Call of `abort_pdu_send`. -/
  | abort (invoke_id : Nat) (dest : BACNET_ADDRESS) (reason : BACNET_ABORT_REASON)
      (server : Bool)
  /-- Call of `Timeout_Function(invoke_id)`. -/
  | timeout (invoke_id : Nat)
  deriving DecidableEq

/-- Compile-time knobs, host parameters and the results of the external
encoders and of the datalink. The values of `apdu_timeout()` and
`apdu_segment_timeout()` are 16 bit and the value of `apdu_retries()` is 8 bit;
they are stored as they are. -/
structure Config where
  MAX_SEGMENTS_ACCEPTED : Nat
  MAX_APDU : Nat
  MAX_PDU : Nat
  apdu_timeout : Nat
  apdu_segment_timeout : Nat
  apdu_retries : Nat
  npdu_encode_pdu : BACNET_ADDRESS → BACNET_NPDU_DATA → Int
  apdu_encode_fixed_header : BACNET_APDU_FIXED_HEADER → Int
  datalink_send_pdu : BACNET_ADDRESS → Int → Int
  address_get_by_device : BACNET_ADDRESS → Option (Nat × Bool × Nat)

/-- The process-wide state of `tsm.c`. `TSM_List` has `MAX_TSM_TRANSACTIONS`
elements and `TSM_Peer_Ids` has `MAX_TSM_PEERS`. -/
structure TSM where
  TSM_List : List BACNET_TSM_DATA
  Current_Invoke_ID : Nat
  TSM_Peer_Ids : List BACNET_TSM_INDIRECT_DATA
  Duplicate_Count : Nat
  Timeout_Function : Bool
  sent : List Event

/-- The capacity of the transaction table. -/
def MAX_TSM_TRANSACTIONS (s : TSM) : Nat := s.TSM_List.length

/-- The capacity of the peer map. -/
def MAX_TSM_PEERS (s : TSM) : Nat := s.TSM_Peer_Ids.length

/-- The slot `TSM_List[i]`. -/
def TSM.slot (s : TSM) (i : Nat) : BACNET_TSM_DATA := s.TSM_List.getD i default

/-- Assignment to the slot `TSM_List[i]`. -/
def TSM.setSlot (s : TSM) (i : Nat) (d : BACNET_TSM_DATA) : TSM :=
  { s with TSM_List := s.TSM_List.set i d }

/-- Append an event to the trace. -/
def TSM.emit (s : TSM) (e : Event) : TSM := { s with sent := s.sent ++ [e] }

/-- The table after static initialisation: `n` zeroed slots, `p` zeroed peer
entries, cursor 1, no callback. -/
def TSM.init (n p : Nat) : TSM where
  TSM_List := List.replicate n default
  Current_Invoke_ID := 1
  TSM_Peer_Ids := List.replicate p default
  Duplicate_Count := 0
  Timeout_Function := false
  sent := []

/-! ## Invoke-id allocation (tsm.c lines 58-214) -/

/-- The `tsm_set_timeout_handler` operation; `registered` is false for a null
function pointer. -/
def tsm_set_timeout_handler (s : TSM) (registered : Bool) : TSM :=
  { s with Timeout_Function := registered }

/-- Index of the first slot holding `invokeID`, or `MAX_TSM_TRANSACTIONS`;
the result is a `uint8_t`. -/
def tsm_find_invokeID_index (s : TSM) (invokeID : Nat) : Nat :=
  u8 (s.TSM_List.findIdx (fun d => d.InvokeID == invokeID))

/-- Index of the first free slot, or `MAX_TSM_TRANSACTIONS`; the result is a
`uint8_t`. -/
def tsm_find_first_free_index (s : TSM) : Nat :=
  u8 (s.TSM_List.findIdx (fun d => d.InvokeID == 0))

/-- Whether some slot is free. -/
def tsm_transaction_available (s : TSM) : Bool :=
  s.TSM_List.any (fun d => d.InvokeID == 0)

/-- Number of slots that are free and idle, as a `uint8_t`. -/
def tsm_transaction_idle_count (s : TSM) : Nat :=
  u8 (s.TSM_List.countP (fun d => d.InvokeID == 0 && d.state == TSM_STATE_IDLE))

/-- The `tsm_invokeID_set` operation. -/
def tsm_invokeID_set (s : TSM) (invokeID : Nat) : TSM :=
  { s with Current_Invoke_ID := if invokeID = 0 then 1 else invokeID }

/-- The cursor step `Current_Invoke_ID++` followed by the skip of zero. -/
def invokeID_increment (c : Nat) : Nat :=
  if u8 (c + 1) = 0 then 1 else u8 (c + 1)

/-- The `while (!found)` loop of `tsm_next_free_invokeID`, `fuel` iterations
at most; `none` when the fuel does not suffice. -/
def tsm_next_free_invokeID_loop (cfg : Config) : Nat → TSM → Option (Nat × TSM)
  | 0, _ => none
  | fuel + 1, s =>
    let index := tsm_find_invokeID_index s s.Current_Invoke_ID
    if index = MAX_TSM_TRANSACTIONS s then
      let index := tsm_find_first_free_index s
      if index ≠ MAX_TSM_TRANSACTIONS s then
        let plist := s.slot index
        let plist := { plist with
          InvokeID := s.Current_Invoke_ID
          state := TSM_STATE_IDLE
          RequestTimer := cfg.apdu_timeout }
        some (s.Current_Invoke_ID,
          { s.setSlot index plist with
            Current_Invoke_ID := invokeID_increment s.Current_Invoke_ID })
      else
        some (0, s)
    else
      tsm_next_free_invokeID_loop cfg fuel
        { s with Current_Invoke_ID := invokeID_increment s.Current_Invoke_ID }

/-- The `tsm_next_free_invokeID` operation: the returned id and the new state.
The cursor is 8 bit wide, so a search that has not ended after 256 iterations
never ends; that case is `none`. -/
def tsm_next_free_invokeID (cfg : Config) (s : TSM) : Option (Nat × TSM) :=
  if tsm_transaction_available s then
    tsm_next_free_invokeID_loop cfg 256 s
  else
    some (0, s)

/-- The `tsm_free_invoke_id` operation. -/
def tsm_free_invoke_id (s : TSM) (invokeID : Nat) : TSM :=
  let index := tsm_find_invokeID_index s invokeID
  if index < MAX_TSM_TRANSACTIONS s then
    s.setSlot index { s.slot index with state := TSM_STATE_IDLE, InvokeID := 0 }
  else s

/-- The `tsm_invoke_id_free` operation. -/
def tsm_invoke_id_free (s : TSM) (invokeID : Nat) : Bool :=
  let index := tsm_find_invokeID_index s invokeID
  if index < MAX_TSM_TRANSACTIONS s then false else true

/-- The `tsm_invoke_id_failed` operation. -/
def tsm_invoke_id_failed (s : TSM) (invokeID : Nat) : Bool :=
  let index := tsm_find_invokeID_index s invokeID
  if index < MAX_TSM_TRANSACTIONS s then
    if (s.slot index).state = TSM_STATE_IDLE then true else false
  else false

/-- The `tsm_set_confirmed_unsegmented_transaction` operation; the pointer
arguments are not null. The byte-wise copy `plist->apdu[j] = apdu[j]`
overwrites the first `apdu_len` bytes of the slot's buffer. -/
def tsm_set_confirmed_unsegmented_transaction (cfg : Config) (s : TSM) (invokeID : Nat)
    (dest : BACNET_ADDRESS) (ndpu_data : BACNET_NPDU_DATA) (apdu : List Nat)
    (apdu_len : Nat) : TSM :=
  if invokeID ≠ 0 ∧ apdu_len > 0 then
    let index := tsm_find_invokeID_index s invokeID
    if index < MAX_TSM_TRANSACTIONS s then
      let plist := s.slot index
      s.setSlot index { plist with
        state := TSM_STATE_AWAIT_CONFIRMATION
        RetryCount := 0
        RequestTimer := cfg.apdu_timeout
        apdu := some (writeBytes (plist.apdu.getD []) 0 (apdu.take apdu_len))
        apdu_len := apdu_len
        npdu_data := ndpu_data
        dest := dest }
    else s
  else s

/-- The `tsm_get_transaction_pdu` operation; the pointer arguments are not
null. Returns the destination, the NPDU parameters and the stored bytes when
the invoke-id is found. -/
def tsm_get_transaction_pdu (cfg : Config) (s : TSM) (invokeID : Nat) :
    Option (BACNET_ADDRESS × BACNET_NPDU_DATA × List Nat) :=
  if invokeID ≠ 0 then
    let index := tsm_find_invokeID_index s invokeID
    if index < MAX_TSM_TRANSACTIONS s then
      let plist := s.slot index
      let apdu_len := if u16 plist.apdu_len > cfg.MAX_PDU then cfg.MAX_PDU else u16 plist.apdu_len
      some (plist.dest, plist.npdu_data, (plist.apdu.getD []).take apdu_len)
    else none
  else none

/-! ## Buffers and segment sizing (tsm.c lines 365-513, 872-963) -/

/-- The `segmentack_pdu_send` operation: one Segment-ACK PDU to the datalink. -/
def segmentack_pdu_send (s : TSM) (dest : BACNET_ADDRESS) (negativeack server : Bool)
    (invoke_id sequence_number actual_window_size : Nat) : TSM :=
  s.emit (Event.segmentack dest negativeack server invoke_id sequence_number
    actual_window_size)

/-- The `abort_pdu_send` operation: one Abort PDU to the datalink. -/
def abort_pdu_send (s : TSM) (invoke_id : Nat) (dest : BACNET_ADDRESS)
    (reason : BACNET_ABORT_REASON) (server : Bool) : TSM :=
  s.emit (Event.abort invoke_id dest reason server)

/-- The `get_apdu_header_typical_size` function. -/
def get_apdu_header_typical_size (header : BACNET_APDU_FIXED_HEADER) (segmented : Bool) :
    Nat :=
  let segmented_ack := 5
  let unsegmented_ack := 3
  let segmented_request := 6
  let unsegmented_request := 4
  match header.pdu_type with
  | PDU_TYPE_COMPLEX_ACK => if segmented then segmented_ack else unsegmented_ack
  | PDU_TYPE_CONFIRMED_SERVICE_REQUEST =>
    if segmented then segmented_request else unsegmented_request
  | PDU_TYPE_OTHER => unsegmented_ack

/-- The `free_blob` operation. -/
def free_blob (data : BACNET_TSM_DATA) : BACNET_TSM_DATA :=
  { data with
    apdu_blob := none
    apdu_blob_allocated := 0
    apdu_blob_size := 0
    apdu := none
    apdu_len := 0 }

/-- The `reset_blob` operation. -/
def reset_blob (data : BACNET_TSM_DATA) : BACNET_TSM_DATA :=
  { data with apdu_blob_size := 0 }

/-- The `ensure_extra_blob_size` operation; `calloc` succeeds and returns zeroed
memory. -/
def ensure_extra_blob_size (data : BACNET_TSM_DATA) (allocation_unit : Nat) :
    BACNET_TSM_DATA :=
  if allocation_unit = 0 then data
  else if data.apdu_blob.isNone ∨ data.apdu_blob_allocated = 0 ∨
      u32 (allocation_unit + data.apdu_blob_size) > data.apdu_blob_allocated then
    let apdu_new_blob := List.replicate (u32 (data.apdu_blob_allocated + allocation_unit)) 0
    let apdu_new_blob :=
      if data.apdu_blob_size ≠ 0 then
        writeBytes apdu_new_blob 0 ((data.apdu_blob.getD []).take data.apdu_blob_size)
      else apdu_new_blob
    { data with
      apdu_blob := some apdu_new_blob
      apdu_blob_allocated := u32 (data.apdu_blob_allocated + allocation_unit) }
  else data

/-- The `add_blob_data` operation: `data_len` bytes of `bdata` are appended. -/
def add_blob_data (data : BACNET_TSM_DATA) (bdata : List Nat) (data_len : Nat) :
    BACNET_TSM_DATA :=
  let data := ensure_extra_blob_size data data_len
  { data with
    apdu_blob := data.apdu_blob.map
      (fun b => writeBytes b data.apdu_blob_size (bdata.take data_len))
    apdu_blob_size := u32 (data.apdu_blob_size + data_len) }

/-- The `get_blob_data` function: the blob pointer and the length written to the
`uint16_t` out-parameter. -/
def get_blob_data (data : BACNET_TSM_DATA) : Option (List Nat) × Nat :=
  (data.apdu_blob, u16 data.apdu_blob_size)

/-- The `copy_apdu_blob_data` operation; `calloc` succeeds. -/
def copy_apdu_blob_data (data : BACNET_TSM_DATA) (bdata : List Nat) (data_len : Nat) :
    BACNET_TSM_DATA :=
  { data with apdu := some (bdata.take data_len), apdu_len := data_len }

/-- The `get_apdu_blob_data_segment` function: the bytes found at the returned
pointer (`none` for a null `apdu`) and the length written to `data_len`. -/
def get_apdu_blob_data_segment (data : BACNET_TSM_DATA) (segment_number : Int) :
    Option (List Nat) × Nat :=
  let segmented := data.apdu_fixed_header.segmented_message
  let header_size : Int := get_apdu_header_typical_size data.apdu_fixed_header segmented
  let block_request_size : Int := i32 ((data.apdu_maximum_length : Int) - header_size)
  let data_position : Int := segment_number * block_request_size
  let remaining_size : Int := i32 data.apdu_len - data_position
  let data_len := u32i (max 0 (min remaining_size block_request_size))
  (data.apdu.map (fun b => (b.drop data_position.toNat).take data_len), data_len)

/-- The `get_apdu_max_segments` function (32 bit unsigned arithmetic). -/
def get_apdu_max_segments (data : BACNET_TSM_DATA) : Nat :=
  let header_size := get_apdu_header_typical_size data.apdu_fixed_header false
  if u32 (header_size + data.apdu_len) ≤ data.apdu_maximum_length then 1
  else
    let header_size := get_apdu_header_typical_size data.apdu_fixed_header true
    u32 (u32sub data.apdu_len 1 / u32sub data.apdu_maximum_length header_size + 1)

/-- The `check_write_apdu_space` function. -/
def check_write_apdu_space (apdu_len max_apdu space_needed : Int) : Bool :=
  apdu_len + space_needed < max_apdu

/-! ## Peer-invoke map (tsm.c lines 515-611) -/

/-- Modelled from the spec: the confirmed-service parameters
`BACNET_CONFIRMED_SERVICE_DATA` (declared in apdu.h): "invoke-id,
max-response-size, max-segments, segmented-response-accepted" and the
segmentation fields of the fixed header. -/
structure BACNET_CONFIRMED_SERVICE_DATA where
  segmented_message : Bool
  more_follows : Bool
  segmented_response_accepted : Bool
  max_segs : Nat
  max_resp : Nat
  invoke_id : Nat
  sequence_number : Nat
  proposed_window_number : Nat
  priority : Nat
  deriving DecidableEq

/-- The peer-map entry `TSM_Peer_Ids[i]`. -/
def TSM.peer (s : TSM) (i : Nat) : BACNET_TSM_INDIRECT_DATA := s.TSM_Peer_Ids.getD i default

/-- Assignment to the peer-map entry `TSM_Peer_Ids[i]`. -/
def TSM.setPeer (s : TSM) (i : Nat) (e : BACNET_TSM_INDIRECT_DATA) : TSM :=
  { s with TSM_Peer_Ids := s.TSM_Peer_Ids.set i e }

/-- The `tsm_clear_peer_id` operation. -/
def tsm_clear_peer_id (s : TSM) (InternalInvokeID : Nat) : TSM :=
  { s with TSM_Peer_Ids := s.TSM_Peer_Ids.map (fun e =>
      if e.InternalInvokeID = InternalInvokeID then { e with InternalInvokeID := 0 } else e) }

/-- The `tsm_free_invoke_id_check` operation; `peer_address` is `none` for a
null pointer. -/
def tsm_free_invoke_id_check (s : TSM) (invokeID : Nat) (peer_address : Option BACNET_ADDRESS)
    (cleanup : Bool) : TSM :=
  let index := tsm_find_invokeID_index s invokeID
  if index < MAX_TSM_TRANSACTIONS s ∧
      (match peer_address with
       | none => true
       | some a => address_match a (s.slot index).dest) = true then
    let s := s.setSlot index { s.slot index with state := TSM_STATE_IDLE }
    let s := tsm_clear_peer_id s invokeID
    let s := s.setSlot index { s.slot index with InvokeID := 0 }
    if cleanup then s.setSlot index (free_blob (s.slot index)) else s
  else s

/-- Whether a non-free peer-map entry is the one of `(src, invokeID)`. -/
def peer_entry_matches (src : BACNET_ADDRESS) (invokeID : Nat)
    (e : BACNET_TSM_INDIRECT_DATA) : Bool :=
  e.InternalInvokeID != 0 && (invokeID == e.PeerInvokeID && address_match src e.PeerAddress)

/-- The `tsm_get_peer_id_data` operation: the index of the entry found or
created (`none` for a null result) and the new state. The scan stops at the
first matching entry; without a match it has visited the whole map and
`free_ix_found` is the first free entry. -/
def tsm_get_peer_id_data (cfg : Config) (s : TSM) (src : BACNET_ADDRESS) (invokeID : Nat)
    (createPeerId : Bool) : Option (Option Nat × TSM) :=
  match s.TSM_Peer_Ids.findIdx? (peer_entry_matches src invokeID) with
  | some ix => some (some ix, s)
  | none =>
    match s.TSM_Peer_Ids.findIdx? (fun e => e.InternalInvokeID == 0) with
    | none => some (none, s)
    | some free_ix_found =>
      if createPeerId then
        let s := s.setPeer free_ix_found
          { s.peer free_ix_found with PeerInvokeID := invokeID, PeerAddress := src }
        match tsm_next_free_invokeID cfg s with
        | none => none
        | some (id, s) =>
          let s := s.setPeer free_ix_found { s.peer free_ix_found with InternalInvokeID := id }
          let index := tsm_find_invokeID_index s (s.peer free_ix_found).InternalInvokeID
          if index < MAX_TSM_TRANSACTIONS s then
            let s := s.setSlot index { s.slot index with
              InvokeID := (s.peer free_ix_found).InternalInvokeID
              dest := src }
            some (some free_ix_found, s)
          else
            some (none,
              s.setPeer free_ix_found { s.peer free_ix_found with InternalInvokeID := 0 })
      else some (none, s)

/-- The `tsm_get_peer_id` operation: the local invoke-id (0 on failure) and the
new state. -/
def tsm_get_peer_id (cfg : Config) (s : TSM) (src : BACNET_ADDRESS) (invokeID : Nat) :
    Option (Nat × TSM) :=
  match tsm_get_peer_id_data cfg s src invokeID true with
  | none => none
  | some (some ix, s) => some ((s.peer ix).InternalInvokeID, s)
  | some (none, s) => some (0, s)

/-! ## Reassembly of an inbound segmented request (tsm.c lines 613-870) -/

/-- The `DuplicateInWindow` function; `seqA` is 8 bit, the two sequence numbers
are 32 bit and the differences are unsigned 32 bit differences. -/
def DuplicateInWindow (tsm_data : BACNET_TSM_DATA) (seqA first_sequence_number
    last_sequence_number : Nat) : Bool :=
  let received_count := u8 (u32sub last_sequence_number first_sequence_number % 256)
  if received_count > tsm_data.ActualWindowSize then false
  else if u32sub seqA first_sequence_number % 256 ≤ received_count then true
  else if received_count = 0 ∧
      u32sub first_sequence_number seqA % 256 ≤ tsm_data.ActualWindowSize then true
  else false

/-- The `duplicate_segment_received` operation. -/
def duplicate_segment_received (cfg : Config) (s : TSM) (index : Nat)
    (service_data : BACNET_CONFIRMED_SERVICE_DATA) (src : BACNET_ADDRESS) : Bool × TSM :=
  let Ndup := (s.slot index).ActualWindowSize
  if s.Duplicate_Count < Ndup then
    let s := s.setSlot index { s.slot index with SegmentTimer := cfg.apdu_segment_timeout }
    (true, { s with Duplicate_Count := u8 (s.Duplicate_Count + 1) })
  else if s.Duplicate_Count = Ndup then
    let s := segmentack_pdu_send s src true true service_data.invoke_id
      (s.slot index).LastSequenceNumber (s.slot index).ActualWindowSize
    let s := s.setSlot index { s.slot index with SegmentTimer := cfg.apdu_segment_timeout }
    let s := s.setSlot index { s.slot index with
      InitialSequenceNumber := (s.slot index).LastSequenceNumber }
    (true, { s with Duplicate_Count := 0 })
  else (false, s)

/-- What `tsm_set_segmented_confirmed_service_received` hands back: the return
value, `*internal_invoke_id`, and the in/out pair `*pservice_request`
(`none` for a null pointer), `*pservice_request_len`. -/
structure SegmentReceived where
  result : Bool
  internal_invoke_id : Nat
  service_request : Option (List Nat)
  service_request_len : Nat
  deriving DecidableEq

/-- The `TSM_STATE_IDLE` case of `tsm_set_segmented_confirmed_service_received`. -/
def segment_received_idle (cfg : Config) (s : TSM) (index internal_service_id : Nat)
    (src : BACNET_ADDRESS) (service_data : BACNET_CONFIRMED_SERVICE_DATA)
    (service_request : List Nat) (service_request_len : Nat) : TSM :=
  let s := s.setSlot index (reset_blob { s.slot index with
    state := TSM_STATE_SEGMENTED_REQUEST_SERVER
    ActualWindowSize := service_data.proposed_window_number
    ProposedWindowSize := service_data.proposed_window_number
    InitialSequenceNumber := 0
    LastSequenceNumber := 0
    RetryCount := 0
    SegmentRetryCount := 0
    ReceivedSegmentsCount := 1
    RequestTimer := 0
    SegmentTimer := u16 (cfg.apdu_segment_timeout * 4) })
  if service_data.sequence_number = 0 ∧
      ((s.slot index).ProposedWindowSize = 0 ∨ (s.slot index).ProposedWindowSize > 127) then
    let s := abort_pdu_send s service_data.invoke_id src
      ABORT_REASON_WINDOW_SIZE_OUT_OF_RANGE true
    s.setSlot index { s.slot index with state := TSM_STATE_IDLE }
  else if service_data.sequence_number ≠ 0 then
    let s := s.setSlot index (free_blob (s.slot index))
    let s := abort_pdu_send s service_data.invoke_id src
      ABORT_REASON_INVALID_APDU_IN_THIS_STATE true
    tsm_free_invoke_id_check s internal_service_id none true
  else
    let s := s.setSlot index (add_blob_data (s.slot index) service_request service_request_len)
    segmentack_pdu_send s src false true service_data.invoke_id
      (s.slot index).LastSequenceNumber (s.slot index).ActualWindowSize

/-- The `TSM_STATE_SEGMENTED_REQUEST_SERVER` case of
`tsm_set_segmented_confirmed_service_received`: the new state, the return value
and, when the last segment was taken, the result of `get_blob_data`. -/
def segment_received_request_server (cfg : Config) (s : TSM) (index internal_service_id : Nat)
    (src : BACNET_ADDRESS) (service_data : BACNET_CONFIRMED_SERVICE_DATA)
    (service_request : List Nat) (service_request_len : Nat) :
    TSM × Bool × Option (Option (List Nat) × Nat) :=
  let s := s.setSlot index { s.slot index with
    RequestTimer := 0
    SegmentTimer := u16 (cfg.apdu_segment_timeout * 4) }
  let s :=
    if (s.slot index).SegmentTimer > cfg.apdu_timeout then
      let s := abort_pdu_send s service_data.invoke_id src
        ABORT_REASON_APPLICATION_EXCEEDED_REPLY_TIME true
      s.setSlot index { s.slot index with state := TSM_STATE_IDLE }
    else s
  if service_data.sequence_number ≠ u8 ((s.slot index).LastSequenceNumber + 1) % 256 then
    if DuplicateInWindow (s.slot index) service_data.sequence_number
        ((s.slot index).InitialSequenceNumber % 256) (s.slot index).LastSequenceNumber then
      ((duplicate_segment_received cfg s index service_data src).2, false, none)
    else
      let s := segmentack_pdu_send s src true true service_data.invoke_id
        (s.slot index).LastSequenceNumber (s.slot index).ActualWindowSize
      ({ s with Duplicate_Count := 0 }, false, none)
  else
    let s := s.setSlot index { s.slot index with
      ReceivedSegmentsCount := u8 ((s.slot index).ReceivedSegmentsCount + 1) }
    if (s.slot index).ReceivedSegmentsCount > cfg.MAX_SEGMENTS_ACCEPTED then
      let s := abort_pdu_send s service_data.invoke_id src ABORT_REASON_BUFFER_OVERFLOW true
      let s := s.setSlot index (free_blob (s.slot index))
      let s := s.setSlot index { s.slot index with state := TSM_STATE_IDLE }
      (tsm_free_invoke_id_check s internal_service_id none true, false, none)
    else
      let s := s.setSlot index { s.slot index with
        LastSequenceNumber := service_data.sequence_number }
      let s := s.setSlot index (add_blob_data (s.slot index) service_request service_request_len)
      let window_end := service_data.sequence_number =
        u8 ((s.slot index).InitialSequenceNumber + (s.slot index).ActualWindowSize)
      let s :=
        if window_end then
          s.setSlot index { s.slot index with
            InitialSequenceNumber := service_data.sequence_number }
        else s
      let blob := if service_data.more_follows then none else some (get_blob_data (s.slot index))
      let ack_needed := decide window_end || !service_data.more_follows
      let s :=
        if ack_needed then
          segmentack_pdu_send s src false true service_data.invoke_id
            (s.slot index).LastSequenceNumber (s.slot index).ActualWindowSize
        else s
      (s, !service_data.more_follows, blob)

/-- The `tsm_set_segmented_confirmed_service_received` operation.
`service_request` and `service_request_len` are the values of
`*pservice_request` and `*pservice_request_len` at entry. -/
def tsm_set_segmented_confirmed_service_received (cfg : Config) (s : TSM)
    (src : BACNET_ADDRESS) (service_data : BACNET_CONFIRMED_SERVICE_DATA)
    (service_request : List Nat) (service_request_len : Nat) :
    Option (SegmentReceived × TSM) :=
  match tsm_get_peer_id cfg s src service_data.invoke_id with
  | none => none
  | some (internal_service_id, s) =>
    let unchanged (result : Bool) : SegmentReceived :=
      ⟨result, internal_service_id, some service_request, service_request_len⟩
    if internal_service_id = 0 then
      some (unchanged false, abort_pdu_send s service_data.invoke_id src
        ABORT_REASON_PREEMPTED_BY_HIGHER_PRIORITY_TASK true)
    else
      let index := tsm_find_invokeID_index s internal_service_id
      if index ≥ MAX_TSM_TRANSACTIONS s then
        some (unchanged false,
          abort_pdu_send s service_data.invoke_id src ABORT_REASON_OTHER true)
      else
        match (s.slot index).state with
        | TSM_STATE_IDLE =>
          some (unchanged false, segment_received_idle cfg s index internal_service_id src
            service_data service_request service_request_len)
        | TSM_STATE_SEGMENTED_REQUEST_SERVER =>
          match segment_received_request_server cfg s index internal_service_id src
            service_data service_request service_request_len with
          | (s, result, none) => some (unchanged result, s)
          | (s, result, some (blob, len)) =>
            some (⟨result, internal_service_id, blob, len⟩, s)
        | _ => some (unchanged false, s)

/-! ## Segmented transmission (tsm.c lines 897-1289) -/

/-- The `bacnet_calc_transmittable_length` function: `(*apdu_max, *total_max)`.
`confirmed_service_data` is `none` for a null pointer; the address cache gives
the peer's maximum APDU, whether it receives segments, and its segment count. -/
def bacnet_calc_transmittable_length (cfg : Config) (dest : BACNET_ADDRESS)
    (confirmed_service_data : Option BACNET_CONFIRMED_SERVICE_DATA) : Nat × Nat :=
  match confirmed_service_data with
  | some sd =>
    let apdu_max := min sd.max_resp cfg.MAX_APDU
    if sd.segmented_response_accepted then
      let maxsegments := sd.max_segs
      let maxsegments :=
        if maxsegments = 0 ∨ maxsegments > 64 then u16 cfg.MAX_SEGMENTS_ACCEPTED
        else maxsegments
      (apdu_max, u32 (min maxsegments cfg.MAX_SEGMENTS_ACCEPTED * apdu_max))
    else (apdu_max, apdu_max)
  | none =>
    match cfg.address_get_by_device dest with
    | some (max_apdu, receives_segments, maxsegments) =>
      let apdu_max := min max_apdu cfg.MAX_APDU
      if receives_segments then
        let maxsegments := if maxsegments = 0 then u16 cfg.MAX_SEGMENTS_ACCEPTED else maxsegments
        if maxsegments ≠ 0 then
          (apdu_max, u32 (min maxsegments cfg.MAX_SEGMENTS_ACCEPTED * apdu_max))
        else (apdu_max, apdu_max)
      else (apdu_max, apdu_max)
    | none => (cfg.MAX_APDU, u32 (cfg.MAX_APDU * cfg.MAX_SEGMENTS_ACCEPTED))

/-- The `tsm_pdu_send` operation on the slot `tsm_data = TSM_List[index]`: the
slot with its header rewritten, what was handed to the datalink, and the return
value. -/
def tsm_pdu_send (cfg : Config) (index : Nat) (tsm_data : BACNET_TSM_DATA)
    (segment_number : Nat) :
    BACNET_TSM_DATA × List Event × Int :=
  let len := cfg.npdu_encode_pdu tsm_data.dest tsm_data.npdu_data
  if len < 0 then (tsm_data, [], -1)
  else
    let pdu_len := len
    let total_segments := get_apdu_max_segments tsm_data
    if segment_number ≥ total_segments then (tsm_data, [], -1)
    else
      let header :=
        if total_segments = 1 then
          { tsm_data.apdu_fixed_header with segmented_message := false }
        else
          { tsm_data.apdu_fixed_header with
            segmented_message := true
            more_follows := decide (segment_number < total_segments - 1)
            sequence_number := u8 segment_number }
      let tsm_data := { tsm_data with apdu_fixed_header := header }
      let len := cfg.apdu_encode_fixed_header tsm_data.apdu_fixed_header
      if len < 0 then (tsm_data, [], -1)
      else
        let pdu_len := pdu_len + len
        match get_apdu_blob_data_segment tsm_data (i32 segment_number) with
        | (none, _) => (tsm_data, [], -1)
        | (some service_data, service_len) =>
          if !check_write_apdu_space pdu_len cfg.MAX_PDU service_len then (tsm_data, [], -1)
          else
            let pdu_len := pdu_len + service_len
            (tsm_data,
              [Event.segment index tsm_data.dest tsm_data.apdu_fixed_header service_data],
              cfg.datalink_send_pdu tsm_data.dest pdu_len)

/-- The `for` loop of `FillWindow`: `fuel` bounds the iterations left, `ix` is
the loop counter; returns the counter at exit. -/
def FillWindow_loop (cfg : Config) (index total_segments sequence_number : Nat) :
    Nat → Nat → BACNET_TSM_DATA → List Event → Nat × BACNET_TSM_DATA × List Event
  | 0, ix, tsm_data, sent => (ix, tsm_data, sent)
  | fuel + 1, ix, tsm_data, sent =>
    if ix < tsm_data.ActualWindowSize ∧ u32 (sequence_number + ix) < total_segments then
      let r := tsm_pdu_send cfg index tsm_data (u32 (sequence_number + ix))
      FillWindow_loop cfg index total_segments sequence_number fuel (ix + 1) r.1
        (sent ++ r.2.1)
    else (ix, tsm_data, sent)

/-- The `FillWindow` operation on the slot `tsm_data = TSM_List[index]`: the new
slot and what was sent. The loop runs at most `ActualWindowSize` times, and
`tsm_pdu_send` leaves the window size alone. -/
def FillWindow (cfg : Config) (index : Nat) (tsm_data : BACNET_TSM_DATA)
    (sequence_number : Nat) : BACNET_TSM_DATA × List Event :=
  let total_segments := get_apdu_max_segments tsm_data
  let r := FillWindow_loop cfg index total_segments sequence_number
    tsm_data.ActualWindowSize 0 tsm_data []
  let tsm_data := r.2.1
  if u32 (r.1 + sequence_number) ≥ total_segments then
    ({ tsm_data with SentAllSegments := true }, r.2.2)
  else (tsm_data, r.2.2)

/-- The `InWindow` function on 8 bit sequence numbers. -/
def InWindow (data : BACNET_TSM_DATA) (seqA seqB : Nat) : Bool :=
  let requiredWindowSize := u8 (seqA + 256 - seqB)
  requiredWindowSize < data.ActualWindowSize

/-- Run a slot operation that also sends: the slot `index` is replaced and the
events are appended to the trace. -/
def TSM.onSlot (s : TSM) (index : Nat) (r : BACNET_TSM_DATA × List Event) : TSM :=
  { s.setSlot index r.1 with sent := s.sent ++ r.2 }

/-- The `tsm_set_complexack_transaction` operation: the return value and the
new state. -/
def tsm_set_complexack_transaction (cfg : Config) (s : TSM) (dest : BACNET_ADDRESS)
    (npdu_data : BACNET_NPDU_DATA) (apdu_fixed_header : BACNET_APDU_FIXED_HEADER)
    (confirmed_service_data : BACNET_CONFIRMED_SERVICE_DATA) (pdu : List Nat)
    (pdu_len : Nat) : Option (Int × TSM) :=
  match tsm_get_peer_id cfg s dest confirmed_service_data.invoke_id with
  | none => none
  | some (internal_service_id, s) =>
    if internal_service_id = 0 then
      some (-1, abort_pdu_send s confirmed_service_data.invoke_id dest
        ABORT_REASON_PREEMPTED_BY_HIGHER_PRIORITY_TASK true)
    else
      let index := tsm_find_invokeID_index s internal_service_id
      if index ≥ MAX_TSM_TRANSACTIONS s then
        some (-1, abort_pdu_send s confirmed_service_data.invoke_id dest ABORT_REASON_OTHER true)
      else
        let lengths := bacnet_calc_transmittable_length cfg dest (some confirmed_service_data)
        let tsm_data := { s.slot index with
          apdu_maximum_length := lengths.1
          maximum_transmittable_length := lengths.2 }
        let tsm_data := copy_apdu_blob_data tsm_data pdu pdu_len
        let tsm_data := { tsm_data with
          npdu_data := npdu_data
          apdu_fixed_header := apdu_fixed_header
          dest := dest
          RetryCount := cfg.apdu_retries
          ActualWindowSize := 1
          ProposedWindowSize := 32
          InitialSequenceNumber := 0
          SentAllSegments := false }
        let s := s.setSlot index tsm_data
        let apdu_segments := get_apdu_max_segments tsm_data
        let r : Int × TSM :=
          if 1 = apdu_segments then
            let r := tsm_pdu_send cfg index tsm_data 0
            let s := s.onSlot index (r.1, r.2.1)
            if r.2.2 > 0 then (r.2.2, tsm_free_invoke_id_check s internal_service_id (some dest) true)
            else (r.2.2, s)
          else if u32 (pdu_len + u32 (apdu_segments *
              get_apdu_header_typical_size apdu_fixed_header true)) >
              tsm_data.maximum_transmittable_length then
            let s := s.setSlot index (free_blob (s.slot index))
            (-2, abort_pdu_send s confirmed_service_data.invoke_id dest
              ABORT_REASON_BUFFER_OVERFLOW true)
          else
            let tsm_data := { tsm_data with
              apdu_fixed_header := { tsm_data.apdu_fixed_header with
                proposed_window_number := tsm_data.ProposedWindowSize }
              state := TSM_STATE_SEGMENTED_RESPONSE_SERVER
              SegmentRetryCount := cfg.apdu_retries
              RequestTimer := 0
              SegmentTimer := cfg.apdu_segment_timeout }
            let r := tsm_pdu_send cfg index tsm_data 0
            (r.2.2, s.onSlot index (r.1, r.2.1))
        if r.1 ≤ 0 then
          some (r.1, tsm_free_invoke_id_check r.2 internal_service_id (some dest) true)
        else some r

/-- The `tsm_segmentack_received` operation. The lookup
`tsm_get_peer_id_data(src, invoke_id, false)` creates nothing: it is the search
for the first matching entry. -/
def tsm_segmentack_received (cfg : Config) (s : TSM) (invoke_id sequence_number
    actual_window_size : Nat) (server : Bool) (src : BACNET_ADDRESS) : TSM :=
  if server ∧ invoke_id = 0 then s
  else
    let translated : Option Nat :=
      if !server then
        match s.TSM_Peer_Ids.findIdx? (peer_entry_matches src invoke_id) with
        | none => none
        | some ix => some (s.peer ix).InternalInvokeID
      else some invoke_id
    match translated with
    | none => s
    | some invoke_id =>
      let index := tsm_find_invokeID_index s invoke_id
      if index ≥ MAX_TSM_TRANSACTIONS s then s
      else if !server ∧ (s.slot index).state = TSM_STATE_SEGMENTED_RESPONSE_SERVER then
        if !InWindow (s.slot index) sequence_number (u8 (s.slot index).InitialSequenceNumber) then
          s.setSlot index { s.slot index with SegmentTimer := cfg.apdu_segment_timeout }
        else
          let window := u8 (sequence_number + 256 - u8 (s.slot index).InitialSequenceNumber)
          let big_segment_number := u32 ((s.slot index).InitialSequenceNumber + window)
          let some_segment_remains :=
            u32 (big_segment_number + 1) < get_apdu_max_segments (s.slot index)
          if some_segment_remains then
            let tsm_data := { s.slot index with
              InitialSequenceNumber := u32 (big_segment_number + 1)
              ActualWindowSize := actual_window_size
              SegmentRetryCount := cfg.apdu_retries
              SegmentTimer := cfg.apdu_segment_timeout }
            let s := s.onSlot index (FillWindow cfg index tsm_data tsm_data.InitialSequenceNumber)
            s.setSlot index { s.slot index with SegmentTimer := cfg.apdu_segment_timeout }
          else
            let s := s.setSlot index { s.slot index with
              SegmentTimer := 0
              state := TSM_STATE_IDLE }
            tsm_free_invoke_id_check s invoke_id none true
      else
        let s := s.setSlot index (free_blob (s.slot index))
        let s := abort_pdu_send s invoke_id src ABORT_REASON_INVALID_APDU_IN_THIS_STATE true
        tsm_free_invoke_id_check s invoke_id none true

/-- The `check_unexpected_pdu_received` operation (the same lookup). -/
def check_unexpected_pdu_received (s : TSM) (src : BACNET_ADDRESS)
    (service_data : BACNET_CONFIRMED_SERVICE_DATA) : Bool × TSM :=
  match s.TSM_Peer_Ids.findIdx? (peer_entry_matches src service_data.invoke_id) with
  | none => (false, s)
  | some ix =>
    let index := tsm_find_invokeID_index s (s.peer ix).InternalInvokeID
    if index < MAX_TSM_TRANSACTIONS s then
      let plist := s.slot index
      if plist.state = TSM_STATE_SEGMENTED_RESPONSE_SERVER ∨
          plist.state = TSM_STATE_SEGMENTED_REQUEST_SERVER then
        let s := abort_pdu_send s service_data.invoke_id src
          ABORT_REASON_INVALID_APDU_IN_THIS_STATE true
        (true, tsm_free_invoke_id_check s plist.InvokeID (some src) true)
      else (false, s)
    else (false, s)

/-- The `tsm_free_invoke_id_segmentation` operation. -/
def tsm_free_invoke_id_segmentation (cfg : Config) (s : TSM) (src : BACNET_ADDRESS)
    (invoke_id : Nat) : Option TSM :=
  match tsm_get_peer_id cfg s src invoke_id with
  | none => none
  | some (peer_id, s) => some (tsm_free_invoke_id_check s peer_id (some src) true)

/-! ## Timers (tsm.c lines 1291-1380) -/

/-- The `TSM_STATE_AWAIT_CONFIRMATION` part of the loop body of
`tsm_timer_milliseconds` for the slot `i`. -/
def tsm_timer_await_confirmation (cfg : Config) (milliseconds : Nat) (s : TSM) (i : Nat) :
    TSM :=
  if (s.slot i).state = TSM_STATE_AWAIT_CONFIRMATION then
    let plist := s.slot i
    let plist := { plist with
      RequestTimer :=
        if plist.RequestTimer > milliseconds then plist.RequestTimer - milliseconds else 0 }
    if plist.RequestTimer = 0 then
      if plist.RetryCount < cfg.apdu_retries then
        let plist := { plist with
          RequestTimer := cfg.apdu_timeout
          RetryCount := u8 (plist.RetryCount + 1) }
        (s.setSlot i plist).emit (Event.pdu i plist.dest ((plist.apdu.getD []).take plist.apdu_len))
      else
        let s := s.setSlot i { plist with state := TSM_STATE_IDLE }
        if plist.InvokeID ≠ 0 ∧ s.Timeout_Function = true then
          s.emit (Event.timeout plist.InvokeID)
        else s
    else s.setSlot i plist
  else s

/-- The `TSM_STATE_SEGMENTED_RESPONSE_SERVER` part of the loop body of
`tsm_timer_milliseconds` for the slot `i`. -/
def tsm_timer_segmented_response (cfg : Config) (milliseconds : Nat) (s : TSM) (i : Nat) :
    TSM :=
  if (s.slot i).state = TSM_STATE_SEGMENTED_RESPONSE_SERVER then
    let plist := s.slot i
    let plist := { plist with
      SegmentTimer :=
        if plist.SegmentTimer > milliseconds then plist.SegmentTimer - milliseconds else 0 }
    if plist.SegmentTimer = 0 then
      let plist := { plist with
        SegmentRetryCount := u8 (plist.SegmentRetryCount + 255)
        SegmentTimer := cfg.apdu_segment_timeout }
      if plist.SegmentRetryCount ≠ 0 then
        s.onSlot i (FillWindow cfg i plist plist.InitialSequenceNumber)
      else s.setSlot i { plist with state := TSM_STATE_IDLE }
    else s.setSlot i plist
  else s

/-- The `TSM_STATE_SEGMENTED_REQUEST_SERVER` part of the loop body of
`tsm_timer_milliseconds` for the slot `i`. -/
def tsm_timer_segmented_request (milliseconds : Nat) (s : TSM) (i : Nat) : TSM :=
  if (s.slot i).state = TSM_STATE_SEGMENTED_REQUEST_SERVER then
    let plist := s.slot i
    let plist := { plist with
      SegmentTimer :=
        if plist.SegmentTimer > milliseconds then plist.SegmentTimer - milliseconds else 0 }
    let s := s.setSlot i plist
    if plist.SegmentTimer = 0 then
      let s := tsm_clear_peer_id s plist.InvokeID
      let s := s.setSlot i (free_blob (s.slot i))
      s.setSlot i { s.slot i with InvokeID := 0, state := TSM_STATE_IDLE }
    else s
  else s

/-- The loop body of `tsm_timer_milliseconds` for the slot `i`: the three state
tests one after the other. -/
def tsm_timer_slot (cfg : Config) (milliseconds : Nat) (s : TSM) (i : Nat) : TSM :=
  let s := tsm_timer_await_confirmation cfg milliseconds s i
  let s := tsm_timer_segmented_response cfg milliseconds s i
  tsm_timer_segmented_request milliseconds s i

/-- The `tsm_timer_milliseconds` operation: the slots are visited in table
order. -/
def tsm_timer_milliseconds (cfg : Config) (s : TSM) (milliseconds : Nat) : TSM :=
  (List.range (MAX_TSM_TRANSACTIONS s)).foldl (tsm_timer_slot cfg milliseconds) s

/-! ## ReadPropertyMultiple handler (h_rpm.c) -/

/-- Modelled from the spec: the negative status `BACNET_STATUS_ERROR` of
bacdef.h. -/
def BACNET_STATUS_ERROR : Int := -1

/-- Modelled from the spec: the negative status `BACNET_STATUS_ABORT` of
bacdef.h. -/
def BACNET_STATUS_ABORT : Int := -2

/-- Modelled from the spec: the negative status `BACNET_STATUS_REJECT` of
bacdef.h. -/
def BACNET_STATUS_REJECT : Int := -3

/-- Property identifier `PROP_ALL` (bacenum.h). -/
def PROP_ALL : Int := 8

/-- Property identifier `PROP_OPTIONAL` (bacenum.h). -/
def PROP_OPTIONAL : Int := 80

/-- Property identifier `PROP_REQUIRED` (bacenum.h). -/
def PROP_REQUIRED : Int := 105

/-- Object type `OBJECT_DEVICE` (bacenum.h). -/
def OBJECT_DEVICE : Nat := 8

/-- Object type `OBJECT_NETWORK_PORT` (bacenum.h). -/
def OBJECT_NETWORK_PORT : Nat := 56

/-- The indefinite instance number `0x3FFFFF`. -/
def BACNET_MAX_INSTANCE : Nat := 4194303

/-- The array index that stands for the whole array (bacdef.h). -/
def BACNET_ARRAY_ALL : Nat := 4294967295

/-- Service choice of ReadPropertyMultiple (bacenum.h). -/
def SERVICE_CONFIRMED_READ_PROP_MULTIPLE : Nat := 14

/-- The error classes the handler names; any other is `ERROR_CLASS_OTHER`. -/
inductive BACNET_ERROR_CLASS
  | ERROR_CLASS_OBJECT
  | ERROR_CLASS_PROPERTY
  | ERROR_CLASS_OTHER (n : Nat)
  deriving DecidableEq

/-- The error codes the handler names; any other is `ERROR_CODE_OTHER`. -/
inductive BACNET_ERROR_CODE
  | ERROR_CODE_UNKNOWN_OBJECT
  | ERROR_CODE_PROPERTY_IS_NOT_AN_ARRAY
  | ERROR_CODE_ABORT_SEGMENTATION_NOT_SUPPORTED
  | ERROR_CODE_ABORT_BUFFER_OVERFLOW
  | ERROR_CODE_REJECT_MISSING_REQUIRED_PARAMETER
  | ERROR_CODE_OTHER (n : Nat)
  deriving DecidableEq

open BACNET_ERROR_CLASS BACNET_ERROR_CODE

/-- One of the three property lists of an object (`pList`, `count`). -/
structure property_list_t where
  pList : List Int
  count : Nat
  deriving DecidableEq

/-- The property lists of an object (`struct special_property_list_t`). -/
structure special_property_list_t where
  Required : property_list_t
  Optional : property_list_t
  Proprietary : property_list_t
  deriving DecidableEq

/-- The fields of `BACNET_RPM_DATA` the handler uses. -/
structure BACNET_RPM_DATA where
  object_type : Nat
  object_instance : Nat
  object_property : Int
  array_index : Nat
  error_class : BACNET_ERROR_CLASS
  error_code : BACNET_ERROR_CODE
  deriving DecidableEq

/-- The fields of `BACNET_READ_PROPERTY_DATA` that `RPM_Encode_Property` sets. -/
structure BACNET_READ_PROPERTY_DATA where
  object_type : Nat
  object_instance : Nat
  object_property : Int
  array_index : Nat
  application_data_len : Nat
  error_class : BACNET_ERROR_CLASS
  error_code : BACNET_ERROR_CODE
  deriving DecidableEq

/-- What a device read hands back: the return value, the bytes written to
`application_data`, and the error pair left in the read data. -/
structure ReadResult where
  len : Int
  application_data : List Nat
  error_class : BACNET_ERROR_CLASS
  error_code : BACNET_ERROR_CODE

/-- Compile-time knobs of the handler and the external collaborators it calls:
the decoders and encoders of rpm.c (an encoder is given by the bytes it
writes, its return value being their number), and the device object registry. -/
structure RpmEnv where
  MAX_APDU : Nat
  MAX_PDU : Nat
  MAX_NPDU : Nat
  BACNET_SEGMENTATION_ENABLED : Bool
  BACNET_PROTOCOL_REVISION : Nat
  npdu_encode_pdu : BACNET_ADDRESS → BACNET_NPDU_DATA → Int
  rpm_decode_object_id : List Nat → Int → BACNET_RPM_DATA → Int × BACNET_RPM_DATA
  rpm_decode_object_property : List Nat → Int → BACNET_RPM_DATA → Int × BACNET_RPM_DATA
  decode_is_closing_tag_number : List Nat → Nat → Bool
  rpm_ack_encode_apdu_init : Nat → List Nat
  rpm_ack_encode_apdu_object_begin : BACNET_RPM_DATA → List Nat
  rpm_ack_encode_apdu_object_property : Int → Nat → List Nat
  rpm_ack_encode_apdu_object_property_error : BACNET_ERROR_CLASS → BACNET_ERROR_CODE → List Nat
  rpm_ack_encode_apdu_object_end : List Nat
  Device_Object_Instance_Number : Nat
  Network_Port_Index_To_Instance : Nat → Nat
  Device_Valid_Object_Id : Nat → Nat → Bool
  Device_Objects_Property_List : Nat → Nat → special_property_list_t
  read_property_bacnet_array_valid : BACNET_READ_PROPERTY_DATA → Bool × BACNET_READ_PROPERTY_DATA
  Device_Read_Property : BACNET_READ_PROPERTY_DATA → ReadResult

/-- Modelled from the spec: `rpm_ack_encode_apdu_object_property_value` of
rpm.c, "`[opening-tag raw-value-bytes closing-tag]`" with context tag 4. -/
def rpm_ack_encode_apdu_object_property_value (application_data : List Nat)
    (application_data_len : Nat) : List Nat :=
  [78] ++ application_data.take application_data_len ++ [79]

/-- Modelled from the spec: `memcopy` of memcopy.c, which copies `len` bytes to
`dest[offset]` when they fit below `max` and returns the number of bytes
copied, "0 if there is no room". Returns the new bytes of `dest` and the
count. -/
def memcopy (dest src : List Nat) (offset : Nat) (len : Int) (max : Nat) : List Nat × Nat :=
  if 0 ≤ len ∧ offset + len ≤ max then (writeBytes dest offset (src.take len.toNat), len.toNat)
  else (dest, 0)

/-- Modelled from the spec: `apdu_init_fixed_header` of apdu.c, a header of the
given type and identifiers with the segmentation fields cleared. -/
def apdu_init_fixed_header (pdu_type : BACNET_PDU_TYPE) (invoke_id service max_apdu : Nat) :
    BACNET_APDU_FIXED_HEADER :=
  ⟨pdu_type, invoke_id, service, max_apdu, false, false, 0, 0⟩

/-- The `RPM_Object_Property` function; an element past the end of a list
reads as 0. -/
def RPM_Object_Property (pPropertyList : special_property_list_t) (special_property : Int)
    (index : Nat) : Int :=
  let required := pPropertyList.Required.count
  let optional := pPropertyList.Optional.count
  let proprietary := pPropertyList.Proprietary.count
  if special_property = PROP_ALL then
    if index < required then pPropertyList.Required.pList.getD index 0
    else if index < required + optional then
      pPropertyList.Optional.pList.getD (index - required) 0
    else if index < required + optional + proprietary then
      pPropertyList.Proprietary.pList.getD (index - (required + optional)) 0
    else -1
  else if special_property = PROP_REQUIRED then
    if index < required then pPropertyList.Required.pList.getD index 0 else -1
  else if special_property = PROP_OPTIONAL then
    if index < optional then pPropertyList.Optional.pList.getD index 0 else -1
  else -1

/-- The `RPM_Object_Property_Count` function. -/
def RPM_Object_Property_Count (pPropertyList : special_property_list_t)
    (special_property : Int) : Nat :=
  if special_property = PROP_ALL then
    pPropertyList.Required.count + pPropertyList.Optional.count +
      pPropertyList.Proprietary.count
  else if special_property = PROP_REQUIRED then pPropertyList.Required.count
  else if special_property = PROP_OPTIONAL then pPropertyList.Optional.count
  else 0

/-- The `RPM_Encode_Property` function: the return value, the bytes of `apdu`
afterwards and the RPM data afterwards. `offset` and `max_apdu` are 16 bit. -/
def RPM_Encode_Property (env : RpmEnv) (apdu : List Nat) (offset max_apdu : Nat)
    (rpmdata : BACNET_RPM_DATA) : Int × List Nat × BACNET_RPM_DATA :=
  let Temp_Buf := env.rpm_ack_encode_apdu_object_property rpmdata.object_property
    rpmdata.array_index
  let len : Int := Temp_Buf.length
  let c := memcopy apdu Temp_Buf offset len max_apdu
  if c.2 = 0 then
    (BACNET_STATUS_ABORT, c.1,
      { rpmdata with error_code := ERROR_CODE_ABORT_SEGMENTATION_NOT_SUPPORTED })
  else
    let apdu := c.1
    let apdu_len : Int := len
    let rpdata : BACNET_READ_PROPERTY_DATA :=
      { object_type := rpmdata.object_type
        object_instance := rpmdata.object_instance
        object_property := rpmdata.object_property
        array_index := rpmdata.array_index
        application_data_len := env.MAX_APDU
        error_class := ERROR_CLASS_OBJECT
        error_code := ERROR_CODE_UNKNOWN_OBJECT }
    let read : ReadResult :=
      if rpmdata.object_property = PROP_ALL ∨ rpmdata.object_property = PROP_REQUIRED ∨
          rpmdata.object_property = PROP_OPTIONAL then
        ⟨BACNET_STATUS_ERROR, Temp_Buf, rpdata.error_class, rpdata.error_code⟩
      else
        let v := env.read_property_bacnet_array_valid rpdata
        if !v.1 then ⟨BACNET_STATUS_ERROR, Temp_Buf, v.2.error_class, v.2.error_code⟩
        else env.Device_Read_Property v.2
    if read.len < 0 then
      if read.len = BACNET_STATUS_ABORT ∨ read.len = BACNET_STATUS_REJECT then
        (read.len, apdu, { rpmdata with error_code := read.error_code })
      else
        let Temp_Buf := env.rpm_ack_encode_apdu_object_property_error read.error_class
          read.error_code
        let len : Int := Temp_Buf.length
        let c := memcopy apdu Temp_Buf (offset + apdu_len).toNat len max_apdu
        if c.2 = 0 then
          (BACNET_STATUS_ABORT, c.1,
            { rpmdata with error_code := ERROR_CODE_ABORT_SEGMENTATION_NOT_SUPPORTED })
        else (apdu_len + len, c.1, rpmdata)
    else if offset + apdu_len + 1 + read.len + 1 < max_apdu then
      let value := rpm_ack_encode_apdu_object_property_value read.application_data
        read.len.toNat
      (apdu_len + value.length, writeBytes apdu (offset + apdu_len).toNat value, rpmdata)
    else
      (BACNET_STATUS_ABORT, apdu,
        { rpmdata with error_code := ERROR_CODE_ABORT_SEGMENTATION_NOT_SUPPORTED })

/-- The locals of `handler_read_property_multiple` that the decoding loops
change; `buf` holds the bytes of `Handler_Transmit_Buffer` from `npdu_len` on. -/
structure RpmLocals where
  decode_len : Nat
  apdu_len : Int
  buf : List Nat
  rpmdata : BACNET_RPM_DATA
  error : Int
  berror : Bool

/-- The abort code for a response that outgrows the buffer (the `#if` on
`BACNET_SEGMENTATION_ENABLED` in the handler). -/
def rpm_too_big_code (env : RpmEnv) : BACNET_ERROR_CODE :=
  if env.BACNET_SEGMENTATION_ENABLED then ERROR_CODE_ABORT_BUFFER_OVERFLOW
  else ERROR_CODE_ABORT_SEGMENTATION_NOT_SUPPORTED

/-- Leave a loop with an Abort for lack of room. -/
def rpm_abort_too_big (env : RpmEnv) (st : RpmLocals) : RpmLocals :=
  { st with
    rpmdata := { st.rpmdata with error_code := rpm_too_big_code env }
    error := BACNET_STATUS_ABORT
    berror := true }

/-- The size of the response buffer, `MAX_PDU - MAX_NPDU`. -/
def sizeOfBuffer (env : RpmEnv) : Int := (env.MAX_PDU : Int) - env.MAX_NPDU

/-- One call of `RPM_Encode_Property` at the current end of the response,
followed by the handler's test of its result; the flag says whether the
enclosing loop is left. -/
def rpm_encode_one (env : RpmEnv) (st : RpmLocals) : RpmLocals × Bool :=
  let r := RPM_Encode_Property env st.buf (u16 st.apdu_len.toNat) (u16 (sizeOfBuffer env).toNat)
    st.rpmdata
  if r.1 > 0 then
    ({ st with buf := r.2.1, rpmdata := r.2.2, apdu_len := st.apdu_len + r.1 }, false)
  else
    ({ st with buf := r.2.1, rpmdata := r.2.2, error := r.1, berror := true }, true)

/-- The loop over the expansion of a special property, from `index` on, with
`n` properties left. -/
def rpm_special_loop (env : RpmEnv) (property_list : special_property_list_t)
    (special_object_property : Int) : Nat → Nat → RpmLocals → RpmLocals
  | 0, _, st => st
  | n + 1, index, st =>
    let st := { st with rpmdata := { st.rpmdata with
      object_property := RPM_Object_Property property_list special_object_property index } }
    let r := rpm_encode_one env st
    if r.2 then r.1
    else rpm_special_loop env property_list special_object_property n (index + 1) r.1

/-- The part of the property loop body that encodes the property just decoded;
the flag says whether the property loop is left. -/
def rpm_encode_decoded (env : RpmEnv) (st : RpmLocals) : RpmLocals × Bool :=
  let rpmdata := st.rpmdata
  if rpmdata.object_property = PROP_ALL ∨ rpmdata.object_property = PROP_REQUIRED ∨
      rpmdata.object_property = PROP_OPTIONAL then
    if !env.Device_Valid_Object_Id rpmdata.object_type rpmdata.object_instance then
      rpm_encode_one env st
    else if rpmdata.array_index ≠ BACNET_ARRAY_ALL then
      let Temp_Buf_rpm := env.rpm_ack_encode_apdu_object_property rpmdata.object_property
        rpmdata.array_index
      let len : Int := Temp_Buf_rpm.length
      let c := memcopy st.buf Temp_Buf_rpm st.apdu_len.toNat len (sizeOfBuffer env).toNat
      if u16 c.2 = 0 then (rpm_abort_too_big env { st with buf := c.1 }, true)
      else
        let st := { st with buf := c.1, apdu_len := st.apdu_len + len }
        let Temp_Buf_rpm := env.rpm_ack_encode_apdu_object_property_error
          ERROR_CLASS_PROPERTY ERROR_CODE_PROPERTY_IS_NOT_AN_ARRAY
        let len : Int := Temp_Buf_rpm.length
        let c := memcopy st.buf Temp_Buf_rpm st.apdu_len.toNat len (sizeOfBuffer env).toNat
        if u16 c.2 = 0 then (rpm_abort_too_big env { st with buf := c.1 }, true)
        else ({ st with buf := c.1, apdu_len := st.apdu_len + len }, false)
    else
      let special_object_property := rpmdata.object_property
      let property_list := env.Device_Objects_Property_List rpmdata.object_type
        rpmdata.object_instance
      let property_count := RPM_Object_Property_Count property_list special_object_property
      if property_count = 0 then
        if !env.Device_Valid_Object_Id rpmdata.object_type rpmdata.object_instance then
          rpm_encode_one env st
        else (st, false)
      else
        (rpm_special_loop env property_list special_object_property property_count 0 st, false)
  else rpm_encode_one env st

/-- The inner `for (;;)` of the handler, over the properties of one object;
`none` when `fuel` iterations do not reach a `break`. -/
def rpm_property_loop (env : RpmEnv) (service_request : List Nat) (service_len : Nat) :
    Nat → RpmLocals → Option RpmLocals
  | 0, _ => none
  | fuel + 1, st =>
    let d := env.rpm_decode_object_property (service_request.drop st.decode_len)
      ((service_len : Int) - st.decode_len) st.rpmdata
    if d.1 < 0 then
      some { st with rpmdata := d.2, error := d.1, berror := true }
    else
      let st := { st with rpmdata := d.2, decode_len := u16 (st.decode_len + d.1.toNat) }
      let r := rpm_encode_decoded env st
      if r.2 then some r.1
      else
        let st := r.1
        if env.decode_is_closing_tag_number (service_request.drop st.decode_len) 1 then
          let st := { st with decode_len := u16 (st.decode_len + 1) }
          let Temp_Buf_rpm := env.rpm_ack_encode_apdu_object_end
          let len : Int := Temp_Buf_rpm.length
          let c := memcopy st.buf Temp_Buf_rpm st.apdu_len.toNat len (sizeOfBuffer env).toNat
          if u16 c.2 = 0 then some (rpm_abort_too_big env { st with buf := c.1 })
          else some { st with buf := c.1, apdu_len := st.apdu_len + u16 c.2 }
        else rpm_property_loop env service_request service_len fuel st

/-- The outer `for (;;)` of the handler, over the objects of the request;
`none` when the fuel does not suffice. -/
def rpm_object_loop (env : RpmEnv) (service_request : List Nat) (service_len : Nat) :
    Nat → RpmLocals → Option RpmLocals
  | 0, _ => none
  | fuel + 1, st =>
    let d := env.rpm_decode_object_id (service_request.drop st.decode_len)
      ((service_len : Int) - st.decode_len) st.rpmdata
    if d.1 < 0 then
      some { st with rpmdata := d.2, error := d.1, berror := true }
    else
      let st := { st with rpmdata := d.2, decode_len := u16 (st.decode_len + d.1.toNat) }
      let st :=
        if st.rpmdata.object_type = OBJECT_DEVICE ∧
            st.rpmdata.object_instance = BACNET_MAX_INSTANCE then
          { st with rpmdata := { st.rpmdata with
              object_instance := env.Device_Object_Instance_Number } }
        else st
      let st :=
        if env.BACNET_PROTOCOL_REVISION ≥ 17 ∧ st.rpmdata.object_type = OBJECT_NETWORK_PORT ∧
            st.rpmdata.object_instance = BACNET_MAX_INSTANCE then
          { st with rpmdata := { st.rpmdata with
              object_instance := env.Network_Port_Index_To_Instance 0 } }
        else st
      let Temp_Buf_rpm := env.rpm_ack_encode_apdu_object_begin st.rpmdata
      let len : Int := Temp_Buf_rpm.length
      let c := memcopy st.buf Temp_Buf_rpm st.apdu_len.toNat len (sizeOfBuffer env).toNat
      if u16 c.2 = 0 then some (rpm_abort_too_big env { st with buf := c.1 })
      else
        let st := { st with buf := c.1, apdu_len := st.apdu_len + u16 c.2 }
        match rpm_property_loop env service_request service_len fuel st with
        | none => none
        | some st =>
          if st.berror then some st
          else if st.decode_len ≥ service_len then some st
          else rpm_object_loop env service_request service_len fuel st

/-- The PDU that the handler puts after the NPDU header. -/
inductive RpmPdu
  /-- The bytes built by the encoding loops. -/
  | complex_ack (apdu : List Nat)
  /-- Result of `abort_encode_apdu` with reason `abort_convert_error_code(code)`. -/
  | abort (invoke_id : Nat) (code : BACNET_ERROR_CODE) (server : Bool)
  /-- Result of `bacerror_encode_apdu`. -/
  | error (invoke_id service : Nat) (error_class : BACNET_ERROR_CLASS)
      (code : BACNET_ERROR_CODE)
  /-- Result of `reject_encode_apdu` with reason `reject_convert_error_code(code)`. -/
  | reject (invoke_id : Nat) (code : BACNET_ERROR_CODE)
  deriving DecidableEq

/-- What `handler_read_property_multiple` does with the response. -/
inductive RpmOutcome
  /-- Null `service_data`: nothing happens. -/
  | nothing
  /-- The call `tsm_set_complexack_transaction(src, npdu_data, header,
  service_data, pdu, pdu_len)`, after which the handler returns. -/
  | handoff (src : BACNET_ADDRESS) (npdu_data : BACNET_NPDU_DATA)
      (header : BACNET_APDU_FIXED_HEADER) (service_data : BACNET_CONFIRMED_SERVICE_DATA)
      (pdu : List Nat) (pdu_len : Int)
  /-- The call `datalink_send_pdu(src, npdu_data, ..)` of one PDU. -/
  | send (src : BACNET_ADDRESS) (npdu_data : BACNET_NPDU_DATA) (pdu : RpmPdu)
  deriving DecidableEq

/-- The locals at the start of the decoding loops. -/
def rpm_locals_init (env : RpmEnv) (buf : List Nat) (rpmdata : BACNET_RPM_DATA)
    (invoke_id : Nat) : RpmLocals :=
  let header := env.rpm_ack_encode_apdu_init invoke_id
  { decode_len := 0
    apdu_len := header.length
    buf := writeBytes buf 0 header
    rpmdata := rpmdata
    error := 0
    berror := false }

/-- The error fallback and the final send of the handler. -/
def rpm_finish (src : BACNET_ADDRESS) (npdu_data : BACNET_NPDU_DATA)
    (service_data : BACNET_CONFIRMED_SERVICE_DATA) (st : RpmLocals) : RpmOutcome :=
  let pdu :=
    if st.error ≠ 0 ∧ st.error = BACNET_STATUS_ABORT then
      RpmPdu.abort service_data.invoke_id st.rpmdata.error_code true
    else if st.error ≠ 0 ∧ st.error = BACNET_STATUS_ERROR then
      RpmPdu.error service_data.invoke_id SERVICE_CONFIRMED_READ_PROP_MULTIPLE
        st.rpmdata.error_class st.rpmdata.error_code
    else if st.error ≠ 0 ∧ st.error = BACNET_STATUS_REJECT then
      RpmPdu.reject service_data.invoke_id st.rpmdata.error_code
    else RpmPdu.complex_ack (st.buf.take st.apdu_len.toNat)
  RpmOutcome.send src npdu_data pdu

/-- The sizing decision of the handler after the decoding loops, then the error
fallback and the send. -/
def rpm_sizing (env : RpmEnv) (src : BACNET_ADDRESS)
    (service_data : BACNET_CONFIRMED_SERVICE_DATA) (st : RpmLocals) : RpmOutcome :=
  let npdu_data : BACNET_NPDU_DATA := ⟨false, service_data.priority⟩
  let apdu_header_len : Int := 3
  if !st.berror then
    let max_apdu_len : Int :=
      if service_data.max_resp < env.MAX_APDU then service_data.max_resp else env.MAX_APDU
    if st.apdu_len > max_apdu_len then
      if env.BACNET_SEGMENTATION_ENABLED ∧ service_data.segmented_response_accepted then
        RpmOutcome.handoff src ⟨true, 0⟩
          (apdu_init_fixed_header PDU_TYPE_COMPLEX_ACK service_data.invoke_id
            SERVICE_CONFIRMED_READ_PROP_MULTIPLE service_data.max_resp)
          service_data (st.buf.drop apdu_header_len.toNat) (st.apdu_len - apdu_header_len)
      else
        rpm_finish src npdu_data service_data { st with
          rpmdata := { st.rpmdata with
            error_code := ERROR_CODE_ABORT_SEGMENTATION_NOT_SUPPORTED }
          error := BACNET_STATUS_ABORT }
    else rpm_finish src npdu_data service_data st
  else rpm_finish src npdu_data service_data st

/-- The `handler_read_property_multiple` operation. `service_data` is `none`
for a null pointer, `buf` and `rpmdata` are the transmit buffer and the
uninitialised local at entry, `fuel` bounds the iterations of the two
`for (;;)` loops; `none` when the loops do not end within it. -/
def handler_read_property_multiple (env : RpmEnv) (fuel : Nat) (buf : List Nat)
    (rpmdata : BACNET_RPM_DATA) (service_request : List Nat) (service_len : Nat)
    (src : BACNET_ADDRESS) (service_data : Option BACNET_CONFIRMED_SERVICE_DATA) :
    Option RpmOutcome :=
  match service_data with
  | none => some RpmOutcome.nothing
  | some service_data =>
    let npdu_data : BACNET_NPDU_DATA := ⟨false, service_data.priority⟩
    let st0 : RpmLocals := ⟨0, 0, buf, rpmdata, 0, false⟩
    if service_len = 0 then
      some (rpm_finish src npdu_data service_data { st0 with
        rpmdata := { rpmdata with error_code := ERROR_CODE_REJECT_MISSING_REQUIRED_PARAMETER }
        error := BACNET_STATUS_REJECT })
    else if !env.BACNET_SEGMENTATION_ENABLED ∧ service_data.segmented_message then
      some (rpm_finish src npdu_data service_data { st0 with
        rpmdata := { rpmdata with error_code := ERROR_CODE_ABORT_SEGMENTATION_NOT_SUPPORTED }
        error := BACNET_STATUS_ABORT })
    else
      match rpm_object_loop env service_request service_len fuel
          (rpm_locals_init env buf rpmdata service_data.invoke_id) with
      | none => none
      | some st => some (rpm_sizing env src service_data st)

/-! ## Vocabulary of the statements -/

/-- A slot of the table holds the invoke-id `c`. -/
def held (s : TSM) (c : Nat) : Prop := ∃ d ∈ s.TSM_List, d.InvokeID = c

instance (s : TSM) (c : Nat) : Decidable (held s c) := by
  unfold held; infer_instance

/-- The state after `tsm_next_free_invokeID` has claimed the first free slot for
the invoke-id `c`. -/
def claim_slot (cfg : Config) (s : TSM) (c : Nat) : TSM :=
  { s.setSlot (tsm_find_first_free_index s)
      { s.slot (tsm_find_first_free_index s) with
        InvokeID := c
        state := TSM_STATE_IDLE
        RequestTimer := cfg.apdu_timeout } with
    Current_Invoke_ID := invokeID_increment c }

/-- The cyclic successor on the invoke-ids 1..255: "wrapping 255→1 (never 0)". -/
def cyclic_succ (c : Nat) : Nat := if c = 255 then 1 else c + 1

/-- The state after `n` rounds of allocating an invoke-id and freeing it again
with `tsm_free_invoke_id`, starting from `s0`. -/
def after_alloc_free (cfg : Config) (s0 : TSM) : Nat → Option TSM
  | 0 => some s0
  | n + 1 =>
    match after_alloc_free cfg s0 n with
    | none => none
    | some s =>
      match tsm_next_free_invokeID cfg s with
      | none => none
      | some (id, s) => some (tsm_free_invoke_id s id)

/-- A configuration with the customary values: APDU timeout 3000 ms, segment
timeout 2000 ms, 3 retries, 1476 byte APDUs; a 2 byte NPDU header, a 3 or 5
byte APDU header and a datalink that sends every byte. -/
def Config.sample : Config where
  MAX_SEGMENTS_ACCEPTED := 32
  MAX_APDU := 1476
  MAX_PDU := 1502
  apdu_timeout := 3000
  apdu_segment_timeout := 2000
  apdu_retries := 3
  npdu_encode_pdu := fun _ _ => 2
  apdu_encode_fixed_header := fun h => if h.segmented_message then 5 else 3
  datalink_send_pdu := fun _ n => n
  address_get_by_device := fun _ => none

/-- The fixed header of a complex-ack for the invoke-id 1 of ReadPropertyMultiple,
as `apdu_init_fixed_header` makes it. -/
def sample_ack_header : BACNET_APDU_FIXED_HEADER :=
  apdu_init_fixed_header PDU_TYPE_COMPLEX_ACK 1 SERVICE_CONFIRMED_READ_PROP_MULTIPLE 50

/-- A complex-ack slot whose APDU length is the largest 32 bit value, for a
peer that accepts APDUs of 100 bytes. -/
def huge_ack_slot : BACNET_TSM_DATA :=
  { BACNET_TSM_DATA.zero with
    apdu_fixed_header := sample_ack_header
    apdu_len := 4294967295
    apdu_maximum_length := 100 }

/-- A complex-ack slot as `tsm_set_complexack_transaction` stores it: 12 bytes
of APDU for a peer that accepts APDUs of 10 bytes; the header still has
`segmented_message` cleared. -/
def sample_ack_slot : BACNET_TSM_DATA :=
  { BACNET_TSM_DATA.zero with
    apdu_fixed_header := sample_ack_header
    apdu := some [10, 11, 12, 13, 14, 15, 16, 17, 18, 19, 20, 21]
    apdu_len := 12
    apdu_maximum_length := 10 }

/-- The slot `sample_ack_slot` after `tsm_pdu_send` has set `segmented_message`
in its header. -/
def sample_ack_slot_segmented : BACNET_TSM_DATA :=
  { sample_ack_slot with
    apdu_fixed_header := { sample_ack_header with segmented_message := true } }

/-- Whether an event comes from the slot at table index `i` holding the
invoke-id `id`: a send out of that slot's buffer, or the timeout callback for
that invoke-id. -/
def Event.ofSlot (i id : Nat) : Event → Bool
  | Event.pdu j _ _ => j == i
  | Event.segment j _ _ _ => j == i
  | Event.timeout c => c == id
  | _ => false

/-- Repeated calls of `tsm_timer_milliseconds`, one per element of `ticks`. -/
def run_ticks (cfg : Config) (s : TSM) (ticks : List Nat) : TSM :=
  ticks.foldl (tsm_timer_milliseconds cfg) s

/-- A run of timer calls that ends with one expiry of a request timer started
at `T`: the calls `r.1` together stay below `T` and the call `r.2` reaches it. -/
def expiry_round (T : Nat) (r : List Nat × Nat) : Prop :=
  (r.1 = [] ∨ r.1.sum < T) ∧ T ≤ r.1.sum + r.2

/-- The timer calls of a sequence of rounds, in order. -/
def round_ticks (rs : List (List Nat × Nat)) : List Nat :=
  rs.flatMap (fun r => r.1 ++ [r.2])

/-- The step from `s` to `s'` leaves the slot `i` and what that slot (holding the
invoke-id `id`) has sent alone, keeps the table size and the callback, and hands
the invoke-id `id` to no other slot. -/
def OtherStep (i id : Nat) (s s' : TSM) : Prop :=
  s'.TSM_List.length = s.TSM_List.length ∧ s'.Timeout_Function = s.Timeout_Function ∧
  s'.slot i = s.slot i ∧
  s'.sent.filter (Event.ofSlot i id) = s.sent.filter (Event.ofSlot i id) ∧
  ∀ k, k ≠ i → (s.slot k).InvokeID ≠ id → (s'.slot k).InvokeID ≠ id

/-- What one call of `tsm_timer_milliseconds` does to a slot at index `i` that
awaits a confirmation or is idle, and what it sends for it (with a timeout
callback registered). -/
def await_tick (cfg : Config) (i ms : Nat) (d : BACNET_TSM_DATA) :
    BACNET_TSM_DATA × List Event :=
  if d.state = TSM_STATE_AWAIT_CONFIRMATION then
    if d.RequestTimer > ms then ({ d with RequestTimer := d.RequestTimer - ms }, [])
    else if d.RetryCount < cfg.apdu_retries then
      ({ d with RequestTimer := cfg.apdu_timeout, RetryCount := u8 (d.RetryCount + 1) },
        [Event.pdu i d.dest ((d.apdu.getD []).take d.apdu_len)])
    else ({ d with RequestTimer := 0, state := TSM_STATE_IDLE }, [Event.timeout d.InvokeID])
  else (d, [])

/-- The effect of a sequence of timer calls on such a slot. -/
def await_run (cfg : Config) (i : Nat) : List Nat → BACNET_TSM_DATA →
    BACNET_TSM_DATA × List Event
  | [], d => (d, [])
  | ms :: ticks, d =>
    let r := await_tick cfg i ms d
    let r' := await_run cfg i ticks r.1
    (r'.1, r.2 ++ r'.2)

/-- The property lists of an analog input as an example: three required, two
optional and one proprietary property. -/
def sample_property_list : special_property_list_t where
  Required := ⟨[75, 77, 79], 3⟩
  Optional := ⟨[28, 117], 2⟩
  Proprietary := ⟨[9997], 1⟩

/-- The number that stands for an error class in the sample encoder. -/
def sample_class_number : BACNET_ERROR_CLASS → Nat
  | ERROR_CLASS_OBJECT => 1
  | ERROR_CLASS_PROPERTY => 2
  | ERROR_CLASS_OTHER n => n

/-- The number that stands for an error code in the sample encoder. -/
def sample_code_number : BACNET_ERROR_CODE → Nat
  | ERROR_CODE_UNKNOWN_OBJECT => 31
  | ERROR_CODE_PROPERTY_IS_NOT_AN_ARRAY => 50
  | ERROR_CODE_ABORT_SEGMENTATION_NOT_SUPPORTED => 127
  | ERROR_CODE_ABORT_BUFFER_OVERFLOW => 51
  | ERROR_CODE_REJECT_MISSING_REQUIRED_PARAMETER => 69
  | ERROR_CODE_OTHER n => n

/-- A small device and codec to run the handler on: a response buffer of 40
bytes, APDUs of at most 30 bytes, segmentation compiled in. An object identifier
is the six bytes `12, type, _, _, instance, 30`; a property reference is
`9, property` or `9, property, 25, index`; the byte 31 closes a property list.
The device has one object, analog input 1, whose property 85 reads as five
bytes, whose property 87 reads as thirty bytes, whose property 86 makes the read
abort with the error code 9 and whose other properties are unknown. -/
def RpmEnv.sample : RpmEnv where
  MAX_APDU := 30
  MAX_PDU := 50
  MAX_NPDU := 10
  BACNET_SEGMENTATION_ENABLED := true
  BACNET_PROTOCOL_REVISION := 14
  npdu_encode_pdu := fun _ _ => 2
  rpm_decode_object_id := fun bytes len d =>
    match bytes with
    | 12 :: t :: _ :: _ :: i :: 30 :: _ =>
      if len ≥ 6 then (6, { d with object_type := t, object_instance := i })
      else (BACNET_STATUS_REJECT, { d with error_code := ERROR_CODE_OTHER 0 })
    | _ => (BACNET_STATUS_REJECT, { d with error_code := ERROR_CODE_OTHER 0 })
  rpm_decode_object_property := fun bytes _ d =>
    match bytes with
    | 9 :: p :: 25 :: idx :: _ => (4, { d with object_property := p, array_index := idx })
    | 9 :: p :: _ => (2, { d with object_property := p, array_index := BACNET_ARRAY_ALL })
    | _ => (BACNET_STATUS_REJECT, { d with error_code := ERROR_CODE_OTHER 0 })
  decode_is_closing_tag_number := fun bytes _ => bytes.head? == some 31
  rpm_ack_encode_apdu_init := fun invoke_id => [48, invoke_id, 14]
  rpm_ack_encode_apdu_object_begin := fun d => [12, d.object_type, 0, 0, d.object_instance, 30]
  rpm_ack_encode_apdu_object_property := fun p idx =>
    if idx = BACNET_ARRAY_ALL then [41, p.toNat] else [41, p.toNat, 57, idx]
  rpm_ack_encode_apdu_object_property_error := fun c e =>
    [94, 145, sample_class_number c, 145, sample_code_number e, 95]
  rpm_ack_encode_apdu_object_end := [31]
  Device_Object_Instance_Number := 123
  Network_Port_Index_To_Instance := fun _ => 1
  Device_Valid_Object_Id := fun t i => t == 0 && i == 1
  Device_Objects_Property_List := fun _ _ => sample_property_list
  read_property_bacnet_array_valid := fun rp => (true, rp)
  Device_Read_Property := fun rp =>
    if rp.object_type = 0 ∧ rp.object_instance = 1 then
      if rp.object_property = 85 then
        ⟨5, [68, 0, 0, 0, 0], rp.error_class, rp.error_code⟩
      else if rp.object_property = 87 then
        ⟨30, List.replicate 30 7, rp.error_class, rp.error_code⟩
      else if rp.object_property = 86 then
        ⟨BACNET_STATUS_ABORT, [], rp.error_class, ERROR_CODE_OTHER 9⟩
      else ⟨BACNET_STATUS_ERROR, [], ERROR_CLASS_PROPERTY, ERROR_CODE_OTHER 32⟩
    else ⟨BACNET_STATUS_ERROR, [], ERROR_CLASS_OBJECT, ERROR_CODE_UNKNOWN_OBJECT⟩

/-- The confirmed-service parameters of a sample request: invoke-id 1, replies of
up to 480 bytes, segmented responses accepted. -/
def sample_service_data : BACNET_CONFIRMED_SERVICE_DATA where
  segmented_message := false
  more_follows := false
  segmented_response_accepted := true
  max_segs := 0
  max_resp := 480
  invoke_id := 1
  sequence_number := 0
  proposed_window_number := 0
  priority := 0

/-- The requester of the sample request. -/
def sample_peer : BACNET_ADDRESS := ⟨0, [192, 168, 0, 9]⟩

/-- The RPM data of the handler before anything is decoded. -/
def sample_rpmdata : BACNET_RPM_DATA := ⟨0, 0, 0, 0, ERROR_CLASS_OBJECT, ERROR_CODE_OTHER 0⟩

/-- The handler has set `error` only together with `berror`. -/
def error_only_with_berror (st : RpmLocals) : Prop := st.berror = false → st.error = 0

/-- The sample device built without segmentation. -/
def RpmEnv.sample_unsegmented : RpmEnv :=
  { RpmEnv.sample with BACNET_SEGMENTATION_ENABLED := false }

/-- The sample request from a requester that takes replies of at most 10 bytes
and accepts segmented responses. -/
def small_reply_service_data : BACNET_CONFIRMED_SERVICE_DATA :=
  { sample_service_data with max_resp := 10 }

/-- The request for property 85 of analog input 1. -/
def sample_request : List Nat := [12, 0, 0, 0, 1, 30, 9, 85, 31]

/-- The locals of the handler after the decoding loops have run on
`sample_request`. -/
def sample_locals : RpmLocals where
  decode_len := 9
  apdu_len := 19
  buf := [48, 1, 14, 12, 0, 0, 0, 1, 30, 41, 85, 78, 68, 0, 0, 0, 0, 79, 31]
  rpmdata := ⟨0, 1, 85, BACNET_ARRAY_ALL, ERROR_CLASS_OBJECT, ERROR_CODE_OTHER 0⟩
  error := 0
  berror := false

/-- The property header that `RPM_Encode_Property` writes first. -/
def rpm_header (env : RpmEnv) (rpmdata : BACNET_RPM_DATA) : List Nat :=
  env.rpm_ack_encode_apdu_object_property rpmdata.object_property rpmdata.array_index

/-- The property is one of the special properties ALL, REQUIRED, OPTIONAL. -/
def is_special_property (p : Int) : Prop :=
  p = PROP_ALL ∨ p = PROP_REQUIRED ∨ p = PROP_OPTIONAL

instance (p : Int) : Decidable (is_special_property p) := by
  unfold is_special_property; infer_instance

/-- The read data that `RPM_Encode_Property` prepares for the device. -/
def rpm_read_data (env : RpmEnv) (rpmdata : BACNET_RPM_DATA) : BACNET_READ_PROPERTY_DATA where
  object_type := rpmdata.object_type
  object_instance := rpmdata.object_instance
  object_property := rpmdata.object_property
  array_index := rpmdata.array_index
  application_data_len := env.MAX_APDU
  error_class := ERROR_CLASS_OBJECT
  error_code := ERROR_CODE_UNKNOWN_OBJECT

/-- The result of the device read that `RPM_Encode_Property` makes for a
property that is not special and passes the array check. -/
def rpm_device_read (env : RpmEnv) (rpmdata : BACNET_RPM_DATA) : ReadResult :=
  env.Device_Read_Property (env.read_property_bacnet_array_valid (rpm_read_data env rpmdata)).2

/-- The locals of the handler after the property loop has decoded the next
property reference of the request. -/
def rpm_after_decode (env : RpmEnv) (service_request : List Nat) (service_len : Nat)
    (st : RpmLocals) : RpmLocals :=
  { st with
    rpmdata := (env.rpm_decode_object_property (service_request.drop st.decode_len)
      ((service_len : Int) - st.decode_len) st.rpmdata).2
    decode_len := u16 (st.decode_len + (env.rpm_decode_object_property
      (service_request.drop st.decode_len) ((service_len : Int) - st.decode_len)
      st.rpmdata).1.toNat) }

/-- The RPM data of a request for property 85 of analog input 1. -/
def sample_rpmdata_85 : BACNET_RPM_DATA :=
  ⟨0, 1, 85, BACNET_ARRAY_ALL, ERROR_CLASS_OBJECT, ERROR_CODE_OTHER 0⟩

/-- The RPM data of a request for the unknown property 99 of analog input 1. -/
def sample_rpmdata_99 : BACNET_RPM_DATA :=
  ⟨0, 1, 99, BACNET_ARRAY_ALL, ERROR_CLASS_OBJECT, ERROR_CODE_OTHER 0⟩

/-- The response under construction after the object identifier has been
written. -/
def sample_response_start : List Nat := [48, 1, 14, 12, 0, 0, 0, 1, 30]

/-- The locals of the handler when PROP_ALL with array index 1 of analog input 1
has just been decoded. -/
def sample_locals_all_index : RpmLocals where
  decode_len := 10
  apdu_len := 9
  buf := sample_response_start
  rpmdata := ⟨0, 1, 8, 1, ERROR_CLASS_OBJECT, ERROR_CODE_OTHER 0⟩
  error := 0
  berror := false

/-- The locals of the handler when the property loop is about to decode the
reference to the unknown property 99 of analog input 1 in the request
`12, 0, 0, 0, 1, 30, 9, 99, 31`. -/
def sample_locals_before_99 : RpmLocals where
  decode_len := 6
  apdu_len := 9
  buf := sample_response_start
  rpmdata := ⟨0, 1, 0, 0, ERROR_CLASS_OBJECT, ERROR_CODE_OTHER 0⟩
  error := 0
  berror := false

/-- The locals `sample_locals_before_99` after the decoding of the reference. -/
def sample_locals_99 : RpmLocals where
  decode_len := 8
  apdu_len := 9
  buf := sample_response_start
  rpmdata := sample_rpmdata_99
  error := 0
  berror := false

/-- No slot other than `i` holds the invoke-id `id`. -/
def OnlyAt (i id : Nat) (s : TSM) : Prop := ∀ k, k ≠ i → (s.slot k).InvokeID ≠ id

/-- The slot `i` holds the invoke-id `id ≠ 0`, alone, and awaits a confirmation
or is idle; a timeout callback is registered. -/
def AwaitSlot (i id : Nat) (s : TSM) : Prop :=
  i < s.TSM_List.length ∧ id ≠ 0 ∧ s.Timeout_Function = true ∧ (s.slot i).InvokeID = id ∧
  OnlyAt i id s ∧
  ((s.slot i).state = TSM_STATE_AWAIT_CONFIRMATION ∨ (s.slot i).state = TSM_STATE_IDLE)

/-- The slot `d` after a retransmission that leaves the retry count at `k`. -/
def await_retried (cfg : Config) (d : BACNET_TSM_DATA) (k : Nat) : BACNET_TSM_DATA :=
  { d with RequestTimer := cfg.apdu_timeout, RetryCount := k }

/-- The slot `d` after the expiry that found no retry left. -/
def await_failed (d : BACNET_TSM_DATA) : BACNET_TSM_DATA :=
  { d with RequestTimer := 0, state := TSM_STATE_IDLE }

instance (T : Nat) (r : List Nat × Nat) : Decidable (expiry_round T r) := by
  unfold expiry_round; infer_instance

/-- A requester as an example: two slots, a timeout callback registered, and
the first slot claimed by `tsm_next_free_invokeID` (for the invoke-id 1). -/
def sample_requester : TSM :=
  match tsm_next_free_invokeID Config.sample (tsm_set_timeout_handler (TSM.init 2 1) true) with
  | some r => r.2
  | none => TSM.init 2 1

/-- Four rounds of timer calls, each ending with an expiry of a request timer of
3000 ms. -/
def sample_rounds : List (List Nat × Nat) :=
  [([1000, 1000], 1000), ([], 3000), ([2999], 5), ([10, 20], 4000)]

/-- The state after `tsm_get_peer_id_data` has created the mapping of
`(src, invokeID)` in the free peer-map entry `f` with the fresh local
invoke-id `c`: the first free slot is claimed for `c` and carries `src`. -/
def peer_bound (cfg : Config) (s : TSM) (src : BACNET_ADDRESS) (invokeID f c : Nat) : TSM :=
  { s with
    TSM_List := s.TSM_List.set (tsm_find_first_free_index s)
      { s.slot (tsm_find_first_free_index s) with
        InvokeID := c
        state := TSM_STATE_IDLE
        RequestTimer := cfg.apdu_timeout
        dest := src }
    Current_Invoke_ID := invokeID_increment c
    TSM_Peer_Ids := s.TSM_Peer_Ids.set f ⟨c, invokeID, src⟩ }

/-- The service data of one segment of a segmented request as an example. -/
def sample_segment (invoke_id sequence_number proposed_window_number : Nat)
    (more_follows : Bool) : BACNET_CONFIRMED_SERVICE_DATA where
  segmented_message := true
  more_follows := more_follows
  segmented_response_accepted := true
  max_segs := 0
  max_resp := 480
  invoke_id := invoke_id
  sequence_number := sequence_number
  proposed_window_number := proposed_window_number
  priority := 0

/-- A second peer. -/
def sample_peer2 : BACNET_ADDRESS := ⟨0, [192, 168, 0, 10]⟩

/-- A server with one slot and two peer-map entries whose only slot is taken by
the first segment of a request of `sample_peer`. -/
def sample_busy_server : TSM :=
  match tsm_set_segmented_confirmed_service_received Config.sample (TSM.init 1 2) sample_peer
    (sample_segment 7 0 4 true) [1, 2, 3] 3 with
  | some r => r.2
  | none => TSM.init 1 2

/-! ## Reachable states -/

/-- A call of one of the operations of `tsm.c` that change the tables, the
callback or the trace, with its arguments. -/
inductive Op
  | set_timeout_handler (registered : Bool)
  | invokeID_set (invokeID : Nat)
  | next_free_invokeID
  | set_confirmed_unsegmented_transaction (invokeID : Nat) (dest : BACNET_ADDRESS)
      (ndpu_data : BACNET_NPDU_DATA) (apdu : List Nat) (apdu_len : Nat)
  | free_invoke_id (invokeID : Nat)
  | clear_peer_id (InternalInvokeID : Nat)
  | free_invoke_id_check (invokeID : Nat) (peer_address : Option BACNET_ADDRESS)
      (cleanup : Bool)
  | get_peer_id (src : BACNET_ADDRESS) (invokeID : Nat)
  | set_segmented_confirmed_service_received (src : BACNET_ADDRESS)
      (service_data : BACNET_CONFIRMED_SERVICE_DATA) (service_request : List Nat)
      (service_request_len : Nat)
  | set_complexack_transaction (dest : BACNET_ADDRESS) (npdu_data : BACNET_NPDU_DATA)
      (apdu_fixed_header : BACNET_APDU_FIXED_HEADER)
      (confirmed_service_data : BACNET_CONFIRMED_SERVICE_DATA) (pdu : List Nat) (pdu_len : Nat)
  | segmentack_received (invoke_id sequence_number actual_window_size : Nat) (server : Bool)
      (src : BACNET_ADDRESS)
  | check_unexpected_pdu_received (src : BACNET_ADDRESS)
      (service_data : BACNET_CONFIRMED_SERVICE_DATA)
  | free_invoke_id_segmentation (src : BACNET_ADDRESS) (invoke_id : Nat)
  | timer_milliseconds (milliseconds : Nat)

/-- The state after the call `op`; `none` when the call does not return. The
argument of `tsm_invokeID_set` is converted to its parameter type `uint8_t`. -/
def apply_op (cfg : Config) (s : TSM) : Op → Option TSM
  | Op.set_timeout_handler registered => some (tsm_set_timeout_handler s registered)
  | Op.invokeID_set invokeID => some (tsm_invokeID_set s (u8 invokeID))
  | Op.next_free_invokeID => (tsm_next_free_invokeID cfg s).map Prod.snd
  | Op.set_confirmed_unsegmented_transaction invokeID dest ndpu_data apdu apdu_len =>
    some (tsm_set_confirmed_unsegmented_transaction cfg s invokeID dest ndpu_data apdu apdu_len)
  | Op.free_invoke_id invokeID => some (tsm_free_invoke_id s invokeID)
  | Op.clear_peer_id InternalInvokeID => some (tsm_clear_peer_id s InternalInvokeID)
  | Op.free_invoke_id_check invokeID peer_address cleanup =>
    some (tsm_free_invoke_id_check s invokeID peer_address cleanup)
  | Op.get_peer_id src invokeID => (tsm_get_peer_id cfg s src invokeID).map Prod.snd
  | Op.set_segmented_confirmed_service_received src service_data service_request
      service_request_len =>
    (tsm_set_segmented_confirmed_service_received cfg s src service_data service_request
      service_request_len).map Prod.snd
  | Op.set_complexack_transaction dest npdu_data apdu_fixed_header confirmed_service_data pdu
      pdu_len =>
    (tsm_set_complexack_transaction cfg s dest npdu_data apdu_fixed_header
      confirmed_service_data pdu pdu_len).map Prod.snd
  | Op.segmentack_received invoke_id sequence_number actual_window_size server src =>
    some (tsm_segmentack_received cfg s invoke_id sequence_number actual_window_size server src)
  | Op.check_unexpected_pdu_received src service_data =>
    some (check_unexpected_pdu_received s src service_data).2
  | Op.free_invoke_id_segmentation src invoke_id =>
    tsm_free_invoke_id_segmentation cfg s src invoke_id
  | Op.timer_milliseconds milliseconds => some (tsm_timer_milliseconds cfg s milliseconds)

/-- The states reached from `s0` by calls of the operations, each call `op`
made in a state `s` with `ok s op`. -/
inductive Reachable (cfg : Config) (ok : TSM → Op → Prop) (s0 : TSM) : TSM → Prop
  | init : Reachable cfg ok s0 s0
  | step {s s' : TSM} (op : Op) : Reachable cfg ok s0 s → ok s op →
      apply_op cfg s op = some s' → Reachable cfg ok s0 s'

/-- No restriction on the calls. -/
def any_call : TSM → Op → Prop := fun _ _ => True

/-- The restriction of `tsm_free_invoke_id` to invoke-ids that no peer-map entry
is bound to (the ids a requester got from `tsm_next_free_invokeID`); the other
operations are unrestricted. -/
def free_unbound_only (s : TSM) : Op → Prop
  | Op.free_invoke_id invokeID =>
    ∀ e ∈ s.TSM_Peer_Ids, e.InternalInvokeID ≠ 0 → e.InternalInvokeID ≠ invokeID
  | _ => True

/-- What an operation other than an allocation may do to a slot: the invoke-id
is kept or zeroed, and a slot left without invoke-id is idle, or was without
invoke-id before and keeps its state. -/
def SlotStep (d d' : BACNET_TSM_DATA) : Prop :=
  (d'.InvokeID = d.InvokeID ∨ d'.InvokeID = 0) ∧
  (d'.InvokeID = 0 → d'.state = TSM_STATE_IDLE ∨ (d'.state = d.state ∧ d.InvokeID = 0))

/-- A step that allocates nothing: the table sizes and the cursor stay, every
slot makes a `SlotStep`, and every peer-map entry stays or becomes free. -/
def Rel (s s' : TSM) : Prop :=
  s'.TSM_List.length = s.TSM_List.length ∧ s'.Current_Invoke_ID = s.Current_Invoke_ID ∧
  s'.TSM_Peer_Ids.length = s.TSM_Peer_Ids.length ∧
  (∀ k, SlotStep (s.slot k) (s'.slot k)) ∧
  (∀ j, s'.peer j = s.peer j ∨ (s'.peer j).InternalInvokeID = 0)

/-- A step that frees a slot only together with the peer-map entries bound to
its invoke-id. -/
def Paired (s s' : TSM) : Prop :=
  ∀ k, (s'.slot k).InvokeID = (s.slot k).InvokeID ∨
    ∀ j, (s'.peer j).InternalInvokeID ≠ 0 → (s'.peer j).InternalInvokeID ≠ (s.slot k).InvokeID

/-- The invariant of the tables: 8 bit sizes, a slot without invoke-id is idle,
the non-zero invoke-ids of the slots are distinct, and the non-free peer-map
entries have distinct keys. -/
def TablesOK (s : TSM) : Prop :=
  s.TSM_List.length ≤ 255 ∧ s.Current_Invoke_ID < 256 ∧
  (∀ k, (s.slot k).InvokeID = 0 → (s.slot k).state = TSM_STATE_IDLE) ∧
  (∀ i j, i ≠ j → (s.slot i).InvokeID ≠ 0 → (s.slot i).InvokeID ≠ (s.slot j).InvokeID) ∧
  (∀ i j, i ≠ j → (s.peer i).InternalInvokeID ≠ 0 → (s.peer j).InternalInvokeID ≠ 0 →
    ¬ ((s.peer i).PeerInvokeID = (s.peer j).PeerInvokeID ∧
      address_match (s.peer i).PeerAddress (s.peer j).PeerAddress = true))

/-- Every non-free peer-map entry is bound to the invoke-id of a slot. -/
def PeersBound (s : TSM) : Prop :=
  ∀ j, (s.peer j).InternalInvokeID ≠ 0 → ∃ k, (s.slot k).InvokeID = (s.peer j).InternalInvokeID

/-- A step that allocates nothing and frees slots only together with their
peer-map entries. -/
def RelP (s s' : TSM) : Prop := Rel s s' ∧ Paired s s'

/-- A sequence of calls, one after the other. -/
def run_ops (cfg : Config) : TSM → List Op → Option TSM
  | s, [] => some s
  | s, op :: ops =>
    match apply_op cfg s op with
    | none => none
    | some s' => run_ops cfg s' ops

/-- The state after one `tsm_next_free_invokeID` on a fresh table of two slots. -/
def sample_allocated : TSM :=
  (run_ops Config.sample (TSM.init 2 1) [Op.next_free_invokeID]).getD (TSM.init 2 1)

/-- The state after a request was stored for the allocated invoke-id 1 and the
id was freed with `tsm_free_invoke_id`. -/
def sample_freed : TSM :=
  (run_ops Config.sample (TSM.init 2 1) [Op.next_free_invokeID,
    Op.set_confirmed_unsegmented_transaction 1 sample_peer ⟨true, 0⟩ [16, 12, 0, 9] 3,
    Op.free_invoke_id 1]).getD (TSM.init 2 1)

/-- The state after two allocations on a fresh table of two slots. -/
def sample_two_ids : TSM :=
  (run_ops Config.sample (TSM.init 2 1) [Op.next_free_invokeID, Op.next_free_invokeID]).getD
    (TSM.init 2 1)

/-- The state after `tsm_get_peer_id` has bound the invoke-id 7 of `sample_peer`. -/
def sample_bound : TSM :=
  (run_ops Config.sample (TSM.init 2 2) [Op.get_peer_id sample_peer 7]).getD (TSM.init 2 2)

/-- The state after that binding was followed by `tsm_free_invoke_id` of the
local invoke-id 1. -/
def sample_dangling : TSM :=
  (run_ops Config.sample (TSM.init 2 2) [Op.get_peer_id sample_peer 7,
    Op.free_invoke_id 1]).getD (TSM.init 2 2)

/-- The slot `d` after its release by `tsm_free_invoke_id_check`: idle, without
invoke-id, and with its buffers freed when `cleanup` is set. -/
def slot_released (d : BACNET_TSM_DATA) (cleanup : Bool) : BACNET_TSM_DATA :=
  if cleanup then free_blob { d with state := TSM_STATE_IDLE, InvokeID := 0 }
  else { d with state := TSM_STATE_IDLE, InvokeID := 0 }

/-- A server with two slots and one peer-map entry after segment 0 (window size
4, three bytes) of the request 7 of `sample_peer`. -/
def sample_receiving : TSM :=
  match tsm_set_segmented_confirmed_service_received Config.sample (TSM.init 2 1) sample_peer
    (sample_segment 7 0 4 true) [1, 2, 3] 3 with
  | some r => r.2
  | none => TSM.init 2 1

/-- The segment number a segment-ack with the sequence number `seq` acknowledges
on the slot `d`: `big_segment_number` of `tsm_segmentack_received`. -/
def acked_segment (d : BACNET_TSM_DATA) (seq : Nat) : Nat :=
  u32 (d.InitialSequenceNumber + u8 (seq + 256 - u8 d.InitialSequenceNumber))

/-- The slot `d` without the two fields `tsm_pdu_send` and `FillWindow` write:
the cached fixed header and `SentAllSegments`. -/
def without_header (d : BACNET_TSM_DATA) : BACNET_TSM_DATA :=
  { d with
    apdu_fixed_header := ⟨PDU_TYPE_OTHER, 0, 0, 0, false, false, 0, 0⟩
    SentAllSegments := false }

/-- What one call of `tsm_timer_milliseconds` does to a slot at index `i` in
SegmentedResponseServer, and what it sends for it. -/
def response_tick (cfg : Config) (i ms : Nat) (d : BACNET_TSM_DATA) :
    BACNET_TSM_DATA × List Event :=
  if d.SegmentTimer > ms then ({ d with SegmentTimer := d.SegmentTimer - ms }, [])
  else if u8 (d.SegmentRetryCount + 255) ≠ 0 then
    FillWindow cfg i { d with
      SegmentRetryCount := u8 (d.SegmentRetryCount + 255)
      SegmentTimer := cfg.apdu_segment_timeout } d.InitialSequenceNumber
  else
    ({ d with
      SegmentRetryCount := u8 (d.SegmentRetryCount + 255)
      SegmentTimer := cfg.apdu_segment_timeout
      state := TSM_STATE_IDLE }, [])

/-- A server that answers the request 7 of `sample_peer`, who takes APDUs of 10
bytes, with 30 bytes in six segments: segment 0 went out, the peer acknowledged
it with the window size 3, and the segments 1, 2 and 3 went out. -/
def sample_six_segments : TSM :=
  match tsm_set_complexack_transaction Config.sample (TSM.init 2 1) sample_peer ⟨false, 0⟩
      (apdu_init_fixed_header PDU_TYPE_COMPLEX_ACK 7 SERVICE_CONFIRMED_READ_PROP_MULTIPLE 10)
      { small_reply_service_data with invoke_id := 7 } (List.range 30) 30 with
  | some r => tsm_segmentack_received Config.sample r.2 7 0 3 false sample_peer
  | none => TSM.init 2 1

/-- The slot `d` as `tsm_segmentack_received` sets it on a new ack, before the
next window is sent. -/
def new_ack_slot (cfg : Config) (d : BACNET_TSM_DATA) (seq actual_window_size : Nat) :
    BACNET_TSM_DATA :=
  { d with
    InitialSequenceNumber := u32 (acked_segment d seq + 1)
    ActualWindowSize := actual_window_size
    SegmentRetryCount := cfg.apdu_retries
    SegmentTimer := cfg.apdu_segment_timeout }

/-- The server `sample_six_segments` after the peer has acknowledged segment 3
with the window size 2: the segments 4 and 5 went out. -/
def sample_last_window : TSM :=
  tsm_segmentack_received Config.sample sample_six_segments 7 3 2 false sample_peer

/-- The slot `d` as `tsm_set_complexack_transaction` fills it before it chooses
between an unsegmented and a segmented transmission. -/
def complexack_slot (cfg : Config) (d : BACNET_TSM_DATA) (dest : BACNET_ADDRESS)
    (npdu_data : BACNET_NPDU_DATA) (apdu_fixed_header : BACNET_APDU_FIXED_HEADER)
    (confirmed_service_data : BACNET_CONFIRMED_SERVICE_DATA) (pdu : List Nat)
    (pdu_len : Nat) : BACNET_TSM_DATA :=
  { copy_apdu_blob_data { d with
      apdu_maximum_length :=
        (bacnet_calc_transmittable_length cfg dest (some confirmed_service_data)).1
      maximum_transmittable_length :=
        (bacnet_calc_transmittable_length cfg dest (some confirmed_service_data)).2 }
      pdu pdu_len with
    npdu_data := npdu_data
    apdu_fixed_header := apdu_fixed_header
    dest := dest
    RetryCount := cfg.apdu_retries
    ActualWindowSize := 1
    ProposedWindowSize := 32
    InitialSequenceNumber := 0
    SentAllSegments := false }

/-- The slot `d` as `tsm_set_complexack_transaction` sets it for a segmented
transmission, before it sends segment 0. -/
def complexack_segmented_slot (cfg : Config) (d : BACNET_TSM_DATA) : BACNET_TSM_DATA :=
  { d with
    apdu_fixed_header := { d.apdu_fixed_header with
      proposed_window_number := d.ProposedWindowSize }
    state := TSM_STATE_SEGMENTED_RESPONSE_SERVER
    SegmentRetryCount := cfg.apdu_retries
    RequestTimer := 0
    SegmentTimer := cfg.apdu_segment_timeout }

/-- The request 9 of a requester that takes replies of at most 10 bytes in at
most 2 segments. -/
def sample_two_segment_data : BACNET_CONFIRMED_SERVICE_DATA :=
  { small_reply_service_data with invoke_id := 9, max_segs := 2 }

/-- The fixed header of a complex-ack for the invoke-id 9. -/
def sample_ack_header9 : BACNET_APDU_FIXED_HEADER :=
  apdu_init_fixed_header PDU_TYPE_COMPLEX_ACK 9 SERVICE_CONFIRMED_READ_PROP_MULTIPLE 10

/-- The reassembly buffer of the slot `d` holds the bytes `content`: they are the
first `apdu_blob_size` bytes of the blob, and `apdu_blob_allocated` is the size
of the allocation. -/
def BlobHolds (d : BACNET_TSM_DATA) (content : List Nat) : Prop :=
  d.apdu_blob_size = content.length ∧
  (d.apdu_blob.getD []).take d.apdu_blob_size = content ∧
  d.apdu_blob_size ≤ d.apdu_blob_allocated ∧
  ∀ b, d.apdu_blob = some b → b.length = d.apdu_blob_allocated

/-- The slot `d` without its reassembly buffer. -/
def without_blob (d : BACNET_TSM_DATA) : BACNET_TSM_DATA :=
  { d with apdu_blob := none, apdu_blob_allocated := 0, apdu_blob_size := 0 }

/-- The slot `d` after `tsm_set_segmented_confirmed_service_received` has taken
an in-order segment into it: timers, segment count, last sequence number, the
payload appended, and the start of the window moved when the segment ends a
window. -/
def accepted_slot (cfg : Config) (d : BACNET_TSM_DATA)
    (service_data : BACNET_CONFIRMED_SERVICE_DATA) (service_request : List Nat)
    (service_request_len : Nat) : BACNET_TSM_DATA :=
  let d2 := add_blob_data { d with
    RequestTimer := 0
    SegmentTimer := u16 (cfg.apdu_segment_timeout * 4)
    ReceivedSegmentsCount := u8 (d.ReceivedSegmentsCount + 1)
    LastSequenceNumber := service_data.sequence_number } service_request service_request_len
  if service_data.sequence_number = u8 (d2.InitialSequenceNumber + d2.ActualWindowSize) then
    { d2 with InitialSequenceNumber := service_data.sequence_number }
  else d2

/-- The slot `d'` has the reassembly state of the slot `d`: the same buffer,
last sequence number, segment count and invoke-id. -/
def SameReassembly (d d' : BACNET_TSM_DATA) : Prop :=
  d'.apdu_blob = d.apdu_blob ∧ d'.apdu_blob_size = d.apdu_blob_size ∧
  d'.apdu_blob_allocated = d.apdu_blob_allocated ∧
  d'.LastSequenceNumber = d.LastSequenceNumber ∧
  d'.ReceivedSegmentsCount = d.ReceivedSegmentsCount ∧
  d'.InvokeID = d.InvokeID

/-- From `s` to `s'` the slot `index` keeps its reassembly state, and the other
slots, the size of the table and the peer map are unchanged. -/
def KeepsReassembly (index : Nat) (s s' : TSM) : Prop :=
  SameReassembly (s.slot index) (s'.slot index) ∧
  (∀ k, k ≠ index → s'.slot k = s.slot k) ∧
  s'.TSM_Peer_Ids = s.TSM_Peer_Ids ∧
  s'.TSM_List.length = s.TSM_List.length

/-- The same segment handed `m` times to
`tsm_set_segmented_confirmed_service_received`. -/
def receive_repeated (cfg : Config) (src : BACNET_ADDRESS)
    (service_data : BACNET_CONFIRMED_SERVICE_DATA) (service_request : List Nat)
    (service_request_len : Nat) : Nat → TSM → Option TSM
  | 0, s => some s
  | m + 1, s =>
    match receive_repeated cfg src service_data service_request service_request_len m s with
    | none => none
    | some t =>
      (tsm_set_segmented_confirmed_service_received cfg t src service_data service_request
        service_request_len).map Prod.snd

/-- The configuration `Config.sample` with an APDU timeout of 10000 ms, which
four segment timeouts of 2000 ms do not exceed. -/
def Config.sample_server : Config :=
  { Config.sample with apdu_timeout := 10000 }

/-- The service data of the segment `k` of a segmented request whose other
parameters are those of `base`. -/
def segment_data (base : BACNET_CONFIRMED_SERVICE_DATA) (k : Nat) (more : Bool) :
    BACNET_CONFIRMED_SERVICE_DATA :=
  { base with sequence_number := k, more_follows := more }

/-- The segments `k`, `k + 1`, ... of a request of `src`, each with its payload
and its more-follows flag, handed one after the other to
`tsm_set_segmented_confirmed_service_received`: what the calls hand back, and
the state after the last one. -/
def receive_segments (cfg : Config) (src : BACNET_ADDRESS)
    (base : BACNET_CONFIRMED_SERVICE_DATA) :
    Nat → List (List Nat × Bool) → TSM → Option (List SegmentReceived × TSM)
  | _, [], s => some ([], s)
  | k, seg :: rest, s =>
    match tsm_set_segmented_confirmed_service_received cfg s src
        (segment_data base k seg.2) seg.1 seg.1.length with
    | none => none
    | some (r, s1) =>
      match receive_segments cfg src base (k + 1) rest s1 with
      | none => none
      | some (rs, s2) => some (r :: rs, s2)

/-- The positive segment-acks for the segments `k`, `k + 1`, ...: one for each
sequence number that is a multiple of the window size `W` and one for each
segment without more-follows. -/
def expected_acks (src : BACNET_ADDRESS) (id W : Nat) :
    Nat → List (List Nat × Bool) → List Event
  | _, [] => []
  | k, seg :: rest =>
    (if k % W = 0 ∨ seg.2 = false then [Event.segmentack src false true id k W] else []) ++
      expected_acks src id W (k + 1) rest

/-- What the calls for the segments after the first hand back, when `content`
has been received before them: false and the caller's buffer for a segment with
more-follows, true and a buffer that starts with everything received for a
segment without (a null buffer reads as empty). -/
def DeliveredFrom (c : Nat) : List Nat → List (List Nat × Bool) → List SegmentReceived → Prop
  | _, [], [] => True
  | content, seg :: rest, r :: rs =>
    (if seg.2 = true then r = ⟨false, c, some seg.1, seg.1.length⟩
     else r.result = true ∧ r.internal_invoke_id = c ∧
      r.service_request_len = (content ++ seg.1).length ∧
      (r.service_request.getD []).take (content ++ seg.1).length = content ++ seg.1) ∧
    DeliveredFrom c (content ++ seg.1) rest rs
  | _, _, _ => False

/-- The payloads of a request with more-follows set on all but the last. -/
def with_more_follows : List (List Nat) → List (List Nat × Bool)
  | [] => []
  | [p] => [(p, false)]
  | p :: q :: rest => (p, true) :: with_more_follows (q :: rest)

/-- The state `s` is in the middle of the reassembly of the request
`(src, base.invoke_id)`: the peer map binds it to the internal invoke-id `c`,
held by the slot `index` in SegmentedRequestServer; the segments 0 to `k` are
in, the buffer holds `content`, and the allocation has grown from at most `A`
bytes by no more than what was received. -/
structure Receiving (src : BACNET_ADDRESS) (base : BACNET_CONFIRMED_SERVICE_DATA)
    (c index k : Nat) (content : List Nat) (A : Nat) (s : TSM) : Prop where
  entry : ∃ ix, s.TSM_Peer_Ids.findIdx? (peer_entry_matches src base.invoke_id) = some ix ∧
    (s.peer ix).InternalInvokeID = c
  found : tsm_find_invokeID_index s c = index
  inside : index < s.TSM_List.length
  request_server : (s.slot index).state = TSM_STATE_SEGMENTED_REQUEST_SERVER
  last_sequence : (s.slot index).LastSequenceNumber = k
  segments : (s.slot index).ReceivedSegmentsCount = k + 1
  window : (s.slot index).ActualWindowSize = base.proposed_window_number
  initial : (s.slot index).InitialSequenceNumber =
    base.proposed_window_number * (k / base.proposed_window_number)
  blob : BlobHolds (s.slot index) content
  room : (s.slot index).apdu_blob_allocated ≤ A + content.length

/-- The bytes of the segments, in order. -/
def all_bytes : List (List Nat × Bool) → List Nat
  | [] => []
  | seg :: rest => seg.1 ++ all_bytes rest

/-- The slot `d` after `tsm_set_segmented_confirmed_service_received` has taken
the first segment of a request into it. -/
def first_segment_slot (cfg : Config) (d : BACNET_TSM_DATA)
    (service_data : BACNET_CONFIRMED_SERVICE_DATA) (service_request : List Nat)
    (service_request_len : Nat) : BACNET_TSM_DATA :=
  add_blob_data (reset_blob { d with
    state := TSM_STATE_SEGMENTED_REQUEST_SERVER
    ActualWindowSize := service_data.proposed_window_number
    ProposedWindowSize := service_data.proposed_window_number
    InitialSequenceNumber := 0
    LastSequenceNumber := 0
    RetryCount := 0
    SegmentRetryCount := 0
    ReceivedSegmentsCount := 1
    RequestTimer := 0
    SegmentTimer := u16 (cfg.apdu_segment_timeout * 4) }) service_request service_request_len

/-- Six segments of one byte each, more-follows set on all but the last. -/
def sample_six : List (List Nat × Bool) :=
  [([1], true), ([2], true), ([3], true), ([4], true), ([5], true), ([6], false)]

/-! ## Request senders (s_wp.c, s_cevent.c) -/

/-- Modelled from the spec: the message priority `MESSAGE_PRIORITY_NORMAL` of
npdu.h. -/
def MESSAGE_PRIORITY_NORMAL : Nat := 0

/-- Modelled from the spec: the WriteProperty service data
`BACNET_WRITE_PROPERTY_DATA` (declared in wp.h), with the fields that
`Send_Write_Property_Request_Data` fills. -/
structure BACNET_WRITE_PROPERTY_DATA where
  object_type : Nat
  object_instance : Nat
  object_property : Nat
  array_index : Nat
  application_data : List Nat
  application_data_len : Int
  priority : Nat

/-- Modelled from the spec: the event notification data
`BACNET_EVENT_NOTIFICATION_DATA` (declared in event.h); the sender only hands it
to the encoder. -/
structure BACNET_EVENT_NOTIFICATION_DATA where
  content : List Nat

/-- The collaborators of the request senders of s_wp.c and s_cevent.c: the
device communication control, the address binding table, the APDU encoders and
the bytes the encoders leave in the transmit buffer. -/
structure SendEnv where
  dcc_communication_enabled : Bool
  bound_device : Nat → Option (Nat × BACNET_ADDRESS)
  wp_encode_apdu : Nat → BACNET_WRITE_PROPERTY_DATA → Int
  wp_encoded : BACNET_ADDRESS → Nat → BACNET_WRITE_PROPERTY_DATA → List Nat
  cevent_notify_encode_apdu : Nat → BACNET_EVENT_NOTIFICATION_DATA → Int
  cevent_encoded : List Nat → BACNET_ADDRESS → Nat → BACNET_EVENT_NOTIFICATION_DATA → List Nat

/-- A call of `datalink_send_pdu` by a request sender: destination, bytes and
length. -/
structure Transmission where
  dest : BACNET_ADDRESS
  pdu : List Nat
  pdu_len : Int
  deriving DecidableEq

/-- The `data` that `Send_Write_Property_Request_Data` fills from its arguments;
the `memcpy` takes `application_data_len` bytes. -/
def wp_request_data (object_type object_instance object_property : Nat)
    (application_data : List Nat) (application_data_len : Int) (priority array_index : Nat) :
    BACNET_WRITE_PROPERTY_DATA where
  object_type := object_type
  object_instance := object_instance
  object_property := object_property
  array_index := array_index
  application_data_len := application_data_len
  application_data := application_data.take application_data_len.toNat
  priority := priority

/-- The `Send_Write_Property_Request_Data` operation: the returned invoke-id,
the new state of the transaction tables and the calls of `datalink_send_pdu`.
`bound_device` is `address_get_by_device` (`none` for a false status, else
`max_apdu` and `dest`). -/
def Send_Write_Property_Request_Data (cfg : Config) (env : SendEnv) (s : TSM)
    (device_id object_type object_instance object_property : Nat)
    (application_data : List Nat) (application_data_len : Int) (priority array_index : Nat) :
    Option (Nat × TSM × List Transmission) :=
  if !env.dcc_communication_enabled then some (0, s, [])
  else
    match env.bound_device device_id with
    | none => some (0, s, [])
    | some (max_apdu, dest) =>
      match tsm_next_free_invokeID cfg s with
      | none => none
      | some (invoke_id, s) =>
        if invoke_id ≠ 0 then
          let npdu_data : BACNET_NPDU_DATA := ⟨true, MESSAGE_PRIORITY_NORMAL⟩
          let pdu_len := cfg.npdu_encode_pdu dest npdu_data
          let data := wp_request_data object_type object_instance object_property
            application_data application_data_len priority array_index
          let len := env.wp_encode_apdu invoke_id data
          let pdu_len := i32 (pdu_len + len)
          let buffer := env.wp_encoded dest invoke_id data
          if u32i pdu_len < max_apdu then
            let s := tsm_set_confirmed_unsegmented_transaction cfg s invoke_id dest npdu_data
              buffer (u16 (u32i pdu_len))
            some (invoke_id, s, [⟨dest, buffer, pdu_len⟩])
          else
            some (0, tsm_free_invoke_id s invoke_id, [])
        else some (0, s, [])

/-- The `Send_CEvent_Notify_Address` operation: the returned invoke-id, the new
state of the transaction tables and the calls of `datalink_send_pdu`. `dest` is
`none` for a null pointer. -/
def Send_CEvent_Notify_Address (cfg : Config) (env : SendEnv) (s : TSM) (pdu : List Nat)
    (pdu_size : Nat) (data : BACNET_EVENT_NOTIFICATION_DATA) (dest : Option BACNET_ADDRESS) :
    Option (Nat × TSM × List Transmission) :=
  if !env.dcc_communication_enabled then some (0, s, [])
  else
    match dest with
    | none => some (0, s, [])
    | some dest =>
      match tsm_next_free_invokeID cfg s with
      | none => none
      | some (invoke_id, s) =>
        if invoke_id ≠ 0 then
          let npdu_data : BACNET_NPDU_DATA := ⟨true, MESSAGE_PRIORITY_NORMAL⟩
          let pdu_len := cfg.npdu_encode_pdu dest npdu_data
          let len := env.cevent_notify_encode_apdu invoke_id data
          let pdu_len := i32 (pdu_len + len)
          let buffer := env.cevent_encoded pdu dest invoke_id data
          if u16 (u32i pdu_len) < pdu_size then
            let s := tsm_set_confirmed_unsegmented_transaction cfg s invoke_id dest npdu_data
              buffer (u16 (u32i pdu_len))
            some (invoke_id, s, [⟨dest, buffer, pdu_len⟩])
          else
            some (0, tsm_free_invoke_id s invoke_id, [])
        else some (0, s, [])


/-- Collaborators as an example: communication enabled, the device 9 bound to
`sample_peer` with a maximum APDU of 480 bytes, APDU encoders that write 12
bytes. -/
def SendEnv.sample : SendEnv where
  dcc_communication_enabled := true
  bound_device := fun device_id => if device_id = 9 then some (480, sample_peer) else none
  wp_encode_apdu := fun _ _ => 12
  wp_encoded := fun _ invoke_id _ => [1, 4, 0, 5, invoke_id, 15, 12, 0, 0, 0, 1, 25, 85, 62]
  cevent_notify_encode_apdu := fun _ _ => 12
  cevent_encoded := fun _ _ invoke_id _ => [1, 4, 0, 5, invoke_id, 2, 9, 1, 28, 2, 0, 0, 9, 0]

/-! ## Analog input objects (ports/xplained/ai.c) -/

/-- Modelled from the spec: property identifiers of bacenum.h. -/
def PROP_EVENT_STATE : Int := 36

def PROP_OBJECT_IDENTIFIER : Int := 75

def PROP_OBJECT_NAME : Int := 77

def PROP_OBJECT_TYPE : Int := 79

def PROP_OUT_OF_SERVICE : Int := 81

def PROP_PRESENT_VALUE : Int := 85

def PROP_STATUS_FLAGS : Int := 111

def PROP_UNITS : Int := 117

/-- Modelled from the spec: application tags of bacenum.h. -/
def BACNET_APPLICATION_TAG_BOOLEAN : Nat := 1

def BACNET_APPLICATION_TAG_REAL : Nat := 4

def BACNET_APPLICATION_TAG_ENUMERATED : Nat := 9

/-- Modelled from the spec: error codes of bacenum.h. -/
def ERROR_CODE_UNKNOWN_PROPERTY : BACNET_ERROR_CODE := ERROR_CODE_OTHER 32

def ERROR_CODE_VALUE_OUT_OF_RANGE : BACNET_ERROR_CODE := ERROR_CODE_OTHER 37

def ERROR_CODE_WRITE_ACCESS_DENIED : BACNET_ERROR_CODE := ERROR_CODE_OTHER 40

/-- Modelled from the spec: a decoded application value
`BACNET_APPLICATION_DATA_VALUE` (declared in bacapp.h): the tag and the members
of the union `type` that ai.c reads; a `float` is kept as its 32 bit pattern. -/
structure BACNET_APPLICATION_DATA_VALUE where
  tag : Nat
  Boolean : Bool
  Enumerated : Nat
  Real : Nat
  deriving DecidableEq

/-- The static arrays of ai.c; each has `MAX_ANALOG_INPUTS` elements. -/
structure AnalogInputs where
  Present_Value : List Nat
  Out_Of_Service : List Bool
  Units : List Nat
  deriving DecidableEq

/-- The decoder and the type check that `Analog_Input_Write_Property` calls:
`bacapp_decode_application_data` yields a length and the decoded value,
`write_property_type_valid` yields `none` for a value of the expected tag and
the error it has set otherwise. -/
structure AiEnv where
  MAX_ANALOG_INPUTS : Nat
  bacapp_decode_application_data : List Nat → Int → Int × BACNET_APPLICATION_DATA_VALUE
  write_property_type_valid : BACNET_WRITE_PROPERTY_DATA → BACNET_APPLICATION_DATA_VALUE →
    Nat → Option (BACNET_ERROR_CLASS × BACNET_ERROR_CODE)

/-- The `Analog_Input_Instance_To_Index` function. -/
def Analog_Input_Instance_To_Index (object_instance : Nat) : Nat := object_instance

/-- The `Analog_Input_Valid_Instance` function. -/
def Analog_Input_Valid_Instance (env : AiEnv) (object_instance : Nat) : Bool :=
  let index := Analog_Input_Instance_To_Index object_instance
  if index < env.MAX_ANALOG_INPUTS then true else false

/-- The `Analog_Input_Present_Value` function. -/
def Analog_Input_Present_Value (env : AiEnv) (s : AnalogInputs) (object_instance : Nat) : Nat :=
  let index := Analog_Input_Instance_To_Index object_instance
  if index < env.MAX_ANALOG_INPUTS then s.Present_Value.getD index 0 else 0

/-- The `Analog_Input_Present_Value_Set` operation. -/
def Analog_Input_Present_Value_Set (env : AiEnv) (s : AnalogInputs) (object_instance : Nat)
    (value : Nat) : AnalogInputs :=
  let index := Analog_Input_Instance_To_Index object_instance
  if index < env.MAX_ANALOG_INPUTS then
    { s with Present_Value := s.Present_Value.set index value }
  else s

/-- The `Analog_Input_Out_Of_Service` function. -/
def Analog_Input_Out_Of_Service (env : AiEnv) (s : AnalogInputs) (object_instance : Nat) :
    Bool :=
  let index := Analog_Input_Instance_To_Index object_instance
  if index < env.MAX_ANALOG_INPUTS then s.Out_Of_Service.getD index false else false

/-- The `Analog_Input_Out_Of_Service_Set` operation. -/
def Analog_Input_Out_Of_Service_Set (env : AiEnv) (s : AnalogInputs) (object_instance : Nat)
    (value : Bool) : AnalogInputs :=
  let index := Analog_Input_Instance_To_Index object_instance
  if index < env.MAX_ANALOG_INPUTS then
    { s with Out_Of_Service := s.Out_Of_Service.set index value }
  else s

/-- The `Analog_Input_Units_Set` operation: the status and the new state. -/
def Analog_Input_Units_Set (env : AiEnv) (s : AnalogInputs) (object_instance value : Nat) :
    Bool × AnalogInputs :=
  let index := Analog_Input_Instance_To_Index object_instance
  if index < env.MAX_ANALOG_INPUTS then
    (true, { s with Units := s.Units.set index value })
  else (false, s)

/-- Modelled from the spec: the engineering unit `UNITS_NO_UNITS` of bacenum.h. -/
def UNITS_NO_UNITS : Nat := 95

/-- The `Analog_Input_Units` function. -/
def Analog_Input_Units (env : AiEnv) (s : AnalogInputs) (object_instance : Nat) : Nat :=
  let index := Analog_Input_Instance_To_Index object_instance
  if index < env.MAX_ANALOG_INPUTS then s.Units.getD index 0 else UNITS_NO_UNITS

/-- The `Analog_Input_Write_Property` operation: the return value, the error
class and code written to `wp_data` (`none` when they are left alone) and the
new state. The argument of `Analog_Input_Out_Of_Service_Set` is a `bool`, so an
enumerated value is converted: true unless it is 0. -/
def Analog_Input_Write_Property (env : AiEnv) (s : AnalogInputs)
    (wp_data : BACNET_WRITE_PROPERTY_DATA) :
    Bool × Option (BACNET_ERROR_CLASS × BACNET_ERROR_CODE) × AnalogInputs :=
  let decoded := env.bacapp_decode_application_data wp_data.application_data
    wp_data.application_data_len
  let len := decoded.1
  let value := decoded.2
  if len < 0 then (false, some (ERROR_CLASS_PROPERTY, ERROR_CODE_VALUE_OUT_OF_RANGE), s)
  else if (wp_data.object_property : Int) = PROP_PRESENT_VALUE then
    match env.write_property_type_valid wp_data value BACNET_APPLICATION_TAG_REAL with
    | none =>
      if Analog_Input_Out_Of_Service env s wp_data.object_instance then
        (true, none, Analog_Input_Present_Value_Set env s wp_data.object_instance value.Real)
      else (false, some (ERROR_CLASS_PROPERTY, ERROR_CODE_WRITE_ACCESS_DENIED), s)
    | some e => (false, some e, s)
  else if (wp_data.object_property : Int) = PROP_OUT_OF_SERVICE then
    match env.write_property_type_valid wp_data value BACNET_APPLICATION_TAG_BOOLEAN with
    | none =>
      (true, none, Analog_Input_Out_Of_Service_Set env s wp_data.object_instance value.Boolean)
    | some e => (false, some e, s)
  else if (wp_data.object_property : Int) = PROP_UNITS then
    match env.write_property_type_valid wp_data value BACNET_APPLICATION_TAG_ENUMERATED with
    | none =>
      (true, none, Analog_Input_Out_Of_Service_Set env s wp_data.object_instance
        (decide (value.Enumerated ≠ 0)))
    | some e => (false, some e, s)
  else if (wp_data.object_property : Int) = PROP_OBJECT_IDENTIFIER ∨
      (wp_data.object_property : Int) = PROP_OBJECT_NAME ∨
      (wp_data.object_property : Int) = PROP_OBJECT_TYPE ∨
      (wp_data.object_property : Int) = PROP_STATUS_FLAGS ∨
      (wp_data.object_property : Int) = PROP_EVENT_STATE then
    (false, some (ERROR_CLASS_PROPERTY, ERROR_CODE_WRITE_ACCESS_DENIED), s)
  else (false, some (ERROR_CLASS_PROPERTY, ERROR_CODE_UNKNOWN_PROPERTY), s)

/-- A decoder and a type check as an example: the first byte is the tag, the
second the value; the type check compares the tags. -/
def AiEnv.sample : AiEnv where
  MAX_ANALOG_INPUTS := 2
  bacapp_decode_application_data := fun data len =>
    if len < 2 then (-1, ⟨0, false, 0, 0⟩)
    else (2, ⟨data.getD 0 0, decide (data.getD 1 0 ≠ 0), data.getD 1 0, data.getD 1 0⟩)
  write_property_type_valid := fun _ value expected_tag =>
    if value.tag = expected_tag then none
    else some (ERROR_CLASS_PROPERTY, ERROR_CODE_OTHER 9)

/-- Two analog inputs in service, with the value 0 and no units. -/
def AnalogInputs.sample : AnalogInputs := ⟨[0, 0], [false, false], [95, 95]⟩

/-- The WriteProperty data for the enumerated value `v` written to `UNITS` of the
analog input `instance`, in the sample encoding. -/
def sample_write_units (object_instance v : Nat) : BACNET_WRITE_PROPERTY_DATA where
  object_type := 0
  object_instance := object_instance
  object_property := 117
  array_index := 4294967295
  application_data := [9, v]
  application_data_len := 2
  priority := 16

/-- The request 9 of a requester that takes replies of at most 20 bytes in at
most 4 segments. -/
def sample_four_segment_data : BACNET_CONFIRMED_SERVICE_DATA :=
  { sample_service_data with invoke_id := 9, max_segs := 4, max_resp := 20 }

/-- The locals of the RPM handler after an error-free encoding of a response of
30 bytes. -/
def sample_handover_locals : RpmLocals := ⟨0, 30, List.range 30, sample_rpmdata, 0, false⟩

/-- The sample configuration of the transaction layer with the `MAX_APDU` of the
sample device of the RPM handler. -/
def Config.sample_rpm : Config := { Config.sample with MAX_APDU := 30 }

/-- The calls `tsm_pdu_send(&TSM_List[index], n)` for the segment numbers `n` of
a list, one after the other on the slot `d`: the slot after the last call, and
`sent` followed by what the calls handed to the datalink. -/
def tsm_pdu_send_each (cfg : Config) (index : Nat) :
    List Nat → BACNET_TSM_DATA → List Event → BACNET_TSM_DATA × List Event
  | [], d, sent => (d, sent)
  | n :: rest, d, sent =>
    tsm_pdu_send_each cfg index rest (tsm_pdu_send cfg index d n).1
      (sent ++ (tsm_pdu_send cfg index d n).2.1)

/-- The slot `b` is the slot `a` up to the three header fields that
`tsm_pdu_send` writes for a segment. -/
def SameButSegmentFields (b a : BACNET_TSM_DATA) : Prop :=
  ∃ (x y : Bool) (z : Nat), b = { a with
    apdu_fixed_header := { a.apdu_fixed_header with
      segmented_message := x
      more_follows := y
      sequence_number := z } }

/-! # Theorems -/

/-! ## Machine integers and table lookups -/

theorem u8_of_lt {n : Nat} (h : n < 256) : u8 n = n := Nat.mod_eq_of_lt h

theorem u16_of_lt {n : Nat} (h : n < 65536) : u16 n = n := Nat.mod_eq_of_lt h

theorem u32_of_lt {n : Nat} (h : n < 4294967296) : u32 n = n := Nat.mod_eq_of_lt h

theorem slot_eq_getElem (s : TSM) {i : Nat} (h : i < s.TSM_List.length) :
    s.slot i = s.TSM_List[i] := by
  simp [TSM.slot, List.getD_eq_getElem?_getD, List.getElem?_eq_getElem h]

theorem slot_mem (s : TSM) {i : Nat} (h : i < s.TSM_List.length) : s.slot i ∈ s.TSM_List := by
  rw [slot_eq_getElem s h]; exact List.getElem_mem h

theorem available_iff (s : TSM) : tsm_transaction_available s = true ↔ held s 0 := by
  simp [tsm_transaction_available, held, List.any_eq_true]

/-- The search for an invoke-id ends at `MAX_TSM_TRANSACTIONS` exactly when no
slot holds it. -/
theorem find_invokeID_eq_max (s : TSM) (c : Nat) (hlen : s.TSM_List.length ≤ 255) :
    tsm_find_invokeID_index s c = MAX_TSM_TRANSACTIONS s ↔ ¬ held s c := by
  have hle : s.TSM_List.findIdx (fun d => d.InvokeID == c) ≤ s.TSM_List.length :=
    List.findIdx_le_length _
  unfold tsm_find_invokeID_index MAX_TSM_TRANSACTIONS
  rw [u8_of_lt (by omega), List.findIdx_eq_length]
  simp [held]

/-- When a slot holds the invoke-id, the search returns the index of the first
such slot. -/
theorem find_invokeID_spec (s : TSM) (c : Nat) (hlen : s.TSM_List.length ≤ 255)
    (h : held s c) :
    tsm_find_invokeID_index s c < s.TSM_List.length ∧
      (s.slot (tsm_find_invokeID_index s c)).InvokeID = c ∧
      ∀ j, j < tsm_find_invokeID_index s c → (s.slot j).InvokeID ≠ c := by
  have hlt : s.TSM_List.findIdx (fun d => d.InvokeID == c) < s.TSM_List.length := by
    apply List.findIdx_lt_length_of_exists
    obtain ⟨d, hd, hc⟩ := h
    exact ⟨d, hd, by simp [hc]⟩
  unfold tsm_find_invokeID_index
  rw [u8_of_lt (by omega)]
  refine ⟨hlt, ?_, ?_⟩
  · rw [slot_eq_getElem s hlt]
    have := List.findIdx_getElem (p := fun d : BACNET_TSM_DATA => d.InvokeID == c) (w := hlt)
    simpa using this
  · intro j hj
    rw [slot_eq_getElem s (by omega)]
    have := List.not_of_lt_findIdx hj
    simpa using this

/-! ## The invoke-id allocator -/

theorem invokeID_increment_eq {c : Nat} (h1 : 1 ≤ c) (h2 : c ≤ 255) :
    invokeID_increment c = c % 255 + 1 := by
  unfold invokeID_increment u8
  split <;> omega

theorem invokeID_increment_iterate {c : Nat} (h1 : 1 ≤ c) (h2 : c ≤ 255) (k : Nat) :
    invokeID_increment^[k] c = (c - 1 + k) % 255 + 1 := by
  induction k with
  | zero => simp; omega
  | succ k ih =>
    rw [Function.iterate_succ_apply', ih, invokeID_increment_eq (by omega) (by omega)]
    omega

/-- With a free slot in a table of at most 255 slots, some id of 1..255 is held
by no slot. -/
theorem exists_unheld (s : TSM) (hlen : s.TSM_List.length ≤ 255) (h0 : held s 0) :
    ∃ v, 1 ≤ v ∧ v ≤ 255 ∧ ¬ held s v := by
  by_contra hcon
  push_neg at hcon
  have hsub : Finset.range 256 ⊆ (s.TSM_List.map (fun d => d.InvokeID)).toFinset := by
    intro v hv
    have hv' : v < 256 := Finset.mem_range.mp hv
    have hh : held s v := by
      rcases Nat.eq_zero_or_pos v with h | h
      · subst h; exact h0
      · exact hcon v h (by omega)
    obtain ⟨d, hd, hdv⟩ := hh
    simp only [List.mem_toFinset, List.mem_map]
    exact ⟨d, hd, hdv⟩
  have h1 := Finset.card_le_card hsub
  have h2 := List.toFinset_card_le (s.TSM_List.map (fun d => d.InvokeID))
  simp at h1 h2
  omega

/-- From every 8 bit cursor the cyclic search meets an id that no slot holds
within 256 steps. -/
theorem exists_unheld_iterate (s : TSM) (hlen : s.TSM_List.length ≤ 255) (h0 : held s 0)
    (c : Nat) (hc : c < 256) : ∃ k, k < 256 ∧ ¬ held s (invokeID_increment^[k] c) := by
  obtain ⟨v, hv1, hv2, hv⟩ := exists_unheld s hlen h0
  rcases Nat.eq_zero_or_pos c with h | h
  · subst h
    refine ⟨(v - 1) % 255 + 1, by omega, ?_⟩
    rw [Function.iterate_succ_apply]
    have h1 : invokeID_increment 0 = 1 := by decide
    rw [h1, invokeID_increment_iterate (by omega) (by omega)]
    have : (1 - 1 + (v - 1) % 255) % 255 + 1 = v := by omega
    rw [this]; exact hv
  · refine ⟨(v + 255 - c) % 255, by omega, ?_⟩
    rw [invokeID_increment_iterate h (by omega)]
    have : (c - 1 + (v + 255 - c) % 255) % 255 + 1 = v := by omega
    rw [this]; exact hv

/-- The search loop of the allocator: when the `k`-th candidate is the first
that no slot holds, `k + 1` iterations end the loop with that candidate. -/
theorem next_free_loop_spec (cfg : Config) (k : Nat) :
    ∀ (fuel : Nat) (s : TSM), s.TSM_List.length ≤ 255 → held s 0 →
      (∀ j, j < k → held s (invokeID_increment^[j] s.Current_Invoke_ID)) →
      ¬ held s (invokeID_increment^[k] s.Current_Invoke_ID) → k < fuel →
      tsm_next_free_invokeID_loop cfg fuel s =
        some (invokeID_increment^[k] s.Current_Invoke_ID,
          claim_slot cfg s (invokeID_increment^[k] s.Current_Invoke_ID)) := by
  induction k with
  | zero =>
    intro fuel s hlen h0 _ hk hf
    obtain ⟨fuel, rfl⟩ : ∃ f, fuel = f + 1 := ⟨fuel - 1, by omega⟩
    have e1 := (find_invokeID_eq_max s s.Current_Invoke_ID hlen).mpr (by simpa using hk)
    have e2 : tsm_find_first_free_index s ≠ MAX_TSM_TRANSACTIONS s := by
      intro h
      exact (find_invokeID_eq_max s 0 hlen).mp h h0
    simp [tsm_next_free_invokeID_loop, e1, e2, claim_slot]
  | succ k ih =>
    intro fuel s hlen h0 hj hk hf
    obtain ⟨fuel, rfl⟩ : ∃ f, fuel = f + 1 := ⟨fuel - 1, by omega⟩
    have hheld : held s s.Current_Invoke_ID := by simpa using hj 0 (by omega)
    have e1 : tsm_find_invokeID_index s s.Current_Invoke_ID ≠ MAX_TSM_TRANSACTIONS s := by
      intro h
      exact (find_invokeID_eq_max s _ hlen).mp h hheld
    have := ih fuel { s with Current_Invoke_ID := invokeID_increment s.Current_Invoke_ID }
      hlen h0 (fun j hjk => by
        have := hj (j + 1) (by omega)
        rwa [Function.iterate_succ_apply] at this)
      (by rwa [Function.iterate_succ_apply] at hk) (by omega)
    rw [tsm_next_free_invokeID_loop]
    simp only [e1, if_false]
    rw [this]
    simp [Function.iterate_succ_apply, claim_slot, TSM.setSlot, TSM.slot,
      tsm_find_first_free_index]

/-- The allocator with a free slot: it returns the first candidate of the
cyclic search that no slot holds and claims the first free slot for it. -/
theorem next_free_spec (cfg : Config) (s : TSM) (hlen : s.TSM_List.length ≤ 255)
    (hcur : s.Current_Invoke_ID < 256) (h0 : held s 0) :
    ∃ k, k < 256 ∧ (∀ j, j < k → held s (invokeID_increment^[j] s.Current_Invoke_ID)) ∧
      ¬ held s (invokeID_increment^[k] s.Current_Invoke_ID) ∧
      tsm_next_free_invokeID cfg s =
        some (invokeID_increment^[k] s.Current_Invoke_ID,
          claim_slot cfg s (invokeID_increment^[k] s.Current_Invoke_ID)) := by
  have hex := exists_unheld_iterate s hlen h0 s.Current_Invoke_ID hcur
  have hex' : ∃ k, ¬ held s (invokeID_increment^[k] s.Current_Invoke_ID) := by
    obtain ⟨k, _, hk⟩ := hex; exact ⟨k, hk⟩
  obtain ⟨k0, hk0, hk0'⟩ := hex
  have hmin : Nat.find hex' ≤ k0 := Nat.find_min' hex' hk0'
  refine ⟨Nat.find hex', by omega, ?_, Nat.find_spec hex', ?_⟩
  · intro j hj
    by_contra hcon
    exact Nat.find_min hex' hj hcon
  · unfold tsm_next_free_invokeID
    rw [if_pos ((available_iff s).mpr h0)]
    apply next_free_loop_spec cfg _ 256 s hlen h0
    · intro j hj
      by_contra hcon
      exact Nat.find_min hex' hj hcon
    · exact Nat.find_spec hex'
    · omega

theorem slot_setSlot_self (s : TSM) (i : Nat) (d : BACNET_TSM_DATA)
    (h : i < s.TSM_List.length) : (s.setSlot i d).slot i = d := by
  simp [TSM.setSlot, TSM.slot, List.getD_eq_getElem?_getD, List.getElem?_set, h]

theorem slot_setSlot_ne (s : TSM) (i j : Nat) (d : BACNET_TSM_DATA) (h : j ≠ i) :
    (s.setSlot i d).slot j = s.slot j := by
  simp [TSM.setSlot, TSM.slot, List.getD_eq_getElem?_getD, List.getElem?_set, Ne.symm h]

theorem length_setSlot (s : TSM) (i : Nat) (d : BACNET_TSM_DATA) :
    (s.setSlot i d).TSM_List.length = s.TSM_List.length := by
  simp [TSM.setSlot]

theorem held_iff_slot (s : TSM) (c : Nat) :
    held s c ↔ ∃ j, j < s.TSM_List.length ∧ (s.slot j).InvokeID = c := by
  constructor
  · rintro ⟨d, hd, hc⟩
    obtain ⟨j, hj, rfl⟩ := List.getElem_of_mem hd
    exact ⟨j, hj, by rw [slot_eq_getElem s hj]; exact hc⟩
  · rintro ⟨j, hj, hc⟩
    exact ⟨s.slot j, slot_mem s hj, hc⟩

/-- C4: `tsm_next_free_invokeID` returns 0 if and only if no slot of the table
is free at entry, and when it returns 0 the whole state (every slot and the
cursor) is unchanged. The table has at most 255 slots and the cursor is 8 bit. -/
theorem tsm_next_free_invokeID_zero_iff_full (cfg : Config) (s : TSM)
    (hlen : s.TSM_List.length ≤ 255) (hcur : s.Current_Invoke_ID < 256) :
    ∃ id s', tsm_next_free_invokeID cfg s = some (id, s') ∧
      (id = 0 ↔ ∀ d ∈ s.TSM_List, d.InvokeID ≠ 0) ∧
      (id = 0 → s'.TSM_List = s.TSM_List ∧ s'.Current_Invoke_ID = s.Current_Invoke_ID) := by
  by_cases h0 : held s 0
  · obtain ⟨k, _, _, hk, heq⟩ := next_free_spec cfg s hlen hcur h0
    have hne : invokeID_increment^[k] s.Current_Invoke_ID ≠ 0 := by
      intro h; rw [h] at hk; exact hk h0
    refine ⟨_, _, heq, ?_, fun h => absurd h hne⟩
    constructor
    · intro h; exact absurd h hne
    · intro h
      obtain ⟨d, hd, hd0⟩ := h0
      exact absurd hd0 (h d hd)
  · have hav : tsm_transaction_available s = false := by
      rw [Bool.eq_false_iff]; exact fun h => h0 ((available_iff s).mp h)
    refine ⟨0, s, by simp [tsm_next_free_invokeID, hav], ?_, fun _ => ⟨rfl, rfl⟩⟩
    simp only [true_iff]
    intro d hd hd0
    exact h0 ⟨d, hd, hd0⟩

theorem tsm_next_free_invokeID_zero_iff_full_witness :
    (TSM.init 2 1).TSM_List.length ≤ 255 ∧ (TSM.init 2 1).Current_Invoke_ID < 256 ∧
    ∃ id s', tsm_next_free_invokeID Config.sample (TSM.init 2 1) = some (id, s') ∧
      (id = 0 ↔ ∀ d ∈ (TSM.init 2 1).TSM_List, d.InvokeID ≠ 0) ∧
      (id = 0 → s'.TSM_List = (TSM.init 2 1).TSM_List ∧
        s'.Current_Invoke_ID = (TSM.init 2 1).Current_Invoke_ID) :=
  ⟨by decide, by decide,
    tsm_next_free_invokeID_zero_iff_full Config.sample (TSM.init 2 1) (by decide) (by decide)⟩

/-- C5: when at least one slot is free, `tsm_next_free_invokeID` returns an id
`c ≠ 0` that no slot held at entry; afterwards the first (lowest-index) free
slot `i` has `InvokeID = c`, state Idle and `RequestTimer = apdu_timeout()`, and
every other slot is unchanged. The table has at most 255 slots and the cursor
is 8 bit. -/
theorem tsm_next_free_invokeID_claims_first_free (cfg : Config) (s : TSM)
    (hlen : s.TSM_List.length ≤ 255) (hcur : s.Current_Invoke_ID < 256)
    (hfree : ∃ d ∈ s.TSM_List, d.InvokeID = 0) :
    ∃ c s' i, tsm_next_free_invokeID cfg s = some (c, s') ∧ c ≠ 0 ∧
      (∀ d ∈ s.TSM_List, d.InvokeID ≠ c) ∧
      i < s.TSM_List.length ∧ (s.slot i).InvokeID = 0 ∧
      (∀ j, j < i → (s.slot j).InvokeID ≠ 0) ∧
      (s'.slot i).InvokeID = c ∧ (s'.slot i).state = TSM_STATE_IDLE ∧
      (s'.slot i).RequestTimer = cfg.apdu_timeout ∧
      s'.TSM_List.length = s.TSM_List.length ∧ ∀ j, j ≠ i → s'.slot j = s.slot j := by
  have h0 : held s 0 := hfree
  obtain ⟨k, _, _, hk, heq⟩ := next_free_spec cfg s hlen hcur h0
  obtain ⟨hi, hi0, himin⟩ := find_invokeID_spec s 0 hlen h0
  refine ⟨_, _, tsm_find_invokeID_index s 0, heq, ?_, ?_, hi, hi0, himin, ?_, ?_, ?_, ?_, ?_⟩
  · intro h; rw [h] at hk; exact hk h0
  · intro d hd hdc; exact hk ⟨d, hd, hdc⟩
  · show ((TSM.setSlot s _ _).slot _).InvokeID = _
    rw [show tsm_find_first_free_index s = tsm_find_invokeID_index s 0 from rfl,
      slot_setSlot_self s _ _ hi]
  · show ((TSM.setSlot s _ _).slot _).state = _
    rw [show tsm_find_first_free_index s = tsm_find_invokeID_index s 0 from rfl,
      slot_setSlot_self s _ _ hi]
  · show ((TSM.setSlot s _ _).slot _).RequestTimer = _
    rw [show tsm_find_first_free_index s = tsm_find_invokeID_index s 0 from rfl,
      slot_setSlot_self s _ _ hi]
  · exact length_setSlot s _ _
  · intro j hj
    show (TSM.setSlot s _ _).slot j = _
    exact slot_setSlot_ne s _ j _ hj

theorem tsm_next_free_invokeID_claims_first_free_witness :
    (TSM.init 2 1).TSM_List.length ≤ 255 ∧ (TSM.init 2 1).Current_Invoke_ID < 256 ∧
    (∃ d ∈ (TSM.init 2 1).TSM_List, d.InvokeID = 0) ∧
    ∃ c s' i, tsm_next_free_invokeID Config.sample (TSM.init 2 1) = some (c, s') ∧ c ≠ 0 ∧
      (∀ d ∈ (TSM.init 2 1).TSM_List, d.InvokeID ≠ c) ∧
      i < (TSM.init 2 1).TSM_List.length ∧ ((TSM.init 2 1).slot i).InvokeID = 0 ∧
      (∀ j, j < i → ((TSM.init 2 1).slot j).InvokeID ≠ 0) ∧
      (s'.slot i).InvokeID = c ∧ (s'.slot i).state = TSM_STATE_IDLE ∧
      (s'.slot i).RequestTimer = Config.sample.apdu_timeout ∧
      s'.TSM_List.length = (TSM.init 2 1).TSM_List.length ∧
      ∀ j, j ≠ i → s'.slot j = (TSM.init 2 1).slot j :=
  ⟨by decide, by decide, by decide,
    tsm_next_free_invokeID_claims_first_free Config.sample (TSM.init 2 1) (by decide)
      (by decide) (by decide)⟩

theorem cyclic_succ_iterate {c : Nat} (h1 : 1 ≤ c) (h2 : c ≤ 255) (k : Nat) :
    cyclic_succ^[k] c = (c - 1 + k) % 255 + 1 := by
  induction k with
  | zero => simp; omega
  | succ k ih =>
    rw [Function.iterate_succ_apply', ih]
    unfold cyclic_succ
    split <;> omega

/-- The search for an invoke-id that exactly one slot holds returns that slot. -/
theorem find_invokeID_unique (s : TSM) (c i : Nat) (hlen : s.TSM_List.length ≤ 255)
    (hi : i < s.TSM_List.length) (hc : (s.slot i).InvokeID = c)
    (huniq : ∀ j, j ≠ i → (s.slot j).InvokeID ≠ c) : tsm_find_invokeID_index s c = i := by
  have hh : held s c := (held_iff_slot s c).mpr ⟨i, hi, hc⟩
  obtain ⟨_, h2, _⟩ := find_invokeID_spec s c hlen hh
  by_contra hne
  exact huniq _ hne h2

theorem claim_slot_self (cfg : Config) (s : TSM) (c : Nat)
    (h : tsm_find_invokeID_index s 0 < s.TSM_List.length) :
    (claim_slot cfg s c).slot (tsm_find_invokeID_index s 0) =
      { s.slot (tsm_find_invokeID_index s 0) with
        InvokeID := c, state := TSM_STATE_IDLE, RequestTimer := cfg.apdu_timeout } :=
  slot_setSlot_self s _ _ h

theorem claim_slot_ne (cfg : Config) (s : TSM) (c j : Nat)
    (h : j ≠ tsm_find_invokeID_index s 0) : (claim_slot cfg s c).slot j = s.slot j :=
  slot_setSlot_ne s _ j _ h

theorem claim_slot_length (cfg : Config) (s : TSM) (c : Nat) :
    (claim_slot cfg s c).TSM_List.length = s.TSM_List.length :=
  length_setSlot s _ _

theorem tsm_free_invoke_id_of_lt (s : TSM) (id : Nat)
    (h : tsm_find_invokeID_index s id < s.TSM_List.length) :
    tsm_free_invoke_id s id = s.setSlot (tsm_find_invokeID_index s id)
      { s.slot (tsm_find_invokeID_index s id) with state := TSM_STATE_IDLE, InvokeID := 0 } := by
  simp [tsm_free_invoke_id, MAX_TSM_TRANSACTIONS, h]

theorem tsm_free_invoke_id_of_not_lt (s : TSM) (id : Nat)
    (h : ¬ tsm_find_invokeID_index s id < s.TSM_List.length) :
    tsm_free_invoke_id s id = s := by
  simp [tsm_free_invoke_id, MAX_TSM_TRANSACTIONS, h]

theorem slot_init (n p j : Nat) : (TSM.init n p).slot j = default := by
  simp only [TSM.slot, TSM.init, List.getD_eq_getElem?_getD, List.getElem?_replicate]
  split <;> rfl

/-- After any number of allocate-then-free rounds on a fresh table the table
is all free again and the cursor has advanced once per round. -/
theorem after_alloc_free_spec (cfg : Config) (m p : Nat) (hm : 1 ≤ m) (hm' : m ≤ 255)
    (n : Nat) :
    ∃ s, after_alloc_free cfg (TSM.init m p) n = some s ∧ s.TSM_List.length = m ∧
      (∀ j, (s.slot j).InvokeID = 0) ∧ s.Current_Invoke_ID = n % 255 + 1 := by
  induction n with
  | zero =>
    refine ⟨TSM.init m p, rfl, by simp [TSM.init], ?_, rfl⟩
    intro j; rw [slot_init]; rfl
  | succ n ih =>
    obtain ⟨s, hs, hlen, hall, hcur⟩ := ih
    have h0 : held s 0 := (held_iff_slot s 0).mpr ⟨0, by omega, hall 0⟩
    have hnot : ¬ held s s.Current_Invoke_ID := by
      rw [held_iff_slot]
      rintro ⟨j, _, hj⟩
      rw [hall j] at hj; omega
    obtain ⟨k, _, hmin, _, heq⟩ := next_free_spec cfg s (by omega) (by omega) h0
    have hk : k = 0 := by
      by_contra hk
      exact hnot (by simpa using hmin 0 (by omega))
    subst hk
    simp only [Function.iterate_zero, id_eq] at heq
    obtain ⟨hi, _, _⟩ := find_invokeID_spec s 0 (by omega) h0
    have hheld' : held (claim_slot cfg s s.Current_Invoke_ID) s.Current_Invoke_ID := by
      rw [held_iff_slot]
      refine ⟨tsm_find_invokeID_index s 0, by rw [claim_slot_length]; exact hi, ?_⟩
      rw [claim_slot_self cfg s _ hi]
    have hlen' : (claim_slot cfg s s.Current_Invoke_ID).TSM_List.length = m := by
      rw [claim_slot_length, hlen]
    have hfi : tsm_find_invokeID_index (claim_slot cfg s s.Current_Invoke_ID)
        s.Current_Invoke_ID = tsm_find_invokeID_index s 0 := by
      apply find_invokeID_unique _ _ _ (by omega) (by omega)
      · rw [claim_slot_self cfg s _ hi]
      · intro j hj
        rw [claim_slot_ne cfg s _ j hj, hall j]; omega
    have hf : tsm_find_invokeID_index (claim_slot cfg s s.Current_Invoke_ID)
        s.Current_Invoke_ID < (claim_slot cfg s s.Current_Invoke_ID).TSM_List.length := by
      rw [hfi, hlen', ← hlen]; exact hi
    refine ⟨tsm_free_invoke_id (claim_slot cfg s s.Current_Invoke_ID) s.Current_Invoke_ID,
      by simp [after_alloc_free, hs, heq], ?_, ?_, ?_⟩
    · rw [tsm_free_invoke_id_of_lt _ _ hf, length_setSlot, hlen']
    · intro j
      rw [tsm_free_invoke_id_of_lt _ _ hf]
      by_cases hj : j = tsm_find_invokeID_index (claim_slot cfg s s.Current_Invoke_ID)
          s.Current_Invoke_ID
      · rw [hj, slot_setSlot_self _ _ _ hf]
      · rw [slot_setSlot_ne _ _ _ _ hj]
        rw [hfi] at hj
        rw [claim_slot_ne cfg s _ j hj]; exact hall j
    · rw [tsm_free_invoke_id_of_lt _ _ hf]
      show invokeID_increment s.Current_Invoke_ID = _
      rw [invokeID_increment_eq (by omega) (by omega), hcur]
      omega

/-- When no slot holds the cursor value and a slot is free, the allocator
returns the cursor value at once. -/
theorem next_free_of_unheld (cfg : Config) (s : TSM) (hlen : s.TSM_List.length ≤ 255)
    (hcur : s.Current_Invoke_ID < 256) (h0 : held s 0) (hnot : ¬ held s s.Current_Invoke_ID) :
    tsm_next_free_invokeID cfg s =
      some (s.Current_Invoke_ID, claim_slot cfg s s.Current_Invoke_ID) := by
  obtain ⟨k, _, hmin, _, heq⟩ := next_free_spec cfg s hlen hcur h0
  have hk : k = 0 := by
    by_contra hk
    exact hnot (by simpa using hmin 0 (by omega))
  subst hk
  simpa using heq

/-- C6: invoke-id order. Starting from a freshly initialised table (`m` slots, all
free, cursor 1), when each allocated id is freed with `tsm_free_invoke_id` before
the next allocation, the call after `n` such rounds (the `n+1`-th call) returns
`(n mod 255) + 1`, so the ids are 1,2,…,255,1,2,… and never 0. In general, with a
free slot and the cursor in 1..255, the returned id is the first id in the cyclic
order cursor, cursor+1, …, 255, 1, … that no slot holds, and the cursor becomes
the cyclic successor of the returned id. -/
theorem tsm_next_free_invokeID_order (cfg : Config) (m p n : Nat) (hm : 1 ≤ m)
    (hm' : m ≤ 255) (s : TSM) (hlen : s.TSM_List.length ≤ 255)
    (hc1 : 1 ≤ s.Current_Invoke_ID) (hc2 : s.Current_Invoke_ID ≤ 255)
    (hfree : ∃ d ∈ s.TSM_List, d.InvokeID = 0) :
    (∃ t t', after_alloc_free cfg (TSM.init m p) n = some t ∧
      tsm_next_free_invokeID cfg t = some (n % 255 + 1, t') ∧ n % 255 + 1 ≠ 0) ∧
    (∃ k s', k < 255 ∧
      tsm_next_free_invokeID cfg s = some (cyclic_succ^[k] s.Current_Invoke_ID, s') ∧
      (∀ j, j < k → ∃ d ∈ s.TSM_List, d.InvokeID = cyclic_succ^[j] s.Current_Invoke_ID) ∧
      (∀ d ∈ s.TSM_List, d.InvokeID ≠ cyclic_succ^[k] s.Current_Invoke_ID) ∧
      cyclic_succ^[k] s.Current_Invoke_ID ≠ 0 ∧
      s'.Current_Invoke_ID = cyclic_succ (cyclic_succ^[k] s.Current_Invoke_ID)) := by
  constructor
  · obtain ⟨t, ht, hlen_t, hall, hcur⟩ := after_alloc_free_spec cfg m p hm hm' n
    have h0 : held t 0 := (held_iff_slot t 0).mpr ⟨0, by omega, hall 0⟩
    have hnot : ¬ held t t.Current_Invoke_ID := by
      rw [held_iff_slot]
      rintro ⟨j, _, hj⟩
      rw [hall j] at hj; omega
    have := next_free_of_unheld cfg t (by omega) (by omega) h0 hnot
    rw [hcur] at this
    exact ⟨t, _, ht, this, by omega⟩
  · have h0 : held s 0 := hfree
    obtain ⟨k, hk256, hmin, hk, heq⟩ := next_free_spec cfg s hlen (by omega) h0
    have hit : ∀ j, invokeID_increment^[j] s.Current_Invoke_ID =
        cyclic_succ^[j] s.Current_Invoke_ID := fun j => by
      rw [invokeID_increment_iterate hc1 hc2, cyclic_succ_iterate hc1 hc2]
    have hk255 : k < 255 := by
      by_contra hge
      have hk' : k = 255 := by omega
      have h1 := hmin 0 (by omega)
      rw [hk', invokeID_increment_iterate hc1 hc2] at hk
      have e : (s.Current_Invoke_ID - 1 + 255) % 255 + 1 = s.Current_Invoke_ID := by omega
      rw [e] at hk
      exact hk (by simpa using h1)
    refine ⟨k, _, hk255, by rw [← hit]; exact heq, ?_, ?_, ?_, ?_⟩
    · intro j hj
      rw [← hit]; exact hmin j hj
    · intro d hd hdc
      rw [← hit] at hdc
      exact hk ⟨d, hd, hdc⟩
    · rw [cyclic_succ_iterate hc1 hc2]; omega
    · show invokeID_increment _ = _
      rw [hit, cyclic_succ_iterate hc1 hc2, invokeID_increment_eq (by omega) (by omega)]
      unfold cyclic_succ
      split <;> omega

theorem tsm_next_free_invokeID_order_witness :
    (1 ≤ 2 ∧ 2 ≤ 255 ∧ (TSM.init 2 1).TSM_List.length ≤ 255 ∧
      1 ≤ (TSM.init 2 1).Current_Invoke_ID ∧ (TSM.init 2 1).Current_Invoke_ID ≤ 255 ∧
      ∃ d ∈ (TSM.init 2 1).TSM_List, d.InvokeID = 0) ∧
    (∃ t t', after_alloc_free Config.sample (TSM.init 2 1) 300 = some t ∧
      tsm_next_free_invokeID Config.sample t = some (300 % 255 + 1, t') ∧ 300 % 255 + 1 ≠ 0) ∧
    (∃ k s', k < 255 ∧
      tsm_next_free_invokeID Config.sample (TSM.init 2 1) =
        some (cyclic_succ^[k] (TSM.init 2 1).Current_Invoke_ID, s') ∧
      (∀ j, j < k → ∃ d ∈ (TSM.init 2 1).TSM_List,
        d.InvokeID = cyclic_succ^[j] (TSM.init 2 1).Current_Invoke_ID) ∧
      (∀ d ∈ (TSM.init 2 1).TSM_List,
        d.InvokeID ≠ cyclic_succ^[k] (TSM.init 2 1).Current_Invoke_ID) ∧
      cyclic_succ^[k] (TSM.init 2 1).Current_Invoke_ID ≠ 0 ∧
      s'.Current_Invoke_ID = cyclic_succ (cyclic_succ^[k] (TSM.init 2 1).Current_Invoke_ID)) :=
  ⟨by decide,
    tsm_next_free_invokeID_order Config.sample 2 1 300 (by decide) (by decide) (TSM.init 2 1)
      (by decide) (by decide) (by decide) (by decide)⟩

/-! ## Segment sizing -/

theorem u32sub_of_le {a b : Nat} (h : b ≤ a) (ha : a < 4294967296) : u32sub a b = a - b := by
  unfold u32sub u32i
  have h1 : ((a : Int) - (b : Int)) = ((a - b : Nat) : Int) := by omega
  rw [h1]
  have h2 : (((a - b : Nat) : Int) % 4294967296) = ((a - b : Nat) : Int) :=
    Int.emod_eq_of_lt (by omega) (by omega)
  rw [h2]
  simp

theorem header_size_le (header : BACNET_APDU_FIXED_HEADER) :
    get_apdu_header_typical_size header false ≤ get_apdu_header_typical_size header true := by
  unfold get_apdu_header_typical_size
  cases header.pdu_type <;> simp

/-- Past the unsegmented limit the segment count is `(apdu_len - 1) / B + 1`. -/
theorem get_apdu_max_segments_segmented (data : BACNET_TSM_DATA)
    (hmax : get_apdu_header_typical_size data.apdu_fixed_header true < data.apdu_maximum_length)
    (hmax32 : data.apdu_maximum_length < 4294967296)
    (hsum : get_apdu_header_typical_size data.apdu_fixed_header false + data.apdu_len <
      4294967296)
    (h : ¬ (get_apdu_header_typical_size data.apdu_fixed_header false + data.apdu_len ≤
        data.apdu_maximum_length)) :
    get_apdu_max_segments data =
      (data.apdu_len - 1) / (data.apdu_maximum_length -
          get_apdu_header_typical_size data.apdu_fixed_header true) + 1 := by
  have hle := header_size_le data.apdu_fixed_header
  unfold get_apdu_max_segments
  simp only [u32_of_lt hsum, h, if_false]
  rw [u32sub_of_le (by omega) (by omega), u32sub_of_le (by omega) hmax32]
  apply u32_of_lt
  have := Nat.div_le_self (data.apdu_len - 1) (data.apdu_maximum_length -
    get_apdu_header_typical_size data.apdu_fixed_header true)
  omega

theorem get_apdu_max_segments_unsegmented (data : BACNET_TSM_DATA)
    (hsum : get_apdu_header_typical_size data.apdu_fixed_header false + data.apdu_len <
      4294967296)
    (h : get_apdu_header_typical_size data.apdu_fixed_header false + data.apdu_len ≤
        data.apdu_maximum_length) :
    get_apdu_max_segments data = 1 := by
  unfold get_apdu_max_segments
  simp only [u32_of_lt hsum, h, if_true]

/-- C3 as stated fails where the 32 bit sum wraps: for a complex-ack of
4294967295 bytes and a 100 byte limit, `get_apdu_max_segments` returns 1 although
3 + 4294967295 exceeds 100. -/
theorem get_apdu_max_segments_wraps :
    get_apdu_max_segments huge_ack_slot = 1 ∧
      ¬ (get_apdu_header_typical_size huge_ack_slot.apdu_fixed_header false +
          huge_ack_slot.apdu_len ≤ huge_ack_slot.apdu_maximum_length) := by
  decide

/-- C3 (amended): for a complex-ack the header sizes are 3 (unsegmented) and 5
(segmented), for a confirmed-request 4 and 6; for every `apdu_len` whose sum with
the unsegmented header size does not wrap (is below 2^32) and every 32 bit
`apdu_maximum_length` greater than the segmented header size,
`get_apdu_max_segments` returns 1 if and only if
`unsegmented_header_size + apdu_len ≤ apdu_maximum_length`, and otherwise returns
`⌈apdu_len / (apdu_maximum_length − segmented_header_size)⌉`. -/
theorem get_apdu_max_segments_spec (data : BACNET_TSM_DATA)
    (hty : data.apdu_fixed_header.pdu_type = PDU_TYPE_COMPLEX_ACK ∨
      data.apdu_fixed_header.pdu_type = PDU_TYPE_CONFIRMED_SERVICE_REQUEST)
    (hmax : get_apdu_header_typical_size data.apdu_fixed_header true < data.apdu_maximum_length)
    (hmax32 : data.apdu_maximum_length < 4294967296)
    (hsum : get_apdu_header_typical_size data.apdu_fixed_header false + data.apdu_len <
      4294967296) :
    (get_apdu_header_typical_size data.apdu_fixed_header false =
      if data.apdu_fixed_header.pdu_type = PDU_TYPE_COMPLEX_ACK then 3 else 4) ∧
    (get_apdu_header_typical_size data.apdu_fixed_header true =
      if data.apdu_fixed_header.pdu_type = PDU_TYPE_COMPLEX_ACK then 5 else 6) ∧
    (get_apdu_max_segments data = 1 ↔
      get_apdu_header_typical_size data.apdu_fixed_header false + data.apdu_len ≤
        data.apdu_maximum_length) ∧
    (¬ (get_apdu_header_typical_size data.apdu_fixed_header false + data.apdu_len ≤
        data.apdu_maximum_length) →
      get_apdu_max_segments data =
        (data.apdu_len +
            (data.apdu_maximum_length -
              get_apdu_header_typical_size data.apdu_fixed_header true) - 1) /
          (data.apdu_maximum_length -
            get_apdu_header_typical_size data.apdu_fixed_header true)) := by
  have hU : get_apdu_header_typical_size data.apdu_fixed_header false =
      if data.apdu_fixed_header.pdu_type = PDU_TYPE_COMPLEX_ACK then 3 else 4 := by
    rcases hty with h | h <;> simp [get_apdu_header_typical_size, h]
  have hS : get_apdu_header_typical_size data.apdu_fixed_header true =
      if data.apdu_fixed_header.pdu_type = PDU_TYPE_COMPLEX_ACK then 5 else 6 := by
    rcases hty with h | h <;> simp [get_apdu_header_typical_size, h]
  have hUS : get_apdu_header_typical_size data.apdu_fixed_header true =
      get_apdu_header_typical_size data.apdu_fixed_header false + 2 := by
    rw [hU, hS]; split <;> rfl
  have hUpos : 3 ≤ get_apdu_header_typical_size data.apdu_fixed_header false := by
    rw [hU]; split <;> omega
  have hseg := get_apdu_max_segments_segmented data hmax hmax32 hsum
  refine ⟨hU, hS, ?_, ?_⟩
  · constructor
    · intro h1
      by_contra hcon
      rw [hseg hcon] at h1
      have hB : 0 < data.apdu_maximum_length -
          get_apdu_header_typical_size data.apdu_fixed_header true := by omega
      have hq : (data.apdu_len - 1) / (data.apdu_maximum_length -
          get_apdu_header_typical_size data.apdu_fixed_header true) = 0 := by omega
      rw [Nat.div_eq_zero_iff hB] at hq
      omega
    · exact get_apdu_max_segments_unsegmented data hsum
  · intro h
    rw [hseg h]
    have hB : 0 < data.apdu_maximum_length -
        get_apdu_header_typical_size data.apdu_fixed_header true := by omega
    have e : data.apdu_len + (data.apdu_maximum_length -
        get_apdu_header_typical_size data.apdu_fixed_header true) - 1 =
        (data.apdu_len - 1) + (data.apdu_maximum_length -
        get_apdu_header_typical_size data.apdu_fixed_header true) := by omega
    rw [e, Nat.add_div_right _ hB]

theorem get_apdu_max_segments_spec_witness :
    ((sample_ack_slot.apdu_fixed_header.pdu_type = PDU_TYPE_COMPLEX_ACK ∨
      sample_ack_slot.apdu_fixed_header.pdu_type = PDU_TYPE_CONFIRMED_SERVICE_REQUEST) ∧
    get_apdu_header_typical_size sample_ack_slot.apdu_fixed_header true <
      sample_ack_slot.apdu_maximum_length ∧
    sample_ack_slot.apdu_maximum_length < 4294967296 ∧
    get_apdu_header_typical_size sample_ack_slot.apdu_fixed_header false +
      sample_ack_slot.apdu_len < 4294967296) ∧
    (get_apdu_header_typical_size sample_ack_slot.apdu_fixed_header false =
      if sample_ack_slot.apdu_fixed_header.pdu_type = PDU_TYPE_COMPLEX_ACK then 3 else 4) ∧
    (get_apdu_header_typical_size sample_ack_slot.apdu_fixed_header true =
      if sample_ack_slot.apdu_fixed_header.pdu_type = PDU_TYPE_COMPLEX_ACK then 5 else 6) ∧
    (get_apdu_max_segments sample_ack_slot = 1 ↔
      get_apdu_header_typical_size sample_ack_slot.apdu_fixed_header false +
        sample_ack_slot.apdu_len ≤ sample_ack_slot.apdu_maximum_length) ∧
    (¬ (get_apdu_header_typical_size sample_ack_slot.apdu_fixed_header false +
        sample_ack_slot.apdu_len ≤ sample_ack_slot.apdu_maximum_length) →
      get_apdu_max_segments sample_ack_slot =
        (sample_ack_slot.apdu_len +
            (sample_ack_slot.apdu_maximum_length -
              get_apdu_header_typical_size sample_ack_slot.apdu_fixed_header true) - 1) /
          (sample_ack_slot.apdu_maximum_length -
            get_apdu_header_typical_size sample_ack_slot.apdu_fixed_header true)) :=
  ⟨by decide,
    get_apdu_max_segments_spec sample_ack_slot (by decide) (by decide) (by decide)
      (by decide)⟩

theorem i32_of_lt {n : Int} (h0 : 0 ≤ n) (h1 : n < 2147483648) : i32 n = n := by
  unfold i32
  omega

/-- Cutting a list into consecutive blocks of `B` elements and joining the first
`n` blocks gives its first `n * B` elements. -/
theorem flatMap_blocks (l : List Nat) (B n : Nat) :
    (List.range n).flatMap (fun k => (l.drop (k * B)).take B) = l.take (n * B) := by
  induction n with
  | zero => simp
  | succ n ih =>
    rw [List.range_succ, List.flatMap_append, ih, Nat.succ_mul, List.take_add]
    simp

/-- C2 as stated fails for a slot whose header does not have `segmented_message`
set: the 12 byte complex-ack for a 10 byte peer needs 3 segments of B = 5 bytes,
but segment 0 is cut with the unsegmented header size and has 7 bytes. -/
theorem get_apdu_blob_data_segment_unsegmented_flag :
    get_apdu_max_segments sample_ack_slot = 3 ∧
    sample_ack_slot.apdu_maximum_length -
      get_apdu_header_typical_size sample_ack_slot.apdu_fixed_header true = 5 ∧
    get_apdu_blob_data_segment sample_ack_slot 0 = (some [10, 11, 12, 13, 14, 15, 16], 7) ∧
    get_apdu_blob_data_segment sample_ack_slot 0 ≠ (some [10, 11, 12, 13, 14], 5) := by
  decide

theorem u32i_clamp (len p B : Nat) (hp : p < len) (hl : len < 2147483648) :
    u32i (max 0 (min ((len : Int) - (p : Int)) (B : Int))) = min (p + B) len - p := by
  unfold u32i
  have h : max 0 (min ((len : Int) - (p : Int)) (B : Int)) =
      ((min (p + B) len - p : Nat) : Int) := by omega
  rw [h, Int.emod_eq_of_lt (Int.ofNat_nonneg _) (by omega)]
  exact Int.toNat_ofNat _

theorem take_min_length (l : List Nat) (n : Nat) : l.take (min n l.length) = l.take n := by
  rcases Nat.le_total n l.length with h | h
  · rw [Nat.min_eq_left h]
  · rw [Nat.min_eq_right h, List.take_of_length_le h, List.take_of_length_le (Nat.le_refl _)]

/-- C2 (amended): for every slot whose header has `segmented_message` set (as
`tsm_pdu_send` sets it before it cuts a segment), holding an APDU of `apdu_len`
bytes that needs `N = get_apdu_max_segments(slot) > 1` segments, with
`B = apdu_maximum_length − segmented_header_size > 0` and both lengths below
2^31, `get_apdu_blob_data_segment(slot, k)` for `k = 0 … N−1` yields exactly the
bytes `[k·B, min(k·B + B, apdu_len))` of the APDU, every segment is non-empty,
and the concatenation of the `N` segment payloads equals the original APDU. -/
theorem get_apdu_blob_data_segment_spec (data : BACNET_TSM_DATA) (bytes : List Nat)
    (hty : data.apdu_fixed_header.pdu_type = PDU_TYPE_COMPLEX_ACK ∨
      data.apdu_fixed_header.pdu_type = PDU_TYPE_CONFIRMED_SERVICE_REQUEST)
    (hflag : data.apdu_fixed_header.segmented_message = true)
    (hapdu : data.apdu = some bytes) (hlen : bytes.length = data.apdu_len)
    (hB : get_apdu_header_typical_size data.apdu_fixed_header true < data.apdu_maximum_length)
    (hmax : data.apdu_maximum_length < 2147483648) (hl : data.apdu_len < 2147483648)
    (hN : 1 < get_apdu_max_segments data) :
    (∀ k, k < get_apdu_max_segments data →
      get_apdu_blob_data_segment data (k : Int) =
        (some ((bytes.drop (k * (data.apdu_maximum_length -
            get_apdu_header_typical_size data.apdu_fixed_header true))).take
          (min (k * (data.apdu_maximum_length -
              get_apdu_header_typical_size data.apdu_fixed_header true) +
              (data.apdu_maximum_length -
                get_apdu_header_typical_size data.apdu_fixed_header true)) data.apdu_len -
            k * (data.apdu_maximum_length -
              get_apdu_header_typical_size data.apdu_fixed_header true))),
          min (k * (data.apdu_maximum_length -
              get_apdu_header_typical_size data.apdu_fixed_header true) +
              (data.apdu_maximum_length -
                get_apdu_header_typical_size data.apdu_fixed_header true)) data.apdu_len -
            k * (data.apdu_maximum_length -
              get_apdu_header_typical_size data.apdu_fixed_header true)) ∧
      0 < min (k * (data.apdu_maximum_length -
              get_apdu_header_typical_size data.apdu_fixed_header true) +
              (data.apdu_maximum_length -
                get_apdu_header_typical_size data.apdu_fixed_header true)) data.apdu_len -
            k * (data.apdu_maximum_length -
              get_apdu_header_typical_size data.apdu_fixed_header true)) ∧
    (List.range (get_apdu_max_segments data)).flatMap
      (fun k => (get_apdu_blob_data_segment data (k : Int)).1.getD []) = bytes := by
  have hU : get_apdu_header_typical_size data.apdu_fixed_header false ≤ 4 := by
    rcases hty with h | h <;> simp [get_apdu_header_typical_size, h]
  have hsum : get_apdu_header_typical_size data.apdu_fixed_header false + data.apdu_len <
      4294967296 := by omega
  have hnot : ¬ (get_apdu_header_typical_size data.apdu_fixed_header false + data.apdu_len ≤
      data.apdu_maximum_length) := by
    intro h
    rw [get_apdu_max_segments_unsegmented data hsum h] at hN
    omega
  have hNeq := get_apdu_max_segments_segmented data hB (by omega) hsum hnot
  generalize hS : get_apdu_header_typical_size data.apdu_fixed_header true = S at *
  generalize hBdef : data.apdu_maximum_length - S = B at *
  have hBpos : 0 < B := by omega
  have hpos : ∀ k, k < get_apdu_max_segments data → k * B < data.apdu_len := by
    intro k hk
    rw [hNeq] at hk
    have h1 : k * B ≤ (data.apdu_len - 1) / B * B := Nat.mul_le_mul_right B (by omega)
    have h2 := Nat.div_mul_le_self (data.apdu_len - 1) B
    have h3 : 1 ≤ data.apdu_len := by
      by_contra h0
      have : data.apdu_len = 0 := by omega
      rw [this] at hNeq
      simp at hNeq
      omega
    omega
  have hseg : ∀ k, k < get_apdu_max_segments data →
      get_apdu_blob_data_segment data (k : Int) =
        (some ((bytes.drop (k * B)).take (min (k * B + B) data.apdu_len - k * B)),
          min (k * B + B) data.apdu_len - k * B) := by
    intro k hk
    have hkp := hpos k hk
    have hkB : ((k : Int) * (B : Int)) = ((k * B : Nat) : Int) := by push_cast; ring
    unfold get_apdu_blob_data_segment
    simp only [hflag, hS, hapdu, Option.map_some']
    have e1 : i32 ((data.apdu_maximum_length : Int) - (S : Int)) = (B : Int) := by
      rw [i32_of_lt (by omega) (by omega)]; omega
    have e2 : i32 (data.apdu_len : Int) = (data.apdu_len : Int) :=
      i32_of_lt (by omega) (by omega)
    rw [e1, e2, hkB]
    have e3 := u32i_clamp data.apdu_len (k * B) B hkp hl
    have e4 : (((k * B : Nat) : Int)).toNat = k * B := Int.toNat_ofNat _
    rw [e3, e4]
  refine ⟨fun k hk => ⟨hseg k hk, ?_⟩, ?_⟩
  · have := hpos k hk
    omega
  · have hcongr : ∀ k ∈ List.range (get_apdu_max_segments data),
        (get_apdu_blob_data_segment data (k : Int)).1.getD [] = (bytes.drop (k * B)).take B := by
      intro k hk
      rw [hseg k (List.mem_range.mp hk)]
      simp only [Option.getD_some]
      have hkp := hpos k (List.mem_range.mp hk)
      have e : min (k * B + B) data.apdu_len - k * B = min B (bytes.drop (k * B)).length := by
        rw [List.length_drop, hlen]; omega
      rw [e, take_min_length]
    rw [List.flatMap_congr hcongr, flatMap_blocks, List.take_of_length_le]
    rw [hlen, hNeq]
    have := Nat.lt_div_mul_add hBpos (a := data.apdu_len - 1)
    have e : ((data.apdu_len - 1) / B + 1) * B = (data.apdu_len - 1) / B * B + B := by ring
    omega

theorem get_apdu_blob_data_segment_spec_witness :
    ((sample_ack_slot_segmented.apdu_fixed_header.pdu_type = PDU_TYPE_COMPLEX_ACK ∨
      sample_ack_slot_segmented.apdu_fixed_header.pdu_type = PDU_TYPE_CONFIRMED_SERVICE_REQUEST) ∧
    (sample_ack_slot_segmented.apdu_fixed_header.segmented_message = true) ∧
    (sample_ack_slot_segmented.apdu = some [10, 11, 12, 13, 14, 15, 16, 17, 18, 19, 20, 21]) ∧
    ([10, 11, 12, 13, 14, 15, 16, 17, 18, 19, 20, 21].length = sample_ack_slot_segmented.apdu_len) ∧
    (get_apdu_header_typical_size sample_ack_slot_segmented.apdu_fixed_header true < sample_ack_slot_segmented.apdu_maximum_length) ∧
    (sample_ack_slot_segmented.apdu_maximum_length < 2147483648) ∧
    (sample_ack_slot_segmented.apdu_len < 2147483648) ∧
    (1 < get_apdu_max_segments sample_ack_slot_segmented)) ∧
    ((∀ k, k < get_apdu_max_segments sample_ack_slot_segmented →
      get_apdu_blob_data_segment sample_ack_slot_segmented (k : Int) =
        (some (([10, 11, 12, 13, 14, 15, 16, 17, 18, 19, 20, 21].drop (k * (sample_ack_slot_segmented.apdu_maximum_length -
            get_apdu_header_typical_size sample_ack_slot_segmented.apdu_fixed_header true))).take
          (min (k * (sample_ack_slot_segmented.apdu_maximum_length -
              get_apdu_header_typical_size sample_ack_slot_segmented.apdu_fixed_header true) +
              (sample_ack_slot_segmented.apdu_maximum_length -
                get_apdu_header_typical_size sample_ack_slot_segmented.apdu_fixed_header true)) sample_ack_slot_segmented.apdu_len -
            k * (sample_ack_slot_segmented.apdu_maximum_length -
              get_apdu_header_typical_size sample_ack_slot_segmented.apdu_fixed_header true))),
          min (k * (sample_ack_slot_segmented.apdu_maximum_length -
              get_apdu_header_typical_size sample_ack_slot_segmented.apdu_fixed_header true) +
              (sample_ack_slot_segmented.apdu_maximum_length -
                get_apdu_header_typical_size sample_ack_slot_segmented.apdu_fixed_header true)) sample_ack_slot_segmented.apdu_len -
            k * (sample_ack_slot_segmented.apdu_maximum_length -
              get_apdu_header_typical_size sample_ack_slot_segmented.apdu_fixed_header true)) ∧
      0 < min (k * (sample_ack_slot_segmented.apdu_maximum_length -
              get_apdu_header_typical_size sample_ack_slot_segmented.apdu_fixed_header true) +
              (sample_ack_slot_segmented.apdu_maximum_length -
                get_apdu_header_typical_size sample_ack_slot_segmented.apdu_fixed_header true)) sample_ack_slot_segmented.apdu_len -
            k * (sample_ack_slot_segmented.apdu_maximum_length -
              get_apdu_header_typical_size sample_ack_slot_segmented.apdu_fixed_header true)) ∧
    (List.range (get_apdu_max_segments sample_ack_slot_segmented)).flatMap
      (fun k => (get_apdu_blob_data_segment sample_ack_slot_segmented (k : Int)).1.getD []) = [10, 11, 12, 13, 14, 15, 16, 17, 18, 19, 20, 21]) :=
  ⟨by decide,
    get_apdu_blob_data_segment_spec sample_ack_slot_segmented
      [10, 11, 12, 13, 14, 15, 16, 17, 18, 19, 20, 21]
      (by decide) (by decide) (by decide) (by decide) (by decide) (by decide) (by decide)
      (by decide)⟩

/-! ## Timers -/

theorem slot_emit (s : TSM) (e : Event) (i : Nat) : (s.emit e).slot i = s.slot i := rfl

theorem length_emit (s : TSM) (e : Event) :
    (s.emit e).TSM_List.length = s.TSM_List.length := rfl

/-- The loop body of `tsm_timer_milliseconds` on a slot in AwaitConfirmation. -/
theorem timer_slot_await (cfg : Config) (ms : Nat) (s : TSM) (i : Nat)
    (hi : i < s.TSM_List.length)
    (hst : (s.slot i).state = TSM_STATE_AWAIT_CONFIRMATION) :
    tsm_timer_slot cfg ms s i =
      if (s.slot i).RequestTimer > ms then
        s.setSlot i { s.slot i with RequestTimer := (s.slot i).RequestTimer - ms }
      else if (s.slot i).RetryCount < cfg.apdu_retries then
        (s.setSlot i { s.slot i with
          RequestTimer := cfg.apdu_timeout
          RetryCount := u8 ((s.slot i).RetryCount + 1) }).emit
          (Event.pdu i (s.slot i).dest (((s.slot i).apdu.getD []).take (s.slot i).apdu_len))
      else if (s.slot i).InvokeID ≠ 0 ∧ s.Timeout_Function = true then
        (s.setSlot i { s.slot i with RequestTimer := 0, state := TSM_STATE_IDLE }).emit
          (Event.timeout (s.slot i).InvokeID)
      else s.setSlot i { s.slot i with RequestTimer := 0, state := TSM_STATE_IDLE } := by
  unfold tsm_timer_slot
  have h1 : tsm_timer_await_confirmation cfg ms s i =
      if (s.slot i).RequestTimer > ms then
        s.setSlot i { s.slot i with RequestTimer := (s.slot i).RequestTimer - ms }
      else if (s.slot i).RetryCount < cfg.apdu_retries then
        (s.setSlot i { s.slot i with
          RequestTimer := cfg.apdu_timeout
          RetryCount := u8 ((s.slot i).RetryCount + 1) }).emit
          (Event.pdu i (s.slot i).dest (((s.slot i).apdu.getD []).take (s.slot i).apdu_len))
      else if (s.slot i).InvokeID ≠ 0 ∧ s.Timeout_Function = true then
        (s.setSlot i { s.slot i with RequestTimer := 0, state := TSM_STATE_IDLE }).emit
          (Event.timeout (s.slot i).InvokeID)
      else s.setSlot i { s.slot i with RequestTimer := 0, state := TSM_STATE_IDLE } := by
    unfold tsm_timer_await_confirmation
    rw [if_pos hst]
    by_cases hgt : (s.slot i).RequestTimer > ms
    · have hne : (s.slot i).RequestTimer - ms ≠ 0 := by omega
      simp only [hgt, if_true, hne, if_false]
    · simp only [hgt, if_false, if_true]
      by_cases hr : (s.slot i).RetryCount < cfg.apdu_retries
      · simp only [hr, if_true]
      · simp only [hr, if_false]
        rfl
  rw [h1]
  have hstate : ∀ t : TSM, (t.slot i).state ≠ TSM_STATE_SEGMENTED_RESPONSE_SERVER →
      (t.slot i).state ≠ TSM_STATE_SEGMENTED_REQUEST_SERVER →
      tsm_timer_segmented_request ms (tsm_timer_segmented_response cfg ms t i) i = t := by
    intro t h2 h3
    have e1 : tsm_timer_segmented_response cfg ms t i = t := by
      unfold tsm_timer_segmented_response; rw [if_neg h2]
    rw [e1]
    unfold tsm_timer_segmented_request; rw [if_neg h3]
  apply hstate
  all_goals
    split_ifs <;>
      simp [slot_emit, slot_setSlot_self _ _ _ hi, hst]

theorem OtherStep.refl (i id : Nat) (s : TSM) : OtherStep i id s s :=
  ⟨rfl, rfl, rfl, rfl, fun _ _ h => h⟩

theorem OtherStep.trans {i id : Nat} {s s' s'' : TSM} (h1 : OtherStep i id s s')
    (h2 : OtherStep i id s' s'') : OtherStep i id s s'' :=
  ⟨h2.1.trans h1.1, h2.2.1.trans h1.2.1, h2.2.2.1.trans h1.2.2.1,
    h2.2.2.2.1.trans h1.2.2.2.1, fun k hk h => h2.2.2.2.2 k hk (h1.2.2.2.2 k hk h)⟩

theorem slot_setSlot (s : TSM) (j k : Nat) (d : BACNET_TSM_DATA) :
    (s.setSlot j d).slot k = if k = j ∧ j < s.TSM_List.length then d else s.slot k := by
  by_cases hk : k = j
  · subst hk
    by_cases hl : k < s.TSM_List.length
    · simp [hl, slot_setSlot_self s k d hl]
    · have hn : s.TSM_List[k]? = none := List.getElem?_eq_none (by omega)
      simp [hl, hn, TSM.setSlot, TSM.slot, List.getD_eq_getElem?_getD, List.getElem?_set]
  · simp [hk, slot_setSlot_ne s j k d hk]

theorem otherStep_setSlot (i id j : Nat) (s : TSM) (d : BACNET_TSM_DATA) (hj : j ≠ i)
    (hd : (s.slot j).InvokeID ≠ id → d.InvokeID ≠ id) : OtherStep i id s (s.setSlot j d) := by
  refine ⟨length_setSlot s j d, rfl, slot_setSlot_ne s j i d (Ne.symm hj), rfl, ?_⟩
  intro k _ hk
  rw [slot_setSlot]
  split
  · rename_i h; rw [h.1] at hk; exact hd hk
  · exact hk

theorem otherStep_emit (i id : Nat) (s : TSM) (e : Event) (he : Event.ofSlot i id e = false) :
    OtherStep i id s (s.emit e) := by
  refine ⟨rfl, rfl, rfl, ?_, fun _ _ h => h⟩
  simp [TSM.emit, List.filter_append, he]

theorem otherStep_onSlot (i id j : Nat) (s : TSM) (r : BACNET_TSM_DATA × List Event)
    (hj : j ≠ i) (hd : (s.slot j).InvokeID ≠ id → r.1.InvokeID ≠ id)
    (hev : ∀ e ∈ r.2, Event.ofSlot i id e = false) : OtherStep i id s (s.onSlot j r) := by
  have h := otherStep_setSlot i id j s r.1 hj hd
  refine ⟨h.1, h.2.1, h.2.2.1, ?_, h.2.2.2.2⟩
  show List.filter _ (s.sent ++ r.2) = _
  rw [List.filter_append]
  have : List.filter (Event.ofSlot i id) r.2 = [] := by
    rw [List.filter_eq_nil_iff]
    intro e he; simp [hev e he]
  rw [this, List.append_nil]

theorem otherStep_clear_peer (i id c : Nat) (s : TSM) :
    OtherStep i id s (tsm_clear_peer_id s c) :=
  ⟨rfl, rfl, rfl, rfl, fun _ _ h => h⟩

theorem tsm_pdu_send_events (cfg : Config) (index : Nat) (d : BACNET_TSM_DATA) (n : Nat) :
    ∀ e ∈ (tsm_pdu_send cfg index d n).2.1, ∃ dst h p, e = Event.segment index dst h p := by
  intro e he
  unfold tsm_pdu_send at he
  simp only at he
  split_ifs at he <;> try simp at he
  all_goals
    split at he
    · simp at he
    · split_ifs at he
      · simp at he
      · simp at he
        exact ⟨_, _, _, he⟩

theorem tsm_pdu_send_InvokeID (cfg : Config) (index : Nat) (d : BACNET_TSM_DATA) (n : Nat) :
    (tsm_pdu_send cfg index d n).1.InvokeID = d.InvokeID ∧
    (tsm_pdu_send cfg index d n).1.ActualWindowSize = d.ActualWindowSize := by
  unfold tsm_pdu_send
  simp only
  split_ifs <;> try exact ⟨rfl, rfl⟩
  all_goals
    split
    · exact ⟨rfl, rfl⟩
    · split_ifs <;> exact ⟨rfl, rfl⟩

theorem FillWindow_loop_spec (cfg : Config) (index total seq : Nat) (fuel : Nat) :
    ∀ (ix : Nat) (d : BACNET_TSM_DATA) (sent : List Event),
      (∀ e ∈ sent, ∃ dst h p, e = Event.segment index dst h p) →
      (∀ e ∈ (FillWindow_loop cfg index total seq fuel ix d sent).2.2,
        ∃ dst h p, e = Event.segment index dst h p) ∧
      (FillWindow_loop cfg index total seq fuel ix d sent).2.1.InvokeID = d.InvokeID := by
  induction fuel with
  | zero => intro ix d sent hs; exact ⟨hs, rfl⟩
  | succ fuel ih =>
    intro ix d sent hs
    unfold FillWindow_loop
    split_ifs
    · have h := ih (ix + 1) (tsm_pdu_send cfg index d (u32 (seq + ix))).1
        (sent ++ (tsm_pdu_send cfg index d (u32 (seq + ix))).2.1) (by
          intro e he
          rcases List.mem_append.mp he with h | h
          · exact hs e h
          · exact tsm_pdu_send_events cfg index d _ e h)
      exact ⟨h.1, h.2.trans (tsm_pdu_send_InvokeID cfg index d _).1⟩
    · exact ⟨hs, rfl⟩

theorem FillWindow_spec (cfg : Config) (index : Nat) (d : BACNET_TSM_DATA) (seq : Nat) :
    (∀ e ∈ (FillWindow cfg index d seq).2, ∃ dst h p, e = Event.segment index dst h p) ∧
    (FillWindow cfg index d seq).1.InvokeID = d.InvokeID := by
  have h := FillWindow_loop_spec cfg index (get_apdu_max_segments d) seq d.ActualWindowSize 0 d []
    (by simp)
  unfold FillWindow
  simp only
  split_ifs
  · exact ⟨h.1, h.2⟩
  · exact ⟨h.1, h.2⟩

/-! ## ReadPropertyMultiple -/

/-- C14: special-property expansion. For property lists whose `count` is the
length of `pList`, `RPM_Object_Property_Count(list, p)` is
|required| + |optional| + |proprietary| for ALL, |required| for REQUIRED and
|optional| for OPTIONAL; for every index `i` below that count
`RPM_Object_Property(list, p, i)` is the `i`-th element of
required ++ optional ++ proprietary (ALL), of required (REQUIRED) or of optional
(OPTIONAL), and for every `i` at or past the count it returns −1. -/
theorem RPM_Object_Property_expansion (l : special_property_list_t)
    (hR : l.Required.pList.length = l.Required.count)
    (hO : l.Optional.pList.length = l.Optional.count)
    (hP : l.Proprietary.pList.length = l.Proprietary.count) :
    RPM_Object_Property_Count l PROP_ALL =
      l.Required.pList.length + l.Optional.pList.length + l.Proprietary.pList.length ∧
    RPM_Object_Property_Count l PROP_REQUIRED = l.Required.pList.length ∧
    RPM_Object_Property_Count l PROP_OPTIONAL = l.Optional.pList.length ∧
    (∀ i, i < RPM_Object_Property_Count l PROP_ALL →
      (l.Required.pList ++ l.Optional.pList ++ l.Proprietary.pList)[i]? =
        some (RPM_Object_Property l PROP_ALL i)) ∧
    (∀ i, i < RPM_Object_Property_Count l PROP_REQUIRED →
      l.Required.pList[i]? = some (RPM_Object_Property l PROP_REQUIRED i)) ∧
    (∀ i, i < RPM_Object_Property_Count l PROP_OPTIONAL →
      l.Optional.pList[i]? = some (RPM_Object_Property l PROP_OPTIONAL i)) ∧
    (∀ i, RPM_Object_Property_Count l PROP_ALL ≤ i → RPM_Object_Property l PROP_ALL i = -1) ∧
    (∀ i, RPM_Object_Property_Count l PROP_REQUIRED ≤ i →
      RPM_Object_Property l PROP_REQUIRED i = -1) ∧
    (∀ i, RPM_Object_Property_Count l PROP_OPTIONAL ≤ i →
      RPM_Object_Property l PROP_OPTIONAL i = -1) := by
  have cA : RPM_Object_Property_Count l PROP_ALL =
      l.Required.count + l.Optional.count + l.Proprietary.count := by
    simp [RPM_Object_Property_Count]
  have cR : RPM_Object_Property_Count l PROP_REQUIRED = l.Required.count := by
    simp [RPM_Object_Property_Count, PROP_REQUIRED, PROP_ALL]
  have cO : RPM_Object_Property_Count l PROP_OPTIONAL = l.Optional.count := by
    simp [RPM_Object_Property_Count, PROP_REQUIRED, PROP_ALL, PROP_OPTIONAL]
  have getD_some : ∀ (xs : List Int) (i : Nat), i < xs.length → xs[i]? = some (xs.getD i 0) := by
    intro xs i h
    simp [List.getD_eq_getElem?_getD, List.getElem?_eq_getElem h]
  refine ⟨by rw [cA, hR, hO, hP], by rw [cR, hR], by rw [cO, hO], ?_, ?_, ?_, ?_, ?_, ?_⟩
  · intro i hi
    rw [cA] at hi
    unfold RPM_Object_Property
    simp only [if_true]
    by_cases h1 : i < l.Required.count
    · rw [if_pos h1, List.append_assoc, List.getElem?_append_left (by omega)]
      exact getD_some _ _ (by omega)
    · rw [if_neg h1]
      by_cases h2 : i < l.Required.count + l.Optional.count
      · rw [if_pos h2, List.append_assoc, List.getElem?_append_right (by omega),
          List.getElem?_append_left (by omega), hR]
        exact getD_some _ _ (by omega)
      · rw [if_neg h2, if_pos hi, List.getElem?_append_right (by simp; omega)]
        rw [List.length_append, hR, hO]
        exact getD_some _ _ (by omega)
  · intro i hi
    rw [cR] at hi
    simp only [RPM_Object_Property, PROP_REQUIRED, PROP_ALL, if_pos hi]
    simp only [show ((105 : Int) = 8) = False from by decide, if_false, if_true]
    exact getD_some _ _ (by omega)
  · intro i hi
    rw [cO] at hi
    simp only [RPM_Object_Property, PROP_REQUIRED, PROP_ALL, PROP_OPTIONAL, if_pos hi]
    simp only [show ((80 : Int) = 8) = False from by decide,
      show ((80 : Int) = 105) = False from by decide, if_false, if_true]
    exact getD_some _ _ (by omega)
  · intro i hi
    rw [cA] at hi
    unfold RPM_Object_Property
    simp only [if_true]
    rw [if_neg (by omega), if_neg (by omega), if_neg (by omega)]
  · intro i hi
    rw [cR] at hi
    simp only [RPM_Object_Property, PROP_REQUIRED, PROP_ALL]
    simp only [show ((105 : Int) = 8) = False from by decide, if_false, if_true]
    rw [if_neg (by omega)]
  · intro i hi
    rw [cO] at hi
    simp only [RPM_Object_Property, PROP_REQUIRED, PROP_ALL, PROP_OPTIONAL]
    simp only [show ((80 : Int) = 8) = False from by decide,
      show ((80 : Int) = 105) = False from by decide, if_false, if_true]
    rw [if_neg (by omega)]

theorem RPM_Object_Property_expansion_witness :
    ((sample_property_list.Required.pList.length = sample_property_list.Required.count) ∧
    (sample_property_list.Optional.pList.length = sample_property_list.Optional.count) ∧
    (sample_property_list.Proprietary.pList.length = sample_property_list.Proprietary.count)) ∧
    (RPM_Object_Property_Count sample_property_list PROP_ALL =
      sample_property_list.Required.pList.length + sample_property_list.Optional.pList.length + sample_property_list.Proprietary.pList.length ∧
    RPM_Object_Property_Count sample_property_list PROP_REQUIRED = sample_property_list.Required.pList.length ∧
    RPM_Object_Property_Count sample_property_list PROP_OPTIONAL = sample_property_list.Optional.pList.length ∧
    (∀ i, i < RPM_Object_Property_Count sample_property_list PROP_ALL →
      (sample_property_list.Required.pList ++ sample_property_list.Optional.pList ++ sample_property_list.Proprietary.pList)[i]? =
        some (RPM_Object_Property sample_property_list PROP_ALL i)) ∧
    (∀ i, i < RPM_Object_Property_Count sample_property_list PROP_REQUIRED →
      sample_property_list.Required.pList[i]? = some (RPM_Object_Property sample_property_list PROP_REQUIRED i)) ∧
    (∀ i, i < RPM_Object_Property_Count sample_property_list PROP_OPTIONAL →
      sample_property_list.Optional.pList[i]? = some (RPM_Object_Property sample_property_list PROP_OPTIONAL i)) ∧
    (∀ i, RPM_Object_Property_Count sample_property_list PROP_ALL ≤ i → RPM_Object_Property sample_property_list PROP_ALL i = -1) ∧
    (∀ i, RPM_Object_Property_Count sample_property_list PROP_REQUIRED ≤ i →
      RPM_Object_Property sample_property_list PROP_REQUIRED i = -1) ∧
    (∀ i, RPM_Object_Property_Count sample_property_list PROP_OPTIONAL ≤ i →
      RPM_Object_Property sample_property_list PROP_OPTIONAL i = -1)) :=
  ⟨⟨by decide, by decide, by decide⟩,
    RPM_Object_Property_expansion sample_property_list (by decide) (by decide) (by decide)⟩

theorem sample_rpm_runs :
    handler_read_property_multiple RpmEnv.sample 5 [] sample_rpmdata
      [12, 0, 0, 0, 1, 30, 9, 85, 31] 9 sample_peer (some sample_service_data) =
    some (RpmOutcome.send sample_peer ⟨false, 0⟩
      (RpmPdu.complex_ack
        [48, 1, 14, 12, 0, 0, 0, 1, 30, 41, 85, 78, 68, 0, 0, 0, 0, 79, 31])) := by
  decide

theorem rpm_encode_one_error (env : RpmEnv) (st : RpmLocals) (h : error_only_with_berror st) :
    error_only_with_berror (rpm_encode_one env st).1 := by
  unfold rpm_encode_one
  simp only
  split_ifs
  · exact h
  · intro hb; simp at hb

theorem rpm_special_loop_error (env : RpmEnv) (pl : special_property_list_t) (sp : Int)
    (n : Nat) : ∀ (index : Nat) (st : RpmLocals), error_only_with_berror st →
      error_only_with_berror (rpm_special_loop env pl sp n index st) := by
  induction n with
  | zero => intro index st h; exact h
  | succ n ih =>
    intro index st h
    unfold rpm_special_loop
    simp only
    split_ifs
    · exact rpm_encode_one_error env _ h
    · exact ih _ _ (rpm_encode_one_error env _ h)

theorem rpm_abort_too_big_error (env : RpmEnv) (st : RpmLocals) :
    error_only_with_berror (rpm_abort_too_big env st) := by
  intro hb; simp [rpm_abort_too_big] at hb

theorem rpm_encode_decoded_error (env : RpmEnv) (st : RpmLocals)
    (h : error_only_with_berror st) : error_only_with_berror (rpm_encode_decoded env st).1 := by
  unfold rpm_encode_decoded
  simp only
  split_ifs <;> first
    | exact h
    | exact rpm_encode_one_error env st h
    | exact rpm_abort_too_big_error env _
    | exact rpm_special_loop_error env _ _ _ _ _ h

theorem rpm_property_loop_error (env : RpmEnv) (req : List Nat) (len : Nat) (fuel : Nat) :
    ∀ (st st' : RpmLocals), error_only_with_berror st →
      rpm_property_loop env req len fuel st = some st' → error_only_with_berror st' := by
  induction fuel with
  | zero => intro st st' _ h; simp [rpm_property_loop] at h
  | succ fuel ih =>
    intro st st' h hr
    unfold rpm_property_loop at hr
    simp only at hr
    split_ifs at hr
    · simp only [Option.some.injEq] at hr
      subst hr; intro hb; simp at hb
    · simp only [Option.some.injEq] at hr
      subst hr
      exact rpm_encode_decoded_error env _ h
    · simp only [Option.some.injEq] at hr
      subst hr
      exact rpm_abort_too_big_error env _
    · simp only [Option.some.injEq] at hr
      subst hr
      exact rpm_encode_decoded_error env _ h
    · refine ih _ _ ?_ hr
      exact rpm_encode_decoded_error env _ h

theorem rpm_object_loop_error (env : RpmEnv) (req : List Nat) (len : Nat) (fuel : Nat) :
    ∀ (st st' : RpmLocals), error_only_with_berror st →
      rpm_object_loop env req len fuel st = some st' → error_only_with_berror st' := by
  induction fuel with
  | zero => intro st st' _ h; simp [rpm_object_loop] at h
  | succ fuel ih =>
    intro st st' h hr
    unfold rpm_object_loop at hr
    simp only at hr
    split_ifs at hr
    · simp only [Option.some.injEq] at hr
      subst hr; intro hb; simp at hb
    all_goals first
      | (simp only [Option.some.injEq] at hr
         subst hr
         exact rpm_abort_too_big_error env _)
      | (split at hr
         · simp at hr
         · rename_i st1 hst1
           have h1 : error_only_with_berror st1 := by
             refine rpm_property_loop_error env req len fuel _ _ ?_ hst1
             exact fun hb => h hb
           split_ifs at hr
           · simp only [Option.some.injEq] at hr; subst hr; exact h1
           · simp only [Option.some.injEq] at hr; subst hr; exact h1
           · exact ih _ _ h1 hr)

/-- C9 as stated fails in a build without segmentation: the error-free response
of 19 bytes exceeds min(max_resp, MAX_APDU) = 10 and the requester accepts
segmented responses, yet the handler sends Abort SEGMENTATION_NOT_SUPPORTED
instead of handing the buffer over. -/
theorem handler_rpm_no_handoff_without_segmentation :
    (rpm_object_loop RpmEnv.sample_unsegmented sample_request 9 5
        (rpm_locals_init RpmEnv.sample_unsegmented [] sample_rpmdata
          small_reply_service_data.invoke_id)).map (fun st => (st.berror, st.apdu_len)) =
      some (false, 19) ∧
    min small_reply_service_data.max_resp RpmEnv.sample_unsegmented.MAX_APDU = 10 ∧
    small_reply_service_data.segmented_response_accepted = true ∧
    handler_read_property_multiple RpmEnv.sample_unsegmented 5 [] sample_rpmdata
      sample_request 9 sample_peer (some small_reply_service_data) =
    some (RpmOutcome.send sample_peer ⟨false, 0⟩
      (RpmPdu.abort 1 ERROR_CODE_ABORT_SEGMENTATION_NOT_SUPPORTED true)) := by
  decide

/-- C9 (amended): RPM sizing decision. After an error-free encoding of total
length `apdu_len`, `handler_read_property_multiple` sends the response as one
unsegmented complex-ack when `apdu_len ≤ min(max_resp, MAX_APDU)` (so a response
of exactly that size is not segmented); when `apdu_len > min(max_resp, MAX_APDU)`
it hands the buffer past the 3 header bytes to `tsm_set_complexack_transaction`
if segmentation is compiled in and the requester accepts segmented responses,
and otherwise sends Abort SEGMENTATION_NOT_SUPPORTED. -/
theorem handler_rpm_sizing_decision (env : RpmEnv) (fuel : Nat) (buf : List Nat)
    (rpmdata : BACNET_RPM_DATA) (service_request : List Nat) (service_len : Nat)
    (src : BACNET_ADDRESS) (sd : BACNET_CONFIRMED_SERVICE_DATA) (st : RpmLocals)
    (hlen : service_len ≠ 0)
    (hseg : env.BACNET_SEGMENTATION_ENABLED = true ∨ sd.segmented_message = false)
    (hloop : rpm_object_loop env service_request service_len fuel
      (rpm_locals_init env buf rpmdata sd.invoke_id) = some st)
    (hb : st.berror = false) :
    (st.apdu_len ≤ ((min sd.max_resp env.MAX_APDU : Nat) : Int) →
      handler_read_property_multiple env fuel buf rpmdata service_request service_len src
          (some sd) =
        some (RpmOutcome.send src ⟨false, sd.priority⟩
          (RpmPdu.complex_ack (st.buf.take st.apdu_len.toNat)))) ∧
    (st.apdu_len > ((min sd.max_resp env.MAX_APDU : Nat) : Int) →
      env.BACNET_SEGMENTATION_ENABLED = true ∧ sd.segmented_response_accepted = true →
      handler_read_property_multiple env fuel buf rpmdata service_request service_len src
          (some sd) =
        some (RpmOutcome.handoff src ⟨true, 0⟩
          (apdu_init_fixed_header PDU_TYPE_COMPLEX_ACK sd.invoke_id
            SERVICE_CONFIRMED_READ_PROP_MULTIPLE sd.max_resp)
          sd (st.buf.drop 3) (st.apdu_len - 3))) ∧
    (st.apdu_len > ((min sd.max_resp env.MAX_APDU : Nat) : Int) →
      ¬ (env.BACNET_SEGMENTATION_ENABLED = true ∧ sd.segmented_response_accepted = true) →
      handler_read_property_multiple env fuel buf rpmdata service_request service_len src
          (some sd) =
        some (RpmOutcome.send src ⟨false, sd.priority⟩
          (RpmPdu.abort sd.invoke_id ERROR_CODE_ABORT_SEGMENTATION_NOT_SUPPORTED true))) := by
  have herr : st.error = 0 :=
    rpm_object_loop_error env service_request service_len fuel _ st
      (fun _ => rfl) hloop hb
  have hguard : ¬ ((!env.BACNET_SEGMENTATION_ENABLED) = true ∧ sd.segmented_message = true) := by
    rcases hseg with h | h <;> simp [h]
  have hmin : ((if sd.max_resp < env.MAX_APDU then (sd.max_resp : Int) else (env.MAX_APDU : Int))) =
      ((min sd.max_resp env.MAX_APDU : Nat) : Int) := by
    split_ifs with h
    · rw [Nat.min_eq_left (by omega)]
    · rw [Nat.min_eq_right (by omega)]
  have hh : handler_read_property_multiple env fuel buf rpmdata service_request service_len src
      (some sd) = some (rpm_sizing env src sd st) := by
    unfold handler_read_property_multiple
    simp only [hlen, if_false, hguard, hloop]
  rw [hh]
  unfold rpm_sizing
  simp only [hb, Bool.not_false, if_true, hmin]
  refine ⟨?_, ?_, ?_⟩
  · intro h
    rw [if_neg (by omega)]
    simp [rpm_finish, herr]
  · intro h h2
    rw [if_pos h, if_pos h2]
    rfl
  · intro h h2
    rw [if_pos h, if_neg h2]
    simp [rpm_finish, BACNET_STATUS_ABORT]

theorem handler_rpm_sizing_decision_witness :
    ((9 ≠ 0) ∧
    (RpmEnv.sample.BACNET_SEGMENTATION_ENABLED = true ∨ sample_service_data.segmented_message = false) ∧
    (rpm_object_loop RpmEnv.sample sample_request 9 5
      (rpm_locals_init RpmEnv.sample [] sample_rpmdata sample_service_data.invoke_id) = some sample_locals) ∧
    (sample_locals.berror = false)) ∧
    ((sample_locals.apdu_len ≤ ((min sample_service_data.max_resp RpmEnv.sample.MAX_APDU : Nat) : Int) →
      handler_read_property_multiple RpmEnv.sample 5 [] sample_rpmdata sample_request 9 sample_peer
          (some sample_service_data) =
        some (RpmOutcome.send sample_peer ⟨false, sample_service_data.priority⟩
          (RpmPdu.complex_ack (sample_locals.buf.take sample_locals.apdu_len.toNat)))) ∧
    (sample_locals.apdu_len > ((min sample_service_data.max_resp RpmEnv.sample.MAX_APDU : Nat) : Int) →
      RpmEnv.sample.BACNET_SEGMENTATION_ENABLED = true ∧ sample_service_data.segmented_response_accepted = true →
      handler_read_property_multiple RpmEnv.sample 5 [] sample_rpmdata sample_request 9 sample_peer
          (some sample_service_data) =
        some (RpmOutcome.handoff sample_peer ⟨true, 0⟩
          (apdu_init_fixed_header PDU_TYPE_COMPLEX_ACK sample_service_data.invoke_id
            SERVICE_CONFIRMED_READ_PROP_MULTIPLE sample_service_data.max_resp)
          sample_service_data (sample_locals.buf.drop 3) (sample_locals.apdu_len - 3))) ∧
    (sample_locals.apdu_len > ((min sample_service_data.max_resp RpmEnv.sample.MAX_APDU : Nat) : Int) →
      ¬ (RpmEnv.sample.BACNET_SEGMENTATION_ENABLED = true ∧ sample_service_data.segmented_response_accepted = true) →
      handler_read_property_multiple RpmEnv.sample 5 [] sample_rpmdata sample_request 9 sample_peer
          (some sample_service_data) =
        some (RpmOutcome.send sample_peer ⟨false, sample_service_data.priority⟩
          (RpmPdu.abort sample_service_data.invoke_id ERROR_CODE_ABORT_SEGMENTATION_NOT_SUPPORTED true)))) :=
  ⟨⟨by decide, by decide, by rfl, by decide⟩,
    handler_rpm_sizing_decision RpmEnv.sample 5 ([]) sample_rpmdata sample_request 9 sample_peer sample_service_data sample_locals (by decide) (by decide) (by rfl) (by decide)⟩

theorem memcopy_fits (dest src : List Nat) (offset max : Nat) (h : offset + src.length ≤ max) :
    memcopy dest src offset (src.length : Int) max = (writeBytes dest offset src, src.length) := by
  unfold memcopy
  have h1 : (0 : Int) ≤ (src.length : Int) ∧ (offset : Int) + (src.length : Int) ≤ (max : Int) :=
    ⟨by omega, by omega⟩
  rw [if_pos h1]
  simp

theorem memcopy_no_room (dest src : List Nat) (offset max : Nat)
    (h : ¬ offset + src.length ≤ max) :
    memcopy dest src offset (src.length : Int) max = (dest, 0) := by
  unfold memcopy
  have h1 : ¬ ((0 : Int) ≤ (src.length : Int) ∧
      (offset : Int) + (src.length : Int) ≤ (max : Int)) := by omega
  rw [if_neg h1]

/-- What `RPM_Encode_Property` computes once the property header is in the
buffer and the device read has been made. -/
theorem RPM_Encode_Property_after_read (env : RpmEnv) (apdu : List Nat) (offset max_apdu : Nat)
    (rpmdata : BACNET_RPM_DATA) (hne : rpm_header env rpmdata ≠ [])
    (hfit : offset + (rpm_header env rpmdata).length ≤ max_apdu)
    (hns : ¬ is_special_property rpmdata.object_property)
    (hvalid : (env.read_property_bacnet_array_valid (rpm_read_data env rpmdata)).1 = true) :
    RPM_Encode_Property env apdu offset max_apdu rpmdata =
      if (rpm_device_read env rpmdata).len < 0 then
        if (rpm_device_read env rpmdata).len = BACNET_STATUS_ABORT ∨
            (rpm_device_read env rpmdata).len = BACNET_STATUS_REJECT then
          ((rpm_device_read env rpmdata).len, writeBytes apdu offset (rpm_header env rpmdata),
            { rpmdata with error_code := (rpm_device_read env rpmdata).error_code })
        else if offset + (rpm_header env rpmdata).length +
            (env.rpm_ack_encode_apdu_object_property_error
              (rpm_device_read env rpmdata).error_class
              (rpm_device_read env rpmdata).error_code).length ≤ max_apdu ∧
            env.rpm_ack_encode_apdu_object_property_error
              (rpm_device_read env rpmdata).error_class
              (rpm_device_read env rpmdata).error_code ≠ [] then
          (((rpm_header env rpmdata).length : Int) +
            ((env.rpm_ack_encode_apdu_object_property_error
              (rpm_device_read env rpmdata).error_class
              (rpm_device_read env rpmdata).error_code).length : Int),
            writeBytes (writeBytes apdu offset (rpm_header env rpmdata))
              (offset + (rpm_header env rpmdata).length)
              (env.rpm_ack_encode_apdu_object_property_error
                (rpm_device_read env rpmdata).error_class
                (rpm_device_read env rpmdata).error_code),
            rpmdata)
        else
          (BACNET_STATUS_ABORT, writeBytes apdu offset (rpm_header env rpmdata),
            { rpmdata with error_code := ERROR_CODE_ABORT_SEGMENTATION_NOT_SUPPORTED })
      else if (offset : Int) + ((rpm_header env rpmdata).length : Int) + 1 +
          (rpm_device_read env rpmdata).len + 1 < (max_apdu : Int) then
        (((rpm_header env rpmdata).length : Int) +
          ((rpm_ack_encode_apdu_object_property_value
            (rpm_device_read env rpmdata).application_data
            (rpm_device_read env rpmdata).len.toNat).length : Int),
          writeBytes (writeBytes apdu offset (rpm_header env rpmdata))
            (offset + (rpm_header env rpmdata).length)
            (rpm_ack_encode_apdu_object_property_value
              (rpm_device_read env rpmdata).application_data
              (rpm_device_read env rpmdata).len.toNat),
          rpmdata)
      else
        (BACNET_STATUS_ABORT, writeBytes apdu offset (rpm_header env rpmdata),
          { rpmdata with error_code := ERROR_CODE_ABORT_SEGMENTATION_NOT_SUPPORTED }) := by
  have hns' : ¬ (rpmdata.object_property = PROP_ALL ∨ rpmdata.object_property = PROP_REQUIRED ∨
      rpmdata.object_property = PROP_OPTIONAL) := hns
  unfold rpm_device_read rpm_read_data at *
  unfold rpm_header at *
  unfold RPM_Encode_Property
  simp only
  generalize env.rpm_ack_encode_apdu_object_property rpmdata.object_property
    rpmdata.array_index = hdr at *
  have hlen : hdr.length ≠ 0 := by
    intro h; exact hne (List.length_eq_zero.mp h)
  rw [memcopy_fits _ _ _ _ hfit]
  simp only [hlen, if_false, hns', hvalid, Bool.not_true, Bool.false_eq_true]
  generalize env.Device_Read_Property _ = read
  have e : (((offset : Int) + (hdr.length : Int)).toNat) = offset + hdr.length := by omega
  by_cases h1 : read.len < 0
  · simp only [h1, if_true]
    by_cases h2 : read.len = BACNET_STATUS_ABORT ∨ read.len = BACNET_STATUS_REJECT
    · simp only [h2, if_true]
    · simp only [h2, if_false]
      rw [e]
      generalize env.rpm_ack_encode_apdu_object_property_error read.error_class
        read.error_code = err
      by_cases h3 : offset + hdr.length + err.length ≤ max_apdu
      · rw [memcopy_fits _ _ _ _ h3]
        by_cases h4 : err = []
        · simp [h4, writeBytes]
        · have h5 : err.length ≠ 0 := by
            intro h; exact h4 (List.length_eq_zero.mp h)
          simp only [h5, if_false, h3, h4, ne_eq, not_false_eq_true, and_self, if_true]
      · rw [memcopy_no_room _ _ _ _ h3]
        simp only [if_true, h3, false_and, if_false]
  · simp only [h1, if_false]
    rw [e]

/-- C11: RPM value fit check. For a successful read of `value_len` bytes (the
property header written, the property not special, the array check passed),
`RPM_Encode_Property` writes the value between opening and closing tags if
`current_offset + 1 + value_len + 1 < max_apdu`, `current_offset` being the
offset after the property header; otherwise (also when the value would end
exactly at `max_apdu`) it returns Abort and the buffer holds the header and no
value bytes; so the value is written if and only if the strict inequality
holds. -/
theorem RPM_Encode_Property_value_fit (env : RpmEnv) (apdu : List Nat) (offset max_apdu : Nat)
    (rpmdata : BACNET_RPM_DATA) (hne : rpm_header env rpmdata ≠ [])
    (hfit : offset + (rpm_header env rpmdata).length ≤ max_apdu)
    (hns : ¬ is_special_property rpmdata.object_property)
    (hvalid : (env.read_property_bacnet_array_valid (rpm_read_data env rpmdata)).1 = true)
    (hread : 0 ≤ (rpm_device_read env rpmdata).len) :
    ((offset : Int) + ((rpm_header env rpmdata).length : Int) + 1 +
        (rpm_device_read env rpmdata).len + 1 < (max_apdu : Int) →
      RPM_Encode_Property env apdu offset max_apdu rpmdata =
        (((rpm_header env rpmdata).length : Int) +
          (([78] ++ (rpm_device_read env rpmdata).application_data.take
            (rpm_device_read env rpmdata).len.toNat ++ [79]).length : Int),
          writeBytes (writeBytes apdu offset (rpm_header env rpmdata))
            (offset + (rpm_header env rpmdata).length)
            ([78] ++ (rpm_device_read env rpmdata).application_data.take
              (rpm_device_read env rpmdata).len.toNat ++ [79]),
          rpmdata)) ∧
    (¬ ((offset : Int) + ((rpm_header env rpmdata).length : Int) + 1 +
        (rpm_device_read env rpmdata).len + 1 < (max_apdu : Int)) →
      RPM_Encode_Property env apdu offset max_apdu rpmdata =
        (BACNET_STATUS_ABORT, writeBytes apdu offset (rpm_header env rpmdata),
          { rpmdata with error_code := ERROR_CODE_ABORT_SEGMENTATION_NOT_SUPPORTED })) ∧
    ((RPM_Encode_Property env apdu offset max_apdu rpmdata).1 ≠ BACNET_STATUS_ABORT ↔
      (offset : Int) + ((rpm_header env rpmdata).length : Int) + 1 +
        (rpm_device_read env rpmdata).len + 1 < (max_apdu : Int)) := by
  have h := RPM_Encode_Property_after_read env apdu offset max_apdu rpmdata hne hfit hns hvalid
  rw [if_neg (by omega)] at h
  refine ⟨?_, ?_, ?_⟩
  · intro hlt
    rw [h, if_pos hlt]
    rfl
  · intro hge
    rw [h, if_neg hge]
  · constructor
    · intro hne'
      by_contra hge
      rw [h, if_neg hge] at hne'
      exact hne' rfl
    · intro hlt
      rw [h, if_pos hlt]
      simp only [BACNET_STATUS_ABORT]
      have : (0 : Int) ≤ ((rpm_header env rpmdata).length : Int) := by omega
      have h2 : (0 : Int) ≤ ((rpm_ack_encode_apdu_object_property_value
          (rpm_device_read env rpmdata).application_data
          (rpm_device_read env rpmdata).len.toNat).length : Int) := by omega
      omega

theorem RPM_Encode_Property_value_fit_witness :
    ((rpm_header RpmEnv.sample sample_rpmdata_85 ≠ []) ∧
    (9 + (rpm_header RpmEnv.sample sample_rpmdata_85).length ≤ 40) ∧
    (¬ is_special_property sample_rpmdata_85.object_property) ∧
    ((RpmEnv.sample.read_property_bacnet_array_valid (rpm_read_data RpmEnv.sample sample_rpmdata_85)).1 = true) ∧
    (0 ≤ (rpm_device_read RpmEnv.sample sample_rpmdata_85).len)) ∧
    (((9 : Int) + ((rpm_header RpmEnv.sample sample_rpmdata_85).length : Int) + 1 +
        (rpm_device_read RpmEnv.sample sample_rpmdata_85).len + 1 < (40 : Int) →
      RPM_Encode_Property RpmEnv.sample sample_response_start 9 40 sample_rpmdata_85 =
        (((rpm_header RpmEnv.sample sample_rpmdata_85).length : Int) +
          (([78] ++ (rpm_device_read RpmEnv.sample sample_rpmdata_85).application_data.take
            (rpm_device_read RpmEnv.sample sample_rpmdata_85).len.toNat ++ [79]).length : Int),
          writeBytes (writeBytes sample_response_start 9 (rpm_header RpmEnv.sample sample_rpmdata_85))
            (9 + (rpm_header RpmEnv.sample sample_rpmdata_85).length)
            ([78] ++ (rpm_device_read RpmEnv.sample sample_rpmdata_85).application_data.take
              (rpm_device_read RpmEnv.sample sample_rpmdata_85).len.toNat ++ [79]),
          sample_rpmdata_85)) ∧
    (¬ ((9 : Int) + ((rpm_header RpmEnv.sample sample_rpmdata_85).length : Int) + 1 +
        (rpm_device_read RpmEnv.sample sample_rpmdata_85).len + 1 < (40 : Int)) →
      RPM_Encode_Property RpmEnv.sample sample_response_start 9 40 sample_rpmdata_85 =
        (BACNET_STATUS_ABORT, writeBytes sample_response_start 9 (rpm_header RpmEnv.sample sample_rpmdata_85),
          { sample_rpmdata_85 with error_code := ERROR_CODE_ABORT_SEGMENTATION_NOT_SUPPORTED })) ∧
    ((RPM_Encode_Property RpmEnv.sample sample_response_start 9 40 sample_rpmdata_85).1 ≠ BACNET_STATUS_ABORT ↔
      (9 : Int) + ((rpm_header RpmEnv.sample sample_rpmdata_85).length : Int) + 1 +
        (rpm_device_read RpmEnv.sample sample_rpmdata_85).len + 1 < (40 : Int))) :=
  ⟨⟨by decide, by decide, by decide, by decide, by decide⟩,
    RPM_Encode_Property_value_fit RpmEnv.sample sample_response_start 9 40 sample_rpmdata_85 (by decide) (by decide) (by decide) (by decide) (by decide)⟩

/-- C12 fails on a build with segmentation compiled in: the 30 byte value of
property 87 does not fit the 40 byte response buffer and the response is
replaced by an Abort that carries SEGMENTATION_NOT_SUPPORTED, not
BUFFER_OVERFLOW; the handler's own test for the closing tag of an object, on a
response that fills the buffer exactly, does give BUFFER_OVERFLOW. -/
theorem handler_rpm_value_too_big_reason :
    RpmEnv.sample.BACNET_SEGMENTATION_ENABLED = true ∧
    handler_read_property_multiple RpmEnv.sample 5 [] sample_rpmdata
      [12, 0, 0, 0, 1, 30, 9, 87, 31] 9 sample_peer (some sample_service_data) =
    some (RpmOutcome.send sample_peer ⟨false, 0⟩
      (RpmPdu.abort 1 ERROR_CODE_ABORT_SEGMENTATION_NOT_SUPPORTED true)) ∧
    handler_read_property_multiple RpmEnv.sample 5 [] sample_rpmdata
      [12, 0, 0, 0, 1, 30, 9, 85, 25, 0, 9, 99, 25, 0, 9, 99, 25, 0, 31] 19 sample_peer
      (some sample_service_data) =
    some (RpmOutcome.send sample_peer ⟨false, 0⟩
      (RpmPdu.abort 1 ERROR_CODE_ABORT_BUFFER_OVERFLOW true)) := by
  decide

/-- C13 as stated fails when the object does not exist: for PROP_ALL with array
index 1 on the missing analog input 7 the response carries the property header
followed by the error pair (OBJECT, UNKNOWN_OBJECT), not
(PROPERTY, PROPERTY_IS_NOT_AN_ARRAY). -/
theorem handler_rpm_special_index_missing_object :
    handler_read_property_multiple RpmEnv.sample 5 [] sample_rpmdata
      [12, 0, 0, 0, 7, 30, 9, 8, 25, 1, 31] 11 sample_peer (some sample_service_data) =
    some (RpmOutcome.send sample_peer ⟨false, 0⟩
      (RpmPdu.complex_ack
        ([48, 1, 14, 12, 0, 0, 0, 7, 30] ++ [41, 8, 57, 1] ++
          RpmEnv.sample.rpm_ack_encode_apdu_object_property_error ERROR_CLASS_OBJECT
            ERROR_CODE_UNKNOWN_OBJECT ++ [31]))) ∧
    RpmEnv.sample.rpm_ack_encode_apdu_object_property_error ERROR_CLASS_OBJECT
        ERROR_CODE_UNKNOWN_OBJECT ≠
      RpmEnv.sample.rpm_ack_encode_apdu_object_property_error ERROR_CLASS_PROPERTY
        ERROR_CODE_PROPERTY_IS_NOT_AN_ARRAY := by
  decide

/-- C13 (amended): for every RPM property specifier that names PROP_ALL,
PROP_REQUIRED or PROP_OPTIONAL with an array index other than BACNET_ARRAY_ALL
on an object that exists, when the property header and then the error pair fit
in the response buffer, the handler appends to the response the property header
followed by the error pair (class PROPERTY, code PROPERTY_IS_NOT_AN_ARRAY) and
goes on with the request. -/
theorem rpm_special_property_with_index (env : RpmEnv) (st : RpmLocals)
    (hsp : is_special_property st.rpmdata.object_property)
    (hobj : env.Device_Valid_Object_Id st.rpmdata.object_type st.rpmdata.object_instance = true)
    (hidx : st.rpmdata.array_index ≠ BACNET_ARRAY_ALL)
    (h0 : 0 ≤ st.apdu_len)
    (hne : rpm_header env st.rpmdata ≠ [])
    (hne2 : env.rpm_ack_encode_apdu_object_property_error ERROR_CLASS_PROPERTY
      ERROR_CODE_PROPERTY_IS_NOT_AN_ARRAY ≠ [])
    (hfit : st.apdu_len.toNat + (rpm_header env st.rpmdata).length +
      (env.rpm_ack_encode_apdu_object_property_error ERROR_CLASS_PROPERTY
        ERROR_CODE_PROPERTY_IS_NOT_AN_ARRAY).length ≤ (sizeOfBuffer env).toNat)
    (hbuf : (sizeOfBuffer env).toNat < 65536) :
    rpm_encode_decoded env st =
      ({ st with
          buf := writeBytes (writeBytes st.buf st.apdu_len.toNat (rpm_header env st.rpmdata))
            (st.apdu_len.toNat + (rpm_header env st.rpmdata).length)
            (env.rpm_ack_encode_apdu_object_property_error ERROR_CLASS_PROPERTY
              ERROR_CODE_PROPERTY_IS_NOT_AN_ARRAY)
          apdu_len := st.apdu_len + ((rpm_header env st.rpmdata).length : Int) +
            ((env.rpm_ack_encode_apdu_object_property_error ERROR_CLASS_PROPERTY
              ERROR_CODE_PROPERTY_IS_NOT_AN_ARRAY).length : Int) }, false) := by
  have hsp' : st.rpmdata.object_property = PROP_ALL ∨ st.rpmdata.object_property = PROP_REQUIRED ∨
      st.rpmdata.object_property = PROP_OPTIONAL := hsp
  unfold rpm_header at *
  unfold rpm_encode_decoded
  simp only [hsp', if_true, hobj, Bool.not_true, Bool.false_eq_true, if_false, hidx, ne_eq,
    not_false_eq_true]
  generalize env.rpm_ack_encode_apdu_object_property st.rpmdata.object_property
    st.rpmdata.array_index = hdr at *
  generalize env.rpm_ack_encode_apdu_object_property_error ERROR_CLASS_PROPERTY
    ERROR_CODE_PROPERTY_IS_NOT_AN_ARRAY = err at *
  have hl1 : hdr.length ≠ 0 := fun h => hne (List.length_eq_zero.mp h)
  have hl2 : err.length ≠ 0 := fun h => hne2 (List.length_eq_zero.mp h)
  rw [memcopy_fits _ _ _ _ (by omega)]
  have hu1 : u16 hdr.length ≠ 0 := by rw [u16_of_lt (by omega)]; exact hl1
  simp only [hu1, if_false]
  have e : (st.apdu_len + (hdr.length : Int)).toNat = st.apdu_len.toNat + hdr.length := by
    omega
  rw [e, memcopy_fits _ _ _ _ (by omega)]
  have hu2 : u16 err.length ≠ 0 := by rw [u16_of_lt (by omega)]; exact hl2
  simp only [hu2, if_false]

theorem rpm_special_property_with_index_witness :
    ((is_special_property sample_locals_all_index.rpmdata.object_property) ∧
    (RpmEnv.sample.Device_Valid_Object_Id sample_locals_all_index.rpmdata.object_type sample_locals_all_index.rpmdata.object_instance = true) ∧
    (sample_locals_all_index.rpmdata.array_index ≠ BACNET_ARRAY_ALL) ∧
    (0 ≤ sample_locals_all_index.apdu_len) ∧
    (rpm_header RpmEnv.sample sample_locals_all_index.rpmdata ≠ []) ∧
    (RpmEnv.sample.rpm_ack_encode_apdu_object_property_error ERROR_CLASS_PROPERTY
      ERROR_CODE_PROPERTY_IS_NOT_AN_ARRAY ≠ []) ∧
    (sample_locals_all_index.apdu_len.toNat + (rpm_header RpmEnv.sample sample_locals_all_index.rpmdata).length +
      (RpmEnv.sample.rpm_ack_encode_apdu_object_property_error ERROR_CLASS_PROPERTY
        ERROR_CODE_PROPERTY_IS_NOT_AN_ARRAY).length ≤ (sizeOfBuffer RpmEnv.sample).toNat) ∧
    ((sizeOfBuffer RpmEnv.sample).toNat < 65536)) ∧
    (rpm_encode_decoded RpmEnv.sample sample_locals_all_index =
      ({ sample_locals_all_index with
          buf := writeBytes (writeBytes sample_locals_all_index.buf sample_locals_all_index.apdu_len.toNat (rpm_header RpmEnv.sample sample_locals_all_index.rpmdata))
            (sample_locals_all_index.apdu_len.toNat + (rpm_header RpmEnv.sample sample_locals_all_index.rpmdata).length)
            (RpmEnv.sample.rpm_ack_encode_apdu_object_property_error ERROR_CLASS_PROPERTY
              ERROR_CODE_PROPERTY_IS_NOT_AN_ARRAY)
          apdu_len := sample_locals_all_index.apdu_len + ((rpm_header RpmEnv.sample sample_locals_all_index.rpmdata).length : Int) +
            ((RpmEnv.sample.rpm_ack_encode_apdu_object_property_error ERROR_CLASS_PROPERTY
              ERROR_CODE_PROPERTY_IS_NOT_AN_ARRAY).length : Int) }, false)) :=
  ⟨⟨by decide, by decide, by decide, by decide, by decide, by decide, by decide, by decide⟩,
    rpm_special_property_with_index RpmEnv.sample sample_locals_all_index (by decide) (by decide) (by decide) (by decide) (by decide) (by decide) (by decide) (by decide)⟩

/-- C10 as stated fails when the error pair does not fit: after three values the
header of the unknown property 99 still fits the 40 byte response buffer but its
error pair does not; the read returned the plain error status, yet
`RPM_Encode_Property` returns Abort and the response is replaced by an Abort
PDU. -/
theorem handler_rpm_error_pair_no_room :
    (rpm_device_read RpmEnv.sample sample_rpmdata_99).len = BACNET_STATUS_ERROR ∧
    (RPM_Encode_Property RpmEnv.sample (List.replicate 36 0) 36 40 sample_rpmdata_99).1 =
      BACNET_STATUS_ABORT ∧
    handler_read_property_multiple RpmEnv.sample 9 [] sample_rpmdata
      [12, 0, 0, 0, 1, 30, 9, 85, 9, 85, 9, 85, 9, 99, 31] 15 sample_peer
      (some sample_service_data) =
    some (RpmOutcome.send sample_peer ⟨false, 0⟩
      (RpmPdu.abort 1 ERROR_CODE_ABORT_SEGMENTATION_NOT_SUPPORTED true)) := by
  decide

/-- C10 (amended): partial-failure semantics of `RPM_Encode_Property` for a
property the handler has just decoded, that is not special, whose header fits
and that passes the array check. When the device read returns
BACNET_STATUS_ABORT or BACNET_STATUS_REJECT, that same status is returned
together with the read's error code, the property loop is left with `berror`
set, and the handler sends the Abort or Reject PDU with that code in place of
the response. When the read returns any other negative value and the error
pair fits in the buffer, the property is encoded in place as its property
header followed by the (error-class, error-code) pair, a positive length is
returned and the handler goes on without an error. -/
theorem rpm_partial_failure (env : RpmEnv) (service_request : List Nat)
    (service_len fuel : Nat) (st0 st : RpmLocals) (src : BACNET_ADDRESS)
    (sd : BACNET_CONFIRMED_SERVICE_DATA)
    (hdec : 0 ≤ (env.rpm_decode_object_property (service_request.drop st0.decode_len)
      ((service_len : Int) - st0.decode_len) st0.rpmdata).1)
    (hst : st = rpm_after_decode env service_request service_len st0)
    (hne : rpm_header env st.rpmdata ≠ [])
    (hfit : u16 st.apdu_len.toNat + (rpm_header env st.rpmdata).length ≤
      u16 (sizeOfBuffer env).toNat)
    (hns : ¬ is_special_property st.rpmdata.object_property)
    (hvalid : (env.read_property_bacnet_array_valid (rpm_read_data env st.rpmdata)).1 = true) :
    ((rpm_device_read env st.rpmdata).len = BACNET_STATUS_ABORT ∨
        (rpm_device_read env st.rpmdata).len = BACNET_STATUS_REJECT →
      (RPM_Encode_Property env st.buf (u16 st.apdu_len.toNat) (u16 (sizeOfBuffer env).toNat)
          st.rpmdata).1 = (rpm_device_read env st.rpmdata).len ∧
      (RPM_Encode_Property env st.buf (u16 st.apdu_len.toNat) (u16 (sizeOfBuffer env).toNat)
          st.rpmdata).2.2.error_code = (rpm_device_read env st.rpmdata).error_code ∧
      ∃ st', rpm_property_loop env service_request service_len (fuel + 1) st0 = some st' ∧
        st'.berror = true ∧ st'.error = (rpm_device_read env st.rpmdata).len ∧
        st'.rpmdata.error_code = (rpm_device_read env st.rpmdata).error_code ∧
        rpm_sizing env src sd st' = RpmOutcome.send src ⟨false, sd.priority⟩
          (if (rpm_device_read env st.rpmdata).len = BACNET_STATUS_ABORT then
            RpmPdu.abort sd.invoke_id (rpm_device_read env st.rpmdata).error_code true
          else RpmPdu.reject sd.invoke_id (rpm_device_read env st.rpmdata).error_code)) ∧
    ((rpm_device_read env st.rpmdata).len < 0 →
      ¬ ((rpm_device_read env st.rpmdata).len = BACNET_STATUS_ABORT ∨
        (rpm_device_read env st.rpmdata).len = BACNET_STATUS_REJECT) →
      env.rpm_ack_encode_apdu_object_property_error (rpm_device_read env st.rpmdata).error_class
        (rpm_device_read env st.rpmdata).error_code ≠ [] →
      u16 st.apdu_len.toNat + (rpm_header env st.rpmdata).length +
        (env.rpm_ack_encode_apdu_object_property_error
          (rpm_device_read env st.rpmdata).error_class
          (rpm_device_read env st.rpmdata).error_code).length ≤ u16 (sizeOfBuffer env).toNat →
      RPM_Encode_Property env st.buf (u16 st.apdu_len.toNat) (u16 (sizeOfBuffer env).toNat)
          st.rpmdata =
        (((rpm_header env st.rpmdata).length : Int) +
          ((env.rpm_ack_encode_apdu_object_property_error
            (rpm_device_read env st.rpmdata).error_class
            (rpm_device_read env st.rpmdata).error_code).length : Int),
          writeBytes (writeBytes st.buf (u16 st.apdu_len.toNat) (rpm_header env st.rpmdata))
            (u16 st.apdu_len.toNat + (rpm_header env st.rpmdata).length)
            (env.rpm_ack_encode_apdu_object_property_error
              (rpm_device_read env st.rpmdata).error_class
              (rpm_device_read env st.rpmdata).error_code),
          st.rpmdata) ∧
      0 < ((rpm_header env st.rpmdata).length : Int) +
          ((env.rpm_ack_encode_apdu_object_property_error
            (rpm_device_read env st.rpmdata).error_class
            (rpm_device_read env st.rpmdata).error_code).length : Int) ∧
      (rpm_encode_decoded env st).2 = false ∧
      (rpm_encode_decoded env st).1.berror = st.berror ∧
      (rpm_encode_decoded env st).1.error = st.error ∧
      (rpm_encode_decoded env st).1.apdu_len = st.apdu_len +
        (((rpm_header env st.rpmdata).length : Int) +
          ((env.rpm_ack_encode_apdu_object_property_error
            (rpm_device_read env st.rpmdata).error_class
            (rpm_device_read env st.rpmdata).error_code).length : Int)) ∧
      (rpm_encode_decoded env st).1.buf =
        writeBytes (writeBytes st.buf (u16 st.apdu_len.toNat) (rpm_header env st.rpmdata))
          (u16 st.apdu_len.toNat + (rpm_header env st.rpmdata).length)
          (env.rpm_ack_encode_apdu_object_property_error
            (rpm_device_read env st.rpmdata).error_class
            (rpm_device_read env st.rpmdata).error_code)) := by
  have h := RPM_Encode_Property_after_read env st.buf (u16 st.apdu_len.toNat)
    (u16 (sizeOfBuffer env).toNat) st.rpmdata hne hfit hns hvalid
  have hns' : ¬ (st.rpmdata.object_property = PROP_ALL ∨
      st.rpmdata.object_property = PROP_REQUIRED ∨
      st.rpmdata.object_property = PROP_OPTIONAL) := hns
  have hdecoded : rpm_encode_decoded env st = rpm_encode_one env st := by
    unfold rpm_encode_decoded
    simp only [hns', if_false]
  constructor
  · intro hab
    have hneg : (rpm_device_read env st.rpmdata).len < 0 := by
      rcases hab with h1 | h1 <;> rw [h1] <;> decide
    rw [if_pos hneg, if_pos hab] at h
    have hone : rpm_encode_one env st =
        ({ st with
            buf := writeBytes st.buf (u16 st.apdu_len.toNat) (rpm_header env st.rpmdata)
            rpmdata := { st.rpmdata with
              error_code := (rpm_device_read env st.rpmdata).error_code }
            error := (rpm_device_read env st.rpmdata).len
            berror := true }, true) := by
      unfold rpm_encode_one
      simp only [h]
      rw [if_neg (by omega)]
    refine ⟨by rw [h], by rw [h],
      { st with
        buf := writeBytes st.buf (u16 st.apdu_len.toNat) (rpm_header env st.rpmdata)
        rpmdata := { st.rpmdata with
          error_code := (rpm_device_read env st.rpmdata).error_code }
        error := (rpm_device_read env st.rpmdata).len
        berror := true }, ?_, rfl, rfl, rfl, ?_⟩
    · unfold rpm_property_loop
      simp only
      rw [if_neg (by omega)]
      rw [show ({ st0 with
          rpmdata := (env.rpm_decode_object_property (service_request.drop st0.decode_len)
            ((service_len : Int) - st0.decode_len) st0.rpmdata).2
          decode_len := u16 (st0.decode_len + (env.rpm_decode_object_property
            (service_request.drop st0.decode_len) ((service_len : Int) - st0.decode_len)
            st0.rpmdata).1.toNat) } : RpmLocals) = st from hst.symm]
      rw [hdecoded, hone]
      simp only [if_true]
    · unfold rpm_sizing
      simp only [Bool.not_true, Bool.false_eq_true, if_false]
      unfold rpm_finish
      rcases hab with h1 | h1
      · simp [h1, BACNET_STATUS_ABORT]
      · simp [h1, BACNET_STATUS_ABORT, BACNET_STATUS_REJECT, BACNET_STATUS_ERROR]
  · intro hneg hnab hne2 hfit2
    rw [if_pos hneg, if_neg hnab, if_pos ⟨hfit2, hne2⟩] at h
    have hpos : 0 < ((rpm_header env st.rpmdata).length : Int) +
          ((env.rpm_ack_encode_apdu_object_property_error
            (rpm_device_read env st.rpmdata).error_class
            (rpm_device_read env st.rpmdata).error_code).length : Int) := by
      have : (rpm_header env st.rpmdata).length ≠ 0 := fun h => hne (List.length_eq_zero.mp h)
      omega
    have hone : rpm_encode_one env st =
        ({ st with
            buf := writeBytes (writeBytes st.buf (u16 st.apdu_len.toNat)
                (rpm_header env st.rpmdata))
              (u16 st.apdu_len.toNat + (rpm_header env st.rpmdata).length)
              (env.rpm_ack_encode_apdu_object_property_error
                (rpm_device_read env st.rpmdata).error_class
                (rpm_device_read env st.rpmdata).error_code)
            rpmdata := st.rpmdata
            apdu_len := st.apdu_len + (((rpm_header env st.rpmdata).length : Int) +
              ((env.rpm_ack_encode_apdu_object_property_error
                (rpm_device_read env st.rpmdata).error_class
                (rpm_device_read env st.rpmdata).error_code).length : Int)) }, false) := by
      unfold rpm_encode_one
      simp only [h]
      rw [if_pos hpos]
    refine ⟨h, hpos, ?_, ?_, ?_, ?_, ?_⟩ <;> rw [hdecoded, hone]

theorem rpm_partial_failure_witness :
    ((0 ≤ (RpmEnv.sample.rpm_decode_object_property ([12, 0, 0, 0, 1, 30, 9, 99, 31].drop sample_locals_before_99.decode_len)
      ((9 : Int) - sample_locals_before_99.decode_len) sample_locals_before_99.rpmdata).1) ∧
    (sample_locals_99 = rpm_after_decode RpmEnv.sample [12, 0, 0, 0, 1, 30, 9, 99, 31] 9 sample_locals_before_99) ∧
    (rpm_header RpmEnv.sample sample_locals_99.rpmdata ≠ []) ∧
    (u16 sample_locals_99.apdu_len.toNat + (rpm_header RpmEnv.sample sample_locals_99.rpmdata).length ≤
      u16 (sizeOfBuffer RpmEnv.sample).toNat) ∧
    (¬ is_special_property sample_locals_99.rpmdata.object_property) ∧
    ((RpmEnv.sample.read_property_bacnet_array_valid (rpm_read_data RpmEnv.sample sample_locals_99.rpmdata)).1 = true)) ∧
    (((rpm_device_read RpmEnv.sample sample_locals_99.rpmdata).len = BACNET_STATUS_ABORT ∨
        (rpm_device_read RpmEnv.sample sample_locals_99.rpmdata).len = BACNET_STATUS_REJECT →
      (RPM_Encode_Property RpmEnv.sample sample_locals_99.buf (u16 sample_locals_99.apdu_len.toNat) (u16 (sizeOfBuffer RpmEnv.sample).toNat)
          sample_locals_99.rpmdata).1 = (rpm_device_read RpmEnv.sample sample_locals_99.rpmdata).len ∧
      (RPM_Encode_Property RpmEnv.sample sample_locals_99.buf (u16 sample_locals_99.apdu_len.toNat) (u16 (sizeOfBuffer RpmEnv.sample).toNat)
          sample_locals_99.rpmdata).2.2.error_code = (rpm_device_read RpmEnv.sample sample_locals_99.rpmdata).error_code ∧
      ∃ sample_locals_99', rpm_property_loop RpmEnv.sample [12, 0, 0, 0, 1, 30, 9, 99, 31] 9 (3 + 1) sample_locals_before_99 = some sample_locals_99' ∧
        sample_locals_99'.berror = true ∧ sample_locals_99'.error = (rpm_device_read RpmEnv.sample sample_locals_99.rpmdata).len ∧
        sample_locals_99'.rpmdata.error_code = (rpm_device_read RpmEnv.sample sample_locals_99.rpmdata).error_code ∧
        rpm_sizing RpmEnv.sample sample_peer sample_service_data sample_locals_99' = RpmOutcome.send sample_peer ⟨false, sample_service_data.priority⟩
          (if (rpm_device_read RpmEnv.sample sample_locals_99.rpmdata).len = BACNET_STATUS_ABORT then
            RpmPdu.abort sample_service_data.invoke_id (rpm_device_read RpmEnv.sample sample_locals_99.rpmdata).error_code true
          else RpmPdu.reject sample_service_data.invoke_id (rpm_device_read RpmEnv.sample sample_locals_99.rpmdata).error_code)) ∧
    ((rpm_device_read RpmEnv.sample sample_locals_99.rpmdata).len < 0 →
      ¬ ((rpm_device_read RpmEnv.sample sample_locals_99.rpmdata).len = BACNET_STATUS_ABORT ∨
        (rpm_device_read RpmEnv.sample sample_locals_99.rpmdata).len = BACNET_STATUS_REJECT) →
      RpmEnv.sample.rpm_ack_encode_apdu_object_property_error (rpm_device_read RpmEnv.sample sample_locals_99.rpmdata).error_class
        (rpm_device_read RpmEnv.sample sample_locals_99.rpmdata).error_code ≠ [] →
      u16 sample_locals_99.apdu_len.toNat + (rpm_header RpmEnv.sample sample_locals_99.rpmdata).length +
        (RpmEnv.sample.rpm_ack_encode_apdu_object_property_error
          (rpm_device_read RpmEnv.sample sample_locals_99.rpmdata).error_class
          (rpm_device_read RpmEnv.sample sample_locals_99.rpmdata).error_code).length ≤ u16 (sizeOfBuffer RpmEnv.sample).toNat →
      RPM_Encode_Property RpmEnv.sample sample_locals_99.buf (u16 sample_locals_99.apdu_len.toNat) (u16 (sizeOfBuffer RpmEnv.sample).toNat)
          sample_locals_99.rpmdata =
        (((rpm_header RpmEnv.sample sample_locals_99.rpmdata).length : Int) +
          ((RpmEnv.sample.rpm_ack_encode_apdu_object_property_error
            (rpm_device_read RpmEnv.sample sample_locals_99.rpmdata).error_class
            (rpm_device_read RpmEnv.sample sample_locals_99.rpmdata).error_code).length : Int),
          writeBytes (writeBytes sample_locals_99.buf (u16 sample_locals_99.apdu_len.toNat) (rpm_header RpmEnv.sample sample_locals_99.rpmdata))
            (u16 sample_locals_99.apdu_len.toNat + (rpm_header RpmEnv.sample sample_locals_99.rpmdata).length)
            (RpmEnv.sample.rpm_ack_encode_apdu_object_property_error
              (rpm_device_read RpmEnv.sample sample_locals_99.rpmdata).error_class
              (rpm_device_read RpmEnv.sample sample_locals_99.rpmdata).error_code),
          sample_locals_99.rpmdata) ∧
      0 < ((rpm_header RpmEnv.sample sample_locals_99.rpmdata).length : Int) +
          ((RpmEnv.sample.rpm_ack_encode_apdu_object_property_error
            (rpm_device_read RpmEnv.sample sample_locals_99.rpmdata).error_class
            (rpm_device_read RpmEnv.sample sample_locals_99.rpmdata).error_code).length : Int) ∧
      (rpm_encode_decoded RpmEnv.sample sample_locals_99).2 = false ∧
      (rpm_encode_decoded RpmEnv.sample sample_locals_99).1.berror = sample_locals_99.berror ∧
      (rpm_encode_decoded RpmEnv.sample sample_locals_99).1.error = sample_locals_99.error ∧
      (rpm_encode_decoded RpmEnv.sample sample_locals_99).1.apdu_len = sample_locals_99.apdu_len +
        (((rpm_header RpmEnv.sample sample_locals_99.rpmdata).length : Int) +
          ((RpmEnv.sample.rpm_ack_encode_apdu_object_property_error
            (rpm_device_read RpmEnv.sample sample_locals_99.rpmdata).error_class
            (rpm_device_read RpmEnv.sample sample_locals_99.rpmdata).error_code).length : Int)) ∧
      (rpm_encode_decoded RpmEnv.sample sample_locals_99).1.buf =
        writeBytes (writeBytes sample_locals_99.buf (u16 sample_locals_99.apdu_len.toNat) (rpm_header RpmEnv.sample sample_locals_99.rpmdata))
          (u16 sample_locals_99.apdu_len.toNat + (rpm_header RpmEnv.sample sample_locals_99.rpmdata).length)
          (RpmEnv.sample.rpm_ack_encode_apdu_object_property_error
            (rpm_device_read RpmEnv.sample sample_locals_99.rpmdata).error_class
            (rpm_device_read RpmEnv.sample sample_locals_99.rpmdata).error_code))) :=
  ⟨⟨by decide, by rfl, by decide, by decide, by decide, by decide⟩,
    rpm_partial_failure RpmEnv.sample ([12, 0, 0, 0, 1, 30, 9, 99, 31]) 9 3 sample_locals_before_99 sample_locals_99 sample_peer sample_service_data (by decide) (by rfl) (by decide) (by decide) (by decide) (by decide)⟩

theorem otherStep_setSlot_emit (i id j : Nat) (s : TSM) (d : BACNET_TSM_DATA) (e : Event)
    (hj : j ≠ i) (hd : (s.slot j).InvokeID ≠ id → d.InvokeID ≠ id)
    (he : Event.ofSlot i id e = false) : OtherStep i id s ((s.setSlot j d).emit e) :=
  (otherStep_setSlot i id j s d hj hd).trans (otherStep_emit i id _ e he)

/-- The loop body of `tsm_timer_milliseconds` for a slot `j` leaves every other
slot `i` alone, together with what `i` has sent. -/
theorem timer_slot_other (cfg : Config) (ms : Nat) (s : TSM) (i id j : Nat) (hj : j ≠ i)
    (hid : id ≠ 0) (hjid : (s.slot j).InvokeID ≠ id) :
    OtherStep i id s (tsm_timer_slot cfg ms s j) := by
  have h1 : OtherStep i id s (tsm_timer_await_confirmation cfg ms s j) := by
    unfold tsm_timer_await_confirmation
    simp only
    split_ifs <;> first
      | exact OtherStep.refl i id s
      | exact otherStep_setSlot i id j s _ hj (fun h => h)
      | exact otherStep_setSlot_emit i id j s _ _ hj (fun h => h)
          (by simp [Event.ofSlot, hj, hjid])
  have h2 : ∀ t : TSM, OtherStep i id t (tsm_timer_segmented_response cfg ms t j) := by
    intro t
    unfold tsm_timer_segmented_response
    simp only
    split_ifs <;> first
      | exact OtherStep.refl i id t
      | exact otherStep_setSlot i id j t _ hj (fun h => h)
      | exact otherStep_onSlot i id j t _ hj
          (fun h => by rw [(FillWindow_spec cfg j _ _).2]; exact h)
          (fun e he => by
            obtain ⟨_, _, _, rfl⟩ := (FillWindow_spec cfg j _ _).1 e he
            simp [Event.ofSlot, hj])
  have h3 : ∀ t : TSM, OtherStep i id t (tsm_timer_segmented_request ms t j) := by
    intro t
    unfold tsm_timer_segmented_request
    simp only
    split_ifs <;> first
      | exact OtherStep.refl i id t
      | exact otherStep_setSlot i id j t _ hj (fun h => h)
      | (refine OtherStep.trans (otherStep_setSlot i id j t _ hj ?_)
          ((otherStep_clear_peer i id (t.slot j).InvokeID _).trans
            (OtherStep.trans (otherStep_setSlot i id j _ (free_blob _) hj ?_)
              (otherStep_setSlot i id j _ _ hj (fun _ => Ne.symm hid))))
         · exact fun h => h
         · exact fun h => h)
  exact (h1.trans (h2 _)).trans (h3 _)

theorem OnlyAt.step {i id : Nat} {s s' : TSM} (h : OnlyAt i id s) (hs : OtherStep i id s s') :
    OnlyAt i id s' := fun k hk => hs.2.2.2.2 k hk (h k hk)

theorem foldl_timer_other (cfg : Config) (ms i id : Nat) (hid : id ≠ 0) :
    ∀ (js : List Nat) (s : TSM), (∀ j ∈ js, j ≠ i) → OnlyAt i id s →
      OtherStep i id s (js.foldl (tsm_timer_slot cfg ms) s) := by
  intro js
  induction js with
  | nil => intro s _ _; exact OtherStep.refl i id s
  | cons j rest ih =>
    intro s hjs hs
    have hj : j ≠ i := hjs j (List.mem_cons_self j rest)
    have h1 := timer_slot_other cfg ms s i id j hj hid (hs j hj)
    exact h1.trans (ih _ (fun k hk => hjs k (List.mem_cons_of_mem j hk)) (hs.step h1))

theorem foldl_timer_split (cfg : Config) (ms i id : Nat) (hid : id ≠ 0) :
    ∀ (js : List Nat) (s : TSM), js.Nodup → i ∈ js → OnlyAt i id s →
      (∀ s1, OtherStep i id s s1 → OnlyAt i id s1 →
        OnlyAt i id (tsm_timer_slot cfg ms s1 i)) →
      ∃ s1, OtherStep i id s s1 ∧ OnlyAt i id s1 ∧
        OtherStep i id (tsm_timer_slot cfg ms s1 i) (js.foldl (tsm_timer_slot cfg ms) s) := by
  intro js
  induction js with
  | nil => intro s _ hi; simp at hi
  | cons j rest ih =>
    intro s hnd hi hs hself
    rw [List.nodup_cons] at hnd
    by_cases hj : j = i
    · subst hj
      refine ⟨s, OtherStep.refl j id s, hs, ?_⟩
      exact foldl_timer_other cfg ms j id hid rest _
        (fun k hk h => hnd.1 (h ▸ hk)) (hself s (OtherStep.refl j id s) hs)
    · have hi' : i ∈ rest := by
        rcases List.mem_cons.mp hi with h | h
        · exact absurd h.symm hj
        · exact h
      have h1 := timer_slot_other cfg ms s i id j hj hid (hs j hj)
      obtain ⟨s1, a, b, c⟩ := ih (tsm_timer_slot cfg ms s j) hnd.2 hi' (hs.step h1)
        (fun s1 h2 h3 => hself s1 (h1.trans h2) h3)
      exact ⟨s1, h1.trans a, b, c⟩

/-- The loop body of `tsm_timer_milliseconds` on the slot itself, when it awaits a
confirmation or is idle. -/
theorem timer_slot_self (cfg : Config) (ms : Nat) (s : TSM) (i id : Nat)
    (h : AwaitSlot i id s) :
    (tsm_timer_slot cfg ms s i).slot i = (await_tick cfg i ms (s.slot i)).1 ∧
    (tsm_timer_slot cfg ms s i).sent = s.sent ++ (await_tick cfg i ms (s.slot i)).2 ∧
    (tsm_timer_slot cfg ms s i).TSM_List.length = s.TSM_List.length ∧
    (tsm_timer_slot cfg ms s i).Timeout_Function = s.Timeout_Function ∧
    ∀ k, k ≠ i → (tsm_timer_slot cfg ms s i).slot k = s.slot k := by
  obtain ⟨hi, hid, htf, hinv, _, hst⟩ := h
  rcases hst with hst | hst
  · rw [timer_slot_await cfg ms s i hi hst]
    unfold await_tick
    rw [if_pos hst]
    have hnz : (s.slot i).InvokeID ≠ 0 := by rw [hinv]; exact hid
    have hc : (s.slot i).InvokeID ≠ 0 ∧ s.Timeout_Function = true := ⟨hnz, htf⟩
    split_ifs <;> first
      | exact absurd hc ‹_›
      | exact ⟨slot_setSlot_self s i _ hi, (List.append_nil _).symm, length_setSlot s i _, rfl,
          fun k hk => slot_setSlot_ne s i k _ hk⟩
      | exact ⟨slot_setSlot_self s i _ hi, rfl, length_setSlot s i _, rfl,
          fun k hk => slot_setSlot_ne s i k _ hk⟩
  · have e : tsm_timer_slot cfg ms s i = s := by
      unfold tsm_timer_slot tsm_timer_await_confirmation
      simp only [hst]
      rw [if_neg (by decide)]
      unfold tsm_timer_segmented_response
      rw [if_neg (by rw [hst]; decide)]
      unfold tsm_timer_segmented_request
      rw [if_neg (by rw [hst]; decide)]
    rw [e]
    unfold await_tick
    rw [if_neg (by rw [hst]; decide)]
    simp

theorem await_tick_props (cfg : Config) (i id ms : Nat) (d : BACNET_TSM_DATA)
    (hid : d.InvokeID = id)
    (hst : d.state = TSM_STATE_AWAIT_CONFIRMATION ∨ d.state = TSM_STATE_IDLE) :
    (await_tick cfg i ms d).1.InvokeID = id ∧
    ((await_tick cfg i ms d).1.state = TSM_STATE_AWAIT_CONFIRMATION ∨
      (await_tick cfg i ms d).1.state = TSM_STATE_IDLE) ∧
    (await_tick cfg i ms d).2.filter (Event.ofSlot i id) = (await_tick cfg i ms d).2 := by
  unfold await_tick
  split_ifs with h1 h2 h3
  · exact ⟨hid, Or.inl h1, rfl⟩
  · exact ⟨hid, Or.inl h1, by simp [Event.ofSlot]⟩
  · exact ⟨hid, Or.inr rfl, by simp [Event.ofSlot, hid]⟩
  · exact ⟨hid, hst, rfl⟩

/-- One call of `tsm_timer_milliseconds` seen from a slot that awaits a
confirmation or is idle. -/
theorem tick_await (cfg : Config) (ms : Nat) (s : TSM) (i id : Nat) (h : AwaitSlot i id s) :
    AwaitSlot i id (tsm_timer_milliseconds cfg s ms) ∧
    (tsm_timer_milliseconds cfg s ms).slot i = (await_tick cfg i ms (s.slot i)).1 ∧
    (tsm_timer_milliseconds cfg s ms).sent.filter (Event.ofSlot i id) =
      s.sent.filter (Event.ofSlot i id) ++ (await_tick cfg i ms (s.slot i)).2 ∧
    (tsm_timer_milliseconds cfg s ms).TSM_List.length = s.TSM_List.length := by
  obtain ⟨hi, hid, htf, hinv, honly, hst⟩ := h
  have hgood : ∀ s1, OtherStep i id s s1 → OnlyAt i id s1 → AwaitSlot i id s1 := by
    intro s1 h1 h2
    exact ⟨by rw [h1.1]; exact hi, hid, by rw [h1.2.1]; exact htf, by rw [h1.2.2.1]; exact hinv,
      h2, by rw [h1.2.2.1]; exact hst⟩
  obtain ⟨s1, a, b, c⟩ := foldl_timer_split cfg ms i id hid (List.range (MAX_TSM_TRANSACTIONS s)) s
    (List.nodup_range _) (List.mem_range.mpr hi) honly (by
      intro s1 h1 h2 k hk
      rw [(timer_slot_self cfg ms s1 i id (hgood s1 h1 h2)).2.2.2.2 k hk]
      exact h2 k hk)
  have g := hgood s1 a b
  obtain ⟨e1, e2, e3, e4, e5⟩ := timer_slot_self cfg ms s1 i id g
  have p := await_tick_props cfg i id ms (s.slot i) hinv hst
  have hslot : (tsm_timer_milliseconds cfg s ms).slot i = (await_tick cfg i ms (s.slot i)).1 := by
    show (List.foldl _ s _).slot i = _
    rw [c.2.2.1, e1, a.2.2.1]
  have hlen : (tsm_timer_milliseconds cfg s ms).TSM_List.length = s.TSM_List.length := by
    show (List.foldl _ s _).TSM_List.length = _
    rw [c.1, e3, a.1]
  refine ⟨⟨by rw [hlen]; exact hi, hid, ?_, by rw [hslot]; exact p.1, ?_,
    by rw [hslot]; exact p.2.1⟩, hslot, ?_, hlen⟩
  · show (List.foldl _ s _).Timeout_Function = true
    rw [c.2.1, e4, a.2.1]; exact htf
  · have o1 : OnlyAt i id (tsm_timer_slot cfg ms s1 i) := by
      intro k hk
      rw [e5 k hk]; exact b k hk
    exact o1.step c
  · show (List.foldl _ s _).sent.filter _ = _
    rw [c.2.2.2.1, e2, List.filter_append, a.2.2.2.1, a.2.2.1, p.2.2]

/-- Repeated calls of `tsm_timer_milliseconds` seen from such a slot. -/
theorem run_ticks_await (cfg : Config) (i id : Nat) :
    ∀ (ticks : List Nat) (s : TSM), AwaitSlot i id s →
      AwaitSlot i id (run_ticks cfg s ticks) ∧
      (run_ticks cfg s ticks).slot i = (await_run cfg i ticks (s.slot i)).1 ∧
      (run_ticks cfg s ticks).sent.filter (Event.ofSlot i id) =
        s.sent.filter (Event.ofSlot i id) ++ (await_run cfg i ticks (s.slot i)).2 ∧
      (run_ticks cfg s ticks).TSM_List.length = s.TSM_List.length := by
  intro ticks
  induction ticks with
  | nil => intro s h; exact ⟨h, rfl, by simp [run_ticks, await_run], rfl⟩
  | cons ms rest ih =>
    intro s h
    obtain ⟨g, a, b, c⟩ := tick_await cfg ms s i id h
    obtain ⟨g', a', b', c'⟩ := ih (tsm_timer_milliseconds cfg s ms) g
    refine ⟨g', ?_, ?_, c'.trans c⟩
    · show (run_ticks cfg (tsm_timer_milliseconds cfg s ms) rest).slot i = _
      rw [a', a]; rfl
    · show (run_ticks cfg (tsm_timer_milliseconds cfg s ms) rest).sent.filter _ = _
      rw [b', b, a, List.append_assoc]; rfl

theorem await_run_append (cfg : Config) (i : Nat) :
    ∀ (a b : List Nat) (d : BACNET_TSM_DATA),
      await_run cfg i (a ++ b) d =
        ((await_run cfg i b (await_run cfg i a d).1).1,
          (await_run cfg i a d).2 ++ (await_run cfg i b (await_run cfg i a d).1).2) := by
  intro a
  induction a with
  | nil => intro b d; simp [await_run]
  | cons ms rest ih => intro b d; simp [await_run, ih, List.append_assoc]

theorem await_run_idle (cfg : Config) (i : Nat) :
    ∀ (ticks : List Nat) (d : BACNET_TSM_DATA), d.state = TSM_STATE_IDLE →
      await_run cfg i ticks d = (d, []) := by
  intro ticks
  induction ticks with
  | nil => intro d _; rfl
  | cons ms rest ih =>
    intro d h
    have e : await_tick cfg i ms d = (d, []) := by simp [await_tick, h]
    simp [await_run, e, ih d h]

theorem await_run_pre (cfg : Config) (i : Nat) :
    ∀ (pre : List Nat) (d : BACNET_TSM_DATA), d.state = TSM_STATE_AWAIT_CONFIRMATION →
      pre.sum < d.RequestTimer →
      await_run cfg i pre d = ({ d with RequestTimer := d.RequestTimer - pre.sum }, []) := by
  intro pre
  induction pre with
  | nil => intro d _ _; rfl
  | cons ms rest ih =>
    intro d h hs
    rw [List.sum_cons] at hs
    have hgt : d.RequestTimer > ms := by omega
    have e : await_tick cfg i ms d = ({ d with RequestTimer := d.RequestTimer - ms }, []) := by
      simp [await_tick, h, hgt]
    have e2 := ih { d with RequestTimer := d.RequestTimer - ms } h (by show rest.sum < _ - _; omega)
    simp only [await_run, e, e2, List.sum_cons, List.append_nil, Nat.sub_sub]

/-- One round of timer calls that ends with the expiry of the request timer. -/
theorem await_round (cfg : Config) (i : Nat) (r : List Nat × Nat) (d : BACNET_TSM_DATA)
    (hst : d.state = TSM_STATE_AWAIT_CONFIRMATION) (hT : d.RequestTimer = cfg.apdu_timeout)
    (hr : expiry_round cfg.apdu_timeout r) :
    await_run cfg i (r.1 ++ [r.2]) d =
      if d.RetryCount < cfg.apdu_retries then
        ({ d with RequestTimer := cfg.apdu_timeout, RetryCount := u8 (d.RetryCount + 1) },
          [Event.pdu i d.dest ((d.apdu.getD []).take d.apdu_len)])
      else ({ d with RequestTimer := 0, state := TSM_STATE_IDLE }, [Event.timeout d.InvokeID]) := by
  obtain ⟨h1, h2⟩ := hr
  have last : ∀ d1 : BACNET_TSM_DATA, d1.state = TSM_STATE_AWAIT_CONFIRMATION →
      ¬ d1.RequestTimer > r.2 →
      await_run cfg i [r.2] d1 =
        if d1.RetryCount < cfg.apdu_retries then
          ({ d1 with RequestTimer := cfg.apdu_timeout, RetryCount := u8 (d1.RetryCount + 1) },
            [Event.pdu i d1.dest ((d1.apdu.getD []).take d1.apdu_len)])
        else ({ d1 with RequestTimer := 0, state := TSM_STATE_IDLE },
          [Event.timeout d1.InvokeID]) := by
    intro d1 hs hn
    simp only [await_run, await_tick, hs, hn, if_true, if_false, List.append_nil]
  by_cases hnil : r.1 = []
  · rw [hnil, List.nil_append]
    apply last d hst
    rw [hnil] at h2
    simp at h2
    omega
  · have hlt : r.1.sum < d.RequestTimer := by
      rcases h1 with h | h
      · exact absurd h hnil
      · omega
    rw [await_run_append, await_run_pre cfg i r.1 d hst hlt]
    simp only [List.nil_append]
    have e := last { d with RequestTimer := d.RequestTimer - r.1.sum } hst
      (by show ¬ (d.RequestTimer - r.1.sum > r.2); omega)
    rw [e]

theorem round_ticks_cons (r : List Nat × Nat) (rs : List (List Nat × Nat)) :
    round_ticks (r :: rs) = (r.1 ++ [r.2]) ++ round_ticks rs := by
  simp [round_ticks]

/-- Rounds that each end with an expiry, while retries are left: every round
sends the stored bytes once and restarts the request timer. -/
theorem await_rounds (cfg : Config) (i : Nat) (hret : cfg.apdu_retries < 256) :
    ∀ (rs : List (List Nat × Nat)) (d : BACNET_TSM_DATA),
      d.state = TSM_STATE_AWAIT_CONFIRMATION → d.RequestTimer = cfg.apdu_timeout →
      (∀ r ∈ rs, expiry_round cfg.apdu_timeout r) →
      d.RetryCount + rs.length ≤ cfg.apdu_retries →
      await_run cfg i (round_ticks rs) d =
        (await_retried cfg d (d.RetryCount + rs.length),
          List.replicate rs.length (Event.pdu i d.dest ((d.apdu.getD []).take d.apdu_len))) := by
  intro rs
  induction rs with
  | nil =>
    intro d _ hT _ _
    show (d, []) = _
    unfold await_retried
    rw [← hT]
    rfl
  | cons r rs ih =>
    intro d hst hT hr hc
    rw [List.length_cons] at hc
    have hlt : d.RetryCount < cfg.apdu_retries := by omega
    have e8 : u8 (d.RetryCount + 1) = d.RetryCount + 1 := u8_of_lt (by omega)
    have e1 : await_run cfg i (r.1 ++ [r.2]) d =
        (await_retried cfg d (d.RetryCount + 1),
          [Event.pdu i d.dest ((d.apdu.getD []).take d.apdu_len)]) := by
      rw [await_round cfg i r d hst hT (hr r (List.mem_cons_self _ _)), if_pos hlt, e8]
      rfl
    have e := ih (await_retried cfg d (d.RetryCount + 1)) hst rfl
      (fun r1 h1 => hr r1 (List.mem_cons_of_mem _ h1))
      (by show d.RetryCount + 1 + rs.length ≤ _; omega)
    rw [round_ticks_cons, await_run_append, e1, e]
    have e3 : await_retried cfg (await_retried cfg d (d.RetryCount + 1))
        ((await_retried cfg d (d.RetryCount + 1)).RetryCount + rs.length) =
        await_retried cfg d (d.RetryCount + (rs.length + 1)) := by
      show await_retried cfg d (d.RetryCount + 1 + rs.length) = _
      rw [Nat.add_assoc, Nat.add_comm 1]
    rw [e3]
    rfl

/-- Rounds that use up the retries followed by one more expiry: the stored bytes
are sent once per round, the last expiry sends nothing and reports the timeout. -/
theorem await_rounds_timeout (cfg : Config) (i : Nat) (hret : cfg.apdu_retries < 256)
    (rs : List (List Nat × Nat)) (d : BACNET_TSM_DATA)
    (hst : d.state = TSM_STATE_AWAIT_CONFIRMATION) (hT : d.RequestTimer = cfg.apdu_timeout)
    (hr : ∀ r ∈ rs, expiry_round cfg.apdu_timeout r)
    (hk : d.RetryCount ≤ cfg.apdu_retries)
    (hc : d.RetryCount + rs.length = cfg.apdu_retries + 1) :
    await_run cfg i (round_ticks rs) d =
      (await_failed (await_retried cfg d cfg.apdu_retries),
        List.replicate (rs.length - 1) (Event.pdu i d.dest ((d.apdu.getD []).take d.apdu_len))
          ++ [Event.timeout d.InvokeID]) := by
  have hne : rs ≠ [] := by
    rintro rfl
    simp at hc
    omega
  obtain ⟨r, hlast⟩ : ∃ r, rs = rs.dropLast ++ [r] :=
    ⟨rs.getLast hne, (List.dropLast_append_getLast hne).symm⟩
  have hlen : rs.dropLast.length = rs.length - 1 := List.length_dropLast _
  have hrt : round_ticks rs = round_ticks rs.dropLast ++ (r.1 ++ [r.2]) := by
    conv_lhs => rw [hlast]
    simp [round_ticks]
  have hmem : ∀ r1 ∈ rs.dropLast, expiry_round cfg.apdu_timeout r1 :=
    fun r1 h1 => hr r1 (List.mem_of_mem_dropLast h1)
  have hrl : expiry_round cfg.apdu_timeout r := hr r (by rw [hlast]; simp)
  have hlen1 : 1 ≤ rs.length := List.length_pos.mpr hne
  have h3 : d.RetryCount + rs.dropLast.length = cfg.apdu_retries := by omega
  have e := await_rounds cfg i hret rs.dropLast d hst hT hmem (by omega)
  rw [h3, hlen] at e
  have e2 := await_round cfg i r (await_retried cfg d cfg.apdu_retries) hst rfl hrl
  rw [if_neg (by show ¬ (cfg.apdu_retries < _); omega)] at e2
  rw [hrt, await_run_append, e, e2]
  rfl

/-! ## Retransmission and timeout of a confirmed request -/

theorem onlyAt_of_bounded (s : TSM) (i id : Nat) (hid : id ≠ 0)
    (h : ∀ k, k < s.TSM_List.length → k ≠ i → (s.slot k).InvokeID ≠ id) : OnlyAt i id s := by
  intro k hk
  by_cases hl : k < s.TSM_List.length
  · exact h k hl hk
  · have e : s.slot k = default := by
      simp [TSM.slot, List.getD_eq_getElem?_getD, List.getElem?_eq_none (Nat.le_of_not_lt hl)]
    rw [e]
    exact fun h0 => hid h0.symm

/-- The slot that `tsm_set_confirmed_unsegmented_transaction` fills. -/
theorem set_unsegmented_await (cfg : Config) (s0 : TSM) (invokeID : Nat) (dest : BACNET_ADDRESS)
    (npdu : BACNET_NPDU_DATA) (apdu : List Nat) (apdu_len i : Nat)
    (hlen : s0.TSM_List.length ≤ 255) (hid : invokeID ≠ 0) (hal : 0 < apdu_len)
    (hfit : apdu_len ≤ apdu.length) (hi : i < s0.TSM_List.length)
    (hheld : (s0.slot i).InvokeID = invokeID) (honly : OnlyAt i invokeID s0)
    (hcb : s0.Timeout_Function = true) :
    AwaitSlot i invokeID
      (tsm_set_confirmed_unsegmented_transaction cfg s0 invokeID dest npdu apdu apdu_len) ∧
    ((tsm_set_confirmed_unsegmented_transaction cfg s0 invokeID dest npdu apdu apdu_len).slot
      i).state = TSM_STATE_AWAIT_CONFIRMATION ∧
    ((tsm_set_confirmed_unsegmented_transaction cfg s0 invokeID dest npdu apdu apdu_len).slot
      i).RequestTimer = cfg.apdu_timeout ∧
    ((tsm_set_confirmed_unsegmented_transaction cfg s0 invokeID dest npdu apdu apdu_len).slot
      i).RetryCount = 0 ∧
    ((tsm_set_confirmed_unsegmented_transaction cfg s0 invokeID dest npdu apdu apdu_len).slot
      i).dest = dest ∧
    ((((tsm_set_confirmed_unsegmented_transaction cfg s0 invokeID dest npdu apdu apdu_len).slot
      i).apdu.getD []).take
      ((tsm_set_confirmed_unsegmented_transaction cfg s0 invokeID dest npdu apdu apdu_len).slot
        i).apdu_len) = apdu.take apdu_len ∧
    (tsm_set_confirmed_unsegmented_transaction cfg s0 invokeID dest npdu apdu apdu_len).sent =
      s0.sent ∧
    (tsm_set_confirmed_unsegmented_transaction cfg s0 invokeID dest npdu apdu apdu_len
      ).TSM_List.length = s0.TSM_List.length := by
  have hidx := find_invokeID_unique s0 invokeID i hlen hi hheld honly
  have e : tsm_set_confirmed_unsegmented_transaction cfg s0 invokeID dest npdu apdu apdu_len =
      s0.setSlot i { s0.slot i with
        state := TSM_STATE_AWAIT_CONFIRMATION
        RetryCount := 0
        RequestTimer := cfg.apdu_timeout
        apdu := some (writeBytes ((s0.slot i).apdu.getD []) 0 (apdu.take apdu_len))
        apdu_len := apdu_len
        npdu_data := npdu
        dest := dest } := by
    unfold tsm_set_confirmed_unsegmented_transaction
    rw [if_pos ⟨hid, hal⟩]
    simp only [hidx, MAX_TSM_TRANSACTIONS, hi, if_true]
  rw [e, slot_setSlot_self _ _ _ hi]
  refine ⟨⟨by rw [length_setSlot]; exact hi, hid, hcb,
    by rw [slot_setSlot_self _ _ _ hi]; exact hheld, ?_, Or.inl (by rw [slot_setSlot_self _ _ _ hi])⟩, rfl, rfl, rfl, rfl, ?_, rfl,
    length_setSlot _ _ _⟩
  · intro k hk
    rw [slot_setSlot_ne _ _ _ _ hk]
    exact honly k hk
  · have hl : (apdu.take apdu_len).length = apdu_len := by
      rw [List.length_take]; omega
    show (writeBytes _ 0 (apdu.take apdu_len)).take apdu_len = _
    unfold writeBytes
    rw [List.take_zero, List.nil_append, List.take_append_of_le_length (by omega)]
    simp

/-- The queries about a failed request: the slot `i` is idle and alone holds the
invoke-id. -/
theorem failed_slot_queries (t : TSM) (i id : Nat) (hlen : t.TSM_List.length ≤ 255)
    (h : AwaitSlot i id t) (hst : (t.slot i).state = TSM_STATE_IDLE) :
    tsm_invoke_id_failed t id = true ∧
    tsm_invoke_id_failed (tsm_free_invoke_id t id) id = false ∧
    tsm_invoke_id_free (tsm_free_invoke_id t id) id = true := by
  obtain ⟨hi, hid, _, hinv, honly, _⟩ := h
  have hidx := find_invokeID_unique t id i hlen hi hinv honly
  have hfree := tsm_free_invoke_id_of_lt t id (by rw [hidx]; exact hi)
  rw [hidx] at hfree
  have hnot : ¬ held (tsm_free_invoke_id t id) id := by
    rw [held_iff_slot]
    rintro ⟨j, _, hj⟩
    rw [hfree] at hj
    by_cases hji : j = i
    · rw [hji, slot_setSlot_self _ _ _ hi] at hj
      exact hid hj.symm
    · rw [slot_setSlot_ne _ _ _ _ hji] at hj
      exact honly j hji hj
  have hlen2 : (tsm_free_invoke_id t id).TSM_List.length ≤ 255 := by
    rw [hfree, length_setSlot]; exact hlen
  have hmax := (find_invokeID_eq_max (tsm_free_invoke_id t id) id hlen2).mpr hnot
  refine ⟨?_, ?_, ?_⟩
  · simp [tsm_invoke_id_failed, hidx, MAX_TSM_TRANSACTIONS, hi, hst]
  · simp [tsm_invoke_id_failed, hmax]
  · simp [tsm_invoke_id_free, hmax]

theorem count_timeout_filter (i id : Nat) (l : List Event) :
    (l.filter (Event.ofSlot i id)).count (Event.timeout id) = l.count (Event.timeout id) := by
  induction l with
  | nil => rfl
  | cons e l ih =>
    by_cases h : Event.ofSlot i id e = true
    · rw [List.filter_cons_of_pos h, List.count_cons, List.count_cons, ih]
    · rw [List.filter_cons_of_neg h, List.count_cons, ih]
      have hne : ¬ (e == Event.timeout id) = true := by
        intro he
        rw [beq_iff_eq] at he
        rw [he] at h
        simp [Event.ofSlot] at h
      rw [if_neg hne, Nat.add_zero]

theorem peer_setPeer_self (s : TSM) (i : Nat) (e : BACNET_TSM_INDIRECT_DATA)
    (h : i < s.TSM_Peer_Ids.length) : (s.setPeer i e).peer i = e := by
  simp [TSM.setPeer, TSM.peer, List.getD_eq_getElem?_getD, List.getElem?_set, h]

theorem peer_setPeer_ne (s : TSM) (i j : Nat) (e : BACNET_TSM_INDIRECT_DATA) (h : j ≠ i) :
    (s.setPeer i e).peer j = s.peer j := by
  simp [TSM.setPeer, TSM.peer, List.getD_eq_getElem?_getD, List.getElem?_set, Ne.symm h]

theorem peer_eq_getElem (s : TSM) {i : Nat} (h : i < s.TSM_Peer_Ids.length) :
    s.peer i = s.TSM_Peer_Ids[i] := by
  simp [TSM.peer, List.getD_eq_getElem?_getD, List.getElem?_eq_getElem h]

theorem peer_of_not_lt (s : TSM) {i : Nat} (h : ¬ i < s.TSM_Peer_Ids.length) :
    s.peer i = default := by
  simp [TSM.peer, List.getD_eq_getElem?_getD, List.getElem?_eq_none (Nat.le_of_not_lt h)]

theorem slot_of_not_lt (s : TSM) {i : Nat} (h : ¬ i < s.TSM_List.length) :
    s.slot i = default := by
  simp [TSM.slot, List.getD_eq_getElem?_getD, List.getElem?_eq_none (Nat.le_of_not_lt h)]

/-- A successful search of the peer map: the first matching entry. -/
theorem peer_find_some (s : TSM) (src : BACNET_ADDRESS) (invokeID ix : Nat)
    (h : s.TSM_Peer_Ids.findIdx? (peer_entry_matches src invokeID) = some ix) :
    ix < s.TSM_Peer_Ids.length ∧ peer_entry_matches src invokeID (s.peer ix) = true ∧
      ∀ j, j < ix → peer_entry_matches src invokeID (s.peer j) = false := by
  obtain ⟨hlt, hp, hmin⟩ := List.findIdx?_eq_some_iff_getElem.mp h
  refine ⟨hlt, by rw [peer_eq_getElem s hlt]; exact hp, ?_⟩
  intro j hj
  rw [peer_eq_getElem s (Nat.lt_trans hj hlt)]
  simpa using hmin j hj

/-- The first free entry of the peer map. -/
theorem peer_free_some (s : TSM) (f : Nat)
    (h : s.TSM_Peer_Ids.findIdx? (fun e => e.InternalInvokeID == 0) = some f) :
    f < s.TSM_Peer_Ids.length ∧ (s.peer f).InternalInvokeID = 0 := by
  obtain ⟨hlt, hp, _⟩ := List.findIdx?_eq_some_iff_getElem.mp h
  refine ⟨hlt, ?_⟩
  rw [peer_eq_getElem s hlt]
  simpa using hp

/-- The creation of a mapping by `tsm_get_peer_id_data`: with no matching entry,
the free entry `f` and a free slot, a fresh non-zero invoke-id is bound. -/
theorem get_peer_id_data_create (cfg : Config) (s : TSM) (src : BACNET_ADDRESS)
    (invokeID f : Nat) (hlen : s.TSM_List.length ≤ 255) (hcur : s.Current_Invoke_ID < 256)
    (hno : s.TSM_Peer_Ids.findIdx? (peer_entry_matches src invokeID) = none)
    (hf : s.TSM_Peer_Ids.findIdx? (fun e => e.InternalInvokeID == 0) = some f)
    (h0 : held s 0) :
    ∃ c, c ≠ 0 ∧ ¬ held s c ∧
      tsm_get_peer_id_data cfg s src invokeID true =
        some (some f, peer_bound cfg s src invokeID f c) := by
  obtain ⟨hfl, _⟩ := peer_free_some s f hf
  obtain ⟨k, _, _, hk, heq⟩ := next_free_spec cfg
    (s.setPeer f { s.peer f with PeerInvokeID := invokeID, PeerAddress := src }) hlen hcur h0
  have hi0 := (find_invokeID_spec s 0 hlen h0).1
  generalize hc : invokeID_increment^[k] (s.setPeer f _).Current_Invoke_ID = c at hk heq
  have hk : ¬ held s c := hk
  have hc0 : c ≠ 0 := by
    intro h; rw [h] at hk; exact hk h0
  refine ⟨c, hc0, hk, ?_⟩
  have hidx : tsm_find_invokeID_index
      ((claim_slot cfg (s.setPeer f { s.peer f with
        PeerInvokeID := invokeID, PeerAddress := src }) c).setPeer f
        { (claim_slot cfg (s.setPeer f { s.peer f with
            PeerInvokeID := invokeID, PeerAddress := src }) c).peer f with
          InternalInvokeID := c }) c = tsm_find_invokeID_index s 0 := by
    apply find_invokeID_unique _ c _ (by simpa [claim_slot, TSM.setPeer, TSM.setSlot] using hlen)
      (by simpa [claim_slot, TSM.setPeer, TSM.setSlot] using hi0)
    · show ((s.setSlot (tsm_find_invokeID_index s 0) _).slot _).InvokeID = c
      rw [slot_setSlot_self _ _ _ hi0]
    · intro j hj
      show ((s.setSlot (tsm_find_invokeID_index s 0) _).slot j).InvokeID ≠ c
      rw [slot_setSlot_ne _ _ _ _ hj]
      intro hjc
      apply hk
      by_cases hjl : j < s.TSM_List.length
      · exact (held_iff_slot s c).mpr ⟨j, hjl, hjc⟩
      · rw [slot_of_not_lt s hjl] at hjc
        exact absurd hjc.symm hc0
  unfold tsm_get_peer_id_data
  simp only [hno, hf, heq, if_true]
  have hpeer : ((claim_slot cfg (s.setPeer f { s.peer f with
        PeerInvokeID := invokeID, PeerAddress := src }) c).setPeer f
        { (claim_slot cfg (s.setPeer f { s.peer f with
            PeerInvokeID := invokeID, PeerAddress := src }) c).peer f with
          InternalInvokeID := c }).peer f = ⟨c, invokeID, src⟩ := by
    rw [peer_setPeer_self _ _ _ (by simpa [claim_slot, TSM.setPeer, TSM.setSlot] using hfl)]
    have hp1 : (claim_slot cfg (s.setPeer f { s.peer f with
        PeerInvokeID := invokeID, PeerAddress := src }) c).peer f =
        { s.peer f with PeerInvokeID := invokeID, PeerAddress := src } := by
      show (s.setPeer f _).peer f = _
      rw [peer_setPeer_self _ _ _ hfl]
    rw [hp1]
  dsimp only at hidx hpeer
  rw [hpeer]
  simp only [hidx]
  rw [if_pos (by simpa [MAX_TSM_TRANSACTIONS, claim_slot, TSM.setPeer, TSM.setSlot] using hi0)]
  have hs : ∀ e, ((claim_slot cfg (s.setPeer f { s.peer f with
        PeerInvokeID := invokeID, PeerAddress := src }) c).setPeer f e).slot
        (tsm_find_invokeID_index s 0) =
      { s.slot (tsm_find_invokeID_index s 0) with
        InvokeID := c, state := TSM_STATE_IDLE, RequestTimer := cfg.apdu_timeout } := by
    intro e
    show (s.setSlot (tsm_find_invokeID_index s 0) _).slot _ = _
    rw [slot_setSlot_self _ _ _ hi0]
    rfl
  have hp2 : (claim_slot cfg (s.setPeer f { s.peer f with
      PeerInvokeID := invokeID, PeerAddress := src }) c).peer f =
      { s.peer f with PeerInvokeID := invokeID, PeerAddress := src } := by
    show (s.setPeer f _).peer f = _
    rw [peer_setPeer_self _ _ _ hfl]
  dsimp only at hs hp2
  simp only [hs, hp2]
  simp [peer_bound, claim_slot, TSM.setPeer, TSM.setSlot, tsm_find_first_free_index,
    tsm_find_invokeID_index, List.set_set]

theorem get_peer_id_data_found (cfg : Config) (s : TSM) (src : BACNET_ADDRESS)
    (invokeID ix : Nat) (createPeerId : Bool)
    (h : s.TSM_Peer_Ids.findIdx? (peer_entry_matches src invokeID) = some ix) :
    tsm_get_peer_id_data cfg s src invokeID createPeerId = some (some ix, s) := by
  unfold tsm_get_peer_id_data
  simp only [h]

theorem get_peer_id_data_no_entry (cfg : Config) (s : TSM) (src : BACNET_ADDRESS)
    (invokeID : Nat) (createPeerId : Bool)
    (hno : s.TSM_Peer_Ids.findIdx? (peer_entry_matches src invokeID) = none)
    (hf : s.TSM_Peer_Ids.findIdx? (fun e => e.InternalInvokeID == 0) = none) :
    tsm_get_peer_id_data cfg s src invokeID createPeerId = some (none, s) := by
  unfold tsm_get_peer_id_data
  simp only [hno, hf]

/-- The failed creation of a mapping: with a free entry `f` but no free slot, the
entry stays free and null is returned. -/
theorem get_peer_id_data_no_slot (cfg : Config) (s : TSM) (src : BACNET_ADDRESS)
    (invokeID f : Nat) (hlen : s.TSM_List.length ≤ 255)
    (hno : s.TSM_Peer_Ids.findIdx? (peer_entry_matches src invokeID) = none)
    (hf : s.TSM_Peer_Ids.findIdx? (fun e => e.InternalInvokeID == 0) = some f)
    (h0 : ¬ held s 0) :
    tsm_get_peer_id_data cfg s src invokeID true =
      some (none, s.setPeer f ⟨0, invokeID, src⟩) := by
  obtain ⟨hfl, _⟩ := peer_free_some s f hf
  have hav : ∀ e, tsm_transaction_available (s.setPeer f e) = false := by
    intro e
    rw [Bool.eq_false_iff]
    exact fun h => h0 ((available_iff (s.setPeer f e)).mp h)
  have hmax : ∀ e, tsm_find_invokeID_index (s.setPeer f e) 0 = s.TSM_List.length := by
    intro e
    exact (find_invokeID_eq_max (s.setPeer f e) 0 hlen).mpr h0
  have hp : ∀ e, (s.setPeer f e).peer f = e := fun e => peer_setPeer_self s f e hfl
  have hss : ∀ e e1, (s.setPeer f e).setPeer f e1 = s.setPeer f e1 := by
    intro e e1
    simp [TSM.setPeer, List.set_set]
  unfold tsm_get_peer_id_data
  simp only [hno, hf, if_true, tsm_next_free_invokeID, hav, Bool.false_eq_true, if_false, hss,
    hp, hmax, MAX_TSM_TRANSACTIONS]
  simp [TSM.setPeer]

/-- C19: `tsm_get_peer_id(src, id)` returns 0 exactly when no non-free peer-map
entry matches `(src, id)` and either the peer map has no free entry or no slot
is free; then the slots are unchanged and so is every non-free peer-map entry.
When a non-free entry matches, the local invoke-id of the first such entry is
returned and the state is unchanged. -/
theorem tsm_get_peer_id_zero_iff (cfg : Config) (s : TSM) (src : BACNET_ADDRESS)
    (invokeID : Nat) (hlen : s.TSM_List.length ≤ 255) (hcur : s.Current_Invoke_ID < 256) :
    ∃ r s', tsm_get_peer_id cfg s src invokeID = some (r, s') ∧
      (r = 0 ↔ (∀ e ∈ s.TSM_Peer_Ids, peer_entry_matches src invokeID e = false) ∧
        ((∀ e ∈ s.TSM_Peer_Ids, e.InternalInvokeID ≠ 0) ∨ ∀ d ∈ s.TSM_List, d.InvokeID ≠ 0)) ∧
      (r = 0 → s'.TSM_List = s.TSM_List ∧ s'.TSM_Peer_Ids.length = s.TSM_Peer_Ids.length ∧
        ∀ j, (s.peer j).InternalInvokeID ≠ 0 → s'.peer j = s.peer j) ∧
      ((∃ e ∈ s.TSM_Peer_Ids, peer_entry_matches src invokeID e = true) →
        s' = s ∧ ∃ ix, ix < s.TSM_Peer_Ids.length ∧
          peer_entry_matches src invokeID (s.peer ix) = true ∧
          (∀ j, j < ix → peer_entry_matches src invokeID (s.peer j) = false) ∧
          r = (s.peer ix).InternalInvokeID) := by
  cases hm : s.TSM_Peer_Ids.findIdx? (peer_entry_matches src invokeID) with
  | some ix =>
    obtain ⟨hix, hmatch, hmin⟩ := peer_find_some s src invokeID ix hm
    have hne : (s.peer ix).InternalInvokeID ≠ 0 := by
      intro h0
      simp [peer_entry_matches, h0] at hmatch
    have hnot : ¬ ∀ e ∈ s.TSM_Peer_Ids, peer_entry_matches src invokeID e = false := by
      intro hall
      have := hall (s.peer ix) (by rw [peer_eq_getElem s hix]; exact List.getElem_mem hix)
      rw [this] at hmatch
      exact Bool.false_ne_true hmatch
    refine ⟨(s.peer ix).InternalInvokeID, s, ?_, ?_, fun h => absurd h hne,
      fun _ => ⟨rfl, ix, hix, hmatch, hmin, rfl⟩⟩
    · simp only [tsm_get_peer_id, get_peer_id_data_found cfg s src invokeID ix true hm]
    · exact ⟨fun h => absurd h hne, fun h => absurd h.1 hnot⟩
  | none =>
    have hall : ∀ e ∈ s.TSM_Peer_Ids, peer_entry_matches src invokeID e = false :=
      List.findIdx?_eq_none_iff.mp hm
    have hnoex : ¬ ∃ e ∈ s.TSM_Peer_Ids, peer_entry_matches src invokeID e = true := by
      rintro ⟨e, he, hem⟩
      rw [hall e he] at hem
      exact Bool.false_ne_true hem
    cases hf : s.TSM_Peer_Ids.findIdx? (fun e => e.InternalInvokeID == 0) with
    | none =>
      have hfull : ∀ e ∈ s.TSM_Peer_Ids, e.InternalInvokeID ≠ 0 := by
        intro e he
        simpa using List.findIdx?_eq_none_iff.mp hf e he
      refine ⟨0, s, ?_, ?_, fun _ => ⟨rfl, rfl, fun _ _ => rfl⟩, fun h => absurd h hnoex⟩
      · simp only [tsm_get_peer_id, get_peer_id_data_no_entry cfg s src invokeID true hm hf]
      · exact ⟨fun _ => ⟨hall, Or.inl hfull⟩, fun _ => rfl⟩
    | some f =>
      obtain ⟨hfl, hf0⟩ := peer_free_some s f hf
      have hnotfull : ¬ ∀ e ∈ s.TSM_Peer_Ids, e.InternalInvokeID ≠ 0 := by
        intro hfull
        exact hfull (s.peer f) (by rw [peer_eq_getElem s hfl]; exact List.getElem_mem hfl) hf0
      by_cases h0 : held s 0
      · obtain ⟨c, hc0, _, heq⟩ := get_peer_id_data_create cfg s src invokeID f hlen hcur hm hf h0
        have hpf : (peer_bound cfg s src invokeID f c).peer f = ⟨c, invokeID, src⟩ := by
          simp [peer_bound, TSM.peer, List.getD_eq_getElem?_getD, List.getElem?_set, hfl]
        refine ⟨c, peer_bound cfg s src invokeID f c, ?_, ?_, fun h => absurd h hc0,
          fun h => absurd h hnoex⟩
        · simp only [tsm_get_peer_id, heq, hpf]
        · constructor
          · intro h; exact absurd h hc0
          · rintro ⟨_, h | h⟩
            · exact absurd h hnotfull
            · obtain ⟨d, hd, hd0⟩ := h0
              exact absurd hd0 (h d hd)
      · refine ⟨0, s.setPeer f ⟨0, invokeID, src⟩, ?_, ?_, fun _ => ⟨rfl, ?_, ?_⟩,
          fun h => absurd h hnoex⟩
        · simp only [tsm_get_peer_id, get_peer_id_data_no_slot cfg s src invokeID f hlen hm hf h0]
        · refine ⟨fun _ => ⟨hall, Or.inr ?_⟩, fun _ => rfl⟩
          intro d hd hd0
          exact h0 ⟨d, hd, hd0⟩
        · simp [TSM.setPeer]
        · intro j hj
          have hjf : j ≠ f := by
            rintro rfl
            exact hj hf0
          exact peer_setPeer_ne s f j _ hjf

theorem tsm_get_peer_id_zero_iff_witness :
    (((TSM.init 2 1).TSM_List.length ≤ 255) ∧
    ((TSM.init 2 1).Current_Invoke_ID < 256)) ∧
    (∃ r s', tsm_get_peer_id Config.sample (TSM.init 2 1) sample_peer 5 = some (r, s') ∧
      (r = 0 ↔ (∀ e ∈ (TSM.init 2 1).TSM_Peer_Ids, peer_entry_matches sample_peer 5 e = false) ∧
        ((∀ e ∈ (TSM.init 2 1).TSM_Peer_Ids, e.InternalInvokeID ≠ 0) ∨ ∀ d ∈ (TSM.init 2 1).TSM_List, d.InvokeID ≠ 0)) ∧
      (r = 0 → s'.TSM_List = (TSM.init 2 1).TSM_List ∧ s'.TSM_Peer_Ids.length = (TSM.init 2 1).TSM_Peer_Ids.length ∧
        ∀ j, ((TSM.init 2 1).peer j).InternalInvokeID ≠ 0 → s'.peer j = (TSM.init 2 1).peer j) ∧
      ((∃ e ∈ (TSM.init 2 1).TSM_Peer_Ids, peer_entry_matches sample_peer 5 e = true) →
        s' = (TSM.init 2 1) ∧ ∃ ix, ix < (TSM.init 2 1).TSM_Peer_Ids.length ∧
          peer_entry_matches sample_peer 5 ((TSM.init 2 1).peer ix) = true ∧
          (∀ j, j < ix → peer_entry_matches sample_peer 5 ((TSM.init 2 1).peer j) = false) ∧
          r = ((TSM.init 2 1).peer ix).InternalInvokeID)) :=
  ⟨⟨by decide, by decide⟩,
    tsm_get_peer_id_zero_iff Config.sample ((TSM.init 2 1)) sample_peer 5 (by decide) (by decide)⟩

theorem tsm_get_peer_id_create (cfg : Config) (s : TSM) (src : BACNET_ADDRESS)
    (invokeID f : Nat) (hlen : s.TSM_List.length ≤ 255) (hcur : s.Current_Invoke_ID < 256)
    (hno : s.TSM_Peer_Ids.findIdx? (peer_entry_matches src invokeID) = none)
    (hf : s.TSM_Peer_Ids.findIdx? (fun e => e.InternalInvokeID == 0) = some f)
    (h0 : held s 0) :
    ∃ c, c ≠ 0 ∧ ¬ held s c ∧
      tsm_get_peer_id cfg s src invokeID = some (c, peer_bound cfg s src invokeID f c) := by
  obtain ⟨hfl, _⟩ := peer_free_some s f hf
  obtain ⟨c, hc0, hc, heq⟩ := get_peer_id_data_create cfg s src invokeID f hlen hcur hno hf h0
  have hpf : (peer_bound cfg s src invokeID f c).peer f = ⟨c, invokeID, src⟩ := by
    simp [peer_bound, TSM.peer, List.getD_eq_getElem?_getD, List.getElem?_set, hfl]
  exact ⟨c, hc0, hc, by simp only [tsm_get_peer_id, heq, hpf]⟩

/-- The slots of the state after a mapping was created. -/
theorem peer_bound_slots (cfg : Config) (s : TSM) (src : BACNET_ADDRESS) (invokeID f c : Nat)
    (hlen : s.TSM_List.length ≤ 255) (h0 : held s 0) (hc0 : c ≠ 0) (hc : ¬ held s c) :
    (peer_bound cfg s src invokeID f c).TSM_List.length = s.TSM_List.length ∧
    tsm_find_invokeID_index s 0 < s.TSM_List.length ∧
    tsm_find_invokeID_index (peer_bound cfg s src invokeID f c) c = tsm_find_invokeID_index s 0 ∧
    (peer_bound cfg s src invokeID f c).slot (tsm_find_invokeID_index s 0) =
      { s.slot (tsm_find_invokeID_index s 0) with
        InvokeID := c, state := TSM_STATE_IDLE, RequestTimer := cfg.apdu_timeout, dest := src } ∧
    (∀ k, k ≠ tsm_find_invokeID_index s 0 →
      (peer_bound cfg s src invokeID f c).slot k = s.slot k) ∧
    (peer_bound cfg s src invokeID f c).sent = s.sent := by
  have hi0 := (find_invokeID_spec s 0 hlen h0).1
  have hl : (peer_bound cfg s src invokeID f c).TSM_List.length = s.TSM_List.length := by
    simp [peer_bound]
  have hself : (peer_bound cfg s src invokeID f c).slot (tsm_find_invokeID_index s 0) =
      { s.slot (tsm_find_invokeID_index s 0) with
        InvokeID := c, state := TSM_STATE_IDLE, RequestTimer := cfg.apdu_timeout,
        dest := src } := by
    show (s.setSlot (tsm_find_invokeID_index s 0) _).slot _ = _
    rw [slot_setSlot_self _ _ _ hi0]
    rfl
  have hother : ∀ k, k ≠ tsm_find_invokeID_index s 0 →
      (peer_bound cfg s src invokeID f c).slot k = s.slot k := by
    intro k hk
    show (s.setSlot (tsm_find_invokeID_index s 0) _).slot k = _
    rw [slot_setSlot_ne _ _ _ _ hk]
  refine ⟨hl, hi0, ?_, hself, hother, rfl⟩
  apply find_invokeID_unique _ c _ (by rw [hl]; exact hlen) (by rw [hl]; exact hi0)
  · rw [hself]
  · intro j hj
    rw [hother j hj]
    intro hjc
    apply hc
    by_cases hjl : j < s.TSM_List.length
    · exact (held_iff_slot s c).mpr ⟨j, hjl, hjc⟩
    · rw [slot_of_not_lt s hjl] at hjc
      exact absurd hjc.symm hc0

/-- The first segment of a new peer transaction, with room in both tables: a
mapping is created and the `TSM_STATE_IDLE` case runs on the claimed slot. -/
theorem first_segment_new (cfg : Config) (s : TSM) (src : BACNET_ADDRESS)
    (service_data : BACNET_CONFIRMED_SERVICE_DATA) (service_request : List Nat)
    (service_request_len f : Nat)
    (hlen : s.TSM_List.length ≤ 255) (hcur : s.Current_Invoke_ID < 256)
    (hno : s.TSM_Peer_Ids.findIdx? (peer_entry_matches src service_data.invoke_id) = none)
    (hf : s.TSM_Peer_Ids.findIdx? (fun e => e.InternalInvokeID == 0) = some f)
    (h0 : held s 0) :
    ∃ c, c ≠ 0 ∧ ¬ held s c ∧
      tsm_set_segmented_confirmed_service_received cfg s src service_data service_request
        service_request_len =
        some (⟨false, c, some service_request, service_request_len⟩,
          segment_received_idle cfg (peer_bound cfg s src service_data.invoke_id f c)
            (tsm_find_invokeID_index s 0) c src service_data service_request
            service_request_len) := by
  obtain ⟨c, hc0, hc, heq⟩ :=
    tsm_get_peer_id_create cfg s src service_data.invoke_id f hlen hcur hno hf h0
  obtain ⟨hl, hi0, hidx, hself, _, _⟩ :=
    peer_bound_slots cfg s src service_data.invoke_id f c hlen h0 hc0 hc
  refine ⟨c, hc0, hc, ?_⟩
  have hst : ((peer_bound cfg s src service_data.invoke_id f c).slot
      (tsm_find_invokeID_index s 0)).state = TSM_STATE_IDLE := by rw [hself]
  unfold tsm_set_segmented_confirmed_service_received
  simp only [heq, hc0, if_false, hidx, MAX_TSM_TRANSACTIONS, hl, ge_iff_le,
    Nat.not_le.mpr hi0, hst]

/-! ## The first segment of an inbound request -/

/-- C20, as stated, fails when no slot is free: the only slot of the table is
taken, a new peer sends segment 0 with the proposed window size 0, and the abort
that goes out is PREEMPTED_BY_HIGHER_PRIORITY_TASK; no Abort
WINDOW_SIZE_OUT_OF_RANGE is sent. -/
theorem first_segment_window_table_full :
    (∀ e ∈ sample_busy_server.TSM_Peer_Ids, peer_entry_matches sample_peer2 9 e = false) ∧
    (tsm_set_segmented_confirmed_service_received Config.sample sample_busy_server
        sample_peer2 (sample_segment 9 0 0 true) [1, 2, 3] 3).map
      (fun r => (r.1.result, r.2.sent)) =
      some (false, sample_busy_server.sent ++
        [Event.abort 9 sample_peer2 ABORT_REASON_PREEMPTED_BY_HIGHER_PRIORITY_TASK true]) ∧
    Event.abort 9 sample_peer2 ABORT_REASON_WINDOW_SIZE_OUT_OF_RANGE true ∉
      sample_busy_server.sent ++
        [Event.abort 9 sample_peer2 ABORT_REASON_PREEMPTED_BY_HIGHER_PRIORITY_TASK true] := by
  decide

theorem peer_no_match_iff (s : TSM) (src : BACNET_ADDRESS) (invokeID : Nat) :
    s.TSM_Peer_Ids.findIdx? (peer_entry_matches src invokeID) = none ↔
      ∀ e ∈ s.TSM_Peer_Ids, peer_entry_matches src invokeID e = false :=
  List.findIdx?_eq_none_iff

theorem peer_free_exists (s : TSM) (h : ∃ e ∈ s.TSM_Peer_Ids, e.InternalInvokeID = 0) :
    ∃ f, s.TSM_Peer_Ids.findIdx? (fun e => e.InternalInvokeID == 0) = some f := by
  obtain ⟨e, he, h0⟩ := h
  exact ⟨_, List.findIdx?_eq_some_of_exists ⟨e, he, by simp [h0]⟩⟩

/-- The `TSM_STATE_IDLE` case on segment 0 with a proposed window size out of
range. -/
theorem segment_received_idle_window (cfg : Config) (t : TSM) (index c : Nat)
    (src : BACNET_ADDRESS) (service_data : BACNET_CONFIRMED_SERVICE_DATA)
    (service_request : List Nat) (service_request_len : Nat)
    (hi : index < t.TSM_List.length) (hseq : service_data.sequence_number = 0)
    (hw : service_data.proposed_window_number = 0 ∨ service_data.proposed_window_number > 127) :
    (segment_received_idle cfg t index c src service_data service_request
      service_request_len).sent =
      t.sent ++ [Event.abort service_data.invoke_id src
        ABORT_REASON_WINDOW_SIZE_OUT_OF_RANGE true] ∧
    (segment_received_idle cfg t index c src service_data service_request
      service_request_len).slot index =
      { t.slot index with
        state := TSM_STATE_IDLE
        ActualWindowSize := service_data.proposed_window_number
        ProposedWindowSize := service_data.proposed_window_number
        InitialSequenceNumber := 0
        LastSequenceNumber := 0
        RetryCount := 0
        SegmentRetryCount := 0
        ReceivedSegmentsCount := 1
        RequestTimer := 0
        SegmentTimer := u16 (cfg.apdu_segment_timeout * 4)
        apdu_blob_size := 0 } ∧
    (∀ k, k ≠ index →
      (segment_received_idle cfg t index c src service_data service_request
        service_request_len).slot k = t.slot k) ∧
    (segment_received_idle cfg t index c src service_data service_request
      service_request_len).TSM_List.length = t.TSM_List.length ∧
    (segment_received_idle cfg t index c src service_data service_request
      service_request_len).TSM_Peer_Ids = t.TSM_Peer_Ids := by
  have e : segment_received_idle cfg t index c src service_data service_request
      service_request_len =
      ((t.setSlot index (reset_blob { t.slot index with
        state := TSM_STATE_SEGMENTED_REQUEST_SERVER
        ActualWindowSize := service_data.proposed_window_number
        ProposedWindowSize := service_data.proposed_window_number
        InitialSequenceNumber := 0
        LastSequenceNumber := 0
        RetryCount := 0
        SegmentRetryCount := 0
        ReceivedSegmentsCount := 1
        RequestTimer := 0
        SegmentTimer := u16 (cfg.apdu_segment_timeout * 4) })).emit
        (Event.abort service_data.invoke_id src ABORT_REASON_WINDOW_SIZE_OUT_OF_RANGE
          true)).setSlot index
        { reset_blob { t.slot index with
            state := TSM_STATE_SEGMENTED_REQUEST_SERVER
            ActualWindowSize := service_data.proposed_window_number
            ProposedWindowSize := service_data.proposed_window_number
            InitialSequenceNumber := 0
            LastSequenceNumber := 0
            RetryCount := 0
            SegmentRetryCount := 0
            ReceivedSegmentsCount := 1
            RequestTimer := 0
            SegmentTimer := u16 (cfg.apdu_segment_timeout * 4) } with
          state := TSM_STATE_IDLE } := by
    dsimp only [segment_received_idle]
    rw [if_pos]
    · rw [abort_pdu_send, slot_emit, slot_setSlot_self _ _ _ hi]
    · refine ⟨hseq, ?_⟩
      rw [slot_setSlot_self _ _ _ hi]
      exact hw
  rw [e]
  refine ⟨rfl, ?_, ?_, ?_, rfl⟩
  · rw [slot_setSlot_self _ _ _ (by simpa [TSM.emit, TSM.setSlot] using hi)]
    rfl
  · intro k hk
    rw [slot_setSlot_ne _ _ _ _ hk, slot_emit, slot_setSlot_ne _ _ _ _ hk]
  · simp [TSM.emit, TSM.setSlot]

/-- C20, amended: the first segment of a new peer transaction, with a free
peer-map entry and a free slot, sequence number 0 and a proposed window size of
0 or above 127: the call returns false, the only thing sent is the Abort
WINDOW_SIZE_OUT_OF_RANGE (so no segment-ack), and no slot's reassembly buffer
receives data (its bytes are unchanged and its size is unchanged or 0). -/
theorem first_segment_window_out_of_range (cfg : Config) (s : TSM) (src : BACNET_ADDRESS)
    (service_data : BACNET_CONFIRMED_SERVICE_DATA) (service_request : List Nat)
    (service_request_len : Nat)
    (hlen : s.TSM_List.length ≤ 255) (hcur : s.Current_Invoke_ID < 256)
    (hnew : ∀ e ∈ s.TSM_Peer_Ids, peer_entry_matches src service_data.invoke_id e = false)
    (hentry : ∃ e ∈ s.TSM_Peer_Ids, e.InternalInvokeID = 0)
    (hslot : ∃ d ∈ s.TSM_List, d.InvokeID = 0)
    (hseq : service_data.sequence_number = 0)
    (hw : service_data.proposed_window_number = 0 ∨ service_data.proposed_window_number > 127) :
    ∃ c s', c ≠ 0 ∧
      tsm_set_segmented_confirmed_service_received cfg s src service_data service_request
        service_request_len =
        some (⟨false, c, some service_request, service_request_len⟩, s') ∧
      s'.sent = s.sent ++ [Event.abort service_data.invoke_id src
        ABORT_REASON_WINDOW_SIZE_OUT_OF_RANGE true] ∧
      ∀ k, (s'.slot k).apdu_blob = (s.slot k).apdu_blob ∧
        ((s'.slot k).apdu_blob_size = (s.slot k).apdu_blob_size ∨
          (s'.slot k).apdu_blob_size = 0) := by
  obtain ⟨f, hf⟩ := peer_free_exists s hentry
  have hno := (peer_no_match_iff s src service_data.invoke_id).mpr hnew
  obtain ⟨c, hc0, hc, heq⟩ := first_segment_new cfg s src service_data service_request
    service_request_len f hlen hcur hno hf hslot
  obtain ⟨hl, hi0, _, hself, hother, hsent⟩ :=
    peer_bound_slots cfg s src service_data.invoke_id f c hlen hslot hc0 hc
  obtain ⟨w1, w2, w3, _, _⟩ := segment_received_idle_window cfg
    (peer_bound cfg s src service_data.invoke_id f c) (tsm_find_invokeID_index s 0) c src
    service_data service_request service_request_len (by rw [hl]; exact hi0) hseq hw
  refine ⟨c, _, hc0, heq, by rw [w1, hsent], ?_⟩
  intro k
  by_cases hk : k = tsm_find_invokeID_index s 0
  · subst hk
    rw [w2, hself]
    exact ⟨rfl, Or.inr rfl⟩
  · rw [w3 k hk, hother k hk]
    exact ⟨rfl, Or.inl rfl⟩

theorem first_segment_window_out_of_range_witness :
    (((TSM.init 2 1).TSM_List.length ≤ 255) ∧
    ((TSM.init 2 1).Current_Invoke_ID < 256) ∧
    (∀ e ∈ (TSM.init 2 1).TSM_Peer_Ids, peer_entry_matches sample_peer (sample_segment 7 0 128 true).invoke_id e = false) ∧
    (∃ e ∈ (TSM.init 2 1).TSM_Peer_Ids, e.InternalInvokeID = 0) ∧
    (∃ d ∈ (TSM.init 2 1).TSM_List, d.InvokeID = 0) ∧
    ((sample_segment 7 0 128 true).sequence_number = 0) ∧
    ((sample_segment 7 0 128 true).proposed_window_number = 0 ∨ (sample_segment 7 0 128 true).proposed_window_number > 127)) ∧
    (∃ c s', c ≠ 0 ∧
      tsm_set_segmented_confirmed_service_received Config.sample (TSM.init 2 1) sample_peer (sample_segment 7 0 128 true) [1, 2, 3]
        3 =
        some (⟨false, c, some [1, 2, 3], 3⟩, s') ∧
      s'.sent = (TSM.init 2 1).sent ++ [Event.abort (sample_segment 7 0 128 true).invoke_id sample_peer
        ABORT_REASON_WINDOW_SIZE_OUT_OF_RANGE true] ∧
      ∀ k, (s'.slot k).apdu_blob = ((TSM.init 2 1).slot k).apdu_blob ∧
        ((s'.slot k).apdu_blob_size = ((TSM.init 2 1).slot k).apdu_blob_size ∨
          (s'.slot k).apdu_blob_size = 0)) :=
  ⟨⟨by decide, by decide, by decide, by decide, by decide, by decide, by decide⟩,
    first_segment_window_out_of_range Config.sample ((TSM.init 2 1)) sample_peer ((sample_segment 7 0 128 true)) ([1, 2, 3]) 3 (by decide) (by decide) (by decide) (by decide) (by decide) (by decide) (by decide)⟩

/-! ## Steps that allocate nothing -/

theorem SlotStep.reflS (d : BACNET_TSM_DATA) : SlotStep d d :=
  ⟨Or.inl rfl, fun h => Or.inr ⟨rfl, h⟩⟩

theorem SlotStep.transS {d d' d'' : BACNET_TSM_DATA} (h1 : SlotStep d d') (h2 : SlotStep d' d'') :
    SlotStep d d'' := by
  obtain ⟨a1, b1⟩ := h1
  obtain ⟨a2, b2⟩ := h2
  refine ⟨?_, ?_⟩
  · rcases a2 with h | h
    · rcases a1 with g | g
      · exact Or.inl (h.trans g)
      · exact Or.inr (h.trans g)
    · exact Or.inr h
  · intro h0
    rcases b2 h0 with h | ⟨h, g⟩
    · exact Or.inl h
    · rcases b1 g with h' | ⟨h', g'⟩
      · exact Or.inl (h.trans h')
      · exact Or.inr ⟨h.trans h', g'⟩

theorem Rel.reflR (s : TSM) : Rel s s :=
  ⟨rfl, rfl, rfl, fun _ => SlotStep.reflS _, fun _ => Or.inl rfl⟩

theorem Rel.transR {s s' s'' : TSM} (h1 : Rel s s') (h2 : Rel s' s'') : Rel s s'' := by
  obtain ⟨a1, b1, c1, d1, e1⟩ := h1
  obtain ⟨a2, b2, c2, d2, e2⟩ := h2
  refine ⟨a2.trans a1, b2.trans b1, c2.trans c1, fun k => (d1 k).transS (d2 k), ?_⟩
  intro j
  rcases e2 j with h | h
  · rcases e1 j with g | g
    · exact Or.inl (h.trans g)
    · exact Or.inr (by rw [h]; exact g)
  · exact Or.inr h

theorem RelP.reflP (s : TSM) : RelP s s := ⟨Rel.reflR s, fun _ => Or.inl rfl⟩

theorem RelP.transP {s s' s'' : TSM} (h1 : RelP s s') (h2 : RelP s' s'') : RelP s s'' := by
  refine ⟨h1.1.transR h2.1, ?_⟩
  intro k
  have keep : (∀ j, (s'.peer j).InternalInvokeID ≠ 0 →
      (s'.peer j).InternalInvokeID ≠ (s.slot k).InvokeID) →
      ∀ j, (s''.peer j).InternalInvokeID ≠ 0 →
        (s''.peer j).InternalInvokeID ≠ (s.slot k).InvokeID := by
    intro hp j hj
    rcases h2.1.2.2.2.2 j with h | h
    · rw [h] at hj ⊢
      exact hp j hj
    · exact absurd h hj
  rcases h2.2 k with h | h
  · rcases h1.2 k with g | g
    · exact Or.inl (h.trans g)
    · exact Or.inr (keep g)
  · rcases h1.2 k with g | g
    · exact Or.inr (by rw [← g]; exact h)
    · exact Or.inr (keep g)

theorem slot_congr {s s' : TSM} (h : s'.TSM_List = s.TSM_List) (k : Nat) :
    s'.slot k = s.slot k := by
  unfold TSM.slot; rw [h]

theorem peer_congr {s s' : TSM} (h : s'.TSM_Peer_Ids = s.TSM_Peer_Ids) (j : Nat) :
    s'.peer j = s.peer j := by
  unfold TSM.peer; rw [h]

/-- A step that leaves the slots, the peer map and the cursor alone. -/
theorem relP_of_tables_eq {s s' : TSM} (h1 : s'.TSM_List = s.TSM_List)
    (h2 : s'.TSM_Peer_Ids = s.TSM_Peer_Ids) (h3 : s'.Current_Invoke_ID = s.Current_Invoke_ID) :
    RelP s s' := by
  refine ⟨⟨by rw [h1], h3, by rw [h2], fun k => ?_, fun j => Or.inl (peer_congr h2 j)⟩,
    fun k => Or.inl (by rw [slot_congr h1 k])⟩
  rw [slot_congr h1 k]
  exact SlotStep.reflS _

/-- An assignment to a slot that keeps its invoke-id and leaves a slot without
invoke-id idle or in its state. -/
theorem relP_setSlot (s : TSM) (i : Nat) (d : BACNET_TSM_DATA)
    (hid : d.InvokeID = (s.slot i).InvokeID)
    (hst : d.InvokeID = 0 → d.state = TSM_STATE_IDLE ∨ d.state = (s.slot i).state) :
    RelP s (s.setSlot i d) := by
  have hs : ∀ k, (s.setSlot i d).slot k = s.slot k ∨ (k = i ∧ (s.setSlot i d).slot k = d) := by
    intro k
    rw [slot_setSlot]
    split
    · rename_i h; exact Or.inr ⟨h.1, rfl⟩
    · exact Or.inl rfl
  refine ⟨⟨length_setSlot s i d, rfl, rfl, fun k => ?_, fun j => Or.inl rfl⟩, fun k => ?_⟩
  · rcases hs k with h | ⟨hk, h⟩
    · rw [h]; exact SlotStep.reflS _
    · rw [h, hk]
      refine ⟨Or.inl hid, fun h0 => ?_⟩
      rcases hst h0 with g | g
      · exact Or.inl g
      · exact Or.inr ⟨g, by rw [← hid]; exact h0⟩
  · rcases hs k with h | ⟨hk, h⟩
    · exact Or.inl (by rw [h])
    · exact Or.inl (by rw [h, hk]; exact hid)

theorem relP_onSlot (s : TSM) (i : Nat) (r : BACNET_TSM_DATA × List Event)
    (hid : r.1.InvokeID = (s.slot i).InvokeID)
    (hst : r.1.InvokeID = 0 → r.1.state = TSM_STATE_IDLE ∨ r.1.state = (s.slot i).state) :
    RelP s (s.onSlot i r) :=
  (relP_setSlot s i r.1 hid hst).transP (relP_of_tables_eq rfl rfl rfl)

theorem relP_emit (s : TSM) (e : Event) : RelP s (s.emit e) := relP_of_tables_eq rfl rfl rfl

theorem relP_abort (s : TSM) (id : Nat) (dest : BACNET_ADDRESS) (reason : BACNET_ABORT_REASON)
    (server : Bool) : RelP s (abort_pdu_send s id dest reason server) :=
  relP_of_tables_eq rfl rfl rfl

theorem relP_segmentack (s : TSM) (dest : BACNET_ADDRESS) (n v : Bool) (a b c : Nat) :
    RelP s (segmentack_pdu_send s dest n v a b c) :=
  relP_of_tables_eq rfl rfl rfl

theorem peer_clear (s : TSM) (c j : Nat) :
    (tsm_clear_peer_id s c).peer j =
      if (s.peer j).InternalInvokeID = c then { s.peer j with InternalInvokeID := 0 }
      else s.peer j := by
  unfold tsm_clear_peer_id TSM.peer
  simp only [List.getD_eq_getElem?_getD, List.getElem?_map]
  cases h : s.TSM_Peer_Ids[j]? with
  | none =>
    simp only [Option.map_none', Option.getD_none]
    split <;> rfl
  | some e => simp

theorem relP_clear_peer (s : TSM) (c : Nat) : RelP s (tsm_clear_peer_id s c) := by
  refine ⟨⟨rfl, rfl, by simp [tsm_clear_peer_id], fun k => SlotStep.reflS _, fun j => ?_⟩,
    fun k => Or.inl rfl⟩
  rw [peer_clear]
  split
  · exact Or.inr rfl
  · exact Or.inl rfl

theorem relP_setPeer_free (s : TSM) (f : Nat) (e : BACNET_TSM_INDIRECT_DATA)
    (h0 : e.InternalInvokeID = 0) : RelP s (s.setPeer f e) := by
  refine ⟨⟨rfl, rfl, by simp [TSM.setPeer], fun k => SlotStep.reflS _, fun j => ?_⟩,
    fun k => Or.inl rfl⟩
  by_cases hj : j = f
  · subst hj
    by_cases hl : j < s.TSM_Peer_Ids.length
    · rw [peer_setPeer_self s j e hl]; exact Or.inr h0
    · rw [peer_of_not_lt _ (by simpa [TSM.setPeer] using hl)]; exact Or.inr rfl
  · exact Or.inl (peer_setPeer_ne s f j e hj)

theorem find_lt_spec (s : TSM) (c : Nat) (hlen : s.TSM_List.length ≤ 255)
    (h : tsm_find_invokeID_index s c < s.TSM_List.length) :
    (s.slot (tsm_find_invokeID_index s c)).InvokeID = c := by
  have hh : held s c := by
    by_contra hn
    have := (find_invokeID_eq_max s c hlen).mpr hn
    unfold MAX_TSM_TRANSACTIONS at this
    omega
  exact (find_invokeID_spec s c hlen hh).2.1

theorem slot_setSlot_cases (s : TSM) (i : Nat) (d : BACNET_TSM_DATA) (k : Nat) :
    (s.setSlot i d).slot k = s.slot k ∨ (k = i ∧ (s.setSlot i d).slot k = d) := by
  rw [slot_setSlot]
  split
  · rename_i h; exact Or.inr ⟨h.1, rfl⟩
  · exact Or.inl rfl

/-- An assignment that frees a slot: it is left idle and without invoke-id. -/
theorem rel_setSlot_zero (s : TSM) (i : Nat) (d : BACNET_TSM_DATA) (h0 : d.InvokeID = 0)
    (hst : d.state = TSM_STATE_IDLE) : Rel s (s.setSlot i d) := by
  refine ⟨length_setSlot s i d, rfl, rfl, fun k => ?_, fun j => Or.inl rfl⟩
  rcases slot_setSlot_cases s i d k with h | ⟨_, h⟩
  · rw [h]; exact SlotStep.reflS _
  · rw [h]; exact ⟨Or.inr h0, fun _ => Or.inl hst⟩

theorem paired_setSlot (s : TSM) (i : Nat) (d : BACNET_TSM_DATA)
    (hp : ∀ j, (s.peer j).InternalInvokeID ≠ 0 →
      (s.peer j).InternalInvokeID ≠ (s.slot i).InvokeID) : Paired s (s.setSlot i d) := by
  intro k
  rcases slot_setSlot_cases s i d k with h | ⟨hk, _⟩
  · exact Or.inl (by rw [h])
  · exact Or.inr (by rw [hk]; exact hp)

theorem relP_setSlot_zero (s : TSM) (i : Nat) (d : BACNET_TSM_DATA) (h0 : d.InvokeID = 0)
    (hst : d.state = TSM_STATE_IDLE)
    (hp : ∀ j, (s.peer j).InternalInvokeID ≠ 0 →
      (s.peer j).InternalInvokeID ≠ (s.slot i).InvokeID) : RelP s (s.setSlot i d) :=
  ⟨rel_setSlot_zero s i d h0 hst, paired_setSlot s i d hp⟩

theorem peer_clear_ne (s : TSM) (c j : Nat)
    (h : ((tsm_clear_peer_id s c).peer j).InternalInvokeID ≠ 0) :
    ((tsm_clear_peer_id s c).peer j).InternalInvokeID ≠ c := by
  rw [peer_clear] at h ⊢
  split
  · rename_i hc; rw [if_pos hc] at h; exact absurd rfl h
  · rename_i hc; exact hc

/-- The operation `tsm_free_invoke_id_check` frees a slot together with the
peer-map entries bound to its invoke-id. -/
theorem relP_free_check (s : TSM) (id : Nat) (peer_address : Option BACNET_ADDRESS)
    (cleanup : Bool) (hlen : s.TSM_List.length ≤ 255) :
    RelP s (tsm_free_invoke_id_check s id peer_address cleanup) := by
  unfold tsm_free_invoke_id_check
  dsimp only
  split_ifs with hc hcl
  · obtain ⟨hi, _⟩ := hc
    have hid := find_lt_spec s id hlen hi
    generalize tsm_find_invokeID_index s id = i at hi hid
    have r1 := relP_setSlot s i { s.slot i with state := TSM_STATE_IDLE } rfl
      (fun _ => Or.inl rfl)
    have r2 := relP_clear_peer (s.setSlot i { s.slot i with state := TSM_STATE_IDLE }) id
    have e2 : (tsm_clear_peer_id (s.setSlot i { s.slot i with state := TSM_STATE_IDLE })
        id).slot i = { s.slot i with state := TSM_STATE_IDLE } := slot_setSlot_self s i _ hi
    have r3 := relP_setSlot_zero
      (tsm_clear_peer_id (s.setSlot i { s.slot i with state := TSM_STATE_IDLE }) id) i
      { (tsm_clear_peer_id (s.setSlot i { s.slot i with state := TSM_STATE_IDLE }) id).slot i
        with InvokeID := 0 } rfl (by rw [e2]) (by
          intro j hj
          rw [e2]
          show _ ≠ (s.slot i).InvokeID
          rw [hid]
          exact peer_clear_ne _ id j hj)
    have r4 := relP_setSlot _ i (free_blob (((tsm_clear_peer_id
      (s.setSlot i { s.slot i with state := TSM_STATE_IDLE }) id).setSlot i
      { (tsm_clear_peer_id (s.setSlot i { s.slot i with state := TSM_STATE_IDLE }) id).slot i
        with InvokeID := 0 }).slot i)) rfl (fun _ => Or.inr rfl)
    exact ((r1.transP r2).transP r3).transP r4
  · obtain ⟨hi, _⟩ := hc
    have hid := find_lt_spec s id hlen hi
    generalize tsm_find_invokeID_index s id = i at hi hid
    have r1 := relP_setSlot s i { s.slot i with state := TSM_STATE_IDLE } rfl
      (fun _ => Or.inl rfl)
    have r2 := relP_clear_peer (s.setSlot i { s.slot i with state := TSM_STATE_IDLE }) id
    have e2 : (tsm_clear_peer_id (s.setSlot i { s.slot i with state := TSM_STATE_IDLE })
        id).slot i = { s.slot i with state := TSM_STATE_IDLE } := slot_setSlot_self s i _ hi
    have r3 := relP_setSlot_zero
      (tsm_clear_peer_id (s.setSlot i { s.slot i with state := TSM_STATE_IDLE }) id) i
      { (tsm_clear_peer_id (s.setSlot i { s.slot i with state := TSM_STATE_IDLE }) id).slot i
        with InvokeID := 0 } rfl (by rw [e2]) (by
          intro j hj
          rw [e2]
          show _ ≠ (s.slot i).InvokeID
          rw [hid]
          exact peer_clear_ne _ id j hj)
    exact (r1.transP r2).transP r3
  · exact RelP.reflP s

theorem rel_free (s : TSM) (id : Nat) : Rel s (tsm_free_invoke_id s id) := by
  unfold tsm_free_invoke_id
  dsimp only
  split_ifs
  · exact rel_setSlot_zero s _ _ rfl rfl
  · exact Rel.reflR s

theorem paired_free (s : TSM) (id : Nat) (hlen : s.TSM_List.length ≤ 255)
    (hp : ∀ j, (s.peer j).InternalInvokeID ≠ 0 → (s.peer j).InternalInvokeID ≠ id) :
    Paired s (tsm_free_invoke_id s id) := by
  unfold tsm_free_invoke_id
  dsimp only
  split_ifs with hi
  · apply paired_setSlot
    rw [find_lt_spec s id hlen hi]
    exact hp
  · exact fun _ => Or.inl rfl

theorem tsm_pdu_send_state (cfg : Config) (index : Nat) (d : BACNET_TSM_DATA) (n : Nat) :
    (tsm_pdu_send cfg index d n).1.state = d.state := by
  unfold tsm_pdu_send
  simp only
  split_ifs <;> try rfl
  all_goals
    split
    · rfl
    · split_ifs <;> rfl

theorem FillWindow_loop_state (cfg : Config) (index total seq : Nat) (fuel : Nat) :
    ∀ (ix : Nat) (d : BACNET_TSM_DATA) (sent : List Event),
      (FillWindow_loop cfg index total seq fuel ix d sent).2.1.state = d.state := by
  induction fuel with
  | zero => intro ix d sent; rfl
  | succ fuel ih =>
    intro ix d sent
    unfold FillWindow_loop
    split_ifs
    · exact (ih _ _ _).trans (tsm_pdu_send_state cfg index d _)
    · rfl

theorem FillWindow_state (cfg : Config) (index : Nat) (d : BACNET_TSM_DATA) (seq : Nat) :
    (FillWindow cfg index d seq).1.state = d.state := by
  have h := FillWindow_loop_state cfg index (get_apdu_max_segments d) seq d.ActualWindowSize 0 d []
  unfold FillWindow
  simp only
  split_ifs
  · exact h
  · exact h

theorem relP_setSlot_same (s : TSM) (i : Nat) (d : BACNET_TSM_DATA)
    (hid : d.InvokeID = (s.slot i).InvokeID) (hst : d.state = (s.slot i).state) :
    RelP s (s.setSlot i d) :=
  relP_setSlot s i d hid (fun _ => Or.inr hst)

theorem relP_setSlot_idle (s : TSM) (i : Nat) (d : BACNET_TSM_DATA)
    (hid : d.InvokeID = (s.slot i).InvokeID) (hst : d.state = TSM_STATE_IDLE) :
    RelP s (s.setSlot i d) :=
  relP_setSlot s i d hid (fun _ => Or.inl hst)

theorem relP_timer_await (cfg : Config) (ms : Nat) (s : TSM) (i : Nat) :
    RelP s (tsm_timer_await_confirmation cfg ms s i) := by
  unfold tsm_timer_await_confirmation
  dsimp only
  split_ifs <;> first
    | exact RelP.reflP s
    | exact relP_setSlot_same s i _ rfl rfl
    | exact relP_setSlot_idle s i _ rfl rfl

theorem relP_timer_response (cfg : Config) (ms : Nat) (s : TSM) (i : Nat) :
    RelP s (tsm_timer_segmented_response cfg ms s i) := by
  unfold tsm_timer_segmented_response
  dsimp only
  split_ifs <;> first
    | exact RelP.reflP s
    | exact relP_setSlot_same s i _ rfl rfl
    | exact relP_setSlot_idle s i _ rfl rfl
    | exact relP_onSlot s i _ (FillWindow_spec cfg i _ _).2
        (fun _ => Or.inr (FillWindow_state cfg i _ _))

/-- The expiry of the segment timer of a request being reassembled: the peer-map
entries of the slot are cleared, then the slot is freed. -/
theorem relP_expire (s1 : TSM) (i c : Nat) (hc : (s1.slot i).InvokeID = c) :
    RelP s1 (((tsm_clear_peer_id s1 c).setSlot i
      (free_blob ((tsm_clear_peer_id s1 c).slot i))).setSlot i
      { ((tsm_clear_peer_id s1 c).setSlot i (free_blob ((tsm_clear_peer_id s1 c).slot i))).slot i
        with InvokeID := 0, state := TSM_STATE_IDLE }) := by
  have r2 := relP_clear_peer s1 c
  have r3 := relP_setSlot_same (tsm_clear_peer_id s1 c) i
    (free_blob ((tsm_clear_peer_id s1 c).slot i)) rfl rfl
  refine (r2.transP r3).transP (relP_setSlot_zero _ i _ rfl rfl ?_)
  intro j hj
  have e : (((tsm_clear_peer_id s1 c).setSlot i
      (free_blob ((tsm_clear_peer_id s1 c).slot i))).slot i).InvokeID = c := by
    rcases slot_setSlot_cases (tsm_clear_peer_id s1 c) i
      (free_blob ((tsm_clear_peer_id s1 c).slot i)) i with h | ⟨_, h⟩
    · rw [h]; exact hc
    · rw [h]; exact hc
  rw [e]
  exact peer_clear_ne s1 c j hj

theorem relP_timer_request (ms : Nat) (s : TSM) (i : Nat) :
    RelP s (tsm_timer_segmented_request ms s i) := by
  have hc : ∀ d : BACNET_TSM_DATA, d.InvokeID = (s.slot i).InvokeID →
      ((s.setSlot i d).slot i).InvokeID = (s.slot i).InvokeID := by
    intro d hd
    rcases slot_setSlot_cases s i d i with h | ⟨_, h⟩
    · rw [h]
    · rw [h]; exact hd
  unfold tsm_timer_segmented_request
  dsimp only
  split_ifs <;> first
    | exact RelP.reflP s
    | exact relP_setSlot_same s i _ rfl rfl
    | (refine RelP.transP (relP_setSlot_same s i _ ?_ ?_) (relP_expire _ i _ ?_) <;>
        first | rfl | exact hc _ rfl)

theorem relP_timer_slot (cfg : Config) (ms : Nat) (s : TSM) (i : Nat) :
    RelP s (tsm_timer_slot cfg ms s i) :=
  ((relP_timer_await cfg ms s i).transP (relP_timer_response cfg ms _ i)).transP
    (relP_timer_request ms _ i)

theorem relP_foldl_timer (cfg : Config) (ms : Nat) :
    ∀ (js : List Nat) (s : TSM), RelP s (js.foldl (tsm_timer_slot cfg ms) s) := by
  intro js
  induction js with
  | nil => intro s; exact RelP.reflP s
  | cons j js ih => intro s; exact (relP_timer_slot cfg ms s j).transP (ih _)

theorem relP_timer (cfg : Config) (s : TSM) (ms : Nat) :
    RelP s (tsm_timer_milliseconds cfg s ms) :=
  relP_foldl_timer cfg ms _ s

/-! ### Steps appended to a run of steps -/

theorem relP_snoc_same {s t : TSM} (i : Nat) (d : BACNET_TSM_DATA) (h : RelP s t)
    (hid : d.InvokeID = (t.slot i).InvokeID) (hst : d.state = (t.slot i).state) :
    RelP s (t.setSlot i d) :=
  h.transP (relP_setSlot_same t i d hid hst)

theorem relP_snoc_idle {s t : TSM} (i : Nat) (d : BACNET_TSM_DATA) (h : RelP s t)
    (hid : d.InvokeID = (t.slot i).InvokeID) (hst : d.state = TSM_STATE_IDLE) :
    RelP s (t.setSlot i d) :=
  h.transP (relP_setSlot_idle t i d hid hst)

theorem relP_snoc_held {s t : TSM} (i : Nat) (d : BACNET_TSM_DATA) (h : RelP s t)
    (hid : d.InvokeID = (t.slot i).InvokeID) (hne : (t.slot i).InvokeID ≠ 0) :
    RelP s (t.setSlot i d) :=
  h.transP (relP_setSlot t i d hid (fun h0 => absurd (hid ▸ h0) hne))

theorem relP_snoc_tables {s t t' : TSM} (h : RelP s t) (h1 : t'.TSM_List = t.TSM_List)
    (h2 : t'.TSM_Peer_Ids = t.TSM_Peer_Ids) (h3 : t'.Current_Invoke_ID = t.Current_Invoke_ID) :
    RelP s t' :=
  h.transP (relP_of_tables_eq h1 h2 h3)

theorem relP_snoc_free_check {s t : TSM} (id : Nat) (peer_address : Option BACNET_ADDRESS)
    (cleanup : Bool) (hlen : s.TSM_List.length ≤ 255) (h : RelP s t) :
    RelP s (tsm_free_invoke_id_check t id peer_address cleanup) :=
  h.transP (relP_free_check t id peer_address cleanup (by rw [h.1.1]; exact hlen))

theorem relP_snoc_onSlot {s t : TSM} (i : Nat) (r : BACNET_TSM_DATA × List Event)
    (h : RelP s t) (hid : r.1.InvokeID = (t.slot i).InvokeID)
    (hst : r.1.state = (t.slot i).state) : RelP s (t.onSlot i r) :=
  h.transP (relP_onSlot t i r hid (fun _ => Or.inr hst))

theorem relP_set_unsegmented (cfg : Config) (s : TSM) (invokeID : Nat) (dest : BACNET_ADDRESS)
    (npdu : BACNET_NPDU_DATA) (apdu : List Nat) (apdu_len : Nat)
    (hlen : s.TSM_List.length ≤ 255) :
    RelP s (tsm_set_confirmed_unsegmented_transaction cfg s invokeID dest npdu apdu apdu_len) := by
  unfold tsm_set_confirmed_unsegmented_transaction
  dsimp only
  split_ifs with h1 h2
  · have hid := find_lt_spec s invokeID hlen h2
    exact relP_snoc_held _ _ (RelP.reflP s) rfl (by rw [hid]; exact h1.1)
  · exact RelP.reflP s
  · exact RelP.reflP s

theorem relP_snoc_emit {s t : TSM} (e : Event) (h : RelP s t) : RelP s (t.emit e) := h

theorem relP_snoc_abort {s t : TSM} (id : Nat) (dest : BACNET_ADDRESS)
    (reason : BACNET_ABORT_REASON) (server : Bool) (h : RelP s t) :
    RelP s (abort_pdu_send t id dest reason server) := h

theorem relP_snoc_segmentack {s t : TSM} (dest : BACNET_ADDRESS) (n v : Bool) (a b c : Nat)
    (h : RelP s t) : RelP s (segmentack_pdu_send t dest n v a b c) := h

theorem relP_snoc_dup {s t : TSM} (n : Nat) (h : RelP s t) :
    RelP s { t with Duplicate_Count := n } := h

theorem relP_duplicate (cfg : Config) (s : TSM) (index : Nat)
    (service_data : BACNET_CONFIRMED_SERVICE_DATA) (src : BACNET_ADDRESS) :
    RelP s (duplicate_segment_received cfg s index service_data src).2 := by
  unfold duplicate_segment_received
  dsimp only
  split_ifs
  · refine relP_snoc_dup _ ?_
    exact relP_snoc_same _ _ (RelP.reflP s) rfl rfl
  · refine relP_snoc_dup _ ?_
    refine relP_snoc_same _ _ ?_ rfl rfl
    refine relP_snoc_same _ _ ?_ rfl rfl
    exact relP_snoc_segmentack _ _ _ _ _ _ (RelP.reflP s)
  · exact RelP.reflP s

theorem add_blob_keeps (d : BACNET_TSM_DATA) (bdata : List Nat) (n : Nat) :
    (add_blob_data d bdata n).InvokeID = d.InvokeID ∧
    (add_blob_data d bdata n).state = d.state := by
  unfold add_blob_data ensure_extra_blob_size
  dsimp only
  split_ifs <;> exact ⟨rfl, rfl⟩

/-- The `TSM_STATE_IDLE` case of the reception, on a slot that holds an
invoke-id. -/
theorem relP_segment_idle (cfg : Config) (s : TSM) (index c : Nat) (src : BACNET_ADDRESS)
    (service_data : BACNET_CONFIRMED_SERVICE_DATA) (service_request : List Nat)
    (service_request_len : Nat) (hlen : s.TSM_List.length ≤ 255)
    (hne : (s.slot index).InvokeID ≠ 0) :
    RelP s (segment_received_idle cfg s index c src service_data service_request
      service_request_len) := by
  unfold segment_received_idle
  dsimp only
  split_ifs <;> repeat first
    | exact relP_snoc_held _ _ (RelP.reflP s) rfl hne
    | refine relP_snoc_free_check _ _ _ hlen ?_
    | refine relP_snoc_abort _ _ _ _ ?_
    | refine relP_snoc_segmentack _ _ _ _ _ _ ?_
    | refine relP_snoc_idle _ _ ?_ rfl rfl
    | refine relP_snoc_same _ _ ?_ rfl rfl
    | refine relP_snoc_same _ _ ?_ (add_blob_keeps _ _ _).1 (add_blob_keeps _ _ _).2

/-- The `TSM_STATE_SEGMENTED_REQUEST_SERVER` case of the reception. -/
theorem relP_segment_request_server (cfg : Config) (s : TSM) (index c : Nat)
    (src : BACNET_ADDRESS) (service_data : BACNET_CONFIRMED_SERVICE_DATA)
    (service_request : List Nat) (service_request_len : Nat)
    (hlen : s.TSM_List.length ≤ 255) :
    RelP s (segment_received_request_server cfg s index c src service_data service_request
      service_request_len).1 := by
  unfold segment_received_request_server
  lift_lets
  extract_lets p5 t11 t10 p4 t9 t8 p3 t7 t6 t5 p2 t4 p1 t3 t2 we p0 t1 blob ack t0
  have h11 : RelP s t11 := relP_snoc_same _ _ (RelP.reflP s) rfl rfl
  have h10 : RelP s t10 := relP_snoc_abort _ _ _ _ h11
  have h9 : RelP s t9 := by
    show RelP s (if _ then _ else _)
    split_ifs
    · exact relP_snoc_idle _ _ h10 rfl rfl
    · exact h11
  have h8 : RelP s t8 := relP_snoc_segmentack _ _ _ _ _ _ h9
  have h7 : RelP s t7 := relP_snoc_same _ _ h9 rfl rfl
  have h6 : RelP s t6 := relP_snoc_abort _ _ _ _ h7
  have h5 : RelP s t5 := relP_snoc_same _ _ h6 rfl rfl
  have h4 : RelP s t4 := relP_snoc_idle _ _ h5 rfl rfl
  have h3 : RelP s t3 := relP_snoc_same _ _ h7 rfl rfl
  have h2 : RelP s t2 :=
    relP_snoc_same _ _ h3 (add_blob_keeps _ _ _).1 (add_blob_keeps _ _ _).2
  have h1 : RelP s t1 := by
    show RelP s (if _ then _ else _)
    split_ifs
    · exact relP_snoc_same _ _ h2 rfl rfl
    · exact h2
  have h0 : RelP s t0 := by
    show RelP s (if _ then _ else _)
    split_ifs
    · exact relP_snoc_segmentack _ _ _ _ _ _ h1
    · exact h1
  split_ifs
  · exact h9.transP (relP_duplicate _ _ _ _ _)
  · exact relP_snoc_dup _ h8
  · exact relP_snoc_free_check _ _ _ hlen h4
  · exact h0

/-! ## The invariants of the tables -/

theorem tablesOK_rel {s s' : TSM} (h : TablesOK s) (r : Rel s s') : TablesOK s' := by
  obtain ⟨hlen, hcur, h15, h17, h18⟩ := h
  obtain ⟨rl, rc, _, rs, rp⟩ := r
  refine ⟨by rw [rl]; exact hlen, by rw [rc]; exact hcur, ?_, ?_, ?_⟩
  · intro k h0
    rcases (rs k).2 h0 with g | ⟨g, g0⟩
    · exact g
    · rw [g]; exact h15 k g0
  · intro i j hij hi heq
    have ei : (s'.slot i).InvokeID = (s.slot i).InvokeID := by
      rcases (rs i).1 with g | g
      · exact g
      · exact absurd g hi
    have ej : (s'.slot j).InvokeID = (s.slot j).InvokeID := by
      rcases (rs j).1 with g | g
      · exact g
      · exact absurd (heq.trans g) hi
    rw [ei] at hi
    exact h17 i j hij hi (by rw [← ei, ← ej]; exact heq)
  · intro i j hij hi hj
    have ei : s'.peer i = s.peer i := by
      rcases rp i with g | g
      · exact g
      · exact absurd g hi
    have ej : s'.peer j = s.peer j := by
      rcases rp j with g | g
      · exact g
      · exact absurd g hj
    rw [ei] at hi ⊢
    rw [ej] at hj ⊢
    exact h18 i j hij hi hj

theorem peersBound_relP {s s' : TSM} (h : PeersBound s) (r : RelP s s') : PeersBound s' := by
  intro j hj
  have ej : s'.peer j = s.peer j := by
    rcases r.1.2.2.2.2 j with g | g
    · exact g
    · exact absurd g hj
  obtain ⟨k, hk⟩ := h j (by rw [← ej]; exact hj)
  refine ⟨k, ?_⟩
  rcases r.2 k with g | g
  · rw [g, hk, ej]
  · exact absurd (by rw [hk, ej]) (g j hj)

theorem invokeID_increment_lt (c : Nat) : invokeID_increment c < 256 := by
  unfold invokeID_increment u8
  split <;> omega

theorem not_held_slot (s : TSM) (c : Nat) (hc0 : c ≠ 0) (hc : ¬ held s c) (k : Nat) :
    (s.slot k).InvokeID ≠ c := by
  intro h
  by_cases hk : k < s.TSM_List.length
  · exact hc ((held_iff_slot s c).mpr ⟨k, hk, h⟩)
  · rw [slot_of_not_lt s hk] at h
    exact hc0 h.symm

/-- The slots after a free slot `i0` was claimed for a fresh invoke-id `c`. -/
theorem slots_claim {s s' : TSM} (c i0 : Nat) (h : TablesOK s) (hc0 : c ≠ 0)
    (hc : ¬ held s c) (hself : (s'.slot i0).InvokeID = c)
    (hother : ∀ k, k ≠ i0 → s'.slot k = s.slot k) :
    (∀ k, (s'.slot k).InvokeID = 0 → (s'.slot k).state = TSM_STATE_IDLE) ∧
    (∀ i j, i ≠ j → (s'.slot i).InvokeID ≠ 0 → (s'.slot i).InvokeID ≠ (s'.slot j).InvokeID) := by
  obtain ⟨_, _, h15, h17, _⟩ := h
  refine ⟨?_, ?_⟩
  · intro k h0
    by_cases hk : k = i0
    · rw [hk, hself] at h0; exact absurd h0 hc0
    · rw [hother k hk] at h0 ⊢; exact h15 k h0
  · intro i j hij hi
    by_cases hi0 : i = i0
    · have hj0 : j ≠ i0 := fun h => hij (hi0.trans h.symm)
      rw [hi0, hself, hother j hj0]
      exact (not_held_slot s c hc0 hc j).symm
    · by_cases hj0 : j = i0
      · rw [hj0, hself, hother i hi0]
        exact not_held_slot s c hc0 hc i
      · rw [hother i hi0] at hi ⊢
        rw [hother j hj0]
        exact h17 i j hij hi

theorem peersBound_claim {s s' : TSM} (i0 : Nat) (h : PeersBound s)
    (h0 : (s.slot i0).InvokeID = 0) (hother : ∀ k, k ≠ i0 → s'.slot k = s.slot k)
    (j : Nat) (hj : (s.peer j).InternalInvokeID ≠ 0) :
    ∃ k, (s'.slot k).InvokeID = (s.peer j).InternalInvokeID := by
  obtain ⟨k, hk⟩ := h j hj
  have hki : k ≠ i0 := by
    rintro rfl
    rw [h0] at hk
    exact hj hk.symm
  exact ⟨k, by rw [hother k hki]; exact hk⟩

/-- The allocator keeps the invariants. -/
theorem tablesOK_next_free (cfg : Config) (s s' : TSM) (id : Nat) (h : TablesOK s)
    (he : tsm_next_free_invokeID cfg s = some (id, s')) :
    TablesOK s' ∧ (PeersBound s → PeersBound s') := by
  by_cases h0 : held s 0
  · obtain ⟨k, _, _, hk, heq⟩ := next_free_spec cfg s h.1 h.2.1 h0
    rw [heq] at he
    obtain ⟨hi, hi0, _⟩ := find_invokeID_spec s 0 h.1 h0
    generalize invokeID_increment^[k] s.Current_Invoke_ID = c at hk he
    have hc0 : c ≠ 0 := by
      intro hz; rw [hz] at hk; exact hk h0
    have hs' : s' = claim_slot cfg s c := by
      simp only [Option.some.injEq, Prod.mk.injEq] at he
      exact he.2.symm
    subst hs'
    have hself : ((claim_slot cfg s c).slot (tsm_find_invokeID_index s 0)).InvokeID = c := by
      rw [claim_slot_self cfg s c hi]
    obtain ⟨a, b⟩ := slots_claim c (tsm_find_invokeID_index s 0) h hc0 hk hself
      (fun k hk => claim_slot_ne cfg s c k hk)
    refine ⟨⟨by rw [claim_slot_length]; exact h.1, invokeID_increment_lt c, a, b,
      h.2.2.2.2⟩, ?_⟩
    intro hb j hj
    exact peersBound_claim (tsm_find_invokeID_index s 0) hb hi0
      (fun k hk => claim_slot_ne cfg s c k hk) j hj
  · have hav : tsm_transaction_available s = false := by
      rw [Bool.eq_false_iff]; exact fun h => h0 ((available_iff s).mp h)
    simp only [tsm_next_free_invokeID, hav, Bool.false_eq_true, if_false, Option.some.injEq,
      Prod.mk.injEq] at he
    rw [← he.2]
    exact ⟨h, fun hb => hb⟩

theorem address_match_iff (a b : BACNET_ADDRESS) : address_match a b = true ↔ a = b := by
  cases a; cases b; simp [address_match]

theorem no_match_entry (s : TSM) (src : BACNET_ADDRESS) (invokeID : Nat)
    (hno : s.TSM_Peer_Ids.findIdx? (peer_entry_matches src invokeID) = none) (j : Nat)
    (hj : (s.peer j).InternalInvokeID ≠ 0) :
    ¬ (invokeID = (s.peer j).PeerInvokeID ∧ src = (s.peer j).PeerAddress) := by
  have hjl : j < s.TSM_Peer_Ids.length := by
    by_contra hn
    rw [peer_of_not_lt s hn] at hj
    exact hj rfl
  have hm := (peer_no_match_iff s src invokeID).mp hno (s.peer j)
    (by rw [peer_eq_getElem s hjl]; exact List.getElem_mem hjl)
  rintro ⟨h1, h2⟩
  have : peer_entry_matches src invokeID (s.peer j) = true := by
    simp [peer_entry_matches, hj, ← h1, (address_match_iff src (s.peer j).PeerAddress).mpr h2]
  rw [hm] at this
  exact Bool.false_ne_true this

theorem peer_bound_peers (cfg : Config) (s : TSM) (src : BACNET_ADDRESS) (invokeID f c : Nat)
    (hfl : f < s.TSM_Peer_Ids.length) :
    (peer_bound cfg s src invokeID f c).peer f = ⟨c, invokeID, src⟩ ∧
    ∀ j, j ≠ f → (peer_bound cfg s src invokeID f c).peer j = s.peer j := by
  refine ⟨?_, ?_⟩
  · simp [peer_bound, TSM.peer, List.getD_eq_getElem?_getD, List.getElem?_set, hfl]
  · intro j hj
    simp [peer_bound, TSM.peer, List.getD_eq_getElem?_getD, List.getElem?_set, Ne.symm hj]

/-- The creation of a mapping keeps the invariants. -/
theorem tablesOK_peer_bound (cfg : Config) (s : TSM) (src : BACNET_ADDRESS)
    (invokeID f c : Nat) (h : TablesOK s)
    (hno : s.TSM_Peer_Ids.findIdx? (peer_entry_matches src invokeID) = none)
    (hf : s.TSM_Peer_Ids.findIdx? (fun e => e.InternalInvokeID == 0) = some f)
    (h0 : held s 0) (hc0 : c ≠ 0) (hc : ¬ held s c) :
    TablesOK (peer_bound cfg s src invokeID f c) ∧
      (PeersBound s → PeersBound (peer_bound cfg s src invokeID f c)) := by
  obtain ⟨hfl, _⟩ := peer_free_some s f hf
  obtain ⟨hl, _, _, hself, hother, _⟩ := peer_bound_slots cfg s src invokeID f c h.1 h0 hc0 hc
  obtain ⟨pf, po⟩ := peer_bound_peers cfg s src invokeID f c hfl
  have hi0 := (find_invokeID_spec s 0 h.1 h0).2.1
  have hself' : ((peer_bound cfg s src invokeID f c).slot
      (tsm_find_invokeID_index s 0)).InvokeID = c := by rw [hself]
  obtain ⟨a, b⟩ := slots_claim c (tsm_find_invokeID_index s 0) h hc0 hc hself' hother
  refine ⟨⟨by rw [hl]; exact h.1, invokeID_increment_lt c, a, b, ?_⟩, ?_⟩
  · intro i j hij hi hj
    by_cases hif : i = f
    · have hjf : j ≠ f := fun hh => hij (hif.trans hh.symm)
      rw [po j hjf] at hj ⊢
      rw [hif, pf]
      rintro ⟨h1, h2⟩
      exact no_match_entry s src invokeID hno j hj ⟨h1, (address_match_iff _ _).mp h2⟩
    · rw [po i hif] at hi ⊢
      by_cases hjf : j = f
      · rw [hjf, pf]
        rintro ⟨h1, h2⟩
        exact no_match_entry s src invokeID hno i hi
          ⟨h1.symm, ((address_match_iff _ _).mp h2).symm⟩
      · rw [po j hjf] at hj ⊢
        exact h.2.2.2.2 i j hij hi hj
  · intro hb j hj
    by_cases hjf : j = f
    · exact ⟨tsm_find_invokeID_index s 0, by rw [hself', hjf, pf]⟩
    · rw [po j hjf] at hj ⊢
      exact peersBound_claim (tsm_find_invokeID_index s 0) hb hi0 hother j hj

/-- The operation `tsm_get_peer_id` keeps the invariants. -/
theorem tablesOK_get_peer_id (cfg : Config) (s s1 : TSM) (src : BACNET_ADDRESS)
    (invokeID r : Nat) (h : TablesOK s)
    (he : tsm_get_peer_id cfg s src invokeID = some (r, s1)) :
    TablesOK s1 ∧ (PeersBound s → PeersBound s1) := by
  cases hm : s.TSM_Peer_Ids.findIdx? (peer_entry_matches src invokeID) with
  | some ix =>
    simp only [tsm_get_peer_id, get_peer_id_data_found cfg s src invokeID ix true hm,
      Option.some.injEq, Prod.mk.injEq] at he
    rw [← he.2]
    exact ⟨h, fun hb => hb⟩
  | none =>
    cases hf : s.TSM_Peer_Ids.findIdx? (fun e => e.InternalInvokeID == 0) with
    | none =>
      simp only [tsm_get_peer_id, get_peer_id_data_no_entry cfg s src invokeID true hm hf,
        Option.some.injEq, Prod.mk.injEq] at he
      rw [← he.2]
      exact ⟨h, fun hb => hb⟩
    | some f =>
      by_cases h0 : held s 0
      · obtain ⟨c, hc0, hc, heq⟩ :=
          tsm_get_peer_id_create cfg s src invokeID f h.1 h.2.1 hm hf h0
        rw [heq] at he
        simp only [Option.some.injEq, Prod.mk.injEq] at he
        rw [← he.2]
        exact tablesOK_peer_bound cfg s src invokeID f c h hm hf h0 hc0 hc
      · simp only [tsm_get_peer_id, get_peer_id_data_no_slot cfg s src invokeID f h.1 hm hf h0,
          Option.some.injEq, Prod.mk.injEq] at he
        rw [← he.2]
        have r := relP_setPeer_free s f ⟨0, invokeID, src⟩ rfl
        exact ⟨tablesOK_rel h r.1, fun hb => peersBound_relP hb r⟩

/-- The reception of a segment: a call of `tsm_get_peer_id` followed by steps
that allocate nothing. -/
theorem segment_received_rel (cfg : Config) (s s' : TSM) (src : BACNET_ADDRESS)
    (service_data : BACNET_CONFIRMED_SERVICE_DATA) (service_request : List Nat)
    (service_request_len : Nat) (r : SegmentReceived) (h : TablesOK s)
    (he : tsm_set_segmented_confirmed_service_received cfg s src service_data service_request
      service_request_len = some (r, s')) :
    ∃ s1 id, tsm_get_peer_id cfg s src service_data.invoke_id = some (id, s1) ∧ RelP s1 s' := by
  unfold tsm_set_segmented_confirmed_service_received at he
  cases hg : tsm_get_peer_id cfg s src service_data.invoke_id with
  | none => rw [hg] at he; simp at he
  | some p =>
    obtain ⟨id, s1⟩ := p
    rw [hg] at he
    dsimp only at he
    refine ⟨s1, id, rfl, ?_⟩
    have hl1 : s1.TSM_List.length ≤ 255 :=
      (tablesOK_get_peer_id cfg s s1 src service_data.invoke_id id h hg).1.1
    split_ifs at he with h1 h2
    · simp only [Option.some.injEq, Prod.mk.injEq] at he
      rw [← he.2]
      exact relP_abort _ _ _ _ _
    · simp only [Option.some.injEq, Prod.mk.injEq] at he
      rw [← he.2]
      exact relP_abort _ _ _ _ _
    · have hlt : tsm_find_invokeID_index s1 id < s1.TSM_List.length := by
        unfold MAX_TSM_TRANSACTIONS at h2; omega
      have hid := find_lt_spec s1 id hl1 hlt
      split at he
      · simp only [Option.some.injEq, Prod.mk.injEq] at he
        rw [← he.2]
        exact relP_segment_idle cfg s1 _ id src service_data service_request
          service_request_len hl1 (by rw [hid]; exact h1)
      · split at he
        · rename_i heq
          simp only [Option.some.injEq, Prod.mk.injEq] at he
          rw [← he.2]
          have := relP_segment_request_server cfg s1 (tsm_find_invokeID_index s1 id) id src
            service_data service_request service_request_len hl1
          rw [heq] at this
          exact this
        · rename_i heq
          simp only [Option.some.injEq, Prod.mk.injEq] at he
          rw [← he.2]
          have := relP_segment_request_server cfg s1 (tsm_find_invokeID_index s1 id) id src
            service_data service_request service_request_len hl1
          rw [heq] at this
          exact this
      · simp only [Option.some.injEq, Prod.mk.injEq] at he
        rw [← he.2]
        exact RelP.reflP s1

theorem relP_snoc_onSlot_held {s t : TSM} (i : Nat) (r : BACNET_TSM_DATA × List Event)
    (h : RelP s t) (hid : r.1.InvokeID = (t.slot i).InvokeID)
    (hne : (t.slot i).InvokeID ≠ 0) : RelP s (t.onSlot i r) :=
  h.transP (relP_onSlot t i r hid (fun h0 => absurd (hid ▸ h0) hne))

/-- The operation `tsm_set_complexack_transaction`: a call of `tsm_get_peer_id`
followed by steps that allocate nothing. -/
theorem complexack_rel (cfg : Config) (s s' : TSM) (dest : BACNET_ADDRESS)
    (npdu_data : BACNET_NPDU_DATA) (apdu_fixed_header : BACNET_APDU_FIXED_HEADER)
    (confirmed_service_data : BACNET_CONFIRMED_SERVICE_DATA) (pdu : List Nat) (pdu_len : Nat)
    (ret : Int) (h : TablesOK s)
    (he : tsm_set_complexack_transaction cfg s dest npdu_data apdu_fixed_header
      confirmed_service_data pdu pdu_len = some (ret, s')) :
    ∃ s1 id, tsm_get_peer_id cfg s dest confirmed_service_data.invoke_id = some (id, s1) ∧
      RelP s1 s' := by
  unfold tsm_set_complexack_transaction at he
  cases hg : tsm_get_peer_id cfg s dest confirmed_service_data.invoke_id with
  | none => rw [hg] at he; simp at he
  | some p =>
    obtain ⟨id, s1⟩ := p
    rw [hg] at he
    change (if id = 0 then _ else _) = _ at he
    refine ⟨s1, id, rfl, ?_⟩
    have hl1 : s1.TSM_List.length ≤ 255 :=
      (tablesOK_get_peer_id cfg s s1 dest confirmed_service_data.invoke_id id h hg).1.1
    by_cases h1 : id = 0
    · rw [if_pos h1] at he
      simp only [Option.some.injEq, Prod.mk.injEq] at he
      rw [← he.2]
      exact relP_abort _ _ _ _ _
    · rw [if_neg h1] at he
      lift_lets at he
      extract_lets index lengths p1 d3 d2 d1 t2 segs r2 t1 t0 ph d0 r1 r0 at he
      by_cases h2 : index ≥ MAX_TSM_TRANSACTIONS s1
      · rw [if_pos h2] at he
        simp only [Option.some.injEq, Prod.mk.injEq] at he
        rw [← he.2]
        exact relP_abort _ _ _ _ _
      · rw [if_neg h2] at he
        have hlt : index < s1.TSM_List.length := by
          unfold MAX_TSM_TRANSACTIONS at h2; omega
        have hid : (s1.slot index).InvokeID = id := find_lt_spec s1 id hl1 hlt
        have e2 : t2.slot index = d1 := slot_setSlot_self s1 index d1 hlt
        have ht2 : RelP s1 t2 := relP_snoc_same index d1 (RelP.reflP s1) rfl rfl
        have ht1 : RelP s1 t1 := relP_snoc_onSlot index (r2.1, r2.2.1) ht2
          (by rw [e2]; exact (tsm_pdu_send_InvokeID cfg index d1 0).1)
          (by rw [e2]; exact tsm_pdu_send_state cfg index d1 0)
        have ht0 : RelP s1 t0 := relP_snoc_same index _ ht2 rfl rfl
        have hr1 : RelP s1 (t2.onSlot index (r1.1, r1.2.1)) :=
          relP_snoc_onSlot_held index (r1.1, r1.2.1) ht2
            (by rw [e2]; exact (tsm_pdu_send_InvokeID cfg index d0 0).1)
            (by rw [e2]; show (s1.slot index).InvokeID ≠ 0; rw [hid]; exact h1)
        have hr0 : RelP s1 r0.2 := by
          show RelP s1 (Prod.snd (if _ then _ else _))
          split_ifs
          · exact relP_snoc_free_check _ _ _ hl1 ht1
          · exact ht1
          · exact relP_snoc_abort _ _ _ _ ht0
          · exact hr1
        split_ifs at he
        · simp only [Option.some.injEq, Prod.mk.injEq] at he
          rw [← he.2]
          exact relP_snoc_free_check _ _ _ hl1 hr0
        · simp only [Option.some.injEq] at he
          have e0 : r0.2 = s' := by rw [he]
          rw [← e0]
          exact hr0

/-- The operation `tsm_segmentack_received` allocates nothing. -/
theorem relP_segmentack_received (cfg : Config) (s : TSM) (invoke_id sequence_number
    actual_window_size : Nat) (server : Bool) (src : BACNET_ADDRESS)
    (hlen : s.TSM_List.length ≤ 255) :
    RelP s (tsm_segmentack_received cfg s invoke_id sequence_number actual_window_size server
      src) := by
  unfold tsm_segmentack_received
  by_cases h0 : server ∧ invoke_id = 0
  · rw [if_pos h0]; exact RelP.reflP s
  · rw [if_neg h0]
    lift_lets
    extract_lets translated
    clear_value translated
    split
    · exact RelP.reflP s
    · rename_i id
      lift_lets
      extract_lets index p1 w big rem d t3 p0 t2 t1 t0
      have h3 : RelP s t3 := relP_snoc_onSlot index (FillWindow cfg index d d.InitialSequenceNumber)
        (RelP.reflP s) (FillWindow_spec cfg index d _).2 (FillWindow_state cfg index d _)
      have h2 : RelP s t2 := relP_snoc_idle index _ (RelP.reflP s) rfl rfl
      have h1 : RelP s t1 := relP_snoc_same index _ (RelP.reflP s) rfl rfl
      have h0 : RelP s t0 := relP_snoc_abort _ _ _ _ h1
      split_ifs
      · exact RelP.reflP s
      · exact relP_snoc_same index _ (RelP.reflP s) rfl rfl
      · exact relP_snoc_same index _ h3 rfl rfl
      · exact relP_snoc_free_check _ _ _ hlen h2
      · exact relP_snoc_free_check _ _ _ hlen h0

/-- The operation `check_unexpected_pdu_received` allocates nothing. -/
theorem relP_check_unexpected (s : TSM) (src : BACNET_ADDRESS)
    (service_data : BACNET_CONFIRMED_SERVICE_DATA) (hlen : s.TSM_List.length ≤ 255) :
    RelP s (check_unexpected_pdu_received s src service_data).2 := by
  unfold check_unexpected_pdu_received
  split
  · exact RelP.reflP s
  · lift_lets
    extract_lets index plist t0
    split_ifs
    · exact relP_snoc_free_check _ _ _ hlen (relP_snoc_abort _ _ _ _ (RelP.reflP s))
    · exact RelP.reflP s
    · exact RelP.reflP s

theorem inv_of_relP {s s' : TSM} (h : TablesOK s) (r : RelP s s') :
    TablesOK s' ∧ (PeersBound s → PeersBound s') :=
  ⟨tablesOK_rel h r.1, fun hb => peersBound_relP hb r⟩

theorem inv_trans {s s1 s' : TSM} (h1 : TablesOK s1 ∧ (PeersBound s → PeersBound s1))
    (r : RelP s1 s') : TablesOK s' ∧ (PeersBound s → PeersBound s') :=
  ⟨tablesOK_rel h1.1 r.1, fun hb => peersBound_relP (h1.2 hb) r⟩

theorem map_snd_eq_some {α β : Type} {o : Option (α × β)} {b : β}
    (h : o.map Prod.snd = some b) : ∃ a, o = some (a, b) := by
  cases o with
  | none => simp at h
  | some p =>
    obtain ⟨a, b'⟩ := p
    simp only [Option.map_some', Option.some.injEq] at h
    exact ⟨a, by rw [← h]⟩

/-- Every operation keeps the invariant of the tables, and keeps the peer-map
entries bound to slots unless it is a `tsm_free_invoke_id` of a bound id. -/
theorem apply_op_inv (cfg : Config) (s s' : TSM) (op : Op) (h : TablesOK s)
    (he : apply_op cfg s op = some s') :
    TablesOK s' ∧ (free_unbound_only s op → PeersBound s → PeersBound s') := by
  cases op with
  | set_timeout_handler registered =>
    simp only [apply_op, Option.some.injEq] at he
    rw [← he]
    exact ⟨h, fun _ hb => hb⟩
  | invokeID_set invokeID =>
    simp only [apply_op, Option.some.injEq] at he
    rw [← he]
    refine ⟨⟨h.1, ?_, h.2.2.1, h.2.2.2.1, h.2.2.2.2⟩, fun _ hb => hb⟩
    show (if u8 invokeID = 0 then 1 else u8 invokeID) < 256
    unfold u8
    split <;> omega
  | next_free_invokeID =>
    obtain ⟨id, hid⟩ := map_snd_eq_some he
    have := tablesOK_next_free cfg s s' id h hid
    exact ⟨this.1, fun _ => this.2⟩
  | set_confirmed_unsegmented_transaction invokeID dest ndpu_data apdu apdu_len =>
    simp only [apply_op, Option.some.injEq] at he
    rw [← he]
    have := inv_of_relP h (relP_set_unsegmented cfg s invokeID dest ndpu_data apdu apdu_len h.1)
    exact ⟨this.1, fun _ => this.2⟩
  | free_invoke_id invokeID =>
    simp only [apply_op, Option.some.injEq] at he
    rw [← he]
    refine ⟨tablesOK_rel h (rel_free s invokeID), fun hok hb => ?_⟩
    refine peersBound_relP hb ⟨rel_free s invokeID, paired_free s invokeID h.1 ?_⟩
    intro j hj
    have hjl : j < s.TSM_Peer_Ids.length := by
      by_contra hn
      rw [peer_of_not_lt s hn] at hj
      exact hj rfl
    exact hok (s.peer j) (by rw [peer_eq_getElem s hjl]; exact List.getElem_mem hjl) hj
  | clear_peer_id InternalInvokeID =>
    simp only [apply_op, Option.some.injEq] at he
    rw [← he]
    have := inv_of_relP h (relP_clear_peer s InternalInvokeID)
    exact ⟨this.1, fun _ => this.2⟩
  | free_invoke_id_check invokeID peer_address cleanup =>
    simp only [apply_op, Option.some.injEq] at he
    rw [← he]
    have := inv_of_relP h (relP_free_check s invokeID peer_address cleanup h.1)
    exact ⟨this.1, fun _ => this.2⟩
  | get_peer_id src invokeID =>
    obtain ⟨r, hr⟩ := map_snd_eq_some he
    have := tablesOK_get_peer_id cfg s s' src invokeID r h hr
    exact ⟨this.1, fun _ => this.2⟩
  | set_segmented_confirmed_service_received src service_data service_request
      service_request_len =>
    obtain ⟨r, hr⟩ := map_snd_eq_some he
    obtain ⟨s1, id, hg, hrel⟩ := segment_received_rel cfg s s' src service_data service_request
      service_request_len r h hr
    have := inv_trans (tablesOK_get_peer_id cfg s s1 src service_data.invoke_id id h hg) hrel
    exact ⟨this.1, fun _ => this.2⟩
  | set_complexack_transaction dest npdu_data apdu_fixed_header confirmed_service_data pdu
      pdu_len =>
    obtain ⟨r, hr⟩ := map_snd_eq_some he
    obtain ⟨s1, id, hg, hrel⟩ := complexack_rel cfg s s' dest npdu_data apdu_fixed_header
      confirmed_service_data pdu pdu_len r h hr
    have := inv_trans
      (tablesOK_get_peer_id cfg s s1 dest confirmed_service_data.invoke_id id h hg) hrel
    exact ⟨this.1, fun _ => this.2⟩
  | segmentack_received invoke_id sequence_number actual_window_size server src =>
    simp only [apply_op, Option.some.injEq] at he
    rw [← he]
    have := inv_of_relP h (relP_segmentack_received cfg s invoke_id sequence_number
      actual_window_size server src h.1)
    exact ⟨this.1, fun _ => this.2⟩
  | check_unexpected_pdu_received src service_data =>
    simp only [apply_op, Option.some.injEq] at he
    rw [← he]
    have := inv_of_relP h (relP_check_unexpected s src service_data h.1)
    exact ⟨this.1, fun _ => this.2⟩
  | free_invoke_id_segmentation src invoke_id =>
    simp only [apply_op, tsm_free_invoke_id_segmentation] at he
    cases hg : tsm_get_peer_id cfg s src invoke_id with
    | none => rw [hg] at he; simp at he
    | some p =>
      obtain ⟨id, s1⟩ := p
      rw [hg] at he
      simp only [Option.some.injEq] at he
      rw [← he]
      have h1 := tablesOK_get_peer_id cfg s s1 src invoke_id id h hg
      have := inv_trans h1 (relP_free_check s1 id (some src) true h1.1.1)
      exact ⟨this.1, fun _ => this.2⟩
  | timer_milliseconds milliseconds =>
    simp only [apply_op, Option.some.injEq] at he
    rw [← he]
    have := inv_of_relP h (relP_timer cfg s milliseconds)
    exact ⟨this.1, fun _ => this.2⟩

theorem tablesOK_init (n p : Nat) (hn : n ≤ 255) : TablesOK (TSM.init n p) ∧
    PeersBound (TSM.init n p) := by
  have hp : ∀ j, (TSM.init n p).peer j = default := by
    intro j
    simp only [TSM.peer, TSM.init, List.getD_eq_getElem?_getD, List.getElem?_replicate]
    split <;> rfl
  refine ⟨⟨by simpa [TSM.init] using hn, by simp [TSM.init], ?_, ?_, ?_⟩, ?_⟩
  · intro k _; rw [slot_init]; rfl
  · intro i j _ hi; rw [slot_init] at hi; exact absurd rfl hi
  · intro i j _ hi; rw [hp] at hi; exact absurd rfl hi
  · intro j hj; rw [hp] at hj; exact absurd rfl hj

/-- The invariant of the tables holds in every reachable state. -/
theorem reachable_tablesOK (cfg : Config) (n p : Nat) (hn : n ≤ 255) (s : TSM)
    (h : Reachable cfg any_call (TSM.init n p) s) : TablesOK s := by
  induction h with
  | init => exact (tablesOK_init n p hn).1
  | step op _ _ he ih => exact (apply_op_inv cfg _ _ op ih he).1

/-- With `tsm_free_invoke_id` kept to unbound ids, the peer-map entries stay
bound to slots as well. -/
theorem reachable_peersBound (cfg : Config) (n p : Nat) (hn : n ≤ 255) (s : TSM)
    (h : Reachable cfg free_unbound_only (TSM.init n p) s) : TablesOK s ∧ PeersBound s := by
  induction h with
  | init => exact tablesOK_init n p hn
  | step op _ hok he ih =>
    have := apply_op_inv cfg _ _ op ih.1 he
    exact ⟨this.1, this.2 hok ih.2⟩

/-! ## Invariants of the reachable states -/

theorem reachable_run (cfg : Config) (ok : TSM → Op → Prop) (s0 : TSM) :
    ∀ (ops : List Op) (s s' : TSM), Reachable cfg ok s0 s → (∀ op ∈ ops, ∀ t, ok t op) →
      run_ops cfg s ops = some s' → Reachable cfg ok s0 s' := by
  intro ops
  induction ops with
  | nil =>
    intro s s' h _ he
    simp only [run_ops, Option.some.injEq] at he
    rw [← he]; exact h
  | cons op ops ih =>
    intro s s' h hok he
    unfold run_ops at he
    cases ha : apply_op cfg s op with
    | none => rw [ha] at he; simp at he
    | some s1 =>
      rw [ha] at he
      exact ih s1 s' (Reachable.step op h (hok op (List.mem_cons_self _ _) s) ha)
        (fun o ho => hok o (List.mem_cons_of_mem _ ho)) he

theorem reachable_getD (cfg : Config) (ok : TSM → Op → Prop) (s0 : TSM) (ops : List Op)
    (hok : ∀ op ∈ ops, ∀ t, ok t op) : Reachable cfg ok s0 ((run_ops cfg s0 ops).getD s0) := by
  cases h : run_ops cfg s0 ops with
  | none => exact Reachable.init
  | some s => exact reachable_run cfg ok s0 ops s0 s Reachable.init hok h

theorem sample_allocated_reachable :
    Reachable Config.sample any_call (TSM.init 2 1) sample_allocated :=
  reachable_getD _ _ _ _ (fun _ _ _ => trivial)

theorem sample_freed_reachable : Reachable Config.sample any_call (TSM.init 2 1) sample_freed :=
  reachable_getD _ _ _ _ (fun _ _ _ => trivial)

theorem sample_two_ids_reachable :
    Reachable Config.sample any_call (TSM.init 2 1) sample_two_ids :=
  reachable_getD _ _ _ _ (fun _ _ _ => trivial)

theorem sample_bound_reachable :
    Reachable Config.sample any_call (TSM.init 2 2) sample_bound :=
  reachable_getD _ _ _ _ (fun _ _ _ => trivial)

theorem sample_bound_reachable_unbound :
    Reachable Config.sample free_unbound_only (TSM.init 2 2) sample_bound := by
  apply reachable_getD
  intro op hop t
  simp only [List.mem_singleton] at hop
  rw [hop]
  trivial

theorem sample_dangling_reachable :
    Reachable Config.sample any_call (TSM.init 2 2) sample_dangling :=
  reachable_getD _ _ _ _ (fun _ _ _ => trivial)

/-- C15, as stated, fails in both directions: after one `tsm_next_free_invokeID`
on the fresh table the claimed slot is Idle with empty buffers and holds the
invoke-id 1; and after a stored request was released with `tsm_free_invoke_id`
the slot has the invoke-id 0 and is Idle but its outgoing APDU length is still 3. -/
theorem slot_invariant_fails :
    (Reachable Config.sample any_call (TSM.init 2 1) sample_allocated ∧
      (sample_allocated.slot 0).InvokeID = 1 ∧
      (sample_allocated.slot 0).state = TSM_STATE_IDLE ∧
      (sample_allocated.slot 0).apdu_len = 0 ∧ (sample_allocated.slot 0).apdu_blob_size = 0) ∧
    (Reachable Config.sample any_call (TSM.init 2 1) sample_freed ∧
      (sample_freed.slot 0).InvokeID = 0 ∧ (sample_freed.slot 0).state = TSM_STATE_IDLE ∧
      (sample_freed.slot 0).apdu_len = 3) :=
  ⟨⟨sample_allocated_reachable, by decide, by decide, by decide, by decide⟩,
    ⟨sample_freed_reachable, by decide, by decide, by decide⟩⟩

/-- C15, amended: in every state reachable from the initial table through the
operations, a slot whose invoke-id is 0 is Idle (an index beyond the table reads
as the zeroed slot). -/
theorem free_slot_is_idle (cfg : Config) (n p : Nat) (s : TSM) (k : Nat) (hn : n ≤ 255)
    (h : Reachable cfg any_call (TSM.init n p) s) (h0 : (s.slot k).InvokeID = 0) :
    (s.slot k).state = TSM_STATE_IDLE :=
  (reachable_tablesOK cfg n p hn s h).2.2.1 k h0

theorem free_slot_is_idle_witness :
    (2 ≤ 255 ∧ Reachable Config.sample any_call (TSM.init 2 1) sample_freed ∧
      (sample_freed.slot 0).InvokeID = 0) ∧
    (sample_freed.slot 0).state = TSM_STATE_IDLE :=
  ⟨⟨by decide, sample_freed_reachable, by decide⟩,
    free_slot_is_idle Config.sample 2 1 sample_freed 0 (by decide) sample_freed_reachable
      (by decide)⟩

/-- C17: in every state reachable from the initial table through the operations
no two slots hold the same non-zero invoke-id. -/
theorem invoke_ids_unique (cfg : Config) (n p : Nat) (s : TSM) (i j : Nat) (hn : n ≤ 255)
    (h : Reachable cfg any_call (TSM.init n p) s) (hij : i ≠ j)
    (hid : (s.slot i).InvokeID ≠ 0) :
    (s.slot i).InvokeID ≠ (s.slot j).InvokeID :=
  (reachable_tablesOK cfg n p hn s h).2.2.2.1 i j hij hid

theorem invoke_ids_unique_witness :
    (2 ≤ 255 ∧ Reachable Config.sample any_call (TSM.init 2 1) sample_two_ids ∧ 0 ≠ 1 ∧
      (sample_two_ids.slot 0).InvokeID ≠ 0) ∧
    (sample_two_ids.slot 0).InvokeID ≠ (sample_two_ids.slot 1).InvokeID :=
  ⟨⟨by decide, sample_two_ids_reachable, by decide, by decide⟩,
    invoke_ids_unique Config.sample 2 1 sample_two_ids 0 1 (by decide) sample_two_ids_reachable
      (by decide) (by decide)⟩

/-- C18: in every state reachable from the initial peer map through the
operations, two non-free peer-map entries that match the same pair (peer
address, peer invoke-id) are the same entry. -/
theorem peer_map_unique (cfg : Config) (n p : Nat) (s : TSM) (a : BACNET_ADDRESS)
    (pid i j : Nat) (hn : n ≤ 255) (h : Reachable cfg any_call (TSM.init n p) s)
    (mi : peer_entry_matches a pid (s.peer i) = true)
    (mj : peer_entry_matches a pid (s.peer j) = true) : i = j := by
  by_contra hij
  simp only [peer_entry_matches, Bool.and_eq_true, bne_iff_ne, ne_eq, beq_iff_eq] at mi mj
  have hi0 := mi.1
  have hj0 := mj.1
  have e1 := (address_match_iff _ _).mp mi.2.2
  have e2 := (address_match_iff _ _).mp mj.2.2
  exact (reachable_tablesOK cfg n p hn s h).2.2.2.2 i j hij hi0 hj0
    ⟨mi.2.1.symm.trans mj.2.1, (address_match_iff _ _).mpr (e1.symm.trans e2)⟩

theorem peer_map_unique_witness :
    (2 ≤ 255 ∧ Reachable Config.sample any_call (TSM.init 2 2) sample_bound ∧
      peer_entry_matches sample_peer 7 (sample_bound.peer 0) = true ∧
      peer_entry_matches sample_peer 7 (sample_bound.peer 0) = true) ∧
    0 = 0 :=
  ⟨⟨by decide, sample_bound_reachable, by decide, by decide⟩,
    peer_map_unique Config.sample 2 2 sample_bound sample_peer 7 0 0 (by decide)
      sample_bound_reachable (by decide) (by decide)⟩

/-- C16, as stated, fails: `tsm_get_peer_id` binds the local invoke-id 1, then
`tsm_free_invoke_id(1)` frees the slot and leaves the peer-map entry, whose
local invoke-id 1 no slot holds any more. -/
theorem peer_entry_without_slot :
    Reachable Config.sample any_call (TSM.init 2 2) sample_dangling ∧
    (sample_dangling.peer 0).InternalInvokeID = 1 ∧
    ∀ k, k < sample_dangling.TSM_List.length → (sample_dangling.slot k).InvokeID ≠ 1 :=
  ⟨sample_dangling_reachable, by decide, by decide⟩

/-- C16, amended: in every state reachable from the initial tables through the
operations, `tsm_free_invoke_id` being called only with invoke-ids that no
peer-map entry is bound to, every peer-map entry with a non-zero local
invoke-id has exactly one slot holding that invoke-id. -/
theorem peer_entry_has_one_slot (cfg : Config) (n p : Nat) (s : TSM) (j : Nat) (hn : n ≤ 255)
    (h : Reachable cfg free_unbound_only (TSM.init n p) s)
    (hid : (s.peer j).InternalInvokeID ≠ 0) :
    ∃ k, k < s.TSM_List.length ∧ (s.slot k).InvokeID = (s.peer j).InternalInvokeID ∧
      ∀ k', k' < s.TSM_List.length → (s.slot k').InvokeID = (s.peer j).InternalInvokeID →
        k' = k := by
  obtain ⟨hok, hb⟩ := reachable_peersBound cfg n p hn s h
  obtain ⟨k, hk⟩ := hb j hid
  have hkl : k < s.TSM_List.length := by
    by_contra hn'
    rw [slot_of_not_lt s hn'] at hk
    exact hid hk.symm
  refine ⟨k, hkl, hk, ?_⟩
  intro k' _ hk'
  by_contra hne
  exact hok.2.2.2.1 k' k hne (by rw [hk']; exact hid) (hk'.trans hk.symm)

theorem peer_entry_has_one_slot_witness :
    (2 ≤ 255 ∧ Reachable Config.sample free_unbound_only (TSM.init 2 2) sample_bound ∧
      (sample_bound.peer 0).InternalInvokeID ≠ 0) ∧
    ∃ k, k < sample_bound.TSM_List.length ∧
      (sample_bound.slot k).InvokeID = (sample_bound.peer 0).InternalInvokeID ∧
      ∀ k', k' < sample_bound.TSM_List.length →
        (sample_bound.slot k').InvokeID = (sample_bound.peer 0).InternalInvokeID → k' = k :=
  ⟨⟨by decide, sample_bound_reachable_unbound, by decide⟩,
    peer_entry_has_one_slot Config.sample 2 2 sample_bound 0 (by decide)
      sample_bound_reachable_unbound (by decide)⟩

/-! ## Release of a slot -/

/-- The effect of `tsm_free_invoke_id_check` when the invoke-id is found and the
address test passes: the slot is idle without invoke-id (and with its buffers
freed on `cleanup`), the peer-map entries of the id are cleared, nothing else
changes. -/
theorem free_check_spec (t : TSM) (id : Nat) (pa : Option BACNET_ADDRESS) (cleanup : Bool)
    (hi : tsm_find_invokeID_index t id < t.TSM_List.length)
    (hpa : ∀ a, pa = some a →
      address_match a (t.slot (tsm_find_invokeID_index t id)).dest = true) :
    (tsm_free_invoke_id_check t id pa cleanup).slot (tsm_find_invokeID_index t id) =
      slot_released (t.slot (tsm_find_invokeID_index t id)) cleanup ∧
    (∀ k, k ≠ tsm_find_invokeID_index t id →
      (tsm_free_invoke_id_check t id pa cleanup).slot k = t.slot k) ∧
    (tsm_free_invoke_id_check t id pa cleanup).TSM_Peer_Ids =
      (tsm_clear_peer_id t id).TSM_Peer_Ids ∧
    (tsm_free_invoke_id_check t id pa cleanup).sent = t.sent ∧
    (tsm_free_invoke_id_check t id pa cleanup).TSM_List.length = t.TSM_List.length := by
  unfold tsm_free_invoke_id_check
  lift_lets
  extract_lets index p1 t1 t2 p2 t3
  have hm : ∀ q : Option BACNET_ADDRESS,
      (∀ a, q = some a → address_match a (t.slot index).dest = true) →
      (match q with
       | none => true
       | some a => address_match a (t.slot index).dest) = true := by
    intro q hq
    cases q with
    | none => rfl
    | some a => exact hq a rfl
  rw [if_pos ⟨hi, hm pa hpa⟩]
  have e1 : t1.slot index = { t.slot index with state := TSM_STATE_IDLE } :=
    slot_setSlot_self t index _ hi
  have e2 : t2.slot index = { t.slot index with state := TSM_STATE_IDLE } := e1
  have l2 : index < t2.TSM_List.length := by
    show index < (t.setSlot index _).TSM_List.length
    rw [length_setSlot]; exact hi
  have e3 : t3.slot index = { t.slot index with state := TSM_STATE_IDLE, InvokeID := 0 } := by
    show (t2.setSlot index _).slot index = _
    rw [slot_setSlot_self t2 index _ l2]
    show { t2.slot index with InvokeID := 0 } = _
    rw [e2]
  have l3 : index < t3.TSM_List.length := by
    show index < (t2.setSlot index _).TSM_List.length
    rw [length_setSlot]; exact l2
  have o3 : ∀ k, k ≠ index → t3.slot k = t.slot k := by
    intro k hk
    show (t2.setSlot index _).slot k = _
    rw [slot_setSlot_ne t2 index k _ hk]
    show (t.setSlot index _).slot k = _
    rw [slot_setSlot_ne t index k _ hk]
  have len3 : t3.TSM_List.length = t.TSM_List.length := by
    show (t2.setSlot index _).TSM_List.length = _
    rw [length_setSlot]
    show (t.setSlot index _).TSM_List.length = _
    rw [length_setSlot]
  cases cleanup with
  | true =>
    simp only [if_true, slot_released]
    refine ⟨?_, ?_, rfl, rfl, ?_⟩
    · rw [slot_setSlot_self t3 index _ l3, e3]
    · intro k hk
      rw [slot_setSlot_ne t3 index k _ hk]
      exact o3 k hk
    · rw [length_setSlot]; exact len3
  | false =>
    simp only [Bool.false_eq_true, if_false, slot_released]
    exact ⟨e3, o3, rfl, rfl, len3⟩

theorem findIdx_map_eq {α β : Type} (f : α → β) (p : β → Bool) (l : List α) :
    (l.map f).findIdx p = l.findIdx (fun a => p (f a)) := by
  induction l with
  | nil => rfl
  | cons a l ih => simp only [List.map_cons, List.findIdx_cons, ih]

/-- The search for an invoke-id reads the invoke-ids of the slots only. -/
theorem find_congr_ids (s s' : TSM) (c : Nat)
    (h : s'.TSM_List.map (fun d => d.InvokeID) = s.TSM_List.map (fun d => d.InvokeID)) :
    tsm_find_invokeID_index s' c = tsm_find_invokeID_index s c := by
  unfold tsm_find_invokeID_index
  have e := findIdx_map_eq (fun d : BACNET_TSM_DATA => d.InvokeID) (fun x => x == c)
  rw [← e s'.TSM_List, ← e s.TSM_List, h]

theorem ids_setSlot_keep (s : TSM) (i : Nat) (d : BACNET_TSM_DATA)
    (h : d.InvokeID = (s.slot i).InvokeID) :
    (s.setSlot i d).TSM_List.map (fun d => d.InvokeID) =
      s.TSM_List.map (fun d => d.InvokeID) := by
  apply List.ext_getElem?
  intro k
  have hs : (s.setSlot i d).TSM_List = s.TSM_List.set i d := rfl
  rw [hs]
  simp only [List.getElem?_map, List.getElem?_set]
  by_cases hk : i = k
  · subst hk
    by_cases hl : i < s.TSM_List.length
    · simp only [hl, if_true, ↓reduceIte, Option.map_some', h, TSM.slot,
        List.getD_eq_getElem?_getD, List.getElem?_eq_getElem hl, Option.getD_some]
    · simp only [hl, if_false, ↓reduceIte]
      rw [List.getElem?_eq_none (Nat.le_of_not_lt hl)]
  · simp only [hk, if_false]

theorem find_setSlot_keep (s : TSM) (i : Nat) (d : BACNET_TSM_DATA) (c : Nat)
    (h : d.InvokeID = (s.slot i).InvokeID) :
    tsm_find_invokeID_index (s.setSlot i d) c = tsm_find_invokeID_index s c :=
  find_congr_ids s _ c (ids_setSlot_keep s i d h)

/-- The `TSM_STATE_IDLE` case on a first segment whose sequence number is not 0:
the Abort INVALID_APDU_IN_THIS_STATE goes out and the slot and the peer-map
entries of the internal invoke-id are released. -/
theorem segment_received_idle_bad_seq (cfg : Config) (t : TSM) (index c : Nat)
    (src : BACNET_ADDRESS) (service_data : BACNET_CONFIRMED_SERVICE_DATA)
    (service_request : List Nat) (service_request_len : Nat)
    (hi : index < t.TSM_List.length) (hfind : tsm_find_invokeID_index t c = index)
    (hseq : service_data.sequence_number ≠ 0) :
    (segment_received_idle cfg t index c src service_data service_request
      service_request_len).sent =
      t.sent ++ [Event.abort service_data.invoke_id src
        ABORT_REASON_INVALID_APDU_IN_THIS_STATE true] ∧
    ((segment_received_idle cfg t index c src service_data service_request
      service_request_len).slot index).InvokeID = 0 ∧
    ((segment_received_idle cfg t index c src service_data service_request
      service_request_len).slot index).state = TSM_STATE_IDLE ∧
    ((segment_received_idle cfg t index c src service_data service_request
      service_request_len).slot index).apdu_blob = none ∧
    (∀ k, k ≠ index →
      (segment_received_idle cfg t index c src service_data service_request
        service_request_len).slot k = t.slot k) ∧
    (segment_received_idle cfg t index c src service_data service_request
      service_request_len).TSM_List.length = t.TSM_List.length ∧
    (segment_received_idle cfg t index c src service_data service_request
      service_request_len).TSM_Peer_Ids = (tsm_clear_peer_id t c).TSM_Peer_Ids := by
  unfold segment_received_idle
  lift_lets
  extract_lets p0 t1 tw pw t2 t3 t4
  have hnw : ¬ (service_data.sequence_number = 0 ∧
      ((t1.slot index).ProposedWindowSize = 0 ∨ (t1.slot index).ProposedWindowSize > 127)) :=
    fun h => hseq h.1
  rw [if_neg hnw, if_pos hseq]
  have l1 : index < t1.TSM_List.length := by
    show index < (t.setSlot index _).TSM_List.length
    rw [length_setSlot]; exact hi
  have f1 : tsm_find_invokeID_index t1 c = index := by
    refine (find_setSlot_keep t index _ c ?_).trans hfind
    rfl
  have f3 : tsm_find_invokeID_index t3 c = index := by
    refine (find_setSlot_keep t1 index _ c ?_).trans f1
    rfl
  have s3 : t3.sent = t.sent ++ [Event.abort service_data.invoke_id src
      ABORT_REASON_INVALID_APDU_IN_THIS_STATE true] := rfl
  have l3 : index < t3.TSM_List.length := by
    show index < (t1.setSlot index _).TSM_List.length
    rw [length_setSlot]; exact l1
  have o3 : ∀ k, k ≠ index → t3.slot k = t.slot k := by
    intro k hk
    show (t1.setSlot index _).slot k = _
    rw [slot_setSlot_ne t1 index k _ hk]
    show (t.setSlot index _).slot k = _
    rw [slot_setSlot_ne t index k _ hk]
  obtain ⟨a1, a2, a3, a4, a5⟩ := free_check_spec t3 c none true (by rw [f3]; exact l3)
    (fun a h => by cases h)
  rw [f3] at a1 a2
  refine ⟨a4.trans s3, ?_, ?_, ?_, ?_, ?_, a3⟩
  · rw [a1]; rfl
  · rw [a1]; rfl
  · rw [a1]; rfl
  · intro k hk
    rw [a2 k hk]; exact o3 k hk
  · rw [a5]
    show (t1.setSlot index _).TSM_List.length = _
    rw [length_setSlot]
    show (t.setSlot index _).TSM_List.length = _
    rw [length_setSlot]

/-- C21, as stated, fails when no slot is free: the only slot of the table is
taken, a new peer sends a first segment with the sequence number 2, and the
abort that goes out is PREEMPTED_BY_HIGHER_PRIORITY_TASK; no Abort
INVALID_APDU_IN_THIS_STATE is sent. -/
theorem first_segment_bad_sequence_table_full :
    (∀ e ∈ sample_busy_server.TSM_Peer_Ids, peer_entry_matches sample_peer2 9 e = false) ∧
    (tsm_set_segmented_confirmed_service_received Config.sample sample_busy_server
        sample_peer2 (sample_segment 9 2 4 true) [1, 2, 3] 3).map
      (fun r => (r.1.result, r.2.sent)) =
      some (false, sample_busy_server.sent ++
        [Event.abort 9 sample_peer2 ABORT_REASON_PREEMPTED_BY_HIGHER_PRIORITY_TASK true]) ∧
    Event.abort 9 sample_peer2 ABORT_REASON_INVALID_APDU_IN_THIS_STATE true ∉
      sample_busy_server.sent ++
        [Event.abort 9 sample_peer2 ABORT_REASON_PREEMPTED_BY_HIGHER_PRIORITY_TASK true] := by
  decide

/-- C21, amended: the first segment of a new peer transaction, with a free
peer-map entry and a free slot, and a sequence number other than 0: the call
returns false, the only thing sent is the Abort INVALID_APDU_IN_THIS_STATE (so
no segment-ack), every slot holds the invoke-id it held before (the slot claimed
for the transaction is free again and idle), the internal invoke-id is held by
no slot, and no peer-map entry is bound to the (peer, invoke-id). -/
theorem first_segment_bad_sequence (cfg : Config) (s : TSM) (src : BACNET_ADDRESS)
    (service_data : BACNET_CONFIRMED_SERVICE_DATA) (service_request : List Nat)
    (service_request_len : Nat)
    (hlen : s.TSM_List.length ≤ 255) (hcur : s.Current_Invoke_ID < 256)
    (hnew : ∀ e ∈ s.TSM_Peer_Ids, peer_entry_matches src service_data.invoke_id e = false)
    (hentry : ∃ e ∈ s.TSM_Peer_Ids, e.InternalInvokeID = 0)
    (hslot : ∃ d ∈ s.TSM_List, d.InvokeID = 0)
    (hseq : service_data.sequence_number ≠ 0) :
    ∃ c s', c ≠ 0 ∧
      tsm_set_segmented_confirmed_service_received cfg s src service_data service_request
        service_request_len =
        some (⟨false, c, some service_request, service_request_len⟩, s') ∧
      s'.sent = s.sent ++ [Event.abort service_data.invoke_id src
        ABORT_REASON_INVALID_APDU_IN_THIS_STATE true] ∧
      (∀ k, (s'.slot k).InvokeID = (s.slot k).InvokeID) ∧
      (∀ k, s'.slot k = s.slot k ∨
        ((s'.slot k).InvokeID = 0 ∧ (s'.slot k).state = TSM_STATE_IDLE ∧
          (s'.slot k).apdu_blob = none)) ∧
      ¬ held s' c ∧
      ∀ e ∈ s'.TSM_Peer_Ids, peer_entry_matches src service_data.invoke_id e = false := by
  obtain ⟨f, hf⟩ := peer_free_exists s hentry
  have hno := (peer_no_match_iff s src service_data.invoke_id).mpr hnew
  obtain ⟨c, hc0, hc, heq⟩ := first_segment_new cfg s src service_data service_request
    service_request_len f hlen hcur hno hf hslot
  obtain ⟨hl, hi0, hfind, hself, hother, hsent⟩ :=
    peer_bound_slots cfg s src service_data.invoke_id f c hlen hslot hc0 hc
  obtain ⟨w1, w2, w3, w4, w5, w6, w7⟩ := segment_received_idle_bad_seq cfg
    (peer_bound cfg s src service_data.invoke_id f c) (tsm_find_invokeID_index s 0) c src
    service_data service_request service_request_len (by rw [hl]; exact hi0) hfind hseq
  have hid0 : (s.slot (tsm_find_invokeID_index s 0)).InvokeID = 0 :=
    find_lt_spec s 0 hlen hi0
  have hids : ∀ k, ((segment_received_idle cfg (peer_bound cfg s src service_data.invoke_id f c)
      (tsm_find_invokeID_index s 0) c src service_data service_request
      service_request_len).slot k).InvokeID = (s.slot k).InvokeID := by
    intro k
    by_cases hk : k = tsm_find_invokeID_index s 0
    · subst hk
      rw [w2, hid0]
    · rw [w5 k hk, hother k hk]
  refine ⟨c, _, hc0, heq, by rw [w1, hsent], hids, ?_, ?_, ?_⟩
  · intro k
    by_cases hk : k = tsm_find_invokeID_index s 0
    · subst hk
      exact Or.inr ⟨w2, w3, w4⟩
    · exact Or.inl (by rw [w5 k hk, hother k hk])
  · intro hh
    obtain ⟨j, hj, hjc⟩ := (held_iff_slot _ c).mp hh
    rw [hids j] at hjc
    rw [w6, hl] at hj
    exact hc ((held_iff_slot s c).mpr ⟨j, hj, hjc⟩)
  · intro e he
    rw [w7] at he
    unfold tsm_clear_peer_id at he
    obtain ⟨e0, he0, rfl⟩ := List.mem_map.mp he
    have hcase : e0 = ⟨c, service_data.invoke_id, src⟩ ∨ e0 ∈ s.TSM_Peer_Ids := by
      have hm : e0 ∈ s.TSM_Peer_Ids.set f ⟨c, service_data.invoke_id, src⟩ := he0
      rcases List.mem_or_eq_of_mem_set hm with h | h
      · exact Or.inr h
      · exact Or.inl h
    rcases hcase with h | h
    · subst h
      simp [peer_entry_matches]
    · have hm := hnew e0 h
      split
      · simp [peer_entry_matches]
      · exact hm

theorem first_segment_bad_sequence_witness :
    (((TSM.init 2 1).TSM_List.length ≤ 255) ∧
    ((TSM.init 2 1).Current_Invoke_ID < 256) ∧
    (∀ e ∈ (TSM.init 2 1).TSM_Peer_Ids, peer_entry_matches sample_peer (sample_segment 7 2 4 true).invoke_id e = false) ∧
    (∃ e ∈ (TSM.init 2 1).TSM_Peer_Ids, e.InternalInvokeID = 0) ∧
    (∃ d ∈ (TSM.init 2 1).TSM_List, d.InvokeID = 0) ∧
    ((sample_segment 7 2 4 true).sequence_number ≠ 0)) ∧
    (∃ c s', c ≠ 0 ∧
      tsm_set_segmented_confirmed_service_received Config.sample (TSM.init 2 1) sample_peer (sample_segment 7 2 4 true) [1, 2, 3]
        3 =
        some (⟨false, c, some [1, 2, 3], 3⟩, s') ∧
      s'.sent = (TSM.init 2 1).sent ++ [Event.abort (sample_segment 7 2 4 true).invoke_id sample_peer
        ABORT_REASON_INVALID_APDU_IN_THIS_STATE true] ∧
      (∀ k, (s'.slot k).InvokeID = ((TSM.init 2 1).slot k).InvokeID) ∧
      (∀ k, s'.slot k = (TSM.init 2 1).slot k ∨
        ((s'.slot k).InvokeID = 0 ∧ (s'.slot k).state = TSM_STATE_IDLE ∧
          (s'.slot k).apdu_blob = none)) ∧
      ¬ held s' c ∧
      ∀ e ∈ s'.TSM_Peer_Ids, peer_entry_matches sample_peer (sample_segment 7 2 4 true).invoke_id e = false) :=
  ⟨⟨by decide, by decide, by decide, by decide, by decide, by decide⟩,
    first_segment_bad_sequence Config.sample ((TSM.init 2 1)) sample_peer ((sample_segment 7 2 4 true)) ([1, 2, 3]) 3 (by decide) (by decide) (by decide) (by decide) (by decide) (by decide)⟩

/-! ## Aborts that keep the slot -/

/-- C23 at its failing inputs. A first segment 0 with the proposed window size 0
makes the call send Abort WINDOW_SIZE_OUT_OF_RANGE and leave the slot idle but
still holding the internal invoke-id 1, with the peer-map entry still bound to
it. With a segment timeout of 2000 ms and an APDU timeout of 3000 ms, the segment
1 that follows an accepted segment 0 makes the call send Abort
APPLICATION_EXCEEDED_REPLY_TIME and likewise leave the invoke-id in the slot and
the peer-map entry bound. -/
theorem abort_keeps_slot_and_peer_entry :
    (tsm_set_segmented_confirmed_service_received Config.sample (TSM.init 2 1) sample_peer
        (sample_segment 7 0 0 true) [1, 2, 3] 3).map (fun r => (r.1.result, r.2.sent)) =
      some (false,
        [Event.abort 7 sample_peer ABORT_REASON_WINDOW_SIZE_OUT_OF_RANGE true]) ∧
    (tsm_set_segmented_confirmed_service_received Config.sample (TSM.init 2 1) sample_peer
        (sample_segment 7 0 0 true) [1, 2, 3] 3).map
      (fun r => ((r.2.slot 0).InvokeID, (r.2.slot 0).state)) = some (1, TSM_STATE_IDLE) ∧
    (tsm_set_segmented_confirmed_service_received Config.sample (TSM.init 2 1) sample_peer
        (sample_segment 7 0 0 true) [1, 2, 3] 3).map (fun r => r.2.peer 0) =
      some ⟨1, 7, sample_peer⟩ ∧
    (sample_receiving.slot 0).state = TSM_STATE_SEGMENTED_REQUEST_SERVER ∧
    (tsm_set_segmented_confirmed_service_received Config.sample sample_receiving sample_peer
        (sample_segment 7 1 4 true) [4, 5, 6] 3).map (fun r => (r.1.result, r.2.sent)) =
      some (false, sample_receiving.sent ++
        [Event.abort 7 sample_peer ABORT_REASON_APPLICATION_EXCEEDED_REPLY_TIME true]) ∧
    (tsm_set_segmented_confirmed_service_received Config.sample sample_receiving sample_peer
        (sample_segment 7 1 4 true) [4, 5, 6] 3).map
      (fun r => ((r.2.slot 0).InvokeID, (r.2.slot 0).state)) = some (1, TSM_STATE_IDLE) ∧
    (tsm_set_segmented_confirmed_service_received Config.sample sample_receiving sample_peer
        (sample_segment 7 1 4 true) [4, 5, 6] 3).map (fun r => r.2.peer 0) =
      some ⟨1, 7, sample_peer⟩ := by
  decide

/-! ## Segment-acks for a segmented response -/

theorem without_header_fields {a b : BACNET_TSM_DATA} (h : without_header a = without_header b) :
    a.InitialSequenceNumber = b.InitialSequenceNumber ∧
    a.ActualWindowSize = b.ActualWindowSize ∧
    a.SegmentRetryCount = b.SegmentRetryCount ∧
    a.SegmentTimer = b.SegmentTimer ∧
    a.InvokeID = b.InvokeID ∧
    a.state = b.state := by
  have h1 : (without_header a).InitialSequenceNumber = (without_header b).InitialSequenceNumber :=
    by rw [h]
  have h2 : (without_header a).ActualWindowSize = (without_header b).ActualWindowSize := by rw [h]
  have h3 : (without_header a).SegmentRetryCount = (without_header b).SegmentRetryCount := by
    rw [h]
  have h4 : (without_header a).SegmentTimer = (without_header b).SegmentTimer := by rw [h]
  have h5 : (without_header a).InvokeID = (without_header b).InvokeID := by rw [h]
  have h6 : (without_header a).state = (without_header b).state := by rw [h]
  exact ⟨h1, h2, h3, h4, h5, h6⟩

/-- The operation `tsm_pdu_send` writes the cached fixed header only. -/
theorem tsm_pdu_send_frame (cfg : Config) (index : Nat) (d : BACNET_TSM_DATA) (n : Nat) :
    without_header (tsm_pdu_send cfg index d n).1 = without_header d := by
  unfold tsm_pdu_send
  simp only
  split_ifs <;> try rfl
  all_goals
    split
    · rfl
    · split_ifs <;> rfl

theorem FillWindow_loop_frame (cfg : Config) (index total seq : Nat) (fuel : Nat) :
    ∀ (ix : Nat) (d : BACNET_TSM_DATA) (sent : List Event),
      without_header (FillWindow_loop cfg index total seq fuel ix d sent).2.1 =
        without_header d := by
  induction fuel with
  | zero => intro ix d sent; rfl
  | succ fuel ih =>
    intro ix d sent
    unfold FillWindow_loop
    split_ifs
    · exact (ih _ _ _).trans (tsm_pdu_send_frame cfg index d _)
    · rfl

/-- The operation `FillWindow` writes the cached fixed header and
`SentAllSegments` only. -/
theorem FillWindow_frame (cfg : Config) (index : Nat) (d : BACNET_TSM_DATA) (seq : Nat) :
    without_header (FillWindow cfg index d seq).1 = without_header d := by
  have h := FillWindow_loop_frame cfg index (get_apdu_max_segments d) seq d.ActualWindowSize 0 d []
  unfold FillWindow
  simp only
  split_ifs
  · exact h
  · exact h

/-- The call `tsm_segmentack_received` for the final ack of a segmented
response. -/
theorem segmentack_client_final (cfg : Config) (s : TSM) (invoke_id sequence_number
    actual_window_size : Nat) (src : BACNET_ADDRESS) (ix id index : Nat)
    (hix : s.TSM_Peer_Ids.findIdx? (peer_entry_matches src invoke_id) = some ix)
    (hid : (s.peer ix).InternalInvokeID = id)
    (hidx : tsm_find_invokeID_index s id = index)
    (hi : index < s.TSM_List.length)
    (hst : (s.slot index).state = TSM_STATE_SEGMENTED_RESPONSE_SERVER)
    (hwin : InWindow (s.slot index) sequence_number (u8 (s.slot index).InitialSequenceNumber)
      = true)
    (hlast : u32 (acked_segment (s.slot index) sequence_number + 1) ≥
      get_apdu_max_segments (s.slot index)) :
    tsm_segmentack_received cfg s invoke_id sequence_number actual_window_size false src =
      tsm_free_invoke_id_check
        (s.setSlot index { s.slot index with SegmentTimer := 0, state := TSM_STATE_IDLE })
        id none true := by
  unfold tsm_segmentack_received
  rw [if_neg (by simp)]
  lift_lets
  extract_lets translated
  have ht : translated = some id := by
    show (if (!false) = true then _ else _) = _
    simp only [Bool.not_false, ↓reduceIte, hix, hid]
  clear_value translated
  subst ht
  intro src0
  split
  · rename_i heq
    cases heq
  · rename_i heq
    cases heq
    subst hidx
    lift_lets
    extract_lets index1 p1 w big rem d t3 p0 t2 t1 t0
    have c1 : ¬ (index1 ≥ MAX_TSM_TRANSACTIONS s) := Nat.not_le.mpr hi
    have c2 : (!false) = true ∧ (s.slot index1).state = TSM_STATE_SEGMENTED_RESPONSE_SERVER :=
      ⟨rfl, hst⟩
    have hwin1 : InWindow (s.slot index1) sequence_number
        (u8 (s.slot index1).InitialSequenceNumber) = true := hwin
    have c3 : ¬ ((!InWindow (s.slot index1) sequence_number
        (u8 (s.slot index1).InitialSequenceNumber)) = true) := by
      rw [hwin1]; simp
    have c4 : ¬ rem := Nat.not_lt.mpr hlast
    rw [if_neg c1, if_pos c2, if_neg c3, if_neg c4]

/-! ## The segment timer of a segmented response -/

theorem onSlot_nil (s : TSM) (i : Nat) (d : BACNET_TSM_DATA) :
    s.onSlot i (d, []) = s.setSlot i d := by
  simp [TSM.onSlot, TSM.setSlot]

/-- The loop body of `tsm_timer_milliseconds` on a slot in
SegmentedResponseServer. -/
theorem timer_slot_response (cfg : Config) (ms : Nat) (s : TSM) (i : Nat)
    (hi : i < s.TSM_List.length)
    (hst : (s.slot i).state = TSM_STATE_SEGMENTED_RESPONSE_SERVER) :
    tsm_timer_slot cfg ms s i = s.onSlot i (response_tick cfg i ms (s.slot i)) := by
  unfold tsm_timer_slot
  have e1 : tsm_timer_await_confirmation cfg ms s i = s := by
    unfold tsm_timer_await_confirmation
    rw [if_neg (by rw [hst]; decide)]
  have e2 : tsm_timer_segmented_response cfg ms s i =
      s.onSlot i (response_tick cfg i ms (s.slot i)) := by
    unfold tsm_timer_segmented_response response_tick
    rw [if_pos hst]
    by_cases hgt : (s.slot i).SegmentTimer > ms
    · have hne : (s.slot i).SegmentTimer - ms ≠ 0 := by omega
      simp only [hgt, if_true, hne, if_false]
      exact (onSlot_nil s i _).symm
    · simp only [hgt, if_false, if_true]
      by_cases hr : u8 ((s.slot i).SegmentRetryCount + 255) ≠ 0
      · simp only [hr, ne_eq, not_false_eq_true, if_true]
      · simp only [hr, if_false]
        exact (onSlot_nil s i _).symm
  have hstate : ((s.onSlot i (response_tick cfg i ms (s.slot i))).slot i).state ≠
      TSM_STATE_SEGMENTED_REQUEST_SERVER := by
    have hs : (s.onSlot i (response_tick cfg i ms (s.slot i))).slot i =
        (response_tick cfg i ms (s.slot i)).1 := slot_setSlot_self s i _ hi
    rw [hs]
    unfold response_tick
    split_ifs
    · simp [hst]
    · rw [FillWindow_state]; simp [hst]
    · simp
  simp only [e1, e2]
  unfold tsm_timer_segmented_request
  rw [if_neg hstate]

theorem response_tick_events (cfg : Config) (i id ms : Nat) (d : BACNET_TSM_DATA) :
    ∀ e ∈ (response_tick cfg i ms d).2, Event.ofSlot i id e = true := by
  unfold response_tick
  split_ifs
  · simp
  · intro e he
    obtain ⟨_, _, _, rfl⟩ := (FillWindow_spec cfg i _ _).1 e he
    simp [Event.ofSlot]
  · simp

theorem response_tick_InvokeID (cfg : Config) (i ms : Nat) (d : BACNET_TSM_DATA) :
    (response_tick cfg i ms d).1.InvokeID = d.InvokeID := by
  unfold response_tick
  split_ifs
  · rfl
  · exact (FillWindow_spec cfg i _ _).2
  · rfl

/-- One call of `tsm_timer_milliseconds` seen from a slot in
SegmentedResponseServer whose invoke-id no other slot holds. -/
theorem tick_response (cfg : Config) (ms : Nat) (s : TSM) (i id : Nat)
    (hi : i < s.TSM_List.length) (hid0 : id ≠ 0) (honly : OnlyAt i id s)
    (hst : (s.slot i).state = TSM_STATE_SEGMENTED_RESPONSE_SERVER) :
    (tsm_timer_milliseconds cfg s ms).slot i = (response_tick cfg i ms (s.slot i)).1 ∧
    (tsm_timer_milliseconds cfg s ms).sent.filter (Event.ofSlot i id) =
      s.sent.filter (Event.ofSlot i id) ++ (response_tick cfg i ms (s.slot i)).2 := by
  have hself : ∀ s1, OtherStep i id s s1 → OnlyAt i id s1 →
      tsm_timer_slot cfg ms s1 i = s1.onSlot i (response_tick cfg i ms (s.slot i)) := by
    intro s1 h1 _
    rw [timer_slot_response cfg ms s1 i (by rw [h1.1]; exact hi) (by rw [h1.2.2.1]; exact hst),
      h1.2.2.1]
  obtain ⟨s1, a, b, c⟩ := foldl_timer_split cfg ms i id hid0 (List.range (MAX_TSM_TRANSACTIONS s)) s
    (List.nodup_range _) (List.mem_range.mpr hi) honly (by
      intro s1 h1 h2 k hk
      rw [hself s1 h1 h2]
      show ((s1.setSlot i _).slot k).InvokeID ≠ id
      rw [slot_setSlot_ne s1 i k _ hk]
      exact h2 k hk)
  rw [hself s1 a b] at c
  have hi1 : i < s1.TSM_List.length := by rw [a.1]; exact hi
  refine ⟨?_, ?_⟩
  · show (List.foldl _ s _).slot i = _
    rw [c.2.2.1]
    exact slot_setSlot_self s1 i _ hi1
  · show (List.foldl _ s _).sent.filter _ = _
    rw [c.2.2.2.1]
    show List.filter _ (s1.sent ++ _) = _
    rw [List.filter_append, a.2.2.2.1]
    congr 1
    rw [List.filter_eq_self]
    exact response_tick_events cfg i id ms (s.slot i)

/-- C30, as stated, fails for a retry count of 1: `sample_six_segments` after
two expiries of the segment timer is still in SegmentedResponseServer with the
retry count 1, and the next expiry moves the slot to Idle and sends nothing,
where the claim has a re-send of the window. -/
theorem segment_timer_expiry_count_one :
    ((run_ticks Config.sample sample_six_segments [2000, 2000]).slot 0).state =
      TSM_STATE_SEGMENTED_RESPONSE_SERVER ∧
    ((run_ticks Config.sample sample_six_segments [2000, 2000]).slot 0).SegmentRetryCount = 1 ∧
    ((run_ticks Config.sample sample_six_segments [2000, 2000]).slot 0).SegmentTimer ≤ 2000 ∧
    ((tsm_timer_milliseconds Config.sample
      (run_ticks Config.sample sample_six_segments [2000, 2000]) 2000).slot 0).state =
      TSM_STATE_IDLE ∧
    (tsm_timer_milliseconds Config.sample
      (run_ticks Config.sample sample_six_segments [2000, 2000]) 2000).sent =
      (run_ticks Config.sample sample_six_segments [2000, 2000]).sent := by
  decide

/-- C30, amended: a slot in SegmentedResponseServer whose segment timer expires
in a call of `tsm_timer_milliseconds`. With a retry count of 2 or more the slot
stays in SegmentedResponseServer, the count goes down by one, the segment timer
restarts at `apdu_segment_timeout()`, and what the slot sends is the window that
`FillWindow` sends from `InitialSequenceNumber`. With a retry count of 1 the
count becomes 0, the slot goes to Idle and sends nothing. -/
theorem segment_timer_expiry_policy (cfg : Config) (s : TSM) (ms i id : Nat)
    (hi : i < s.TSM_List.length) (hid0 : id ≠ 0)
    (honly : ∀ k, k < s.TSM_List.length → k ≠ i → (s.slot k).InvokeID ≠ id)
    (hst : (s.slot i).state = TSM_STATE_SEGMENTED_RESPONSE_SERVER)
    (hexp : (s.slot i).SegmentTimer ≤ ms)
    (hcnt : (s.slot i).SegmentRetryCount < 256) :
    (2 ≤ (s.slot i).SegmentRetryCount →
      (tsm_timer_milliseconds cfg s ms).slot i =
        (FillWindow cfg i { s.slot i with
          SegmentRetryCount := (s.slot i).SegmentRetryCount - 1
          SegmentTimer := cfg.apdu_segment_timeout } (s.slot i).InitialSequenceNumber).1 ∧
      ((tsm_timer_milliseconds cfg s ms).slot i).state = TSM_STATE_SEGMENTED_RESPONSE_SERVER ∧
      ((tsm_timer_milliseconds cfg s ms).slot i).SegmentRetryCount =
        (s.slot i).SegmentRetryCount - 1 ∧
      ((tsm_timer_milliseconds cfg s ms).slot i).SegmentTimer = cfg.apdu_segment_timeout ∧
      ((tsm_timer_milliseconds cfg s ms).slot i).InitialSequenceNumber =
        (s.slot i).InitialSequenceNumber ∧
      (tsm_timer_milliseconds cfg s ms).sent.filter (Event.ofSlot i id) =
        s.sent.filter (Event.ofSlot i id) ++
          (FillWindow cfg i { s.slot i with
            SegmentRetryCount := (s.slot i).SegmentRetryCount - 1
            SegmentTimer := cfg.apdu_segment_timeout } (s.slot i).InitialSequenceNumber).2) ∧
    ((s.slot i).SegmentRetryCount = 1 →
      (tsm_timer_milliseconds cfg s ms).slot i =
        { s.slot i with
          SegmentRetryCount := 0
          SegmentTimer := cfg.apdu_segment_timeout
          state := TSM_STATE_IDLE } ∧
      (tsm_timer_milliseconds cfg s ms).sent.filter (Event.ofSlot i id) =
        s.sent.filter (Event.ofSlot i id)) := by
  obtain ⟨h1, h2⟩ := tick_response cfg ms s i id hi hid0 (onlyAt_of_bounded s i id hid0 honly) hst
  have hngt : ¬ (s.slot i).SegmentTimer > ms := Nat.not_lt.mpr hexp
  refine ⟨?_, ?_⟩
  · intro h2le
    have hu : u8 ((s.slot i).SegmentRetryCount + 255) = (s.slot i).SegmentRetryCount - 1 := by
      unfold u8; omega
    have hne : u8 ((s.slot i).SegmentRetryCount + 255) ≠ 0 := by rw [hu]; omega
    have hr : response_tick cfg i ms (s.slot i) =
        FillWindow cfg i { s.slot i with
          SegmentRetryCount := (s.slot i).SegmentRetryCount - 1
          SegmentTimer := cfg.apdu_segment_timeout } (s.slot i).InitialSequenceNumber := by
      unfold response_tick
      rw [if_neg hngt, if_pos hne, hu]
    rw [hr] at h1 h2
    obtain ⟨f1, _, f3, f4, _, _⟩ := without_header_fields (FillWindow_frame cfg i { s.slot i with
      SegmentRetryCount := (s.slot i).SegmentRetryCount - 1
      SegmentTimer := cfg.apdu_segment_timeout } (s.slot i).InitialSequenceNumber)
    refine ⟨h1, ?_, ?_, ?_, ?_, h2⟩
    · rw [h1, FillWindow_state]; exact hst
    · rw [h1]; exact f3
    · rw [h1]; exact f4
    · rw [h1]; exact f1
  · intro h1eq
    have hu : u8 ((s.slot i).SegmentRetryCount + 255) = 0 := by
      unfold u8; omega
    have hr : response_tick cfg i ms (s.slot i) =
        ({ s.slot i with
          SegmentRetryCount := 0
          SegmentTimer := cfg.apdu_segment_timeout
          state := TSM_STATE_IDLE }, []) := by
      unfold response_tick
      rw [if_neg hngt, if_neg (by rw [hu]; simp), hu]
    rw [hr] at h1 h2
    exact ⟨h1, by rw [h2, List.append_nil]⟩

theorem segment_timer_expiry_policy_witness :
    ((0 < sample_six_segments.TSM_List.length) ∧
    (1 ≠ 0) ∧
    (∀ k, k < sample_six_segments.TSM_List.length → k ≠ 0 → (sample_six_segments.slot k).InvokeID ≠ 1) ∧
    ((sample_six_segments.slot 0).state = TSM_STATE_SEGMENTED_RESPONSE_SERVER) ∧
    ((sample_six_segments.slot 0).SegmentTimer ≤ 2000) ∧
    ((sample_six_segments.slot 0).SegmentRetryCount < 256)) ∧
    ((2 ≤ (sample_six_segments.slot 0).SegmentRetryCount →
      (tsm_timer_milliseconds Config.sample sample_six_segments 2000).slot 0 =
        (FillWindow Config.sample 0 { sample_six_segments.slot 0 with
          SegmentRetryCount := (sample_six_segments.slot 0).SegmentRetryCount - 1
          SegmentTimer := Config.sample.apdu_segment_timeout } (sample_six_segments.slot 0).InitialSequenceNumber).1 ∧
      ((tsm_timer_milliseconds Config.sample sample_six_segments 2000).slot 0).state = TSM_STATE_SEGMENTED_RESPONSE_SERVER ∧
      ((tsm_timer_milliseconds Config.sample sample_six_segments 2000).slot 0).SegmentRetryCount =
        (sample_six_segments.slot 0).SegmentRetryCount - 1 ∧
      ((tsm_timer_milliseconds Config.sample sample_six_segments 2000).slot 0).SegmentTimer = Config.sample.apdu_segment_timeout ∧
      ((tsm_timer_milliseconds Config.sample sample_six_segments 2000).slot 0).InitialSequenceNumber =
        (sample_six_segments.slot 0).InitialSequenceNumber ∧
      (tsm_timer_milliseconds Config.sample sample_six_segments 2000).sent.filter (Event.ofSlot 0 1) =
        sample_six_segments.sent.filter (Event.ofSlot 0 1) ++
          (FillWindow Config.sample 0 { sample_six_segments.slot 0 with
            SegmentRetryCount := (sample_six_segments.slot 0).SegmentRetryCount - 1
            SegmentTimer := Config.sample.apdu_segment_timeout } (sample_six_segments.slot 0).InitialSequenceNumber).2) ∧
    ((sample_six_segments.slot 0).SegmentRetryCount = 1 →
      (tsm_timer_milliseconds Config.sample sample_six_segments 2000).slot 0 =
        { sample_six_segments.slot 0 with
          SegmentRetryCount := 0
          SegmentTimer := Config.sample.apdu_segment_timeout
          state := TSM_STATE_IDLE } ∧
      (tsm_timer_milliseconds Config.sample sample_six_segments 2000).sent.filter (Event.ofSlot 0 1) =
        sample_six_segments.sent.filter (Event.ofSlot 0 1))) :=
  ⟨⟨by decide, by decide, by decide, by decide, by decide, by decide⟩,
    segment_timer_expiry_policy Config.sample sample_six_segments 2000 0 1 (by decide) (by decide) (by decide) (by decide) (by decide) (by decide)⟩

/-! ## Segment-acks: the three outcomes -/

/-- The call `tsm_segmentack_received` for a new ack of a segmented response. -/
theorem segmentack_client_new (cfg : Config) (s : TSM) (invoke_id sequence_number
    actual_window_size : Nat) (src : BACNET_ADDRESS) (ix id index : Nat)
    (hix : s.TSM_Peer_Ids.findIdx? (peer_entry_matches src invoke_id) = some ix)
    (hid : (s.peer ix).InternalInvokeID = id)
    (hidx : tsm_find_invokeID_index s id = index)
    (hi : index < s.TSM_List.length)
    (hst : (s.slot index).state = TSM_STATE_SEGMENTED_RESPONSE_SERVER)
    (hwin : InWindow (s.slot index) sequence_number (u8 (s.slot index).InitialSequenceNumber)
      = true)
    (hrem : u32 (acked_segment (s.slot index) sequence_number + 1) <
      get_apdu_max_segments (s.slot index)) :
    tsm_segmentack_received cfg s invoke_id sequence_number actual_window_size false src =
      (s.onSlot index (FillWindow cfg index
        (new_ack_slot cfg (s.slot index) sequence_number actual_window_size)
        (u32 (acked_segment (s.slot index) sequence_number + 1)))).setSlot index
        { (FillWindow cfg index
            (new_ack_slot cfg (s.slot index) sequence_number actual_window_size)
            (u32 (acked_segment (s.slot index) sequence_number + 1))).1 with
          SegmentTimer := cfg.apdu_segment_timeout } := by
  unfold tsm_segmentack_received
  rw [if_neg (by simp)]
  lift_lets
  extract_lets translated
  have ht : translated = some id := by
    show (if (!false) = true then _ else _) = _
    simp only [Bool.not_false, ↓reduceIte, hix, hid]
  clear_value translated
  subst ht
  intro src0
  split
  · rename_i heq
    cases heq
  · rename_i heq
    cases heq
    subst hidx
    lift_lets
    extract_lets index1 p1 w big rem d t3 p0 t2 t1 t0
    have c1 : ¬ (index1 ≥ MAX_TSM_TRANSACTIONS s) := Nat.not_le.mpr hi
    have c2 : (!false) = true ∧ (s.slot index1).state = TSM_STATE_SEGMENTED_RESPONSE_SERVER :=
      ⟨rfl, hst⟩
    have hwin1 : InWindow (s.slot index1) sequence_number
        (u8 (s.slot index1).InitialSequenceNumber) = true := hwin
    have c3 : ¬ ((!InWindow (s.slot index1) sequence_number
        (u8 (s.slot index1).InitialSequenceNumber)) = true) := by
      rw [hwin1]; simp
    have c4 : rem := hrem
    rw [if_neg c1, if_pos c2, if_neg c3, if_pos c4]
    have hs : t3.slot index1 = (FillWindow cfg index1 d d.InitialSequenceNumber).1 :=
      slot_setSlot_self s index1 _ hi
    show t3.setSlot index1 { t3.slot index1 with SegmentTimer := cfg.apdu_segment_timeout } = _
    rw [hs]
    rfl

/-- The call `tsm_segmentack_received` for an ack that resolves to a slot in
the wrong state: an ack of a server for the invoke-id `id`, or an ack of a
client that the peer map translates to `id` while the slot is not in
SegmentedResponseServer. -/
theorem segmentack_unexpected (cfg : Config) (s : TSM) (invoke_id sequence_number
    actual_window_size : Nat) (server : Bool) (src : BACNET_ADDRESS) (id index : Nat)
    (htr : (server = true ∧ invoke_id ≠ 0 ∧ invoke_id = id) ∨
      (server = false ∧ ∃ ix,
        s.TSM_Peer_Ids.findIdx? (peer_entry_matches src invoke_id) = some ix ∧
        (s.peer ix).InternalInvokeID = id))
    (hidx : tsm_find_invokeID_index s id = index)
    (hi : index < s.TSM_List.length)
    (hwrong : server = true ∨ (s.slot index).state ≠ TSM_STATE_SEGMENTED_RESPONSE_SERVER) :
    tsm_segmentack_received cfg s invoke_id sequence_number actual_window_size server src =
      tsm_free_invoke_id_check
        (abort_pdu_send (s.setSlot index (free_blob (s.slot index))) id src
          ABORT_REASON_INVALID_APDU_IN_THIS_STATE true) id none true := by
  unfold tsm_segmentack_received
  have h0 : ¬ (server = true ∧ invoke_id = 0) := by
    rcases htr with ⟨_, h, _⟩ | ⟨h, _⟩
    · exact fun g => h g.2
    · exact fun g => by rw [h] at g; exact Bool.false_ne_true g.1
  rw [if_neg h0]
  lift_lets
  extract_lets translated
  have ht : translated = some id := by
    rcases htr with ⟨h1, _, h3⟩ | ⟨h1, ix, hix, hid⟩
    · show (if (!server) = true then _ else _) = _
      simp only [h1, Bool.not_true, Bool.false_eq_true, ↓reduceIte, h3]
    · show (if (!server) = true then _ else _) = _
      simp only [h1, Bool.not_false, ↓reduceIte, hix, hid]
  clear_value translated
  subst ht
  split
  · rename_i heq
    cases heq
  · rename_i heq
    cases heq
    subst hidx
    lift_lets
    extract_lets index1 p1 w big rem d t3 p0 t2 t1 t0
    have c1 : ¬ (index1 ≥ MAX_TSM_TRANSACTIONS s) := Nat.not_le.mpr hi
    have c2 : ¬ ((!server) = true ∧
        (s.slot index1).state = TSM_STATE_SEGMENTED_RESPONSE_SERVER) := by
      rcases hwrong with h | h
      · rw [h]; simp
      · exact fun g => h g.2
    rw [if_neg c1, if_neg c2]

theorem inWindow_of_lt (d : BACNET_TSM_DATA) (a b : Nat)
    (h : u8 (a + 256 - b) < d.ActualWindowSize) : InWindow d a b = true := by
  simp [InWindow, h]

/-- The release of the slot `index` holding `id` by
`tsm_free_invoke_id_check(id, NULL, true)`. -/
theorem release_spec (t : TSM) (id index : Nat)
    (hidx : tsm_find_invokeID_index t id = index) (hi : index < t.TSM_List.length) :
    (tsm_free_invoke_id_check t id none true).sent = t.sent ∧
    (tsm_free_invoke_id_check t id none true).slot index =
      free_blob { t.slot index with state := TSM_STATE_IDLE, InvokeID := 0 } ∧
    (∀ k, k ≠ index → (tsm_free_invoke_id_check t id none true).slot k = t.slot k) ∧
    (∀ j, (tsm_free_invoke_id_check t id none true).peer j =
      if (t.peer j).InternalInvokeID = id then { t.peer j with InternalInvokeID := 0 }
      else t.peer j) := by
  obtain ⟨a1, a2, a3, a4, _⟩ := free_check_spec t id none true (by rw [hidx]; exact hi)
    (fun a h => by cases h)
  rw [hidx] at a1 a2
  refine ⟨a4, a1, a2, ?_⟩
  intro j
  rw [peer_congr a3 j, peer_clear]

/-- C28: a segment-ack of the client that resolves (through the peer-map entry
`ix`, the internal invoke-id `id`) to the slot `index` in
SegmentedResponseServer, lies in the outstanding window and covers the last
segment: nothing is sent, the slot is idle without invoke-id, its segment timer
is 0 and its buffers are freed, the peer-map entries bound to `id` are cleared,
and every other slot is unchanged. -/
theorem segmentack_final_releases (cfg : Config) (s : TSM) (invoke_id sequence_number
    actual_window_size : Nat) (src : BACNET_ADDRESS) (ix id index : Nat)
    (hix : s.TSM_Peer_Ids.findIdx? (peer_entry_matches src invoke_id) = some ix)
    (hid : (s.peer ix).InternalInvokeID = id)
    (hidx : tsm_find_invokeID_index s id = index)
    (hi : index < s.TSM_List.length)
    (hst : (s.slot index).state = TSM_STATE_SEGMENTED_RESPONSE_SERVER)
    (hwin : u8 (sequence_number + 256 - u8 (s.slot index).InitialSequenceNumber) <
      (s.slot index).ActualWindowSize)
    (hlast : u32 (acked_segment (s.slot index) sequence_number + 1) ≥
      get_apdu_max_segments (s.slot index)) :
    (tsm_segmentack_received cfg s invoke_id sequence_number actual_window_size false src).sent =
      s.sent ∧
    (tsm_segmentack_received cfg s invoke_id sequence_number actual_window_size false src).slot
      index =
      free_blob { s.slot index with
        state := TSM_STATE_IDLE, InvokeID := 0, SegmentTimer := 0 } ∧
    (∀ k, k ≠ index →
      (tsm_segmentack_received cfg s invoke_id sequence_number actual_window_size false
        src).slot k = s.slot k) ∧
    ((tsm_segmentack_received cfg s invoke_id sequence_number actual_window_size false src).peer
      ix).InternalInvokeID = 0 ∧
    (∀ j, (tsm_segmentack_received cfg s invoke_id sequence_number actual_window_size false
        src).peer j =
      if (s.peer j).InternalInvokeID = id then { s.peer j with InternalInvokeID := 0 }
      else s.peer j) := by
  rw [segmentack_client_final cfg s invoke_id sequence_number actual_window_size src ix id index
    hix hid hidx hi hst (inWindow_of_lt _ _ _ hwin) hlast]
  obtain ⟨b1, b2, b3, b4⟩ := release_spec
    (s.setSlot index { s.slot index with SegmentTimer := 0, state := TSM_STATE_IDLE }) id index
    (by refine (find_setSlot_keep s index _ id ?_).trans hidx; rfl)
    (by rw [length_setSlot]; exact hi)
  refine ⟨b1, ?_, ?_, ?_, b4⟩
  · rw [b2, slot_setSlot_self s index _ hi]
  · intro k hk
    rw [b3 k hk, slot_setSlot_ne s index k _ hk]
  · rw [b4 ix]
    have e : ((s.setSlot index
        { s.slot index with SegmentTimer := 0, state := TSM_STATE_IDLE }).peer
        ix).InternalInvokeID = id := hid
    rw [if_pos e]

/-- C29: a segment-ack that resolves to the slot `index` holding `id` (an ack of
a server for the invoke-id `id`, or an ack of a client that the peer map
translates to `id`) while the ack is not one of the client for a slot in
SegmentedResponseServer: the only thing sent is the Abort
INVALID_APDU_IN_THIS_STATE (it carries the invoke-id after translation), the
slot is idle without invoke-id and its buffers are freed, the peer-map entries
bound to `id` are cleared, and every other slot is unchanged. -/
theorem segmentack_wrong_state_aborts (cfg : Config) (s : TSM) (invoke_id sequence_number
    actual_window_size : Nat) (server : Bool) (src : BACNET_ADDRESS) (id index : Nat)
    (htr : (server = true ∧ invoke_id ≠ 0 ∧ invoke_id = id) ∨
      (server = false ∧ ∃ ix,
        s.TSM_Peer_Ids.findIdx? (peer_entry_matches src invoke_id) = some ix ∧
        (s.peer ix).InternalInvokeID = id))
    (hidx : tsm_find_invokeID_index s id = index)
    (hi : index < s.TSM_List.length)
    (hwrong : server = true ∨ (s.slot index).state ≠ TSM_STATE_SEGMENTED_RESPONSE_SERVER) :
    (tsm_segmentack_received cfg s invoke_id sequence_number actual_window_size server
      src).sent =
      s.sent ++ [Event.abort id src ABORT_REASON_INVALID_APDU_IN_THIS_STATE true] ∧
    (tsm_segmentack_received cfg s invoke_id sequence_number actual_window_size server
      src).slot index =
      free_blob { s.slot index with state := TSM_STATE_IDLE, InvokeID := 0 } ∧
    (∀ k, k ≠ index →
      (tsm_segmentack_received cfg s invoke_id sequence_number actual_window_size server
        src).slot k = s.slot k) ∧
    (∀ j, (tsm_segmentack_received cfg s invoke_id sequence_number actual_window_size server
        src).peer j =
      if (s.peer j).InternalInvokeID = id then { s.peer j with InternalInvokeID := 0 }
      else s.peer j) := by
  rw [segmentack_unexpected cfg s invoke_id sequence_number actual_window_size server src id index
    htr hidx hi hwrong]
  obtain ⟨b1, b2, b3, b4⟩ := release_spec
    (abort_pdu_send (s.setSlot index (free_blob (s.slot index))) id src
      ABORT_REASON_INVALID_APDU_IN_THIS_STATE true) id index
    (by
      show tsm_find_invokeID_index (s.setSlot index _) id = index
      refine (find_setSlot_keep s index _ id ?_).trans hidx
      rfl) (by
      show index < (s.setSlot index _).TSM_List.length
      rw [length_setSlot]; exact hi)
  refine ⟨b1, ?_, ?_, b4⟩
  · rw [b2]
    show free_blob { (s.setSlot index (free_blob (s.slot index))).slot index with
      state := TSM_STATE_IDLE, InvokeID := 0 } = _
    rw [slot_setSlot_self s index _ hi]
    rfl
  · intro k hk
    rw [b3 k hk]
    show (s.setSlot index _).slot k = _
    rw [slot_setSlot_ne s index k _ hk]

/-- C27: a segment-ack of the client that resolves (through the peer-map entry
`ix`, the internal invoke-id `id`) to the slot `index` in
SegmentedResponseServer, whose sequence number `a` lies in the outstanding
window, `(a - InitialSequenceNumber) mod 256 < ActualWindowSize`, and does not
cover the last segment. The slot stays in SegmentedResponseServer with
`InitialSequenceNumber` the acknowledged segment number + 1, `ActualWindowSize`
the window size of the ack, `SegmentRetryCount` the value of `apdu_retries()`
and the segment timer restarted, what is sent is the window that `FillWindow`
sends from the new `InitialSequenceNumber`, and the other slots and the peer map
are unchanged. On the six-segment response of `sample_six_segments`, the ack of
sequence 3 with the window size 2 moves `InitialSequenceNumber` to 4 and sends
exactly the segments 4 and 5. -/
theorem segmentack_new_ack_advances (cfg : Config) (s : TSM) (invoke_id sequence_number
    actual_window_size : Nat) (src : BACNET_ADDRESS) (ix id index : Nat)
    (hix : s.TSM_Peer_Ids.findIdx? (peer_entry_matches src invoke_id) = some ix)
    (hid : (s.peer ix).InternalInvokeID = id)
    (hidx : tsm_find_invokeID_index s id = index)
    (hi : index < s.TSM_List.length)
    (hst : (s.slot index).state = TSM_STATE_SEGMENTED_RESPONSE_SERVER)
    (hwin : u8 (sequence_number + 256 - u8 (s.slot index).InitialSequenceNumber) <
      (s.slot index).ActualWindowSize)
    (hrem : u32 (acked_segment (s.slot index) sequence_number + 1) <
      get_apdu_max_segments (s.slot index)) :
    ((tsm_segmentack_received cfg s invoke_id sequence_number actual_window_size false
        src).sent =
      s.sent ++ (FillWindow cfg index
        (new_ack_slot cfg (s.slot index) sequence_number actual_window_size)
        (u32 (acked_segment (s.slot index) sequence_number + 1))).2 ∧
    ((tsm_segmentack_received cfg s invoke_id sequence_number actual_window_size false
        src).slot index).InitialSequenceNumber =
      u32 (acked_segment (s.slot index) sequence_number + 1) ∧
    ((tsm_segmentack_received cfg s invoke_id sequence_number actual_window_size false
        src).slot index).ActualWindowSize = actual_window_size ∧
    ((tsm_segmentack_received cfg s invoke_id sequence_number actual_window_size false
        src).slot index).SegmentRetryCount = cfg.apdu_retries ∧
    ((tsm_segmentack_received cfg s invoke_id sequence_number actual_window_size false
        src).slot index).SegmentTimer = cfg.apdu_segment_timeout ∧
    ((tsm_segmentack_received cfg s invoke_id sequence_number actual_window_size false
        src).slot index).state = TSM_STATE_SEGMENTED_RESPONSE_SERVER ∧
    ((tsm_segmentack_received cfg s invoke_id sequence_number actual_window_size false
        src).slot index).InvokeID = (s.slot index).InvokeID ∧
    (∀ k, k ≠ index →
      (tsm_segmentack_received cfg s invoke_id sequence_number actual_window_size false
        src).slot k = s.slot k) ∧
    (tsm_segmentack_received cfg s invoke_id sequence_number actual_window_size false
        src).TSM_Peer_Ids = s.TSM_Peer_Ids) ∧
    (get_apdu_max_segments (sample_six_segments.slot 0) = 6 ∧
      ((tsm_segmentack_received Config.sample sample_six_segments 7 3 2 false sample_peer).slot
        0).InitialSequenceNumber = 4 ∧
      (tsm_segmentack_received Config.sample sample_six_segments 7 3 2 false sample_peer).sent =
        sample_six_segments.sent ++
          [Event.segment 0 sample_peer
            ⟨PDU_TYPE_COMPLEX_ACK, 7, SERVICE_CONFIRMED_READ_PROP_MULTIPLE, 10, true, true, 4, 32⟩
            [20, 21, 22, 23, 24],
           Event.segment 0 sample_peer
            ⟨PDU_TYPE_COMPLEX_ACK, 7, SERVICE_CONFIRMED_READ_PROP_MULTIPLE, 10, true, false, 5, 32⟩
            [25, 26, 27, 28, 29]]) := by
  refine ⟨?_, by decide⟩
  rw [segmentack_client_new cfg s invoke_id sequence_number actual_window_size src ix id index
    hix hid hidx hi hst (inWindow_of_lt _ _ _ hwin) hrem]
  obtain ⟨f1, f2, f3, _, f5, f6⟩ := without_header_fields (FillWindow_frame cfg index
    (new_ack_slot cfg (s.slot index) sequence_number actual_window_size)
    (u32 (acked_segment (s.slot index) sequence_number + 1)))
  have hl : index < (s.onSlot index (FillWindow cfg index
      (new_ack_slot cfg (s.slot index) sequence_number actual_window_size)
      (u32 (acked_segment (s.slot index) sequence_number + 1)))).TSM_List.length := by
    show index < (s.setSlot index _).TSM_List.length
    rw [length_setSlot]; exact hi
  refine ⟨rfl, ?_, ?_, ?_, ?_, ?_, ?_, ?_, rfl⟩
  · rw [slot_setSlot_self _ _ _ hl]; exact f1
  · rw [slot_setSlot_self _ _ _ hl]; exact f2
  · rw [slot_setSlot_self _ _ _ hl]; exact f3
  · rw [slot_setSlot_self _ _ _ hl]
  · rw [slot_setSlot_self _ _ _ hl]; exact f6.trans hst
  · rw [slot_setSlot_self _ _ _ hl]; exact f5
  · intro k hk
    rw [slot_setSlot_ne _ _ _ _ hk]
    show (s.setSlot index _).slot k = _
    rw [slot_setSlot_ne _ _ _ _ hk]

theorem segmentack_new_ack_advances_witness :
    ((sample_six_segments.TSM_Peer_Ids.findIdx? (peer_entry_matches sample_peer 7) = some 0) ∧
    ((sample_six_segments.peer 0).InternalInvokeID = 1) ∧
    (tsm_find_invokeID_index sample_six_segments 1 = 0) ∧
    (0 < sample_six_segments.TSM_List.length) ∧
    ((sample_six_segments.slot 0).state = TSM_STATE_SEGMENTED_RESPONSE_SERVER) ∧
    (u8 (3 + 256 - u8 (sample_six_segments.slot 0).InitialSequenceNumber) <
      (sample_six_segments.slot 0).ActualWindowSize) ∧
    (u32 (acked_segment (sample_six_segments.slot 0) 3 + 1) <
      get_apdu_max_segments (sample_six_segments.slot 0))) ∧
    (((tsm_segmentack_received Config.sample sample_six_segments 7 3 2 false
        sample_peer).sent =
      sample_six_segments.sent ++ (FillWindow Config.sample 0
        (new_ack_slot Config.sample (sample_six_segments.slot 0) 3 2)
        (u32 (acked_segment (sample_six_segments.slot 0) 3 + 1))).2 ∧
    ((tsm_segmentack_received Config.sample sample_six_segments 7 3 2 false
        sample_peer).slot 0).InitialSequenceNumber =
      u32 (acked_segment (sample_six_segments.slot 0) 3 + 1) ∧
    ((tsm_segmentack_received Config.sample sample_six_segments 7 3 2 false
        sample_peer).slot 0).ActualWindowSize = 2 ∧
    ((tsm_segmentack_received Config.sample sample_six_segments 7 3 2 false
        sample_peer).slot 0).SegmentRetryCount = Config.sample.apdu_retries ∧
    ((tsm_segmentack_received Config.sample sample_six_segments 7 3 2 false
        sample_peer).slot 0).SegmentTimer = Config.sample.apdu_segment_timeout ∧
    ((tsm_segmentack_received Config.sample sample_six_segments 7 3 2 false
        sample_peer).slot 0).state = TSM_STATE_SEGMENTED_RESPONSE_SERVER ∧
    ((tsm_segmentack_received Config.sample sample_six_segments 7 3 2 false
        sample_peer).slot 0).InvokeID = (sample_six_segments.slot 0).InvokeID ∧
    (∀ k, k ≠ 0 →
      (tsm_segmentack_received Config.sample sample_six_segments 7 3 2 false
        sample_peer).slot k = sample_six_segments.slot k) ∧
    (tsm_segmentack_received Config.sample sample_six_segments 7 3 2 false
        sample_peer).TSM_Peer_Ids = sample_six_segments.TSM_Peer_Ids) ∧
    (get_apdu_max_segments (sample_six_segments.slot 0) = 6 ∧
      ((tsm_segmentack_received Config.sample sample_six_segments 7 3 2 false sample_peer).slot
        0).InitialSequenceNumber = 4 ∧
      (tsm_segmentack_received Config.sample sample_six_segments 7 3 2 false sample_peer).sent =
        sample_six_segments.sent ++
          [Event.segment 0 sample_peer
            ⟨PDU_TYPE_COMPLEX_ACK, 7, SERVICE_CONFIRMED_READ_PROP_MULTIPLE, 10, true, true, 4, 32⟩
            [20, 21, 22, 23, 24],
           Event.segment 0 sample_peer
            ⟨PDU_TYPE_COMPLEX_ACK, 7, SERVICE_CONFIRMED_READ_PROP_MULTIPLE, 10, true, false, 5, 32⟩
            [25, 26, 27, 28, 29]])) :=
  ⟨⟨by decide, by decide, by decide, by decide, by decide, by decide, by decide⟩,
    segmentack_new_ack_advances Config.sample sample_six_segments 7 3 2 sample_peer 0 1 0 (by decide) (by decide) (by decide) (by decide) (by decide) (by decide) (by decide)⟩

theorem segmentack_final_releases_witness :
    ((sample_last_window.TSM_Peer_Ids.findIdx? (peer_entry_matches sample_peer 7) = some 0) ∧
    ((sample_last_window.peer 0).InternalInvokeID = 1) ∧
    (tsm_find_invokeID_index sample_last_window 1 = 0) ∧
    (0 < sample_last_window.TSM_List.length) ∧
    ((sample_last_window.slot 0).state = TSM_STATE_SEGMENTED_RESPONSE_SERVER) ∧
    (u8 (5 + 256 - u8 (sample_last_window.slot 0).InitialSequenceNumber) <
      (sample_last_window.slot 0).ActualWindowSize) ∧
    (u32 (acked_segment (sample_last_window.slot 0) 5 + 1) ≥
      get_apdu_max_segments (sample_last_window.slot 0))) ∧
    ((tsm_segmentack_received Config.sample sample_last_window 7 5 2 false sample_peer).sent =
      sample_last_window.sent ∧
    (tsm_segmentack_received Config.sample sample_last_window 7 5 2 false sample_peer).slot
      0 =
      free_blob { sample_last_window.slot 0 with
        state := TSM_STATE_IDLE, InvokeID := 0, SegmentTimer := 0 } ∧
    (∀ k, k ≠ 0 →
      (tsm_segmentack_received Config.sample sample_last_window 7 5 2 false
        sample_peer).slot k = sample_last_window.slot k) ∧
    ((tsm_segmentack_received Config.sample sample_last_window 7 5 2 false sample_peer).peer
      0).InternalInvokeID = 0 ∧
    (∀ j, (tsm_segmentack_received Config.sample sample_last_window 7 5 2 false
        sample_peer).peer j =
      if (sample_last_window.peer j).InternalInvokeID = 1 then { sample_last_window.peer j with InternalInvokeID := 0 }
      else sample_last_window.peer j)) :=
  ⟨⟨by decide, by decide, by decide, by decide, by decide, by decide, by decide⟩,
    segmentack_final_releases Config.sample sample_last_window 7 5 2 sample_peer 0 1 0 (by decide) (by decide) (by decide) (by decide) (by decide) (by decide) (by decide)⟩

theorem segmentack_wrong_state_aborts_witness :
    (((false = true ∧ 7 ≠ 0 ∧ 7 = 1) ∨
      (false = false ∧ ∃ ix,
        sample_receiving.TSM_Peer_Ids.findIdx? (peer_entry_matches sample_peer 7) = some ix ∧
        (sample_receiving.peer ix).InternalInvokeID = 1)) ∧
    (tsm_find_invokeID_index sample_receiving 1 = 0) ∧
    (0 < sample_receiving.TSM_List.length) ∧
    (false = true ∨ (sample_receiving.slot 0).state ≠ TSM_STATE_SEGMENTED_RESPONSE_SERVER)) ∧
    ((tsm_segmentack_received Config.sample sample_receiving 7 0 4 false
      sample_peer).sent =
      sample_receiving.sent ++ [Event.abort 1 sample_peer ABORT_REASON_INVALID_APDU_IN_THIS_STATE true] ∧
    (tsm_segmentack_received Config.sample sample_receiving 7 0 4 false
      sample_peer).slot 0 =
      free_blob { sample_receiving.slot 0 with state := TSM_STATE_IDLE, InvokeID := 0 } ∧
    (∀ k, k ≠ 0 →
      (tsm_segmentack_received Config.sample sample_receiving 7 0 4 false
        sample_peer).slot k = sample_receiving.slot k) ∧
    (∀ j, (tsm_segmentack_received Config.sample sample_receiving 7 0 4 false
        sample_peer).peer j =
      if (sample_receiving.peer j).InternalInvokeID = 1 then { sample_receiving.peer j with InternalInvokeID := 0 }
      else sample_receiving.peer j)) :=
  ⟨⟨Or.inr ⟨rfl, 0, by decide, by decide⟩, by decide, by decide, by decide⟩,
    segmentack_wrong_state_aborts Config.sample sample_receiving 7 0 4 false sample_peer 1 0 (Or.inr ⟨rfl, 0, by decide, by decide⟩) (by decide) (by decide) (by decide)⟩

/-! ## The budget check of a segmented response -/

/-- The call `tsm_set_complexack_transaction` when the peer map yields the
internal invoke-id `c` held by the slot `index` and the response needs more than
one segment. -/
theorem complexack_segmented_eq (cfg : Config) (s : TSM) (dest : BACNET_ADDRESS)
    (npdu_data : BACNET_NPDU_DATA) (apdu_fixed_header : BACNET_APDU_FIXED_HEADER)
    (confirmed_service_data : BACNET_CONFIRMED_SERVICE_DATA) (pdu : List Nat) (pdu_len : Nat)
    (c : Nat) (s1 : TSM) (index : Nat) (cslot : BACNET_TSM_DATA)
    (hget : tsm_get_peer_id cfg s dest confirmed_service_data.invoke_id = some (c, s1))
    (hc : c ≠ 0)
    (hidx : tsm_find_invokeID_index s1 c = index) (hi : index < s1.TSM_List.length)
    (hcs : cslot = complexack_slot cfg (s1.slot index) dest npdu_data apdu_fixed_header
      confirmed_service_data pdu pdu_len)
    (hN : 1 ≠ get_apdu_max_segments cslot) :
    tsm_set_complexack_transaction cfg s dest npdu_data apdu_fixed_header
      confirmed_service_data pdu pdu_len =
      if u32 (pdu_len + u32 (get_apdu_max_segments cslot *
          get_apdu_header_typical_size apdu_fixed_header true)) >
          cslot.maximum_transmittable_length then
        some (-2, tsm_free_invoke_id_check
          (abort_pdu_send ((s1.setSlot index cslot).setSlot index (free_blob cslot))
            confirmed_service_data.invoke_id dest ABORT_REASON_BUFFER_OVERFLOW true)
          c (some dest) true)
      else if (tsm_pdu_send cfg index (complexack_segmented_slot cfg cslot) 0).2.2 ≤ 0 then
        some ((tsm_pdu_send cfg index (complexack_segmented_slot cfg cslot) 0).2.2,
          tsm_free_invoke_id_check
            ((s1.setSlot index cslot).onSlot index
              ((tsm_pdu_send cfg index (complexack_segmented_slot cfg cslot) 0).1,
                (tsm_pdu_send cfg index (complexack_segmented_slot cfg cslot) 0).2.1))
            c (some dest) true)
      else
        some ((tsm_pdu_send cfg index (complexack_segmented_slot cfg cslot) 0).2.2,
          (s1.setSlot index cslot).onSlot index
            ((tsm_pdu_send cfg index (complexack_segmented_slot cfg cslot) 0).1,
              (tsm_pdu_send cfg index (complexack_segmented_slot cfg cslot) 0).2.1)) := by
  split_ifs with hb hs
  all_goals
    unfold tsm_set_complexack_transaction
    rw [hget]
    show (if c = 0 then _ else _) = _
    rw [if_neg hc]
    subst hidx
    subst hcs
    lift_lets
    extract_lets index1 lengths p1 d3 d2 d1 t2 segs r2 t1 t0 ph d0 r1 r0
    have c1 : ¬ (index1 ≥ MAX_TSM_TRANSACTIONS s1) := Nat.not_le.mpr hi
    rw [if_neg c1]
    have hN1 : ¬ (1 = segs) := hN
    have e2 : t2.slot index1 = d1 := slot_setSlot_self s1 index1 d1 hi
    have hr0 : r0 =
        if u32 (pdu_len + u32 (segs * get_apdu_header_typical_size apdu_fixed_header true)) >
            d1.maximum_transmittable_length then
          (-2, abort_pdu_send (t2.setSlot index1 (free_blob d1))
            confirmed_service_data.invoke_id dest ABORT_REASON_BUFFER_OVERFLOW true)
        else (r1.2.2, t2.onSlot index1 (r1.1, r1.2.1)) := by
      show (if 1 = segs then _ else _) = _
      rw [if_neg hN1, ← e2]
    rw [hr0]
  · have hb1 : u32 (pdu_len + u32 (segs * get_apdu_header_typical_size apdu_fixed_header
        true)) > d1.maximum_transmittable_length := hb
    rw [if_pos hb1]
    rfl
  · have hb1 : ¬ u32 (pdu_len + u32 (segs * get_apdu_header_typical_size apdu_fixed_header
        true)) > d1.maximum_transmittable_length := hb
    have hs1 : r1.2.2 ≤ 0 := hs
    rw [if_neg hb1, if_pos hs1]
    rfl
  · have hb1 : ¬ u32 (pdu_len + u32 (segs * get_apdu_header_typical_size apdu_fixed_header
        true)) > d1.maximum_transmittable_length := hb
    have hs1 : ¬ r1.2.2 ≤ 0 := hs
    rw [if_neg hb1, if_neg hs1]
    rfl

/-- A positive return value of `tsm_pdu_send` comes with exactly one segment
handed to the datalink; for a segmented message its header carries the segment
number. -/
theorem tsm_pdu_send_pos (cfg : Config) (index : Nat) (d : BACNET_TSM_DATA) (n : Nat) :
    0 < (tsm_pdu_send cfg index d n).2.2 →
      n < get_apdu_max_segments d ∧
      ∃ hd p, (tsm_pdu_send cfg index d n).2.1 = [Event.segment index d.dest hd p] ∧
        (get_apdu_max_segments d ≠ 1 → hd.sequence_number = u8 n) := by
  unfold tsm_pdu_send
  simp only
  split_ifs with a1 a2 a3 a4 a5 <;> try (intro h; simp at h; done)
  all_goals
    split
    · intro h; simp at h
    · split_ifs
      · intro h; simp at h
      · intro _
        refine ⟨by omega, _, _, rfl, ?_⟩
        first
          | exact fun hne => absurd (by assumption) hne
          | exact fun _ => rfl

theorem free_check_sent (t : TSM) (id : Nat) (pa : Option BACNET_ADDRESS) (cleanup : Bool) :
    (tsm_free_invoke_id_check t id pa cleanup).sent = t.sent := by
  unfold tsm_free_invoke_id_check
  simp only
  split_ifs <;> rfl

theorem max_segments_segmented_slot (cfg : Config) (d : BACNET_TSM_DATA) :
    get_apdu_max_segments (complexack_segmented_slot cfg d) = get_apdu_max_segments d := rfl

/-- C26, as stated, fails when no slot is free: a response of 30 bytes for a
requester that takes 2 segments of 10 bytes needs 6 segments and exceeds the
budget of 20 bytes, but with the only slot of the table taken the abort that
goes out is PREEMPTED_BY_HIGHER_PRIORITY_TASK and the return value is -1; no
Abort BUFFER_OVERFLOW is sent. -/
theorem complexack_budget_table_full :
    (∀ e ∈ sample_busy_server.TSM_Peer_Ids, peer_entry_matches sample_peer2 9 e = false) ∧
    get_apdu_max_segments (complexack_slot Config.sample default sample_peer2 ⟨false, 0⟩
      sample_ack_header9 sample_two_segment_data (List.range 30) 30) = 6 ∧
    30 + 6 * get_apdu_header_typical_size sample_ack_header9 true >
      (complexack_slot Config.sample default sample_peer2 ⟨false, 0⟩
        sample_ack_header9 sample_two_segment_data (List.range 30)
        30).maximum_transmittable_length ∧
    (tsm_set_complexack_transaction Config.sample sample_busy_server sample_peer2 ⟨false, 0⟩
        sample_ack_header9 sample_two_segment_data (List.range 30) 30).map
      (fun r => (r.1, r.2.sent)) =
      some (-1, sample_busy_server.sent ++
        [Event.abort 9 sample_peer2 ABORT_REASON_PREEMPTED_BY_HIGHER_PRIORITY_TASK true]) ∧
    Event.abort 9 sample_peer2 ABORT_REASON_BUFFER_OVERFLOW true ∉
      sample_busy_server.sent ++
        [Event.abort 9 sample_peer2 ABORT_REASON_PREEMPTED_BY_HIGHER_PRIORITY_TASK true] := by
  decide

/-- C26, amended: `tsm_set_complexack_transaction` when the peer map yields an
internal invoke-id `c` held by the slot `index`, the response needs more than
one segment and `pdu_len + N * segmented_header_size` fits 32 bit. The Abort
BUFFER_OVERFLOW is what the call sends if and only if
`pdu_len + N * segmented_header_size > maximum_transmittable_length`; in that
case the call returns -2, frees the slot and clears the peer-map entries of
`c`. Otherwise the call hands segment 0 to `tsm_pdu_send`, returns its result
and sends what it sent; when that result is positive the slot is in
SegmentedResponseServer and exactly one segment, with sequence number 0, went
out. -/
theorem complexack_budget_check (cfg : Config) (s : TSM) (dest : BACNET_ADDRESS)
    (npdu_data : BACNET_NPDU_DATA) (apdu_fixed_header : BACNET_APDU_FIXED_HEADER)
    (confirmed_service_data : BACNET_CONFIRMED_SERVICE_DATA) (pdu : List Nat) (pdu_len : Nat)
    (c : Nat) (s1 : TSM) (index : Nat) (cslot : BACNET_TSM_DATA)
    (hget : tsm_get_peer_id cfg s dest confirmed_service_data.invoke_id = some (c, s1))
    (hc : c ≠ 0)
    (hidx : tsm_find_invokeID_index s1 c = index) (hi : index < s1.TSM_List.length)
    (hcs : cslot = complexack_slot cfg (s1.slot index) dest npdu_data apdu_fixed_header
      confirmed_service_data pdu pdu_len)
    (hN : 1 < get_apdu_max_segments cslot)
    (hfit : pdu_len + get_apdu_max_segments cslot *
      get_apdu_header_typical_size apdu_fixed_header true < 4294967296) :
    ∃ r s', tsm_set_complexack_transaction cfg s dest npdu_data apdu_fixed_header
        confirmed_service_data pdu pdu_len = some (r, s') ∧
      (s'.sent = s1.sent ++ [Event.abort confirmed_service_data.invoke_id dest
          ABORT_REASON_BUFFER_OVERFLOW true] ↔
        pdu_len + get_apdu_max_segments cslot *
          get_apdu_header_typical_size apdu_fixed_header true >
          cslot.maximum_transmittable_length) ∧
      (pdu_len + get_apdu_max_segments cslot *
          get_apdu_header_typical_size apdu_fixed_header true >
          cslot.maximum_transmittable_length →
        r = -2 ∧
        s'.slot index = free_blob { cslot with state := TSM_STATE_IDLE, InvokeID := 0 } ∧
        (∀ k, k ≠ index → s'.slot k = s1.slot k) ∧
        (∀ j, s'.peer j =
          if (s1.peer j).InternalInvokeID = c then { s1.peer j with InternalInvokeID := 0 }
          else s1.peer j)) ∧
      (¬ pdu_len + get_apdu_max_segments cslot *
          get_apdu_header_typical_size apdu_fixed_header true >
          cslot.maximum_transmittable_length →
        r = (tsm_pdu_send cfg index (complexack_segmented_slot cfg cslot) 0).2.2 ∧
        s'.sent = s1.sent ++
          (tsm_pdu_send cfg index (complexack_segmented_slot cfg cslot) 0).2.1 ∧
        (0 < r →
          s'.slot index = (tsm_pdu_send cfg index (complexack_segmented_slot cfg cslot) 0).1 ∧
          (s'.slot index).state = TSM_STATE_SEGMENTED_RESPONSE_SERVER ∧
          (∃ hd p, (tsm_pdu_send cfg index (complexack_segmented_slot cfg cslot) 0).2.1 =
            [Event.segment index dest hd p] ∧ hd.sequence_number = 0) ∧
          (∀ k, k ≠ index → s'.slot k = s1.slot k) ∧
          s'.TSM_Peer_Ids = s1.TSM_Peer_Ids)) := by
  have hu : u32 (pdu_len + u32 (get_apdu_max_segments cslot *
      get_apdu_header_typical_size apdu_fixed_header true)) =
      pdu_len + get_apdu_max_segments cslot *
        get_apdu_header_typical_size apdu_fixed_header true := by
    unfold u32
    rw [Nat.mod_eq_of_lt (a := get_apdu_max_segments cslot * _) (by omega),
      Nat.mod_eq_of_lt hfit]
  have heq := complexack_segmented_eq cfg s dest npdu_data apdu_fixed_header
    confirmed_service_data pdu pdu_len c s1 index cslot hget hc hidx hi hcs (by omega)
  rw [hu] at heq
  have hdest : cslot.dest = dest := by rw [hcs]; rfl
  have hid : cslot.InvokeID = (s1.slot index).InvokeID := by rw [hcs]; rfl
  have hsegs : ∀ e ∈ (tsm_pdu_send cfg index (complexack_segmented_slot cfg cslot) 0).2.1,
      e ≠ Event.abort confirmed_service_data.invoke_id dest
        ABORT_REASON_BUFFER_OVERFLOW true := by
    intro e he h
    obtain ⟨_, _, _, h2⟩ := tsm_pdu_send_events cfg index _ 0 e he
    rw [h] at h2
    cases h2
  have hnot : s1.sent ++ (tsm_pdu_send cfg index (complexack_segmented_slot cfg cslot) 0).2.1 ≠
      s1.sent ++ [Event.abort confirmed_service_data.invoke_id dest
        ABORT_REASON_BUFFER_OVERFLOW true] := by
    intro h
    have h2 := List.append_cancel_left h
    exact hsegs _ (by rw [h2]; exact List.mem_singleton_self _) rfl
  by_cases hb : pdu_len + get_apdu_max_segments cslot *
      get_apdu_header_typical_size apdu_fixed_header true > cslot.maximum_transmittable_length
  · rw [if_pos hb] at heq
    have hf : tsm_find_invokeID_index
        (abort_pdu_send ((s1.setSlot index cslot).setSlot index (free_blob cslot))
          confirmed_service_data.invoke_id dest ABORT_REASON_BUFFER_OVERFLOW true) c = index := by
      show tsm_find_invokeID_index ((s1.setSlot index cslot).setSlot index _) c = index
      refine (find_setSlot_keep _ index _ c ?_).trans
        ((find_setSlot_keep s1 index cslot c hid).trans hidx)
      rw [slot_setSlot_self s1 index _ hi]
      rfl
    have hl : index < (abort_pdu_send ((s1.setSlot index cslot).setSlot index (free_blob cslot))
        confirmed_service_data.invoke_id dest ABORT_REASON_BUFFER_OVERFLOW
        true).TSM_List.length := by
      show index < ((s1.setSlot index cslot).setSlot index _).TSM_List.length
      rw [length_setSlot, length_setSlot]; exact hi
    have hsl : (abort_pdu_send ((s1.setSlot index cslot).setSlot index (free_blob cslot))
        confirmed_service_data.invoke_id dest ABORT_REASON_BUFFER_OVERFLOW true).slot index =
        free_blob cslot := by
      show ((s1.setSlot index cslot).setSlot index _).slot index = _
      rw [slot_setSlot_self _ _ _ (by rw [length_setSlot]; exact hi)]
    obtain ⟨a1, a2, a3, a4, _⟩ := free_check_spec _ c (some dest) true (by rw [hf]; exact hl)
      (by
        intro a ha
        cases ha
        rw [hf, hsl]
        exact (address_match_iff _ _).mpr hdest.symm)
    rw [hf] at a1 a2
    refine ⟨_, _, heq, ⟨fun _ => hb, fun _ => a4⟩, ?_, fun h => absurd hb h⟩
    intro _
    refine ⟨rfl, ?_, ?_, ?_⟩
    · rw [a1, hsl]; rfl
    · intro k hk
      rw [a2 k hk]
      show ((s1.setSlot index cslot).setSlot index _).slot k = _
      rw [slot_setSlot_ne _ _ _ _ hk, slot_setSlot_ne _ _ _ _ hk]
    · intro j
      rw [peer_congr a3 j, peer_clear]
      rfl
  · rw [if_neg hb] at heq
    by_cases hs : (tsm_pdu_send cfg index (complexack_segmented_slot cfg cslot) 0).2.2 ≤ 0
    · rw [if_pos hs] at heq
      have hsent := free_check_sent ((s1.setSlot index cslot).onSlot index
        ((tsm_pdu_send cfg index (complexack_segmented_slot cfg cslot) 0).1,
          (tsm_pdu_send cfg index (complexack_segmented_slot cfg cslot) 0).2.1))
        c (some dest) true
      refine ⟨_, _, heq, ⟨fun h => ?_, fun h => absurd h hb⟩, fun h => absurd h hb, ?_⟩
      · rw [hsent] at h
        exact absurd h hnot
      · intro _
        exact ⟨rfl, hsent, fun h => absurd h (not_lt.mpr hs)⟩
    · rw [if_neg hs] at heq
      refine ⟨_, _, heq, ⟨fun h => absurd h hnot, fun h => absurd h hb⟩,
        fun h => absurd h hb, ?_⟩
      intro _
      refine ⟨rfl, rfl, fun hpos => ?_⟩
      have hl : index < (s1.setSlot index cslot).TSM_List.length := by
        rw [length_setSlot]; exact hi
      have hslot : ((s1.setSlot index cslot).onSlot index
          ((tsm_pdu_send cfg index (complexack_segmented_slot cfg cslot) 0).1,
            (tsm_pdu_send cfg index (complexack_segmented_slot cfg cslot) 0).2.1)).slot index =
          (tsm_pdu_send cfg index (complexack_segmented_slot cfg cslot) 0).1 :=
        slot_setSlot_self _ _ _ hl
      obtain ⟨_, hd, p, hev, hseq⟩ := tsm_pdu_send_pos cfg index
        (complexack_segmented_slot cfg cslot) 0 hpos
      refine ⟨hslot, ?_, ⟨hd, p, ?_, ?_⟩, ?_, rfl⟩
      · rw [hslot, tsm_pdu_send_state]; rfl
      · rw [hev]
        show [Event.segment index cslot.dest hd p] = _
        rw [hdest]
      · exact hseq (by rw [max_segments_segmented_slot]; omega)
      · intro k hk
        show ((s1.setSlot index cslot).setSlot index _).slot k = _
        rw [slot_setSlot_ne _ _ _ _ hk, slot_setSlot_ne _ _ _ _ hk]

theorem complexack_budget_check_witness :
    ((tsm_get_peer_id Config.sample (TSM.init 2 1) sample_peer2 sample_two_segment_data.invoke_id = some (1, (peer_bound Config.sample (TSM.init 2 1) sample_peer2 9 0 1))) ∧
    (1 ≠ 0) ∧
    (tsm_find_invokeID_index (peer_bound Config.sample (TSM.init 2 1) sample_peer2 9 0 1) 1 = 0) ∧
    (0 < (peer_bound Config.sample (TSM.init 2 1) sample_peer2 9 0 1).TSM_List.length) ∧
    ((complexack_slot Config.sample ((peer_bound Config.sample (TSM.init 2 1) sample_peer2 9 0 1).slot 0) sample_peer2 ⟨false, 0⟩ sample_ack_header9 sample_two_segment_data (List.range 30) 30) = complexack_slot Config.sample ((peer_bound Config.sample (TSM.init 2 1) sample_peer2 9 0 1).slot 0) sample_peer2 ⟨false, 0⟩ sample_ack_header9
      sample_two_segment_data (List.range 30) 30) ∧
    (1 < get_apdu_max_segments (complexack_slot Config.sample ((peer_bound Config.sample (TSM.init 2 1) sample_peer2 9 0 1).slot 0) sample_peer2 ⟨false, 0⟩ sample_ack_header9 sample_two_segment_data (List.range 30) 30)) ∧
    (30 + get_apdu_max_segments (complexack_slot Config.sample ((peer_bound Config.sample (TSM.init 2 1) sample_peer2 9 0 1).slot 0) sample_peer2 ⟨false, 0⟩ sample_ack_header9 sample_two_segment_data (List.range 30) 30) *
      get_apdu_header_typical_size sample_ack_header9 true < 4294967296)) ∧
    (∃ r s', tsm_set_complexack_transaction Config.sample (TSM.init 2 1) sample_peer2 ⟨false, 0⟩ sample_ack_header9
        sample_two_segment_data (List.range 30) 30 = some (r, s') ∧
      (s'.sent = (peer_bound Config.sample (TSM.init 2 1) sample_peer2 9 0 1).sent ++ [Event.abort sample_two_segment_data.invoke_id sample_peer2
          ABORT_REASON_BUFFER_OVERFLOW true] ↔
        30 + get_apdu_max_segments (complexack_slot Config.sample ((peer_bound Config.sample (TSM.init 2 1) sample_peer2 9 0 1).slot 0) sample_peer2 ⟨false, 0⟩ sample_ack_header9 sample_two_segment_data (List.range 30) 30) *
          get_apdu_header_typical_size sample_ack_header9 true >
          (complexack_slot Config.sample ((peer_bound Config.sample (TSM.init 2 1) sample_peer2 9 0 1).slot 0) sample_peer2 ⟨false, 0⟩ sample_ack_header9 sample_two_segment_data (List.range 30) 30).maximum_transmittable_length) ∧
      (30 + get_apdu_max_segments (complexack_slot Config.sample ((peer_bound Config.sample (TSM.init 2 1) sample_peer2 9 0 1).slot 0) sample_peer2 ⟨false, 0⟩ sample_ack_header9 sample_two_segment_data (List.range 30) 30) *
          get_apdu_header_typical_size sample_ack_header9 true >
          (complexack_slot Config.sample ((peer_bound Config.sample (TSM.init 2 1) sample_peer2 9 0 1).slot 0) sample_peer2 ⟨false, 0⟩ sample_ack_header9 sample_two_segment_data (List.range 30) 30).maximum_transmittable_length →
        r = -2 ∧
        s'.slot 0 = free_blob { (complexack_slot Config.sample ((peer_bound Config.sample (TSM.init 2 1) sample_peer2 9 0 1).slot 0) sample_peer2 ⟨false, 0⟩ sample_ack_header9 sample_two_segment_data (List.range 30) 30) with state := TSM_STATE_IDLE, InvokeID := 0 } ∧
        (∀ k, k ≠ 0 → s'.slot k = (peer_bound Config.sample (TSM.init 2 1) sample_peer2 9 0 1).slot k) ∧
        (∀ j, s'.peer j =
          if ((peer_bound Config.sample (TSM.init 2 1) sample_peer2 9 0 1).peer j).InternalInvokeID = 1 then { (peer_bound Config.sample (TSM.init 2 1) sample_peer2 9 0 1).peer j with InternalInvokeID := 0 }
          else (peer_bound Config.sample (TSM.init 2 1) sample_peer2 9 0 1).peer j)) ∧
      (¬ 30 + get_apdu_max_segments (complexack_slot Config.sample ((peer_bound Config.sample (TSM.init 2 1) sample_peer2 9 0 1).slot 0) sample_peer2 ⟨false, 0⟩ sample_ack_header9 sample_two_segment_data (List.range 30) 30) *
          get_apdu_header_typical_size sample_ack_header9 true >
          (complexack_slot Config.sample ((peer_bound Config.sample (TSM.init 2 1) sample_peer2 9 0 1).slot 0) sample_peer2 ⟨false, 0⟩ sample_ack_header9 sample_two_segment_data (List.range 30) 30).maximum_transmittable_length →
        r = (tsm_pdu_send Config.sample 0 (complexack_segmented_slot Config.sample (complexack_slot Config.sample ((peer_bound Config.sample (TSM.init 2 1) sample_peer2 9 0 1).slot 0) sample_peer2 ⟨false, 0⟩ sample_ack_header9 sample_two_segment_data (List.range 30) 30)) 0).2.2 ∧
        s'.sent = (peer_bound Config.sample (TSM.init 2 1) sample_peer2 9 0 1).sent ++
          (tsm_pdu_send Config.sample 0 (complexack_segmented_slot Config.sample (complexack_slot Config.sample ((peer_bound Config.sample (TSM.init 2 1) sample_peer2 9 0 1).slot 0) sample_peer2 ⟨false, 0⟩ sample_ack_header9 sample_two_segment_data (List.range 30) 30)) 0).2.1 ∧
        (0 < r →
          s'.slot 0 = (tsm_pdu_send Config.sample 0 (complexack_segmented_slot Config.sample (complexack_slot Config.sample ((peer_bound Config.sample (TSM.init 2 1) sample_peer2 9 0 1).slot 0) sample_peer2 ⟨false, 0⟩ sample_ack_header9 sample_two_segment_data (List.range 30) 30)) 0).1 ∧
          (s'.slot 0).state = TSM_STATE_SEGMENTED_RESPONSE_SERVER ∧
          (∃ hd p, (tsm_pdu_send Config.sample 0 (complexack_segmented_slot Config.sample (complexack_slot Config.sample ((peer_bound Config.sample (TSM.init 2 1) sample_peer2 9 0 1).slot 0) sample_peer2 ⟨false, 0⟩ sample_ack_header9 sample_two_segment_data (List.range 30) 30)) 0).2.1 =
            [Event.segment 0 sample_peer2 hd p] ∧ hd.sequence_number = 0) ∧
          (∀ k, k ≠ 0 → s'.slot k = (peer_bound Config.sample (TSM.init 2 1) sample_peer2 9 0 1).slot k) ∧
          s'.TSM_Peer_Ids = (peer_bound Config.sample (TSM.init 2 1) sample_peer2 9 0 1).TSM_Peer_Ids))) :=
  ⟨⟨rfl, by decide, by decide, by decide, rfl, by decide, by decide⟩,
    complexack_budget_check Config.sample ((TSM.init 2 1)) sample_peer2 (⟨false, 0⟩) sample_ack_header9 sample_two_segment_data ((List.range 30)) 30 1 ((peer_bound Config.sample (TSM.init 2 1) sample_peer2 9 0 1)) 0 ((complexack_slot Config.sample ((peer_bound Config.sample (TSM.init 2 1) sample_peer2 9 0 1).slot 0) sample_peer2 ⟨false, 0⟩ sample_ack_header9 sample_two_segment_data (List.range 30) 30)) (rfl) (by decide) (by decide) (by decide) (rfl) (by decide) (by decide)⟩

/-! ## The reassembly buffer -/

theorem writeBytes_append (B content p : List Nat)
    (hc : B.take content.length = content) (hfit : content.length + p.length ≤ B.length) :
    (writeBytes B content.length p).take (content.length + p.length) = content ++ p ∧
    (writeBytes B content.length p).length = B.length := by
  unfold writeBytes
  rw [hc]
  refine ⟨?_, ?_⟩
  · rw [← List.length_append, List.take_left]
  · simp only [List.length_append, List.length_drop]
    have : content.length ≤ B.length := by omega
    omega

/-- The operation `add_blob_data` leaves everything but the reassembly buffer
alone. -/
theorem add_blob_frame (d : BACNET_TSM_DATA) (bdata : List Nat) (n : Nat) :
    without_blob (add_blob_data d bdata n) = without_blob d := by
  unfold add_blob_data ensure_extra_blob_size
  dsimp only
  split_ifs <;> rfl

/-- The operation `add_blob_data` appends the payload to the bytes the buffer
holds, as long as the sizes fit 32 bit. -/
theorem add_blob_holds (d : BACNET_TSM_DATA) (content p : List Nat) (h : BlobHolds d content)
    (hfit : d.apdu_blob_allocated + p.length < 4294967296) :
    BlobHolds (add_blob_data d p p.length) (content ++ p) ∧
    (add_blob_data d p p.length).apdu_blob_allocated ≤ d.apdu_blob_allocated + p.length := by
  obtain ⟨h1, h2, h3, h4⟩ := h
  have hsz : u32 (d.apdu_blob_size + p.length) = d.apdu_blob_size + p.length := by
    unfold u32; exact Nat.mod_eq_of_lt (by omega)
  have hal : u32 (d.apdu_blob_allocated + p.length) = d.apdu_blob_allocated + p.length := by
    unfold u32; exact Nat.mod_eq_of_lt hfit
  have hal2 : u32 (p.length + d.apdu_blob_size) = p.length + d.apdu_blob_size := by
    unfold u32; exact Nat.mod_eq_of_lt (by omega)
  unfold add_blob_data ensure_extra_blob_size
  by_cases hp : p.length = 0
  · have hpn : p = [] := List.length_eq_zero.mp hp
    subst hpn
    simp only [List.length_nil, if_true, List.take_nil, List.append_nil]
    refine ⟨⟨?_, ?_, ?_, ?_⟩, ?_⟩
    · show u32 (d.apdu_blob_size + 0) = content.length
      have := hsz
      simp only [List.length_nil] at this
      rw [this, Nat.add_zero, h1]
    · show ((d.apdu_blob.map _).getD []).take (u32 (d.apdu_blob_size + 0)) = content
      have := hsz
      simp only [List.length_nil] at this
      rw [this, Nat.add_zero]
      cases hb : d.apdu_blob with
      | none => rw [hb] at h2; simpa using h2
      | some b =>
        rw [hb] at h2
        simp only [Option.map_some', Option.getD_some, writeBytes, List.append_nil,
          List.length_nil, Nat.add_zero, List.take_append_drop] at h2 ⊢
        exact h2
    · show u32 (d.apdu_blob_size + 0) ≤ d.apdu_blob_allocated
      have := hsz
      simp only [List.length_nil] at this
      rw [this, Nat.add_zero]; exact h3
    · intro b hb
      show b.length = d.apdu_blob_allocated
      cases hb0 : d.apdu_blob with
      | none =>
        have hb1 : (d.apdu_blob.map fun b => writeBytes b d.apdu_blob_size []) = some b := hb
        rw [hb0] at hb1; simp at hb1
      | some b0 =>
        have hb1 : (d.apdu_blob.map fun b => writeBytes b d.apdu_blob_size []) = some b := hb
        rw [hb0] at hb1
        simp only [Option.map_some', Option.some.injEq, writeBytes, List.append_nil,
          List.length_nil, Nat.add_zero, List.take_append_drop] at hb1
        rw [← hb1]; exact h4 b0 hb0
    · show d.apdu_blob_allocated ≤ _
      omega
  · rw [if_neg hp]
    rw [List.take_length]
    by_cases hal0 : d.apdu_blob.isNone = true ∨ d.apdu_blob_allocated = 0 ∨
        u32 (p.length + d.apdu_blob_size) > d.apdu_blob_allocated
    · rw [if_pos hal0]
      dsimp only
      have hB : ∀ B : List Nat, B.length = d.apdu_blob_allocated + p.length →
          B.take content.length = content →
          BlobHolds { d with
            apdu_blob := (some B).map (fun b => writeBytes b d.apdu_blob_size p)
            apdu_blob_allocated := u32 (d.apdu_blob_allocated + p.length)
            apdu_blob_size := u32 (d.apdu_blob_size + p.length) } (content ++ p) := by
        intro B hBl hBc
        obtain ⟨w1, w2⟩ := writeBytes_append B content p hBc (by omega)
        refine ⟨?_, ?_, ?_, ?_⟩
        · show u32 (d.apdu_blob_size + p.length) = (content ++ p).length
          rw [hsz, h1, List.length_append]
        · show (writeBytes B d.apdu_blob_size p).take (u32 (d.apdu_blob_size + p.length)) = _
          rw [hsz, h1]; exact w1
        · show u32 (d.apdu_blob_size + p.length) ≤ u32 (d.apdu_blob_allocated + p.length)
          rw [hsz, hal]; omega
        · intro b hb
          show b.length = u32 (d.apdu_blob_allocated + p.length)
          simp only [Option.map_some', Option.some.injEq] at hb
          rw [← hb, h1, w2, hal, hBl]
      refine ⟨?_, ?_⟩
      · by_cases hs0 : d.apdu_blob_size ≠ 0
        · rw [if_pos hs0]
          have hZ : writeBytes (List.replicate (u32 (d.apdu_blob_allocated + p.length)) 0) 0
              ((d.apdu_blob.getD []).take d.apdu_blob_size) =
              content ++ (List.replicate (d.apdu_blob_allocated + p.length) 0).drop
                content.length := by
            rw [h2, hal]
            simp [writeBytes]
          rw [hZ]
          apply hB
          · simp only [List.length_append, List.length_drop, List.length_replicate]
            omega
          · exact List.take_left _ _
        · rw [if_neg hs0]
          apply hB
          · simp [hal]
          · have : content = [] := List.length_eq_zero.mp (by omega)
            subst this
            rfl
      · show u32 (d.apdu_blob_allocated + p.length) ≤ _
        rw [hal]
    · rw [if_neg hal0]
      have hnn : d.apdu_blob.isNone ≠ true := fun h => hal0 (Or.inl h)
      have hle : ¬ u32 (p.length + d.apdu_blob_size) > d.apdu_blob_allocated :=
        fun h => hal0 (Or.inr (Or.inr h))
      rw [hal2] at hle
      cases hb : d.apdu_blob with
      | none => rw [hb] at hnn; exact absurd rfl hnn
      | some b =>
        have hbl := h4 b hb
        rw [hb] at h2
        simp only [Option.getD_some] at h2
        rw [h1] at h2
        obtain ⟨w1, w2⟩ := writeBytes_append b content p h2 (by omega)
        refine ⟨⟨?_, ?_, ?_, ?_⟩, ?_⟩
        · show u32 (d.apdu_blob_size + p.length) = (content ++ p).length
          rw [hsz, h1, List.length_append]
        · show ((d.apdu_blob.map fun b => writeBytes b d.apdu_blob_size p).getD []).take
            (u32 (d.apdu_blob_size + p.length)) = _
          rw [hb, hsz, h1]
          exact w1
        · show u32 (d.apdu_blob_size + p.length) ≤ d.apdu_blob_allocated
          rw [hsz]; omega
        · intro b1 hb1
          show b1.length = d.apdu_blob_allocated
          have hb2 : (d.apdu_blob.map fun b => writeBytes b d.apdu_blob_size p) = some b1 := hb1
          rw [hb] at hb2
          simp only [Option.map_some', Option.some.injEq] at hb2
          rw [← hb2, h1, w2, hbl]
        · show d.apdu_blob_allocated ≤ _
          omega

/-! ## In-order segments of an inbound request -/

theorem without_blob_fields {a b : BACNET_TSM_DATA} (h : without_blob a = without_blob b) :
    a.InvokeID = b.InvokeID ∧ a.state = b.state ∧
    a.LastSequenceNumber = b.LastSequenceNumber ∧
    a.InitialSequenceNumber = b.InitialSequenceNumber ∧
    a.ActualWindowSize = b.ActualWindowSize ∧
    a.ReceivedSegmentsCount = b.ReceivedSegmentsCount := by
  have h1 : (without_blob a).InvokeID = (without_blob b).InvokeID := by rw [h]
  have h2 : (without_blob a).state = (without_blob b).state := by rw [h]
  have h3 : (without_blob a).LastSequenceNumber = (without_blob b).LastSequenceNumber := by
    rw [h]
  have h4 : (without_blob a).InitialSequenceNumber = (without_blob b).InitialSequenceNumber :=
    by rw [h]
  have h5 : (without_blob a).ActualWindowSize = (without_blob b).ActualWindowSize := by rw [h]
  have h6 : (without_blob a).ReceivedSegmentsCount = (without_blob b).ReceivedSegmentsCount :=
    by rw [h]
  exact ⟨h1, h2, h3, h4, h5, h6⟩

/-- The fields of the slot after an accepted in-order segment. -/
theorem accepted_slot_fields (cfg : Config) (d : BACNET_TSM_DATA)
    (service_data : BACNET_CONFIRMED_SERVICE_DATA) (service_request : List Nat)
    (service_request_len : Nat) :
    (accepted_slot cfg d service_data service_request service_request_len).InvokeID =
      d.InvokeID ∧
    (accepted_slot cfg d service_data service_request service_request_len).state = d.state ∧
    (accepted_slot cfg d service_data service_request service_request_len).LastSequenceNumber =
      service_data.sequence_number ∧
    (accepted_slot cfg d service_data service_request
      service_request_len).InitialSequenceNumber =
      (if service_data.sequence_number = u8 (d.InitialSequenceNumber + d.ActualWindowSize) then
        service_data.sequence_number else d.InitialSequenceNumber) ∧
    (accepted_slot cfg d service_data service_request service_request_len).ActualWindowSize =
      d.ActualWindowSize ∧
    (accepted_slot cfg d service_data service_request
      service_request_len).ReceivedSegmentsCount = u8 (d.ReceivedSegmentsCount + 1) := by
  obtain ⟨f1, f2, f3, f4, f5, f6⟩ := without_blob_fields (add_blob_frame { d with
    RequestTimer := 0
    SegmentTimer := u16 (cfg.apdu_segment_timeout * 4)
    ReceivedSegmentsCount := u8 (d.ReceivedSegmentsCount + 1)
    LastSequenceNumber := service_data.sequence_number } service_request service_request_len)
  unfold accepted_slot
  dsimp only
  by_cases hw : service_data.sequence_number = u8 (d.InitialSequenceNumber + d.ActualWindowSize)
  · have hw2 : service_data.sequence_number =
        u8 ((add_blob_data { d with
          RequestTimer := 0
          SegmentTimer := u16 (cfg.apdu_segment_timeout * 4)
          ReceivedSegmentsCount := u8 (d.ReceivedSegmentsCount + 1)
          LastSequenceNumber := service_data.sequence_number } service_request
          service_request_len).InitialSequenceNumber +
          (add_blob_data { d with
          RequestTimer := 0
          SegmentTimer := u16 (cfg.apdu_segment_timeout * 4)
          ReceivedSegmentsCount := u8 (d.ReceivedSegmentsCount + 1)
          LastSequenceNumber := service_data.sequence_number } service_request
          service_request_len).ActualWindowSize) := by
      rw [f4, f5]; exact hw
    rw [if_pos hw2, if_pos hw]
    exact ⟨f1, f2, f3, rfl, f5, f6⟩
  · have hw2 : ¬ service_data.sequence_number =
        u8 ((add_blob_data { d with
          RequestTimer := 0
          SegmentTimer := u16 (cfg.apdu_segment_timeout * 4)
          ReceivedSegmentsCount := u8 (d.ReceivedSegmentsCount + 1)
          LastSequenceNumber := service_data.sequence_number } service_request
          service_request_len).InitialSequenceNumber +
          (add_blob_data { d with
          RequestTimer := 0
          SegmentTimer := u16 (cfg.apdu_segment_timeout * 4)
          ReceivedSegmentsCount := u8 (d.ReceivedSegmentsCount + 1)
          LastSequenceNumber := service_data.sequence_number } service_request
          service_request_len).ActualWindowSize) := by
      rw [f4, f5]; exact hw
    rw [if_neg hw2, if_neg hw]
    exact ⟨f1, f2, f3, f4, f5, f6⟩

/-- The reassembly buffer after an accepted in-order segment holds the payload
appended. -/
theorem accepted_slot_holds (cfg : Config) (d : BACNET_TSM_DATA)
    (service_data : BACNET_CONFIRMED_SERVICE_DATA) (content p : List Nat)
    (h : BlobHolds d content) (hfit : d.apdu_blob_allocated + p.length < 4294967296) :
    BlobHolds (accepted_slot cfg d service_data p p.length) (content ++ p) ∧
    (accepted_slot cfg d service_data p p.length).apdu_blob_allocated ≤
      d.apdu_blob_allocated + p.length := by
  have hx : BlobHolds { d with
      RequestTimer := 0
      SegmentTimer := u16 (cfg.apdu_segment_timeout * 4)
      ReceivedSegmentsCount := u8 (d.ReceivedSegmentsCount + 1)
      LastSequenceNumber := service_data.sequence_number } content := h
  have ha := add_blob_holds _ content p hx hfit
  unfold accepted_slot
  dsimp only
  split_ifs
  · exact ha
  · exact ha

theorem setSlot_setSlot (s : TSM) (i : Nat) (a b : BACNET_TSM_DATA) :
    (s.setSlot i a).setSlot i b = s.setSlot i b := by
  simp [TSM.setSlot, List.set_set]

/-- The `TSM_STATE_SEGMENTED_REQUEST_SERVER` case on an in-order segment that is
accepted, when four times the segment timeout does not exceed the APDU
timeout. -/
theorem request_server_accept (cfg : Config) (s : TSM) (index c : Nat)
    (src : BACNET_ADDRESS) (service_data : BACNET_CONFIRMED_SERVICE_DATA)
    (service_request : List Nat) (service_request_len : Nat)
    (hi : index < s.TSM_List.length)
    (htime : ¬ u16 (cfg.apdu_segment_timeout * 4) > cfg.apdu_timeout)
    (hseq : service_data.sequence_number = u8 ((s.slot index).LastSequenceNumber + 1) % 256)
    (hcount : ¬ u8 ((s.slot index).ReceivedSegmentsCount + 1) > cfg.MAX_SEGMENTS_ACCEPTED) :
    segment_received_request_server cfg s index c src service_data service_request
      service_request_len =
      (if service_data.sequence_number =
            u8 ((s.slot index).InitialSequenceNumber + (s.slot index).ActualWindowSize) ∨
          service_data.more_follows = false then
        (s.setSlot index (accepted_slot cfg (s.slot index) service_data service_request
          service_request_len)).emit
          (Event.segmentack src false true service_data.invoke_id
            service_data.sequence_number (s.slot index).ActualWindowSize)
      else s.setSlot index (accepted_slot cfg (s.slot index) service_data service_request
          service_request_len),
      !service_data.more_follows,
      if service_data.more_follows = true then none
      else some (get_blob_data (accepted_slot cfg (s.slot index) service_data service_request
          service_request_len))) := by
  unfold segment_received_request_server
  lift_lets
  extract_lets p5 t11 t10 p4 t9 t8 p3 t7 t6 t5 p2 t4 p1 t3 t2 we p0 t1 blob ack t0
  have e11 : t11.slot index = { s.slot index with
      RequestTimer := 0, SegmentTimer := u16 (cfg.apdu_segment_timeout * 4) } :=
    slot_setSlot_self s index _ hi
  have c9 : ¬ (t11.slot index).SegmentTimer > cfg.apdu_timeout := by rw [e11]; exact htime
  have e9 : t9 = t11 := if_neg c9
  have s9 : t9.slot index = { s.slot index with
      RequestTimer := 0, SegmentTimer := u16 (cfg.apdu_segment_timeout * 4) } := by
    rw [e9]; exact e11
  have cs : ¬ (service_data.sequence_number ≠
      u8 ((t9.slot index).LastSequenceNumber + 1) % 256) := by
    rw [s9]; exact not_not.mpr hseq
  rw [if_neg cs]
  have e7 : t7 = s.setSlot index { s.slot index with
      RequestTimer := 0, SegmentTimer := u16 (cfg.apdu_segment_timeout * 4),
      ReceivedSegmentsCount := u8 ((s.slot index).ReceivedSegmentsCount + 1) } := by
    show t9.setSlot index { t9.slot index with
      ReceivedSegmentsCount := u8 ((t9.slot index).ReceivedSegmentsCount + 1) } = _
    rw [s9, e9]
    exact setSlot_setSlot s index _ _
  have s7 : t7.slot index = { s.slot index with
      RequestTimer := 0, SegmentTimer := u16 (cfg.apdu_segment_timeout * 4),
      ReceivedSegmentsCount := u8 ((s.slot index).ReceivedSegmentsCount + 1) } := by
    rw [e7]; exact slot_setSlot_self s index _ hi
  have cc : ¬ (t7.slot index).ReceivedSegmentsCount > cfg.MAX_SEGMENTS_ACCEPTED := by
    rw [s7]; exact hcount
  rw [if_neg cc]
  have e3 : t3 = s.setSlot index { s.slot index with
      RequestTimer := 0, SegmentTimer := u16 (cfg.apdu_segment_timeout * 4),
      ReceivedSegmentsCount := u8 ((s.slot index).ReceivedSegmentsCount + 1),
      LastSequenceNumber := service_data.sequence_number } := by
    show t7.setSlot index { t7.slot index with
      LastSequenceNumber := service_data.sequence_number } = _
    rw [s7, e7]
    exact setSlot_setSlot s index _ _
  have s3 : t3.slot index = { s.slot index with
      RequestTimer := 0, SegmentTimer := u16 (cfg.apdu_segment_timeout * 4),
      ReceivedSegmentsCount := u8 ((s.slot index).ReceivedSegmentsCount + 1),
      LastSequenceNumber := service_data.sequence_number } := by
    rw [e3]; exact slot_setSlot_self s index _ hi
  have e2 : t2 = s.setSlot index (add_blob_data { s.slot index with
      RequestTimer := 0, SegmentTimer := u16 (cfg.apdu_segment_timeout * 4),
      ReceivedSegmentsCount := u8 ((s.slot index).ReceivedSegmentsCount + 1),
      LastSequenceNumber := service_data.sequence_number } service_request
      service_request_len) := by
    show t3.setSlot index (add_blob_data (t3.slot index) service_request
      service_request_len) = _
    rw [s3, e3]
    exact setSlot_setSlot s index _ _
  have s2 : t2.slot index = add_blob_data { s.slot index with
      RequestTimer := 0, SegmentTimer := u16 (cfg.apdu_segment_timeout * 4),
      ReceivedSegmentsCount := u8 ((s.slot index).ReceivedSegmentsCount + 1),
      LastSequenceNumber := service_data.sequence_number } service_request
      service_request_len := by
    rw [e2]; exact slot_setSlot_self s index _ hi
  have e1 : t1 = s.setSlot index (accepted_slot cfg (s.slot index) service_data service_request
      service_request_len) := by
    show (if service_data.sequence_number =
        u8 ((t2.slot index).InitialSequenceNumber + (t2.slot index).ActualWindowSize) then
        t2.setSlot index { t2.slot index with
          InitialSequenceNumber := service_data.sequence_number }
      else t2) = _
    rw [s2, e2]
    unfold accepted_slot
    dsimp only
    split_ifs
    · exact setSlot_setSlot s index _ _
    · rfl
  obtain ⟨_, _, a3, _, a5, _⟩ := accepted_slot_fields cfg (s.slot index) service_data
    service_request service_request_len
  obtain ⟨_, _, _, f4, f5, _⟩ := without_blob_fields (add_blob_frame { s.slot index with
    RequestTimer := 0, SegmentTimer := u16 (cfg.apdu_segment_timeout * 4),
    ReceivedSegmentsCount := u8 ((s.slot index).ReceivedSegmentsCount + 1),
    LastSequenceNumber := service_data.sequence_number } service_request service_request_len)
  have s1 : t1.slot index = accepted_slot cfg (s.slot index) service_data service_request
      service_request_len := by
    rw [e1]; exact slot_setSlot_self s index _ hi
  have hwe : we ↔ service_data.sequence_number =
      u8 ((s.slot index).InitialSequenceNumber + (s.slot index).ActualWindowSize) := by
    show service_data.sequence_number =
      u8 ((t2.slot index).InitialSequenceNumber + (t2.slot index).ActualWindowSize) ↔ _
    rw [s2, f4, f5]
  have eb : blob = if service_data.more_follows = true then none
      else some (get_blob_data (accepted_slot cfg (s.slot index) service_data service_request
        service_request_len)) := by
    show (if service_data.more_follows = true then none
      else some (get_blob_data (t1.slot index))) = _
    rw [s1]
  have e0 : t0 = if service_data.sequence_number =
        u8 ((s.slot index).InitialSequenceNumber + (s.slot index).ActualWindowSize) ∨
        service_data.more_follows = false then
      (s.setSlot index (accepted_slot cfg (s.slot index) service_data service_request
        service_request_len)).emit
        (Event.segmentack src false true service_data.invoke_id
          service_data.sequence_number (s.slot index).ActualWindowSize)
    else s.setSlot index (accepted_slot cfg (s.slot index) service_data service_request
        service_request_len) := by
    show (if (decide we || !service_data.more_follows) = true then
        segmentack_pdu_send t1 src false true service_data.invoke_id
          (t1.slot index).LastSequenceNumber (t1.slot index).ActualWindowSize
      else t1) = _
    have hcond : ((decide we || !service_data.more_follows) = true) ↔
        (service_data.sequence_number =
          u8 ((s.slot index).InitialSequenceNumber + (s.slot index).ActualWindowSize) ∨
        service_data.more_follows = false) := by
      simp [hwe]
    by_cases hc : service_data.sequence_number =
        u8 ((s.slot index).InitialSequenceNumber + (s.slot index).ActualWindowSize) ∨
        service_data.more_follows = false
    · rw [if_pos hc, if_pos (hcond.mpr hc), s1, a3, a5, e1]
      rfl
    · rw [if_neg hc, if_neg (fun h => hc (hcond.mp h)), e1]
  rw [e0, eb]

/-! ## Segments that are not in order -/

theorem SameReassembly.reflD (d : BACNET_TSM_DATA) : SameReassembly d d :=
  ⟨rfl, rfl, rfl, rfl, rfl, rfl⟩

theorem SameReassembly.transD {a b c : BACNET_TSM_DATA} (h1 : SameReassembly a b)
    (h2 : SameReassembly b c) : SameReassembly a c :=
  ⟨h2.1.trans h1.1, h2.2.1.trans h1.2.1, h2.2.2.1.trans h1.2.2.1,
    h2.2.2.2.1.trans h1.2.2.2.1, h2.2.2.2.2.1.trans h1.2.2.2.2.1,
    h2.2.2.2.2.2.trans h1.2.2.2.2.2⟩

theorem KeepsReassembly.reflK (index : Nat) (s : TSM) : KeepsReassembly index s s :=
  ⟨SameReassembly.reflD _, fun _ _ => rfl, rfl, rfl⟩

theorem KeepsReassembly.transK {index : Nat} {s t u : TSM} (h1 : KeepsReassembly index s t)
    (h2 : KeepsReassembly index t u) : KeepsReassembly index s u :=
  ⟨h1.1.transD h2.1, fun k hk => (h2.2.1 k hk).trans (h1.2.1 k hk), h2.2.2.1.trans h1.2.2.1,
    h2.2.2.2.trans h1.2.2.2⟩

theorem keeps_snoc_setSlot {index : Nat} {s t : TSM} (d : BACNET_TSM_DATA)
    (h : KeepsReassembly index s t) (hd : SameReassembly (t.slot index) d) :
    KeepsReassembly index s (t.setSlot index d) := by
  refine h.transK ⟨?_, fun k hk => slot_setSlot_ne t index k d hk, rfl, length_setSlot t index d⟩
  rw [slot_setSlot]
  split
  · exact hd
  · exact SameReassembly.reflD _

theorem keeps_snoc_emit {index : Nat} {s t : TSM} (e : Event) (h : KeepsReassembly index s t) :
    KeepsReassembly index s (t.emit e) := h

theorem keeps_snoc_dup {index : Nat} {s t : TSM} (n : Nat) (h : KeepsReassembly index s t) :
    KeepsReassembly index s { t with Duplicate_Count := n } := h

theorem keeps_duplicate (cfg : Config) (s : TSM) (index : Nat)
    (service_data : BACNET_CONFIRMED_SERVICE_DATA) (src : BACNET_ADDRESS) :
    KeepsReassembly index s (duplicate_segment_received cfg s index service_data src).2 ∧
    ((duplicate_segment_received cfg s index service_data src).2.slot index).state =
      (s.slot index).state := by
  unfold duplicate_segment_received
  lift_lets
  extract_lets Ndup p2 t3 t2 p1 t1 p0 t0
  have h3 : KeepsReassembly index s t3 :=
    keeps_snoc_setSlot _ (KeepsReassembly.reflK index s) (SameReassembly.reflD _)
  have h2 : KeepsReassembly index s t2 := keeps_snoc_emit _ (KeepsReassembly.reflK index s)
  have h1 : KeepsReassembly index s t1 := keeps_snoc_setSlot _ h2 (SameReassembly.reflD _)
  have h0 : KeepsReassembly index s t0 := keeps_snoc_setSlot _ h1 (SameReassembly.reflD _)
  have st : ∀ (t : TSM) (d : BACNET_TSM_DATA), d.state = (t.slot index).state →
      ((t.setSlot index d).slot index).state = (t.slot index).state := by
    intro t d hd
    rw [slot_setSlot]
    split
    · exact hd
    · rfl
  split_ifs
  · exact ⟨keeps_snoc_dup _ h3, st s _ rfl⟩
  · refine ⟨keeps_snoc_dup _ h0, ?_⟩
    show (t0.slot index).state = _
    have e1 : (t1.slot index).state = (s.slot index).state := by
      refine st t2 _ ?_
      rfl
    have e0 : (t0.slot index).state = (t1.slot index).state := by
      refine st t1 _ ?_
      rfl
    exact e0.trans e1
  · exact ⟨KeepsReassembly.reflK index s, rfl⟩

theorem tsm_get_peer_id_found (cfg : Config) (s : TSM) (src : BACNET_ADDRESS)
    (invokeID ix : Nat)
    (h : s.TSM_Peer_Ids.findIdx? (peer_entry_matches src invokeID) = some ix) :
    tsm_get_peer_id cfg s src invokeID = some ((s.peer ix).InternalInvokeID, s) ∧
    (s.peer ix).InternalInvokeID ≠ 0 := by
  refine ⟨by simp only [tsm_get_peer_id, get_peer_id_data_found cfg s src invokeID ix true h],
    ?_⟩
  have hm := (peer_find_some s src invokeID ix h).2.1
  unfold peer_entry_matches at hm
  intro h0
  rw [h0] at hm
  simp at hm

/-- The call `tsm_set_segmented_confirmed_service_received` for a segment that
the peer map resolves to a slot in SegmentedRequestServer. -/
theorem segment_received_resolved (cfg : Config) (s : TSM) (src : BACNET_ADDRESS)
    (service_data : BACNET_CONFIRMED_SERVICE_DATA) (service_request : List Nat)
    (service_request_len ix id index : Nat)
    (hix : s.TSM_Peer_Ids.findIdx? (peer_entry_matches src service_data.invoke_id) = some ix)
    (hid : (s.peer ix).InternalInvokeID = id)
    (hidx : tsm_find_invokeID_index s id = index)
    (hi : index < s.TSM_List.length)
    (hst : (s.slot index).state = TSM_STATE_SEGMENTED_REQUEST_SERVER) :
    tsm_set_segmented_confirmed_service_received cfg s src service_data service_request
      service_request_len =
      match segment_received_request_server cfg s index id src service_data service_request
        service_request_len with
      | (s', result, none) =>
        some (⟨result, id, some service_request, service_request_len⟩, s')
      | (s', result, some (blob, len)) => some (⟨result, id, blob, len⟩, s') := by
  obtain ⟨hget, hne⟩ := tsm_get_peer_id_found cfg s src service_data.invoke_id ix hix
  rw [hid] at hget hne
  unfold tsm_set_segmented_confirmed_service_received
  simp only [hget, hne, if_false, hidx, MAX_TSM_TRANSACTIONS, ge_iff_le, Nat.not_le.mpr hi, hst]

/-- The `TSM_STATE_SEGMENTED_REQUEST_SERVER` case on a segment whose sequence
number is not the next one: nothing is delivered, and the slot keeps its
reassembly state. -/
theorem request_server_out_of_order (cfg : Config) (s : TSM) (index c : Nat)
    (src : BACNET_ADDRESS) (service_data : BACNET_CONFIRMED_SERVICE_DATA)
    (service_request : List Nat) (service_request_len : Nat)
    (hi : index < s.TSM_List.length)
    (hseq : service_data.sequence_number ≠ u8 ((s.slot index).LastSequenceNumber + 1) % 256) :
    (segment_received_request_server cfg s index c src service_data service_request
      service_request_len).2 = (false, none) ∧
    KeepsReassembly index s (segment_received_request_server cfg s index c src service_data
      service_request service_request_len).1 ∧
    (¬ u16 (cfg.apdu_segment_timeout * 4) > cfg.apdu_timeout →
      ((segment_received_request_server cfg s index c src service_data service_request
        service_request_len).1.slot index).state = (s.slot index).state) := by
  unfold segment_received_request_server
  lift_lets
  extract_lets p5 t11 t10 p4 t9 t8 p3 t7 t6 t5 p2 t4 p1 t3 t2 we p0 t1 blob ack t0
  have st : ∀ (t : TSM) (d : BACNET_TSM_DATA), d.state = (t.slot index).state →
      ((t.setSlot index d).slot index).state = (t.slot index).state := by
    intro t d hd
    rw [slot_setSlot]
    split
    · exact hd
    · rfl
  have h11 : KeepsReassembly index s t11 :=
    keeps_snoc_setSlot _ (KeepsReassembly.reflK index s) (SameReassembly.reflD _)
  have s11 : (t11.slot index).state = (s.slot index).state := by
    refine st s _ ?_
    rfl
  have h10 : KeepsReassembly index s t10 := keeps_snoc_emit _ h11
  have h9 : KeepsReassembly index s t9 := by
    show KeepsReassembly index s (if _ then _ else _)
    split_ifs
    · exact keeps_snoc_setSlot _ h10 (SameReassembly.reflD _)
    · exact h11
  have q11 : (t11.slot index).SegmentTimer > cfg.apdu_timeout →
      u16 (cfg.apdu_segment_timeout * 4) > cfg.apdu_timeout := by
    intro h
    have hh : (t11.slot index).SegmentTimer = u16 (cfg.apdu_segment_timeout * 4) := by
      show ((s.setSlot index _).slot index).SegmentTimer = _
      rw [slot_setSlot_self s index _ hi]
    rw [hh] at h; exact h
  have s9 : ¬ u16 (cfg.apdu_segment_timeout * 4) > cfg.apdu_timeout →
      (t9.slot index).state = (s.slot index).state := by
    intro ht
    have : t9 = t11 := if_neg (fun h => ht (q11 h))
    rw [this]; exact s11
  have h8 : KeepsReassembly index s t8 := keeps_snoc_emit _ h9
  have cs : service_data.sequence_number ≠
      u8 ((t9.slot index).LastSequenceNumber + 1) % 256 := by
    rw [h9.1.2.2.2.1]; exact hseq
  rw [if_pos cs]
  split_ifs
  · obtain ⟨k1, k2⟩ := keeps_duplicate cfg t9 index service_data src
    exact ⟨rfl, h9.transK k1, fun ht => k2.trans (s9 ht)⟩
  · exact ⟨rfl, keeps_snoc_dup _ h8, s9⟩

theorem find_congr_slots (s s' : TSM) (c : Nat)
    (hl : s'.TSM_List.length = s.TSM_List.length)
    (h : ∀ k, (s'.slot k).InvokeID = (s.slot k).InvokeID) :
    tsm_find_invokeID_index s' c = tsm_find_invokeID_index s c := by
  apply find_congr_ids
  apply List.ext_getElem
  · simp only [List.length_map, hl]
  · intro k h1 h2
    simp only [List.length_map] at h1 h2
    simp only [List.getElem_map]
    rw [← slot_eq_getElem s' h1, ← slot_eq_getElem s h2]
    exact h k

theorem keeps_find {index : Nat} {s t : TSM} (h : KeepsReassembly index s t) (c : Nat) :
    tsm_find_invokeID_index t c = tsm_find_invokeID_index s c := by
  apply find_congr_slots s t c h.2.2.2
  intro k
  by_cases hk : k = index
  · subst hk; exact h.1.2.2.2.2.2
  · rw [h.2.1 k hk]

theorem keeps_peer {index : Nat} {s t : TSM} (h : KeepsReassembly index s t) (j : Nat) :
    t.peer j = s.peer j := peer_congr h.2.2.1 j

theorem blobHolds_same {d d' : BACNET_TSM_DATA} {content : List Nat}
    (h : SameReassembly d d') (hb : BlobHolds d content) : BlobHolds d' content := by
  obtain ⟨a1, a2, a3, _, _, _⟩ := h
  unfold BlobHolds
  rw [a1, a2, a3]
  exact hb

/-- A call of `tsm_set_segmented_confirmed_service_received` for a segment that
resolves to a slot in SegmentedRequestServer and is not the next one. -/
theorem segment_out_of_order (cfg : Config) (s : TSM) (src : BACNET_ADDRESS)
    (service_data : BACNET_CONFIRMED_SERVICE_DATA) (service_request : List Nat)
    (service_request_len ix id index : Nat)
    (hix : s.TSM_Peer_Ids.findIdx? (peer_entry_matches src service_data.invoke_id) = some ix)
    (hid : (s.peer ix).InternalInvokeID = id)
    (hidx : tsm_find_invokeID_index s id = index)
    (hi : index < s.TSM_List.length)
    (hst : (s.slot index).state = TSM_STATE_SEGMENTED_REQUEST_SERVER)
    (hseq : service_data.sequence_number ≠ u8 ((s.slot index).LastSequenceNumber + 1) % 256) :
    ∃ s', tsm_set_segmented_confirmed_service_received cfg s src service_data service_request
        service_request_len =
        some (⟨false, id, some service_request, service_request_len⟩, s') ∧
      KeepsReassembly index s s' := by
  obtain ⟨r1, r2, _⟩ := request_server_out_of_order cfg s index id src service_data
    service_request service_request_len hi hseq
  rw [segment_received_resolved cfg s src service_data service_request service_request_len
    ix id index hix hid hidx hi hst]
  generalize segment_received_request_server cfg s index id src service_data service_request
    service_request_len = r at r1 r2
  obtain ⟨t, b, o⟩ := r
  simp only [Prod.mk.injEq] at r1
  obtain ⟨rfl, rfl⟩ := r1
  exact ⟨t, rfl, r2⟩

theorem receive_repeated_keeps (cfg : Config) (s : TSM) (src : BACNET_ADDRESS)
    (service_data : BACNET_CONFIRMED_SERVICE_DATA) (service_request : List Nat)
    (service_request_len ix id index : Nat)
    (hix : s.TSM_Peer_Ids.findIdx? (peer_entry_matches src service_data.invoke_id) = some ix)
    (hid : (s.peer ix).InternalInvokeID = id)
    (hidx : tsm_find_invokeID_index s id = index)
    (hi : index < s.TSM_List.length)
    (hseq : service_data.sequence_number ≠ u8 ((s.slot index).LastSequenceNumber + 1) % 256) :
    ∀ m, (∀ j, j < m →
        (receive_repeated cfg src service_data service_request service_request_len j s).map
          (fun t => (t.slot index).state) = some TSM_STATE_SEGMENTED_REQUEST_SERVER) →
      ∃ s', receive_repeated cfg src service_data service_request service_request_len m s =
          some s' ∧ KeepsReassembly index s s' := by
  intro m
  induction m with
  | zero => intro _; exact ⟨s, rfl, KeepsReassembly.reflK index s⟩
  | succ m ih =>
    intro h
    obtain ⟨t, ht, hk⟩ := ih (fun j hj => h j (Nat.lt_succ_of_lt hj))
    have hst := h m (Nat.lt_succ_self m)
    rw [ht] at hst
    simp only [Option.map_some', Option.some.injEq] at hst
    obtain ⟨s', hs', hk'⟩ := segment_out_of_order cfg t src service_data service_request
      service_request_len ix id index (by rw [hk.2.2.1]; exact hix)
      (by rw [keeps_peer hk ix]; exact hid) (by rw [keeps_find hk id]; exact hidx)
      (by rw [hk.2.2.2]; exact hi) hst (by rw [hk.1.2.2.2.1]; exact hseq)
    refine ⟨s', ?_, hk.transK hk'⟩
    show (match receive_repeated cfg src service_data service_request service_request_len m s
      with
      | none => none
      | some t => (tsm_set_segmented_confirmed_service_received cfg t src service_data
          service_request service_request_len).map Prod.snd) = _
    rw [ht]
    show Option.map Prod.snd (tsm_set_segmented_confirmed_service_received cfg t src service_data
      service_request service_request_len) = _
    rw [hs']
    rfl

/-- The segment 0 of `sample_receiving` received three more times: the slot is
in SegmentedRequestServer at each reception and the blob holds the payload
once. -/
theorem duplicate_segment_sample :
    (∀ j, j < 3 →
      (receive_repeated Config.sample_server sample_peer (sample_segment 7 0 4 true)
        [1, 2, 3] 3 j sample_receiving).map (fun t => (t.slot 0).state) =
        some TSM_STATE_SEGMENTED_REQUEST_SERVER) ∧
    (receive_repeated Config.sample_server sample_peer (sample_segment 7 0 4 true)
      [1, 2, 3] 3 3 sample_receiving).map
      (fun t => ((t.slot 0).apdu_blob, (t.slot 0).apdu_blob_size)) =
      some (some [1, 2, 3], 3) := by
  decide

/-! ## The reassembly of an inbound request -/

/-- Window arithmetic: with the start of the window at the last multiple of `W`
up to `k`, the segment `k + 1` ends a window exactly when `k + 1` is a multiple
of `W`, and the start of the window stays at the last multiple. -/
theorem window_step (W k : Nat) (hW1 : 1 ≤ W) (hW2 : W ≤ 127) (hk : k + 1 < 256) :
    ((k + 1 = u8 (W * (k / W) + W)) ↔ (k + 1) % W = 0) ∧
    (if (k + 1) % W = 0 then k + 1 else W * (k / W)) = W * ((k + 1) / W) := by
  unfold u8
  have hdm := Nat.div_add_mod k W
  have hr : k % W < W := Nat.mod_lt k (by omega)
  have hdm1 := Nat.div_add_mod (k + 1) W
  have hr1 : (k + 1) % W < W := Nat.mod_lt (k + 1) (by omega)
  by_cases hc : k % W + 1 < W
  · have hq : (k + 1) / W = k / W := by
      apply Nat.div_eq_of_lt_le
      · rw [Nat.mul_comm]; omega
      · rw [Nat.succ_mul, Nat.mul_comm]; omega
    rw [hq] at hdm1 ⊢
    generalize W * (k / W) = m at *
    have hm : (k + 1) % W ≠ 0 := by omega
    rw [if_neg hm]
    refine ⟨⟨fun h => ?_, fun h => absurd h hm⟩, rfl⟩
    omega
  · have hq : (k + 1) / W = k / W + 1 := by
      apply Nat.div_eq_of_lt_le
      · rw [Nat.succ_mul, Nat.mul_comm]; omega
      · rw [Nat.succ_mul, Nat.succ_mul, Nat.mul_comm]; omega
    rw [hq, Nat.mul_add, Nat.mul_one] at hdm1
    rw [hq, Nat.mul_add, Nat.mul_one]
    generalize W * (k / W) = m at *
    have hm : (k + 1) % W = 0 := by omega
    rw [if_pos hm]
    refine ⟨⟨fun _ => hm, fun _ => ?_⟩, ?_⟩
    · omega
    · omega

theorem receiving_emit {src : BACNET_ADDRESS} {base : BACNET_CONFIRMED_SERVICE_DATA}
    {c index k : Nat} {content : List Nat} {A : Nat} {s : TSM} (e : Event)
    (h : Receiving src base c index k content A s) :
    Receiving src base c index k content A (s.emit e) :=
  ⟨h.entry, h.found, h.inside, h.request_server, h.last_sequence, h.segments, h.window,
    h.initial, h.blob, h.room⟩

/-- The next in-order segment of a request under reassembly is accepted. -/
theorem receive_next (cfg : Config) (src : BACNET_ADDRESS)
    (base : BACNET_CONFIRMED_SERVICE_DATA) (c index k : Nat) (content : List Nat) (A : Nat)
    (s : TSM) (p : List Nat) (more : Bool)
    (h : Receiving src base c index k content A s)
    (htime : ¬ u16 (cfg.apdu_segment_timeout * 4) > cfg.apdu_timeout)
    (hW1 : 1 ≤ base.proposed_window_number) (hW2 : base.proposed_window_number ≤ 127)
    (hk : k + 2 ≤ cfg.MAX_SEGMENTS_ACCEPTED) (hmax : cfg.MAX_SEGMENTS_ACCEPTED ≤ 255)
    (hfit : A + content.length + p.length < 4294967296)
    (hlen : content.length + p.length < 65536) :
    ∃ r s', tsm_set_segmented_confirmed_service_received cfg s src (segment_data base (k + 1) more)
        p p.length = some (r, s') ∧
      Receiving src base c index (k + 1) (content ++ p) A s' ∧
      s'.sent = s.sent ++
        (if (k + 1) % base.proposed_window_number = 0 ∨ more = false then
          [Event.segmentack src false true base.invoke_id (k + 1) base.proposed_window_number]
        else []) ∧
      (if more = true then r = ⟨false, c, some p, p.length⟩
       else r.result = true ∧ r.internal_invoke_id = c ∧
        r.service_request_len = (content ++ p).length ∧
        (r.service_request.getD []).take (content ++ p).length = content ++ p) := by
  obtain ⟨ix, hix, hid⟩ := h.entry
  have hseq : (segment_data base (k + 1) more).sequence_number =
      u8 ((s.slot index).LastSequenceNumber + 1) % 256 := by
    rw [h.last_sequence]
    show k + 1 = u8 (k + 1) % 256
    unfold u8; omega
  have hcount : ¬ u8 ((s.slot index).ReceivedSegmentsCount + 1) > cfg.MAX_SEGMENTS_ACCEPTED := by
    rw [h.segments]
    unfold u8; omega
  have hres := segment_received_resolved cfg s src (segment_data base (k + 1) more) p p.length
    ix c index hix hid h.found h.inside h.request_server
  rw [request_server_accept cfg s index c src (segment_data base (k + 1) more) p p.length
    h.inside htime hseq hcount] at hres
  obtain ⟨a1, a2, a3, a4, a5, a6⟩ := accepted_slot_fields cfg (s.slot index)
    (segment_data base (k + 1) more) p p.length
  obtain ⟨b1, b2⟩ := accepted_slot_holds cfg (s.slot index) (segment_data base (k + 1) more)
    content p h.blob (by have := h.room; omega)
  obtain ⟨w1, w2⟩ := window_step base.proposed_window_number k hW1 hW2 (by omega)
  have hwe : (segment_data base (k + 1) more).sequence_number =
      u8 ((s.slot index).InitialSequenceNumber + (s.slot index).ActualWindowSize) ↔
      (k + 1) % base.proposed_window_number = 0 := by
    rw [h.initial, h.window]
    exact w1
  have hrec : Receiving src base c index (k + 1) (content ++ p) A
      (s.setSlot index (accepted_slot cfg (s.slot index) (segment_data base (k + 1) more)
        p p.length)) := by
    have hs := slot_setSlot_self s index (accepted_slot cfg (s.slot index)
      (segment_data base (k + 1) more) p p.length) h.inside
    refine ⟨⟨ix, hix, hid⟩, ?_, ?_, ?_, ?_, ?_, ?_, ?_, ?_, ?_⟩
    · exact (find_setSlot_keep s index _ c a1).trans h.found
    · rw [length_setSlot]; exact h.inside
    · rw [hs, a2]; exact h.request_server
    · rw [hs, a3]; rfl
    · rw [hs, a6, h.segments]; unfold u8; omega
    · rw [hs, a5]; exact h.window
    · rw [hs, a4, h.initial, h.window]
      show (if k + 1 = u8 _ then k + 1 else _) = _
      by_cases hm : (k + 1) % base.proposed_window_number = 0
      · rw [if_pos (w1.mpr hm)]
        rw [if_pos hm] at w2
        exact w2
      · rw [if_neg (fun hh => hm (w1.mp hh))]
        rw [if_neg hm] at w2
        exact w2
    · rw [hs]; exact b1
    · rw [hs, List.length_append]
      have := h.room
      omega
  have hsize : u16 (accepted_slot cfg (s.slot index) (segment_data base (k + 1) more) p
      p.length).apdu_blob_size = (content ++ p).length := by
    rw [b1.1, List.length_append]
    unfold u16
    exact Nat.mod_eq_of_lt hlen
  have hcond : ((segment_data base (k + 1) more).sequence_number =
      u8 ((s.slot index).InitialSequenceNumber + (s.slot index).ActualWindowSize) ∨
      (segment_data base (k + 1) more).more_follows = false) ↔
      ((k + 1) % base.proposed_window_number = 0 ∨ more = false) := by
    rw [hwe]
    exact Iff.rfl
  have haws : (s.slot index).ActualWindowSize = base.proposed_window_number := h.window
  cases more with
  | true =>
    by_cases hc : (k + 1) % base.proposed_window_number = 0 ∨ true = false
    · rw [if_pos (hcond.mpr hc)] at hres
      refine ⟨_, _, hres, receiving_emit _ hrec, ?_, rfl⟩
      rw [if_pos hc, haws]
      rfl
    · rw [if_neg (fun hh => hc (hcond.mp hh))] at hres
      refine ⟨_, _, hres, hrec, ?_, rfl⟩
      rw [if_neg hc, List.append_nil]
      rfl
  | false =>
    have hc : (k + 1) % base.proposed_window_number = 0 ∨ false = false := Or.inr rfl
    rw [if_pos (hcond.mpr hc)] at hres
    refine ⟨_, _, hres, receiving_emit _ hrec, ?_, ?_⟩
    · rw [if_pos hc, haws]
      rfl
    · rw [if_neg (by decide)]
      refine ⟨rfl, rfl, hsize, ?_⟩
      have hb := b1.2.1
      rw [b1.1] at hb
      exact hb

/-- The in-order segments after the first, as long as no more than
`MAX_SEGMENTS_ACCEPTED` segments are received in all: every one is accepted. -/
theorem receive_rest (cfg : Config) (src : BACNET_ADDRESS)
    (base : BACNET_CONFIRMED_SERVICE_DATA) (c index A : Nat)
    (htime : ¬ u16 (cfg.apdu_segment_timeout * 4) > cfg.apdu_timeout)
    (hW1 : 1 ≤ base.proposed_window_number) (hW2 : base.proposed_window_number ≤ 127)
    (hmax : cfg.MAX_SEGMENTS_ACCEPTED ≤ 255) :
    ∀ (rest : List (List Nat × Bool)) (k : Nat) (content : List Nat) (s : TSM),
      Receiving src base c index k content A s →
      k + 1 + rest.length ≤ cfg.MAX_SEGMENTS_ACCEPTED →
      A + content.length + (all_bytes rest).length < 4294967296 →
      content.length + (all_bytes rest).length < 65536 →
      ∃ rs s', receive_segments cfg src base (k + 1) rest s = some (rs, s') ∧
        Receiving src base c index (k + rest.length) (content ++ all_bytes rest) A s' ∧
        s'.sent = s.sent ++
          expected_acks src base.invoke_id base.proposed_window_number (k + 1) rest ∧
        DeliveredFrom c content rest rs := by
  intro rest
  induction rest with
  | nil =>
    intro k content s h _ _ _
    refine ⟨[], s, rfl, ?_, ?_, trivial⟩
    · simpa [all_bytes] using h
    · simp [expected_acks]
  | cons seg rest ih =>
    intro k content s h hk hfit hlen
    simp only [all_bytes, List.length_append, List.length_cons] at hk hfit hlen
    obtain ⟨r, s1, hcall, hrec, hsent, hr⟩ := receive_next cfg src base c index k content A s
      seg.1 seg.2 h htime hW1 hW2 (by omega) hmax (by omega) (by omega)
    obtain ⟨rs, s2, hrun, hrec2, hsent2, hrs⟩ := ih (k + 1) (content ++ seg.1) s1 hrec
      (by omega) (by rw [List.length_append]; omega) (by rw [List.length_append]; omega)
    refine ⟨r :: rs, s2, ?_, ?_, ?_, ⟨hr, hrs⟩⟩
    · show (match tsm_set_segmented_confirmed_service_received cfg s src
          (segment_data base (k + 1) seg.2) seg.1 seg.1.length with
        | none => none
        | some (r, s1) =>
          match receive_segments cfg src base (k + 1 + 1) rest s1 with
          | none => none
          | some (rs, s2) => some (r :: rs, s2)) = _
      rw [hcall]
      show (match receive_segments cfg src base (k + 1 + 1) rest s1 with
        | none => none
        | some (rs, s2) => some (r :: rs, s2)) = _
      rw [hrun]
    · have e1 : k + (seg :: rest).length = k + 1 + rest.length := by
        simp only [List.length_cons]; omega
      have e2 : content ++ all_bytes (seg :: rest) = content ++ seg.1 ++ all_bytes rest := by
        simp only [all_bytes, List.append_assoc]
      rw [e1, e2]
      exact hrec2
    · rw [hsent2, hsent]
      simp only [expected_acks, List.append_assoc]

/-- The `TSM_STATE_IDLE` case on a segment 0 with a proposed window size in
range: the payload is stored and acknowledged. -/
theorem segment_received_idle_accept (cfg : Config) (t : TSM) (index c : Nat)
    (src : BACNET_ADDRESS) (service_data : BACNET_CONFIRMED_SERVICE_DATA)
    (service_request : List Nat) (service_request_len : Nat)
    (hi : index < t.TSM_List.length) (hseq : service_data.sequence_number = 0)
    (hw : ¬ (service_data.proposed_window_number = 0 ∨
      service_data.proposed_window_number > 127)) :
    segment_received_idle cfg t index c src service_data service_request
      service_request_len =
      (t.setSlot index (first_segment_slot cfg (t.slot index) service_data service_request
        service_request_len)).emit
        (Event.segmentack src false true service_data.invoke_id 0
          service_data.proposed_window_number) := by
  unfold segment_received_idle
  lift_lets
  extract_lets p0 t1 tw pw t2 t3 t4
  have s1 : t1.slot index = reset_blob { t.slot index with
      state := TSM_STATE_SEGMENTED_REQUEST_SERVER
      ActualWindowSize := service_data.proposed_window_number
      ProposedWindowSize := service_data.proposed_window_number
      InitialSequenceNumber := 0
      LastSequenceNumber := 0
      RetryCount := 0
      SegmentRetryCount := 0
      ReceivedSegmentsCount := 1
      RequestTimer := 0
      SegmentTimer := u16 (cfg.apdu_segment_timeout * 4) } := slot_setSlot_self t index _ hi
  have c1 : ¬ (service_data.sequence_number = 0 ∧
      ((t1.slot index).ProposedWindowSize = 0 ∨ (t1.slot index).ProposedWindowSize > 127)) := by
    rw [s1]
    exact fun h => hw h.2
  have c2 : ¬ service_data.sequence_number ≠ 0 := not_not.mpr hseq
  rw [if_neg c1, if_neg c2]
  have e4 : t4 = t.setSlot index (first_segment_slot cfg (t.slot index) service_data
      service_request service_request_len) := by
    show t1.setSlot index (add_blob_data (t1.slot index) service_request
      service_request_len) = _
    rw [s1]
    exact setSlot_setSlot t index _ _
  have s4 : t4.slot index = first_segment_slot cfg (t.slot index) service_data
      service_request service_request_len := by
    rw [e4]; exact slot_setSlot_self t index _ hi
  obtain ⟨_, _, f3, _, f5, _⟩ := without_blob_fields (add_blob_frame (reset_blob { t.slot index with
      state := TSM_STATE_SEGMENTED_REQUEST_SERVER
      ActualWindowSize := service_data.proposed_window_number
      ProposedWindowSize := service_data.proposed_window_number
      InitialSequenceNumber := 0
      LastSequenceNumber := 0
      RetryCount := 0
      SegmentRetryCount := 0
      ReceivedSegmentsCount := 1
      RequestTimer := 0
      SegmentTimer := u16 (cfg.apdu_segment_timeout * 4) }) service_request
      service_request_len)
  have l4 : (t4.slot index).LastSequenceNumber = 0 := by rw [s4]; exact f3
  have a4 : (t4.slot index).ActualWindowSize = service_data.proposed_window_number := by
    rw [s4]; exact f5
  rw [l4, a4, e4]
  rfl

theorem peer_find_intro (s : TSM) (src : BACNET_ADDRESS) (invokeID ix : Nat)
    (hlt : ix < s.TSM_Peer_Ids.length)
    (hp : peer_entry_matches src invokeID (s.peer ix) = true)
    (hmin : ∀ j, j < ix → peer_entry_matches src invokeID (s.peer j) = false) :
    s.TSM_Peer_Ids.findIdx? (peer_entry_matches src invokeID) = some ix := by
  apply List.findIdx?_eq_some_iff_getElem.mpr
  refine ⟨hlt, by rw [← peer_eq_getElem s hlt]; exact hp, ?_⟩
  intro j hj
  rw [← peer_eq_getElem s (Nat.lt_trans hj hlt)]
  simp [hmin j hj]

/-- The first segment of a new request, with room in both tables and a window
size in range: a mapping is created, the payload is stored and acknowledged,
and the reassembly is under way. -/
theorem receive_first (cfg : Config) (s : TSM) (src : BACNET_ADDRESS)
    (base : BACNET_CONFIRMED_SERVICE_DATA) (p : List Nat) (more : Bool) (A : Nat)
    (hlen : s.TSM_List.length ≤ 255) (hcur : s.Current_Invoke_ID < 256)
    (hnew : ∀ e ∈ s.TSM_Peer_Ids, peer_entry_matches src base.invoke_id e = false)
    (hentry : ∃ e ∈ s.TSM_Peer_Ids, e.InternalInvokeID = 0)
    (hslot : ∃ d ∈ s.TSM_List, d.InvokeID = 0)
    (hW1 : 1 ≤ base.proposed_window_number) (hW2 : base.proposed_window_number ≤ 127)
    (hwf : ∀ d ∈ s.TSM_List, ∀ b, d.apdu_blob = some b → b.length = d.apdu_blob_allocated)
    (hA : ∀ d ∈ s.TSM_List, d.apdu_blob_allocated ≤ A)
    (hfit : A + p.length < 4294967296) :
    ∃ c s', c ≠ 0 ∧
      tsm_set_segmented_confirmed_service_received cfg s src (segment_data base 0 more)
        p p.length = some (⟨false, c, some p, p.length⟩, s') ∧
      Receiving src base c (tsm_find_invokeID_index s 0) 0 p A s' ∧
      s'.sent = s.sent ++ [Event.segmentack src false true base.invoke_id 0
        base.proposed_window_number] := by
  obtain ⟨f, hf⟩ := peer_free_exists s hentry
  have hno := (peer_no_match_iff s src base.invoke_id).mpr hnew
  obtain ⟨c, hc0, hc, heq⟩ := first_segment_new cfg s src (segment_data base 0 more) p p.length
    f hlen hcur hno hf hslot
  obtain ⟨hl, hi0, hfind, hself, _, hsent⟩ :=
    peer_bound_slots cfg s src base.invoke_id f c hlen hslot hc0 hc
  obtain ⟨hfl, _⟩ := peer_free_some s f hf
  obtain ⟨hpf, hpo⟩ := peer_bound_peers cfg s src base.invoke_id f c hfl
  have hiP : tsm_find_invokeID_index s 0 < (peer_bound cfg s src base.invoke_id f c).TSM_List.length := by
    rw [hl]; exact hi0
  have hw : ¬ ((segment_data base 0 more).proposed_window_number = 0 ∨
      (segment_data base 0 more).proposed_window_number > 127) := by
    show ¬ (base.proposed_window_number = 0 ∨ base.proposed_window_number > 127)
    omega
  have heq1 : tsm_set_segmented_confirmed_service_received cfg s src (segment_data base 0 more)
      p p.length =
      some (⟨false, c, some p, p.length⟩,
        segment_received_idle cfg (peer_bound cfg s src base.invoke_id f c)
          (tsm_find_invokeID_index s 0) c src (segment_data base 0 more) p p.length) := heq
  rw [segment_received_idle_accept cfg (peer_bound cfg s src base.invoke_id f c)
    (tsm_find_invokeID_index s 0) c src (segment_data base 0 more) p p.length hiP rfl hw] at heq1
  refine ⟨c, _, hc0, heq1, ?_, ?_⟩
  · apply receiving_emit
    obtain ⟨g1, g2, g3, g4, g5, g6⟩ := without_blob_fields (add_blob_frame (reset_blob
      { (peer_bound cfg s src base.invoke_id f c).slot (tsm_find_invokeID_index s 0) with
        state := TSM_STATE_SEGMENTED_REQUEST_SERVER
        ActualWindowSize := (segment_data base 0 more).proposed_window_number
        ProposedWindowSize := (segment_data base 0 more).proposed_window_number
        InitialSequenceNumber := 0
        LastSequenceNumber := 0
        RetryCount := 0
        SegmentRetryCount := 0
        ReceivedSegmentsCount := 1
        RequestTimer := 0
        SegmentTimer := u16 (cfg.apdu_segment_timeout * 4) }) p p.length)
    have hs := slot_setSlot_self (peer_bound cfg s src base.invoke_id f c)
      (tsm_find_invokeID_index s 0) (first_segment_slot cfg
        ((peer_bound cfg s src base.invoke_id f c).slot (tsm_find_invokeID_index s 0))
        (segment_data base 0 more) p p.length) hiP
    have hmem := slot_mem s hi0
    have hX : BlobHolds (reset_blob
      { (peer_bound cfg s src base.invoke_id f c).slot (tsm_find_invokeID_index s 0) with
        state := TSM_STATE_SEGMENTED_REQUEST_SERVER
        ActualWindowSize := (segment_data base 0 more).proposed_window_number
        ProposedWindowSize := (segment_data base 0 more).proposed_window_number
        InitialSequenceNumber := 0
        LastSequenceNumber := 0
        RetryCount := 0
        SegmentRetryCount := 0
        ReceivedSegmentsCount := 1
        RequestTimer := 0
        SegmentTimer := u16 (cfg.apdu_segment_timeout * 4) }) [] := by
      refine ⟨rfl, ?_, Nat.zero_le _, ?_⟩
      · show List.take 0 _ = []
        rfl
      · intro b hb
        rw [hself] at hb ⊢
        exact hwf (s.slot (tsm_find_invokeID_index s 0)) hmem b hb
    have hall : (reset_blob
      { (peer_bound cfg s src base.invoke_id f c).slot (tsm_find_invokeID_index s 0) with
        state := TSM_STATE_SEGMENTED_REQUEST_SERVER
        ActualWindowSize := (segment_data base 0 more).proposed_window_number
        ProposedWindowSize := (segment_data base 0 more).proposed_window_number
        InitialSequenceNumber := 0
        LastSequenceNumber := 0
        RetryCount := 0
        SegmentRetryCount := 0
        ReceivedSegmentsCount := 1
        RequestTimer := 0
        SegmentTimer := u16 (cfg.apdu_segment_timeout * 4) }).apdu_blob_allocated ≤ A := by
      show ((peer_bound cfg s src base.invoke_id f c).slot
        (tsm_find_invokeID_index s 0)).apdu_blob_allocated ≤ A
      rw [hself]
      exact hA (s.slot (tsm_find_invokeID_index s 0)) hmem
    obtain ⟨b1, b2⟩ := add_blob_holds _ [] p hX (by omega)
    refine ⟨⟨f, ?_, hpf ▸ rfl⟩, ?_, ?_, ?_, ?_, ?_, ?_, ?_, ?_, ?_⟩
    · apply peer_find_intro
      · show f < (peer_bound cfg s src base.invoke_id f c).TSM_Peer_Ids.length
        simp only [peer_bound, List.length_set]
        exact hfl
      · show peer_entry_matches src base.invoke_id
          ((peer_bound cfg s src base.invoke_id f c).peer f) = true
        rw [hpf]
        simp [peer_entry_matches, hc0, address_match]
      · intro j hj
        show peer_entry_matches src base.invoke_id
          ((peer_bound cfg s src base.invoke_id f c).peer j) = false
        rw [hpo j (Nat.ne_of_lt hj)]
        have hjl : j < s.TSM_Peer_Ids.length := Nat.lt_trans hj hfl
        rw [peer_eq_getElem s hjl]
        exact hnew _ (List.getElem_mem hjl)
    · refine (find_setSlot_keep _ _ _ c ?_).trans hfind
      exact g1
    · rw [length_setSlot]; exact hiP
    · rw [hs]; exact g2
    · rw [hs]; exact g3
    · rw [hs]; exact g6
    · rw [hs]; exact g5
    · rw [hs, Nat.zero_div, Nat.mul_zero]; exact g4
    · rw [hs]
      have := b1
      rw [List.nil_append] at this
      exact this
    · rw [hs]
      exact Nat.le_trans b2 (Nat.add_le_add_right hall _)
  · show (peer_bound cfg s src base.invoke_id f c).sent ++ _ = _
    rw [hsent]
    rfl

/-- All the in-order segments of a new request, no more than
`MAX_SEGMENTS_ACCEPTED` of them: every one is accepted. -/
theorem receive_all (cfg : Config) (s : TSM) (src : BACNET_ADDRESS)
    (base : BACNET_CONFIRMED_SERVICE_DATA) (first : List Nat × Bool)
    (rest : List (List Nat × Bool)) (A : Nat)
    (hlen : s.TSM_List.length ≤ 255) (hcur : s.Current_Invoke_ID < 256)
    (hnew : ∀ e ∈ s.TSM_Peer_Ids, peer_entry_matches src base.invoke_id e = false)
    (hentry : ∃ e ∈ s.TSM_Peer_Ids, e.InternalInvokeID = 0)
    (hslot : ∃ d ∈ s.TSM_List, d.InvokeID = 0)
    (hW1 : 1 ≤ base.proposed_window_number) (hW2 : base.proposed_window_number ≤ 127)
    (hwf : ∀ d ∈ s.TSM_List, ∀ b, d.apdu_blob = some b → b.length = d.apdu_blob_allocated)
    (hA : ∀ d ∈ s.TSM_List, d.apdu_blob_allocated ≤ A)
    (htime : ¬ u16 (cfg.apdu_segment_timeout * 4) > cfg.apdu_timeout)
    (hmax : cfg.MAX_SEGMENTS_ACCEPTED ≤ 255)
    (hn : 1 + rest.length ≤ cfg.MAX_SEGMENTS_ACCEPTED)
    (hfit : A + (all_bytes (first :: rest)).length < 4294967296)
    (hlen16 : (all_bytes (first :: rest)).length < 65536) :
    ∃ c rs s', c ≠ 0 ∧
      receive_segments cfg src base 0 (first :: rest) s =
        some (⟨false, c, some first.1, first.1.length⟩ :: rs, s') ∧
      Receiving src base c (tsm_find_invokeID_index s 0) rest.length
        (all_bytes (first :: rest)) A s' ∧
      s'.sent = s.sent ++
        expected_acks src base.invoke_id base.proposed_window_number 0 (first :: rest) ∧
      DeliveredFrom c first.1 rest rs := by
  simp only [all_bytes, List.length_append] at hfit hlen16
  obtain ⟨c, s1, hc0, hcall, hrec, hsent⟩ := receive_first cfg s src base first.1 first.2 A
    hlen hcur hnew hentry hslot hW1 hW2 hwf hA (by omega)
  obtain ⟨rs, s2, hrun, hrec2, hsent2, hrs⟩ := receive_rest cfg src base c
    (tsm_find_invokeID_index s 0) A htime hW1 hW2 hmax rest 0 first.1 s1 hrec (by omega)
    (by omega) (by omega)
  refine ⟨c, rs, s2, hc0, ?_, ?_, ?_, hrs⟩
  · show (match tsm_set_segmented_confirmed_service_received cfg s src
        (segment_data base 0 first.2) first.1 first.1.length with
      | none => none
      | some (r, s1) =>
        match receive_segments cfg src base (0 + 1) rest s1 with
        | none => none
        | some (rs, s2) => some (r :: rs, s2)) = _
    rw [hcall]
    show (match receive_segments cfg src base (0 + 1) rest s1 with
      | none => none
      | some (rs, s2) => some (_ :: rs, s2)) = _
    rw [hrun]
  · have := hrec2
    rw [Nat.zero_add] at this
    exact this
  · rw [hsent2, hsent]
    simp only [expected_acks, Nat.zero_mod, true_or, if_true, List.append_assoc,
      List.singleton_append, List.cons_append, List.nil_append]

/-- The `TSM_STATE_SEGMENTED_REQUEST_SERVER` case on an in-order segment that
takes the segment count above `MAX_SEGMENTS_ACCEPTED`, when four times the
segment timeout does not exceed the APDU timeout. -/
theorem request_server_overflow (cfg : Config) (s : TSM) (index c : Nat)
    (src : BACNET_ADDRESS) (service_data : BACNET_CONFIRMED_SERVICE_DATA)
    (service_request : List Nat) (service_request_len : Nat)
    (hi : index < s.TSM_List.length)
    (htime : ¬ u16 (cfg.apdu_segment_timeout * 4) > cfg.apdu_timeout)
    (hseq : service_data.sequence_number = u8 ((s.slot index).LastSequenceNumber + 1) % 256)
    (hcount : u8 ((s.slot index).ReceivedSegmentsCount + 1) > cfg.MAX_SEGMENTS_ACCEPTED) :
    segment_received_request_server cfg s index c src service_data service_request
      service_request_len =
      (tsm_free_invoke_id_check
        ((s.setSlot index { free_blob (s.slot index) with
          RequestTimer := 0
          SegmentTimer := u16 (cfg.apdu_segment_timeout * 4)
          ReceivedSegmentsCount := u8 ((s.slot index).ReceivedSegmentsCount + 1)
          state := TSM_STATE_IDLE }).emit
          (Event.abort service_data.invoke_id src ABORT_REASON_BUFFER_OVERFLOW true))
        c none true, false, none) := by
  unfold segment_received_request_server
  lift_lets
  extract_lets p5 t11 t10 p4 t9 t8 p3 t7 t6 t5 p2 t4 p1 t3 t2 we p0 t1 blob ack t0
  have e11 : t11.slot index = { s.slot index with
      RequestTimer := 0, SegmentTimer := u16 (cfg.apdu_segment_timeout * 4) } :=
    slot_setSlot_self s index _ hi
  have c9 : ¬ (t11.slot index).SegmentTimer > cfg.apdu_timeout := by rw [e11]; exact htime
  have e9 : t9 = t11 := if_neg c9
  have s9 : t9.slot index = { s.slot index with
      RequestTimer := 0, SegmentTimer := u16 (cfg.apdu_segment_timeout * 4) } := by
    rw [e9]; exact e11
  have cs : ¬ (service_data.sequence_number ≠
      u8 ((t9.slot index).LastSequenceNumber + 1) % 256) := by
    rw [s9]; exact not_not.mpr hseq
  rw [if_neg cs]
  have e7 : t7 = s.setSlot index { s.slot index with
      RequestTimer := 0, SegmentTimer := u16 (cfg.apdu_segment_timeout * 4),
      ReceivedSegmentsCount := u8 ((s.slot index).ReceivedSegmentsCount + 1) } := by
    show t9.setSlot index { t9.slot index with
      ReceivedSegmentsCount := u8 ((t9.slot index).ReceivedSegmentsCount + 1) } = _
    rw [s9, e9]
    exact setSlot_setSlot s index _ _
  have s7 : t7.slot index = { s.slot index with
      RequestTimer := 0, SegmentTimer := u16 (cfg.apdu_segment_timeout * 4),
      ReceivedSegmentsCount := u8 ((s.slot index).ReceivedSegmentsCount + 1) } := by
    rw [e7]; exact slot_setSlot_self s index _ hi
  have cc : (t7.slot index).ReceivedSegmentsCount > cfg.MAX_SEGMENTS_ACCEPTED := by
    rw [s7]; exact hcount
  rw [if_pos cc]
  have s6 : t6.slot index = { s.slot index with
      RequestTimer := 0, SegmentTimer := u16 (cfg.apdu_segment_timeout * 4),
      ReceivedSegmentsCount := u8 ((s.slot index).ReceivedSegmentsCount + 1) } := s7
  have e5 : t5 = (s.setSlot index (free_blob { s.slot index with
      RequestTimer := 0, SegmentTimer := u16 (cfg.apdu_segment_timeout * 4),
      ReceivedSegmentsCount := u8 ((s.slot index).ReceivedSegmentsCount + 1) })).emit
      (Event.abort service_data.invoke_id src ABORT_REASON_BUFFER_OVERFLOW true) := by
    show t6.setSlot index (free_blob (t6.slot index)) = _
    rw [s6]
    show (t7.setSlot index _).emit _ = _
    rw [e7, setSlot_setSlot]
  have s5 : t5.slot index = free_blob { s.slot index with
      RequestTimer := 0, SegmentTimer := u16 (cfg.apdu_segment_timeout * 4),
      ReceivedSegmentsCount := u8 ((s.slot index).ReceivedSegmentsCount + 1) } := by
    rw [e5]
    exact slot_setSlot_self s index _ hi
  have e4 : t4 = (s.setSlot index { free_blob (s.slot index) with
      RequestTimer := 0
      SegmentTimer := u16 (cfg.apdu_segment_timeout * 4)
      ReceivedSegmentsCount := u8 ((s.slot index).ReceivedSegmentsCount + 1)
      state := TSM_STATE_IDLE }).emit
      (Event.abort service_data.invoke_id src ABORT_REASON_BUFFER_OVERFLOW true) := by
    show t5.setSlot index { t5.slot index with state := TSM_STATE_IDLE } = _
    rw [s5, e5]
    show ((s.setSlot index _).setSlot index _).emit _ = _
    rw [setSlot_setSlot]
    rfl
  rw [e4]

/-- The in-order segment after `MAX_SEGMENTS_ACCEPTED` accepted ones: Abort
BUFFER_OVERFLOW, nothing delivered, slot and peer-map entries released. -/
theorem receive_overflow (cfg : Config) (src : BACNET_ADDRESS)
    (base : BACNET_CONFIRMED_SERVICE_DATA) (c index k : Nat) (content : List Nat) (A : Nat)
    (s : TSM) (p : List Nat) (more : Bool)
    (h : Receiving src base c index k content A s)
    (htime : ¬ u16 (cfg.apdu_segment_timeout * 4) > cfg.apdu_timeout)
    (hk : k + 1 = cfg.MAX_SEGMENTS_ACCEPTED) (hmax : cfg.MAX_SEGMENTS_ACCEPTED ≤ 254) :
    ∃ s', tsm_set_segmented_confirmed_service_received cfg s src (segment_data base (k + 1) more)
        p p.length = some (⟨false, c, some p, p.length⟩, s') ∧
      s'.sent = s.sent ++ [Event.abort base.invoke_id src ABORT_REASON_BUFFER_OVERFLOW true] ∧
      ((s'.slot index).InvokeID = 0 ∧ (s'.slot index).state = TSM_STATE_IDLE ∧
        (s'.slot index).apdu_blob = none ∧ (s'.slot index).apdu_blob_size = 0 ∧
        (s'.slot index).apdu_blob_allocated = 0) ∧
      (∀ j, j ≠ index → s'.slot j = s.slot j) ∧
      (∀ j, s'.peer j =
        if (s.peer j).InternalInvokeID = c then { s.peer j with InternalInvokeID := 0 }
        else s.peer j) := by
  obtain ⟨ix, hix, hid⟩ := h.entry
  have hseq : (segment_data base (k + 1) more).sequence_number =
      u8 ((s.slot index).LastSequenceNumber + 1) % 256 := by
    rw [h.last_sequence]
    show k + 1 = u8 (k + 1) % 256
    unfold u8; omega
  have hcount : u8 ((s.slot index).ReceivedSegmentsCount + 1) > cfg.MAX_SEGMENTS_ACCEPTED := by
    rw [h.segments]
    unfold u8; omega
  have hres := segment_received_resolved cfg s src (segment_data base (k + 1) more) p p.length
    ix c index hix hid h.found h.inside h.request_server
  rw [request_server_overflow cfg s index c src (segment_data base (k + 1) more) p p.length
    h.inside htime hseq hcount] at hres
  have hfind : tsm_find_invokeID_index
      ((s.setSlot index { free_blob (s.slot index) with
          RequestTimer := 0
          SegmentTimer := u16 (cfg.apdu_segment_timeout * 4)
          ReceivedSegmentsCount := u8 ((s.slot index).ReceivedSegmentsCount + 1)
          state := TSM_STATE_IDLE }).emit
          (Event.abort (segment_data base (k + 1) more).invoke_id src
            ABORT_REASON_BUFFER_OVERFLOW true)) c = index := by
    show tsm_find_invokeID_index (s.setSlot index _) c = index
    refine (find_setSlot_keep s index _ c ?_).trans h.found
    rfl
  obtain ⟨r1, r2, r3, r4⟩ := release_spec _ c index hfind
    (by show index < (s.setSlot index _).TSM_List.length
        rw [length_setSlot]; exact h.inside)
  refine ⟨_, hres, r1, ?_, ?_, ?_⟩
  · rw [r2]
    exact ⟨rfl, rfl, rfl, rfl, rfl⟩
  · intro j hj
    rw [r3 j hj]
    show (s.setSlot index _).slot j = _
    exact slot_setSlot_ne s index j _ hj
  · intro j
    exact r4 j

/-- The slots of the initial table have no blob. -/
theorem init_blobs (n p : Nat) :
    ∀ d ∈ (TSM.init n p).TSM_List, ∀ b, d.apdu_blob = some b →
      b.length = d.apdu_blob_allocated := by
  intro d hd b hb
  have hd0 : d = default := List.eq_of_mem_replicate hd
  subst hd0
  cases hb

/-- What the call for a last segment without more-follows hands back. -/
theorem delivered_last (c : Nat) :
    ∀ (init : List (List Nat × Bool)) (last : List Nat × Bool) (content : List Nat)
      (rs : List SegmentReceived),
      DeliveredFrom c content (init ++ [last]) rs → last.2 = false →
      ∃ rl, rs.getLast? = some rl ∧ rl.result = true ∧ rl.internal_invoke_id = c ∧
        rl.service_request_len = (content ++ all_bytes (init ++ [last])).length ∧
        (rl.service_request.getD []).take (content ++ all_bytes (init ++ [last])).length =
          content ++ all_bytes (init ++ [last]) := by
  intro init
  induction init with
  | nil =>
    intro last content rs h hl
    cases rs with
    | nil => exact h.elim
    | cons r rs1 =>
      cases rs1 with
      | cons r2 rs2 => exact h.2.elim
      | nil =>
        have h1 := h.1
        rw [if_neg (by rw [hl]; decide)] at h1
        have e : all_bytes ([] ++ [last]) = last.1 := List.append_nil _
        refine ⟨r, rfl, h1.1, h1.2.1, ?_, ?_⟩
        · rw [e]; exact h1.2.2.1
        · rw [e]; exact h1.2.2.2
  | cons seg init ih =>
    intro last content rs h hl
    cases rs with
    | nil => exact h.elim
    | cons r rs1 =>
      obtain ⟨rl, g1, g2, g3, g4, g5⟩ := ih last (content ++ seg.1) rs1 h.2 hl
      have hne : rs1 ≠ [] := by
        intro h0
        rw [h0] at g1
        cases g1
      have e : all_bytes (seg :: init ++ [last]) = seg.1 ++ all_bytes (init ++ [last]) := rfl
      refine ⟨rl, ?_, g2, g3, ?_, ?_⟩
      · cases rs1 with
        | nil => exact absurd rfl hne
        | cons a l =>
          rw [List.getLast?_cons_cons]
          exact g1
      · rw [e, ← List.append_assoc]; exact g4
      · rw [e, ← List.append_assoc]; exact g5

/-- C25, as stated, fails on its own example: for the proposed window 4 and the
six in-order segments 0 to 5 of `sample_six`, received by a server with free
slots whose APDU timeout is not below four segment timeouts, the positive acks go
out at the sequence numbers 0, 4 and 5, and none at 3: the window is complete
when the sequence number equals `InitialSequenceNumber + ActualWindowSize`. With
the timers of `Config.sample` (four segment timeouts above the APDU timeout) the
second segment of a request also sends an Abort
APPLICATION_EXCEEDED_REPLY_TIME. -/
theorem ack_pattern_window_four :
    (receive_segments Config.sample_server sample_peer (sample_segment 7 0 4 true) 0
      sample_six (TSM.init 2 1)).map (fun r => r.2.sent) =
      some [Event.segmentack sample_peer false true 7 0 4,
        Event.segmentack sample_peer false true 7 4 4,
        Event.segmentack sample_peer false true 7 5 4] ∧
    (receive_segments Config.sample sample_peer (sample_segment 7 0 4 true) 0
      [([1], true), ([2], false)] (TSM.init 2 1)).map (fun r => r.2.sent) =
      some [Event.segmentack sample_peer false true 7 0 4,
        Event.abort 7 sample_peer ABORT_REASON_APPLICATION_EXCEEDED_REPLY_TIME true,
        Event.segmentack sample_peer false true 7 1 4] := by
  decide

/-- C25, amended: the in-order segments `first :: rest` (sequence numbers from
0) of a new request of `src`, no more than `MAX_SEGMENTS_ACCEPTED` of them, with
a proposed window size `W` in 1 to 127, received by a server with a free slot
and a free peer-map entry whose APDU timeout is not below four segment timeouts.
Every call returns, and what is sent is exactly `expected_acks`: a positive
segment-ack at the sequence number 0, at every sequence number that is a
multiple of `W` and at every segment without more-follows, each carrying the
sequence number and `W`; no other ack and no abort. When the last segment has
more-follows cleared, its call returns true with the concatenated payloads. -/
theorem ack_pattern (cfg : Config) (s : TSM) (src : BACNET_ADDRESS)
    (base : BACNET_CONFIRMED_SERVICE_DATA) (first : List Nat × Bool)
    (rest : List (List Nat × Bool)) (A : Nat)
    (hlen : s.TSM_List.length ≤ 255) (hcur : s.Current_Invoke_ID < 256)
    (hnew : ∀ e ∈ s.TSM_Peer_Ids, peer_entry_matches src base.invoke_id e = false)
    (hentry : ∃ e ∈ s.TSM_Peer_Ids, e.InternalInvokeID = 0)
    (hslot : ∃ d ∈ s.TSM_List, d.InvokeID = 0)
    (hW1 : 1 ≤ base.proposed_window_number) (hW2 : base.proposed_window_number ≤ 127)
    (hwf : ∀ d ∈ s.TSM_List, ∀ b, d.apdu_blob = some b → b.length = d.apdu_blob_allocated)
    (hA : ∀ d ∈ s.TSM_List, d.apdu_blob_allocated ≤ A)
    (htime : ¬ u16 (cfg.apdu_segment_timeout * 4) > cfg.apdu_timeout)
    (hmax : cfg.MAX_SEGMENTS_ACCEPTED ≤ 255)
    (hn : 1 + rest.length ≤ cfg.MAX_SEGMENTS_ACCEPTED)
    (hfit : A + (all_bytes (first :: rest)).length < 4294967296)
    (hlen16 : (all_bytes (first :: rest)).length < 65536) :
    ∃ rs s', receive_segments cfg src base 0 (first :: rest) s = some (rs, s') ∧
      s'.sent = s.sent ++
        expected_acks src base.invoke_id base.proposed_window_number 0 (first :: rest) ∧
      (∀ init last, rest = init ++ [last] → last.2 = false →
        ∃ rl, rs.getLast? = some rl ∧ rl.result = true ∧
          rl.service_request_len = (all_bytes (first :: rest)).length ∧
          (rl.service_request.getD []).take (all_bytes (first :: rest)).length =
            all_bytes (first :: rest)) := by
  obtain ⟨c, rs, s', _, hrun, _, hsent, hrs⟩ := receive_all cfg s src base first rest A hlen hcur
    hnew hentry hslot hW1 hW2 hwf hA htime hmax hn hfit hlen16
  refine ⟨_, s', hrun, hsent, ?_⟩
  intro init last hrest hl
  rw [hrest] at hrs
  obtain ⟨rl, g1, g2, _, g4, g5⟩ := delivered_last c init last first.1 rs hrs hl
  have hne : rs ≠ [] := by
    intro h0
    rw [h0] at g1
    cases g1
  have e : all_bytes (first :: rest) = first.1 ++ all_bytes (init ++ [last]) := by
    rw [hrest]; rfl
  refine ⟨rl, ?_, g2, ?_, ?_⟩
  · cases rs with
    | nil => exact absurd rfl hne
    | cons a l =>
      rw [List.getLast?_cons_cons]
      exact g1
  · rw [e]; exact g4
  · rw [e]; exact g5

theorem ack_pattern_witness :
    (((TSM.init 2 1).TSM_List.length ≤ 255) ∧
    ((TSM.init 2 1).Current_Invoke_ID < 256) ∧
    (∀ e ∈ (TSM.init 2 1).TSM_Peer_Ids, peer_entry_matches sample_peer (sample_segment 7 0 4 true).invoke_id e = false) ∧
    (∃ e ∈ (TSM.init 2 1).TSM_Peer_Ids, e.InternalInvokeID = 0) ∧
    (∃ d ∈ (TSM.init 2 1).TSM_List, d.InvokeID = 0) ∧
    (1 ≤ (sample_segment 7 0 4 true).proposed_window_number) ∧
    ((sample_segment 7 0 4 true).proposed_window_number ≤ 127) ∧
    (∀ d ∈ (TSM.init 2 1).TSM_List, ∀ b, d.apdu_blob = some b → b.length = d.apdu_blob_allocated) ∧
    (∀ d ∈ (TSM.init 2 1).TSM_List, d.apdu_blob_allocated ≤ 0) ∧
    (¬ u16 (Config.sample_server.apdu_segment_timeout * 4) > Config.sample_server.apdu_timeout) ∧
    (Config.sample_server.MAX_SEGMENTS_ACCEPTED ≤ 255) ∧
    (1 + sample_six.tail.length ≤ Config.sample_server.MAX_SEGMENTS_ACCEPTED) ∧
    (0 + (all_bytes (([1], true) :: sample_six.tail)).length < 4294967296) ∧
    ((all_bytes (([1], true) :: sample_six.tail)).length < 65536)) ∧
    (∃ rs s', receive_segments Config.sample_server sample_peer (sample_segment 7 0 4 true) 0 (([1], true) :: sample_six.tail) (TSM.init 2 1) = some (rs, s') ∧
      s'.sent = (TSM.init 2 1).sent ++
        expected_acks sample_peer (sample_segment 7 0 4 true).invoke_id (sample_segment 7 0 4 true).proposed_window_number 0 (([1], true) :: sample_six.tail) ∧
      (∀ init last, sample_six.tail = init ++ [last] → last.2 = false →
        ∃ rl, rs.getLast? = some rl ∧ rl.result = true ∧
          rl.service_request_len = (all_bytes (([1], true) :: sample_six.tail)).length ∧
          (rl.service_request.getD []).take (all_bytes (([1], true) :: sample_six.tail)).length =
            all_bytes (([1], true) :: sample_six.tail))) :=
  ⟨⟨by decide, by decide, by decide, by decide, by decide, by decide, by decide, init_blobs 2 1, by decide, by decide, by decide, by decide, by decide, by decide⟩,
    ack_pattern Config.sample_server ((TSM.init 2 1)) sample_peer ((sample_segment 7 0 4 true)) (([1], true)) sample_six.tail 0 (by decide) (by decide) (by decide) (by decide) (by decide) (by decide) (by decide) (init_blobs 2 1) (by decide) (by decide) (by decide) (by decide) (by decide) (by decide)⟩

/-- C22, as stated, fails with the timers of `Config.sample`, where four segment
timeouts exceed the APDU timeout and `MAX_SEGMENTS_ACCEPTED` is 32: of 33
in-order segments of a request the second one puts the slot in the idle state, and
the Abort that the call for the 33rd sends is INVALID_APDU_IN_THIS_STATE; no
Abort BUFFER_OVERFLOW is sent during the whole run. -/
theorem segment_count_guard_default_timers :
    (receive_segments Config.sample sample_peer (sample_segment 7 0 4 true) 0
      (List.replicate 33 ([1], true)) (TSM.init 2 1)).map (fun r => r.2.sent.getLast?) =
      some (some (Event.abort 7 sample_peer ABORT_REASON_INVALID_APDU_IN_THIS_STATE true)) ∧
    (receive_segments Config.sample sample_peer (sample_segment 7 0 4 true) 0
      (List.replicate 33 ([1], true)) (TSM.init 2 1)).map
      (fun r => decide (Event.abort 7 sample_peer ABORT_REASON_BUFFER_OVERFLOW true ∈ r.2.sent)) =
      some false := by
  set_option maxRecDepth 100000 in decide

/-- C22, amended: the in-order segments `first :: rest` (sequence numbers from
0) of a new request of `src`, exactly `MAX_SEGMENTS_ACCEPTED` (at most 254) of
them, with a proposed window size in 1 to 127, received by a server with a free
slot and a free peer-map entry whose APDU timeout is not below four segment
timeouts. They are all accepted: only positive acks are sent, the slot `index`
bound to the request is in SegmentedRequestServer with `MAX_SEGMENTS_ACCEPTED`
segments counted and their bytes in the blob. The call for the next in-order
segment then returns false with the caller's buffer, sends the Abort
BUFFER_OVERFLOW and nothing else, and releases the slot: `InvokeID` 0, idle, no
blob; the peer-map entries bound to the internal invoke-id are cleared and the
other slots are unchanged. -/
theorem segment_count_guard (cfg : Config) (s : TSM) (src : BACNET_ADDRESS)
    (base : BACNET_CONFIRMED_SERVICE_DATA) (first : List Nat × Bool)
    (rest : List (List Nat × Bool)) (A : Nat) (p : List Nat) (more : Bool)
    (hlen : s.TSM_List.length ≤ 255) (hcur : s.Current_Invoke_ID < 256)
    (hnew : ∀ e ∈ s.TSM_Peer_Ids, peer_entry_matches src base.invoke_id e = false)
    (hentry : ∃ e ∈ s.TSM_Peer_Ids, e.InternalInvokeID = 0)
    (hslot : ∃ d ∈ s.TSM_List, d.InvokeID = 0)
    (hW1 : 1 ≤ base.proposed_window_number) (hW2 : base.proposed_window_number ≤ 127)
    (hwf : ∀ d ∈ s.TSM_List, ∀ b, d.apdu_blob = some b → b.length = d.apdu_blob_allocated)
    (hA : ∀ d ∈ s.TSM_List, d.apdu_blob_allocated ≤ A)
    (htime : ¬ u16 (cfg.apdu_segment_timeout * 4) > cfg.apdu_timeout)
    (hmax : cfg.MAX_SEGMENTS_ACCEPTED ≤ 254)
    (hn : 1 + rest.length = cfg.MAX_SEGMENTS_ACCEPTED)
    (hfit : A + (all_bytes (first :: rest)).length < 4294967296)
    (hlen16 : (all_bytes (first :: rest)).length < 65536) :
    ∃ c index rs s1 s2, c ≠ 0 ∧
      receive_segments cfg src base 0 (first :: rest) s = some (rs, s1) ∧
      s1.sent = s.sent ++
        expected_acks src base.invoke_id base.proposed_window_number 0 (first :: rest) ∧
      (∃ ix, s1.TSM_Peer_Ids.findIdx? (peer_entry_matches src base.invoke_id) = some ix ∧
        (s1.peer ix).InternalInvokeID = c) ∧
      tsm_find_invokeID_index s1 c = index ∧ index < s1.TSM_List.length ∧
      (s1.slot index).state = TSM_STATE_SEGMENTED_REQUEST_SERVER ∧
      (s1.slot index).ReceivedSegmentsCount = cfg.MAX_SEGMENTS_ACCEPTED ∧
      BlobHolds (s1.slot index) (all_bytes (first :: rest)) ∧
      tsm_set_segmented_confirmed_service_received cfg s1 src
        (segment_data base cfg.MAX_SEGMENTS_ACCEPTED more) p p.length =
        some (⟨false, c, some p, p.length⟩, s2) ∧
      s2.sent = s1.sent ++ [Event.abort base.invoke_id src ABORT_REASON_BUFFER_OVERFLOW true] ∧
      ((s2.slot index).InvokeID = 0 ∧ (s2.slot index).state = TSM_STATE_IDLE ∧
        (s2.slot index).apdu_blob = none ∧ (s2.slot index).apdu_blob_size = 0 ∧
        (s2.slot index).apdu_blob_allocated = 0) ∧
      (∀ j, j ≠ index → s2.slot j = s1.slot j) ∧
      (∀ j, s2.peer j =
        if (s1.peer j).InternalInvokeID = c then { s1.peer j with InternalInvokeID := 0 }
        else s1.peer j) := by
  obtain ⟨c, rs, s1, hc, hrun, hrec, hsent, _⟩ := receive_all cfg s src base first rest A hlen hcur
    hnew hentry hslot hW1 hW2 hwf hA htime (by omega) (by omega) hfit hlen16
  obtain ⟨s2, hcall, h1, h2, h3, h4⟩ := receive_overflow cfg src base c
    (tsm_find_invokeID_index s 0) rest.length (all_bytes (first :: rest)) A s1 p more hrec htime
    (by omega) hmax
  have hk : rest.length + 1 = cfg.MAX_SEGMENTS_ACCEPTED := by omega
  rw [hk] at hcall
  refine ⟨c, _, _, s1, s2, hc, hrun, hsent, hrec.entry, hrec.found, hrec.inside,
    hrec.request_server, ?_, hrec.blob, hcall, h1, h2, h3, h4⟩
  rw [hrec.segments]
  exact hk

theorem segment_count_guard_witness :
    (((TSM.init 2 1).TSM_List.length ≤ 255) ∧
    ((TSM.init 2 1).Current_Invoke_ID < 256) ∧
    (∀ e ∈ (TSM.init 2 1).TSM_Peer_Ids, peer_entry_matches sample_peer (sample_segment 7 0 4 true).invoke_id e = false) ∧
    (∃ e ∈ (TSM.init 2 1).TSM_Peer_Ids, e.InternalInvokeID = 0) ∧
    (∃ d ∈ (TSM.init 2 1).TSM_List, d.InvokeID = 0) ∧
    (1 ≤ (sample_segment 7 0 4 true).proposed_window_number) ∧
    ((sample_segment 7 0 4 true).proposed_window_number ≤ 127) ∧
    (∀ d ∈ (TSM.init 2 1).TSM_List, ∀ b, d.apdu_blob = some b → b.length = d.apdu_blob_allocated) ∧
    (∀ d ∈ (TSM.init 2 1).TSM_List, d.apdu_blob_allocated ≤ 0) ∧
    (¬ u16 (Config.sample_server.apdu_segment_timeout * 4) > Config.sample_server.apdu_timeout) ∧
    (Config.sample_server.MAX_SEGMENTS_ACCEPTED ≤ 254) ∧
    (1 + (List.replicate 31 ([2], true)).length = Config.sample_server.MAX_SEGMENTS_ACCEPTED) ∧
    (0 + (all_bytes (([1], true) :: (List.replicate 31 ([2], true)))).length < 4294967296) ∧
    ((all_bytes (([1], true) :: (List.replicate 31 ([2], true)))).length < 65536)) ∧
    (∃ c index rs s1 s2, c ≠ 0 ∧
      receive_segments Config.sample_server sample_peer (sample_segment 7 0 4 true) 0 (([1], true) :: (List.replicate 31 ([2], true))) (TSM.init 2 1) = some (rs, s1) ∧
      s1.sent = (TSM.init 2 1).sent ++
        expected_acks sample_peer (sample_segment 7 0 4 true).invoke_id (sample_segment 7 0 4 true).proposed_window_number 0 (([1], true) :: (List.replicate 31 ([2], true))) ∧
      (∃ ix, s1.TSM_Peer_Ids.findIdx? (peer_entry_matches sample_peer (sample_segment 7 0 4 true).invoke_id) = some ix ∧
        (s1.peer ix).InternalInvokeID = c) ∧
      tsm_find_invokeID_index s1 c = index ∧ index < s1.TSM_List.length ∧
      (s1.slot index).state = TSM_STATE_SEGMENTED_REQUEST_SERVER ∧
      (s1.slot index).ReceivedSegmentsCount = Config.sample_server.MAX_SEGMENTS_ACCEPTED ∧
      BlobHolds (s1.slot index) (all_bytes (([1], true) :: (List.replicate 31 ([2], true)))) ∧
      tsm_set_segmented_confirmed_service_received Config.sample_server s1 sample_peer
        (segment_data (sample_segment 7 0 4 true) Config.sample_server.MAX_SEGMENTS_ACCEPTED true) [3] [3].length =
        some (⟨false, c, some [3], [3].length⟩, s2) ∧
      s2.sent = s1.sent ++ [Event.abort (sample_segment 7 0 4 true).invoke_id sample_peer ABORT_REASON_BUFFER_OVERFLOW true] ∧
      ((s2.slot index).InvokeID = 0 ∧ (s2.slot index).state = TSM_STATE_IDLE ∧
        (s2.slot index).apdu_blob = none ∧ (s2.slot index).apdu_blob_size = 0 ∧
        (s2.slot index).apdu_blob_allocated = 0) ∧
      (∀ j, j ≠ index → s2.slot j = s1.slot j) ∧
      (∀ j, s2.peer j =
        if (s1.peer j).InternalInvokeID = c then { s1.peer j with InternalInvokeID := 0 }
        else s1.peer j)) :=
  ⟨⟨by decide, by decide, by decide, by decide, by decide, by decide, by decide, init_blobs 2 1, by decide, by decide, by decide, by decide, by decide, by decide⟩,
    segment_count_guard Config.sample_server ((TSM.init 2 1)) sample_peer ((sample_segment 7 0 4 true)) (([1], true)) ((List.replicate 31 ([2], true))) 0 ([3]) true (by decide) (by decide) (by decide) (by decide) (by decide) (by decide) (by decide) (init_blobs 2 1) (by decide) (by decide) (by decide) (by decide) (by decide) (by decide)⟩

theorem length_with_more_follows : ∀ ps : List (List Nat),
    (with_more_follows ps).length = ps.length
  | [] => rfl
  | [_] => rfl
  | _ :: q :: rest => by
    show (with_more_follows (q :: rest)).length + 1 = _
    rw [length_with_more_follows (q :: rest)]
    rfl

theorem all_bytes_with_more_follows : ∀ ps : List (List Nat),
    all_bytes (with_more_follows ps) = ps.flatten
  | [] => rfl
  | [p] => by
    show p ++ [] = _
    simp
  | p :: q :: rest => by
    show p ++ all_bytes (with_more_follows (q :: rest)) = _
    rw [all_bytes_with_more_follows (q :: rest)]
    simp

/-- What the calls hand back for the segments after the first of a request with
more-follows set on all but the last: false on each but the last, true and the
concatenated payloads on the last. -/
theorem delivered_with_more_follows (c : Nat) :
    ∀ (qs : List (List Nat)) (q content : List Nat) (rs : List SegmentReceived),
      DeliveredFrom c content (with_more_follows (q :: qs)) rs →
      rs.map SegmentReceived.result = List.replicate qs.length false ++ [true] ∧
      ∃ rl, rs.getLast? = some rl ∧ rl.result = true ∧
        rl.service_request_len = (content ++ (q :: qs).flatten).length ∧
        (rl.service_request.getD []).take (content ++ (q :: qs).flatten).length =
          content ++ (q :: qs).flatten := by
  intro qs
  induction qs with
  | nil =>
    intro q content rs h
    cases rs with
    | nil => exact h.elim
    | cons r rs1 =>
      cases rs1 with
      | cons r2 rs2 => exact h.2.elim
      | nil =>
        have h1 : r.result = true ∧ r.internal_invoke_id = c ∧
            r.service_request_len = (content ++ q).length ∧
            (r.service_request.getD []).take (content ++ q).length = content ++ q := h.1
        have e : [q].flatten = q := by simp
        refine ⟨?_, r, rfl, h1.1, ?_, ?_⟩
        · show [r.result] = [true]
          rw [h1.1]
        · rw [e]; exact h1.2.2.1
        · rw [e]; exact h1.2.2.2
  | cons q2 qs ih =>
    intro q content rs h
    cases rs with
    | nil => exact h.elim
    | cons r rs1 =>
      have h1 : r = ⟨false, c, some q, q.length⟩ := h.1
      obtain ⟨g0, rl, g1, g2, g4, g5⟩ := ih q2 (content ++ q) rs1 h.2
      have e : (q :: q2 :: qs).flatten = q ++ (q2 :: qs).flatten := List.flatten_cons
      refine ⟨?_, rl, ?_, g2, ?_, ?_⟩
      · show r.result :: rs1.map SegmentReceived.result = _
        rw [g0, h1]
        rfl
      · cases rs1 with
        | nil => cases g1
        | cons a l =>
          rw [List.getLast?_cons_cons]
          exact g1
      · rw [e, ← List.append_assoc]; exact g4
      · rw [e, ← List.append_assoc]; exact g5

/-- C1, as stated, fails for a request of one segment and under the timers of
`Config.sample`. The single segment 0 of a request, with more-follows cleared,
handed to a server with free slots: the call returns false. The in-order
segments 0, 1 and 2 of a request, more-follows cleared on the last, handed to a
server whose four segment timeouts exceed the APDU timeout: the three calls
return false. -/
theorem reassembly_not_delivered :
    (receive_segments Config.sample_server sample_peer (sample_segment 7 0 4 true) 0
      (with_more_follows [[1, 2, 3]]) (TSM.init 2 1)).map
      (fun r => r.1.map SegmentReceived.result) = some [false] ∧
    (receive_segments Config.sample sample_peer (sample_segment 7 0 4 true) 0
      (with_more_follows [[1], [2], [3]]) (TSM.init 2 1)).map
      (fun r => r.1.map SegmentReceived.result) = some [false, false, false] := by
  decide

/-- C1, amended: the in-order segments 0 to n - 1 of a new request of `src`
with the payloads `ps`, where 2 ≤ n ≤ `MAX_SEGMENTS_ACCEPTED`, all with
more-follows set except the last, with a proposed window size in 1 to 127,
handed to a server with a free slot and a free peer-map entry whose APDU timeout
is not below four segment timeouts. Every call returns; all calls but the last
return false; the call for the last segment returns true and hands back a buffer
that starts with the concatenation of the payloads, with the sum of the payload
lengths as its length. -/
theorem reassembly (cfg : Config) (s : TSM) (src : BACNET_ADDRESS)
    (base : BACNET_CONFIRMED_SERVICE_DATA) (ps : List (List Nat)) (A : Nat)
    (hlen : s.TSM_List.length ≤ 255) (hcur : s.Current_Invoke_ID < 256)
    (hnew : ∀ e ∈ s.TSM_Peer_Ids, peer_entry_matches src base.invoke_id e = false)
    (hentry : ∃ e ∈ s.TSM_Peer_Ids, e.InternalInvokeID = 0)
    (hslot : ∃ d ∈ s.TSM_List, d.InvokeID = 0)
    (hW1 : 1 ≤ base.proposed_window_number) (hW2 : base.proposed_window_number ≤ 127)
    (hwf : ∀ d ∈ s.TSM_List, ∀ b, d.apdu_blob = some b → b.length = d.apdu_blob_allocated)
    (hA : ∀ d ∈ s.TSM_List, d.apdu_blob_allocated ≤ A)
    (htime : ¬ u16 (cfg.apdu_segment_timeout * 4) > cfg.apdu_timeout)
    (hmax : cfg.MAX_SEGMENTS_ACCEPTED ≤ 255)
    (hn2 : 2 ≤ ps.length) (hn : ps.length ≤ cfg.MAX_SEGMENTS_ACCEPTED)
    (hfit : A + (ps.map List.length).sum < 4294967296)
    (hlen16 : (ps.map List.length).sum < 65536) :
    ∃ rs s', receive_segments cfg src base 0 (with_more_follows ps) s = some (rs, s') ∧
      rs.map SegmentReceived.result = List.replicate (ps.length - 1) false ++ [true] ∧
      ∃ rl, rs.getLast? = some rl ∧ rl.result = true ∧
        rl.service_request_len = (ps.map List.length).sum ∧
        (rl.service_request.getD []).take (ps.map List.length).sum = ps.flatten := by
  rw [← List.length_flatten] at hfit hlen16 ⊢
  cases ps with
  | nil => simp at hn2
  | cons p ps1 =>
    cases ps1 with
    | nil => simp at hn2
    | cons q qs =>
      have hb : all_bytes ((p, true) :: with_more_follows (q :: qs)) =
          (p :: q :: qs).flatten := all_bytes_with_more_follows (p :: q :: qs)
      have hl := length_with_more_follows (q :: qs)
      obtain ⟨c, rs, s', _, hrun, _, _, hrs⟩ := receive_all cfg s src base (p, true)
        (with_more_follows (q :: qs)) A hlen hcur hnew hentry hslot hW1 hW2 hwf hA htime hmax
        (by rw [hl]; simp only [List.length_cons] at hn ⊢; omega)
        (by rw [hb]; exact hfit) (by rw [hb]; exact hlen16)
      obtain ⟨g0, rl, g1, hlast, g4, g5⟩ := delivered_with_more_follows c qs q p rs hrs
      have e : (p :: q :: qs).flatten = p ++ (q :: qs).flatten := List.flatten_cons
      refine ⟨_, s', hrun, ?_, rl, ?_, hlast, ?_, ?_⟩
      · show false :: rs.map SegmentReceived.result = _
        rw [g0]
        rfl
      · cases rs with
        | nil => cases g1
        | cons a l =>
          rw [List.getLast?_cons_cons]
          exact g1
      · rw [e]; exact g4
      · rw [e]; exact g5

theorem reassembly_witness :
    (((TSM.init 2 1).TSM_List.length ≤ 255) ∧
    ((TSM.init 2 1).Current_Invoke_ID < 256) ∧
    (∀ e ∈ (TSM.init 2 1).TSM_Peer_Ids, peer_entry_matches sample_peer (sample_segment 7 0 4 true).invoke_id e = false) ∧
    (∃ e ∈ (TSM.init 2 1).TSM_Peer_Ids, e.InternalInvokeID = 0) ∧
    (∃ d ∈ (TSM.init 2 1).TSM_List, d.InvokeID = 0) ∧
    (1 ≤ (sample_segment 7 0 4 true).proposed_window_number) ∧
    ((sample_segment 7 0 4 true).proposed_window_number ≤ 127) ∧
    (∀ d ∈ (TSM.init 2 1).TSM_List, ∀ b, d.apdu_blob = some b → b.length = d.apdu_blob_allocated) ∧
    (∀ d ∈ (TSM.init 2 1).TSM_List, d.apdu_blob_allocated ≤ 0) ∧
    (¬ u16 (Config.sample_server.apdu_segment_timeout * 4) > Config.sample_server.apdu_timeout) ∧
    (Config.sample_server.MAX_SEGMENTS_ACCEPTED ≤ 255) ∧
    (2 ≤ [[1, 2], [3], [4, 5, 6]].length) ∧
    ([[1, 2], [3], [4, 5, 6]].length ≤ Config.sample_server.MAX_SEGMENTS_ACCEPTED) ∧
    (0 + ([[1, 2], [3], [4, 5, 6]].map List.length).sum < 4294967296) ∧
    (([[1, 2], [3], [4, 5, 6]].map List.length).sum < 65536)) ∧
    (∃ rs s', receive_segments Config.sample_server sample_peer (sample_segment 7 0 4 true) 0 (with_more_follows [[1, 2], [3], [4, 5, 6]]) (TSM.init 2 1) = some (rs, s') ∧
      rs.map SegmentReceived.result = List.replicate ([[1, 2], [3], [4, 5, 6]].length - 1) false ++ [true] ∧
      ∃ rl, rs.getLast? = some rl ∧ rl.result = true ∧
        rl.service_request_len = ([[1, 2], [3], [4, 5, 6]].map List.length).sum ∧
        (rl.service_request.getD []).take ([[1, 2], [3], [4, 5, 6]].map List.length).sum = [[1, 2], [3], [4, 5, 6]].flatten) :=
  ⟨⟨by decide, by decide, by decide, by decide, by decide, by decide, by decide, init_blobs 2 1, by decide, by decide, by decide, by decide, by decide, by decide, by decide⟩,
    reassembly Config.sample_server ((TSM.init 2 1)) sample_peer ((sample_segment 7 0 4 true)) ([[1, 2], [3], [4, 5, 6]]) 0 (by decide) (by decide) (by decide) (by decide) (by decide) (by decide) (by decide) (init_blobs 2 1) (by decide) (by decide) (by decide) (by decide) (by decide) (by decide) (by decide)⟩

/-! ## Release by the timer -/

theorem timer_slot_idle (cfg : Config) (ms : Nat) (s : TSM) (i : Nat)
    (hst : (s.slot i).state = TSM_STATE_IDLE) : tsm_timer_slot cfg ms s i = s := by
  unfold tsm_timer_slot tsm_timer_await_confirmation
  simp only [hst]
  rw [if_neg (by decide)]
  unfold tsm_timer_segmented_response
  rw [if_neg (by rw [hst]; decide)]
  unfold tsm_timer_segmented_request
  rw [if_neg (by rw [hst]; decide)]

/-- The loop body of `tsm_timer_milliseconds` on a slot in
SegmentedRequestServer. -/
theorem timer_slot_request (cfg : Config) (ms : Nat) (s : TSM) (i : Nat)
    (hi : i < s.TSM_List.length)
    (hst : (s.slot i).state = TSM_STATE_SEGMENTED_REQUEST_SERVER) :
    tsm_timer_slot cfg ms s i =
      if (s.slot i).SegmentTimer > ms then
        s.setSlot i { s.slot i with SegmentTimer := (s.slot i).SegmentTimer - ms }
      else
        (tsm_clear_peer_id s (s.slot i).InvokeID).setSlot i
          { free_blob { s.slot i with SegmentTimer := 0 } with
            InvokeID := 0, state := TSM_STATE_IDLE } := by
  unfold tsm_timer_slot
  have e1 : tsm_timer_await_confirmation cfg ms s i = s := by
    unfold tsm_timer_await_confirmation
    rw [if_neg (by rw [hst]; decide)]
  have e2 : tsm_timer_segmented_response cfg ms s i = s := by
    unfold tsm_timer_segmented_response
    rw [if_neg (by rw [hst]; decide)]
  simp only [e1, e2]
  unfold tsm_timer_segmented_request
  rw [if_pos hst]
  lift_lets
  extract_lets p0 p1 t1 t2 t3
  intro src0
  by_cases hgt : (s.slot i).SegmentTimer > ms
  · have hne : ¬ p1.SegmentTimer = 0 := by
      show ¬ (if (s.slot i).SegmentTimer > ms then (s.slot i).SegmentTimer - ms else 0) = 0
      rw [if_pos hgt]; omega
    rw [if_neg hne, if_pos hgt]
    show s.setSlot i { s.slot i with SegmentTimer :=
      if (s.slot i).SegmentTimer > ms then (s.slot i).SegmentTimer - ms else 0 } = _
    rw [if_pos hgt]
  · have he : p1.SegmentTimer = 0 := by
      show (if (s.slot i).SegmentTimer > ms then (s.slot i).SegmentTimer - ms else 0) = 0
      rw [if_neg hgt]
    have hp1 : p1 = { s.slot i with SegmentTimer := 0 } := by
      show { s.slot i with SegmentTimer :=
        if (s.slot i).SegmentTimer > ms then (s.slot i).SegmentTimer - ms else 0 } = _
      rw [if_neg hgt]
    rw [if_pos he, if_neg hgt]
    have s2 : t2.slot i = p1 := slot_setSlot_self s i p1 hi
    have e3 : t3 = (tsm_clear_peer_id s p1.InvokeID).setSlot i (free_blob p1) := by
      show t2.setSlot i (free_blob (t2.slot i)) = _
      rw [s2]
      exact setSlot_setSlot (tsm_clear_peer_id s p1.InvokeID) i _ _
    have s3 : t3.slot i = free_blob p1 := by
      rw [e3]
      exact slot_setSlot_self (tsm_clear_peer_id s p1.InvokeID) i _ hi
    show t3.setSlot i { t3.slot i with InvokeID := 0, state := TSM_STATE_IDLE } = _
    rw [s3, e3, setSlot_setSlot, hp1]

/-- An invoke-id that no slot holds. -/
theorem exists_fresh_id (s : TSM) : ∃ id, id ≠ 0 ∧ ∀ k, (s.slot k).InvokeID ≠ id := by
  refine ⟨(s.TSM_List.map BACNET_TSM_DATA.InvokeID).sum + 1, by omega, ?_⟩
  intro k
  by_cases hk : k < s.TSM_List.length
  · have hm : (s.slot k).InvokeID ∈ s.TSM_List.map BACNET_TSM_DATA.InvokeID :=
      List.mem_map_of_mem _ (slot_mem s hk)
    have := List.single_le_sum (by intro x _; exact Nat.zero_le x) _ hm
    omega
  · rw [slot_of_not_lt s hk]
    show (0 : Nat) ≠ _
    omega

/-- One call of `tsm_timer_milliseconds` seen from the slot `i`: the loop body
for `i` runs on a state whose slot `i` is the one at entry, and the later
iterations leave the slot alone. -/
theorem timer_at_slot (cfg : Config) (s : TSM) (ms i : Nat) (hi : i < s.TSM_List.length) :
    ∃ s1, s1.TSM_List.length = s.TSM_List.length ∧ s1.slot i = s.slot i ∧
      (tsm_timer_milliseconds cfg s ms).slot i = (tsm_timer_slot cfg ms s1 i).slot i := by
  obtain ⟨id, hid, hfresh⟩ := exists_fresh_id s
  obtain ⟨s1, a, b, c⟩ := foldl_timer_split cfg ms i id hid (List.range (MAX_TSM_TRANSACTIONS s)) s
    (List.nodup_range _) (List.mem_range.mpr hi) (fun k _ => hfresh k) (by
      intro s1 h1 h2 k hk
      have h3 := timer_slot_other cfg ms s1 k id i (fun h => hk h.symm) hid
        (by rw [h1.2.2.1]; exact hfresh i)
      rw [h3.2.2.1]
      exact h2 k hk)
  exact ⟨s1, a.1, a.2.2.1, c.2.2.1⟩

/-- The loop body of `tsm_timer_milliseconds` changes a peer-map entry only when
the slot is in SegmentedRequestServer and the entry is bound to its
invoke-id. -/
theorem timer_slot_peer (cfg : Config) (ms : Nat) (s : TSM) (j m : Nat) :
    (tsm_timer_slot cfg ms s j).peer m = s.peer m ∨
    ((s.slot j).state = TSM_STATE_SEGMENTED_REQUEST_SERVER ∧
      (s.peer m).InternalInvokeID = (s.slot j).InvokeID) := by
  by_cases hj : j < s.TSM_List.length
  · cases hst : (s.slot j).state with
    | TSM_STATE_IDLE =>
      rw [timer_slot_idle cfg ms s j hst]
      exact Or.inl rfl
    | TSM_STATE_AWAIT_CONFIRMATION =>
      rw [timer_slot_await cfg ms s j hj hst]
      left
      split_ifs <;> rfl
    | TSM_STATE_SEGMENTED_RESPONSE_SERVER =>
      rw [timer_slot_response cfg ms s j hj hst]
      exact Or.inl rfl
    | TSM_STATE_SEGMENTED_REQUEST_SERVER =>
      rw [timer_slot_request cfg ms s j hj hst]
      by_cases hgt : (s.slot j).SegmentTimer > ms
      · rw [if_pos hgt]
        exact Or.inl rfl
      · rw [if_neg hgt]
        by_cases hm : (s.peer m).InternalInvokeID = (s.slot j).InvokeID
        · exact Or.inr ⟨rfl, hm⟩
        · left
          show (tsm_clear_peer_id s (s.slot j).InvokeID).peer m = _
          rw [peer_clear, if_neg hm]
  · rw [timer_slot_idle cfg ms s j (by rw [slot_of_not_lt s hj]; rfl)]
    exact Or.inl rfl

theorem foldl_timer_peers_other (cfg : Config) (ms i id : Nat) (hid : id ≠ 0) :
    ∀ (js : List Nat) (t : TSM), (∀ j ∈ js, j ≠ i) → OnlyAt i id t →
      ∀ m, (t.peer m).InternalInvokeID = id →
        (js.foldl (tsm_timer_slot cfg ms) t).peer m = t.peer m := by
  intro js
  induction js with
  | nil => intro t _ _ m _; rfl
  | cons j rest ih =>
    intro t hjs ht m hm
    have hj : j ≠ i := hjs j (List.mem_cons_self j rest)
    have h1 := timer_slot_other cfg ms t i id j hj hid (ht j hj)
    have h2 : (tsm_timer_slot cfg ms t j).peer m = t.peer m := by
      rcases timer_slot_peer cfg ms t j m with h | ⟨_, h⟩
      · exact h
      · exact absurd (h.symm.trans hm) (ht j hj)
    show (rest.foldl (tsm_timer_slot cfg ms) (tsm_timer_slot cfg ms t j)).peer m = _
    rw [ih _ (fun k hk => hjs k (List.mem_cons_of_mem j hk)) (ht.step h1) m (by rw [h2]; exact hm),
      h2]

/-- One call of `tsm_timer_milliseconds` leaves the peer-map entries bound to
the invoke-id of a slot in SegmentedResponseServer alone, when no other slot
holds the invoke-id. -/
theorem timer_response_peers (cfg : Config) (s : TSM) (ms i id : Nat)
    (hi : i < s.TSM_List.length) (hid : id ≠ 0) (honly : OnlyAt i id s)
    (hst : (s.slot i).state = TSM_STATE_SEGMENTED_RESPONSE_SERVER) :
    ∀ m, (s.peer m).InternalInvokeID = id →
      (tsm_timer_milliseconds cfg s ms).peer m = s.peer m := by
  intro m hm
  obtain ⟨pre, post, hsplit⟩ := List.append_of_mem (List.mem_range.mpr hi)
  have hnd : (pre ++ i :: post).Nodup := hsplit ▸ List.nodup_range _
  have hpre : ∀ j ∈ pre, j ≠ i := by
    intro j hj h
    subst h
    exact (List.nodup_append.mp hnd).2.2 hj (List.mem_cons_self _ _)
  have hpost : ∀ j ∈ post, j ≠ i := by
    intro j hj h
    subst h
    exact (List.nodup_cons.mp (List.nodup_append.mp hnd).2.1).1 hj
  unfold tsm_timer_milliseconds
  rw [show List.range (MAX_TSM_TRANSACTIONS s) = pre ++ i :: post from hsplit,
    List.foldl_append, List.foldl_cons]
  have o1 := foldl_timer_other cfg ms i id hid pre s hpre honly
  have p1 := foldl_timer_peers_other cfg ms i id hid pre s hpre honly m hm
  have a1 : OnlyAt i id (pre.foldl (tsm_timer_slot cfg ms) s) := honly.step o1
  have e2 := timer_slot_response cfg ms (pre.foldl (tsm_timer_slot cfg ms) s) i
    (by rw [o1.1]; exact hi) (by rw [o1.2.2.1]; exact hst)
  have a2 : OnlyAt i id (tsm_timer_slot cfg ms (pre.foldl (tsm_timer_slot cfg ms) s) i) := by
    intro k hk
    rw [e2]
    show ((TSM.setSlot _ i _).slot k).InvokeID ≠ id
    rw [slot_setSlot_ne _ i k _ hk]
    exact a1 k hk
  have p2 : (tsm_timer_slot cfg ms (pre.foldl (tsm_timer_slot cfg ms) s) i).peer m =
      s.peer m := by
    rw [e2]
    exact p1
  rw [foldl_timer_peers_other cfg ms i id hid post _ hpost a2 m (by rw [p2]; exact hm), p2]

/-- C31, as stated, fails for SegmentedResponseServer: the slot 0 of
`sample_six_segments` holds the invoke-id 1 and a response of 30 bytes, bound to
the peer-map entry 0; after two expiries its retry count is 1, and the third
expiry moves it to Idle with the invoke-id 1, the response of 30 bytes and the
peer-map entry all still in place. -/
theorem timer_expiry_keeps_failed_response :
    ((run_ticks Config.sample sample_six_segments [2000, 2000]).slot 0).state =
      TSM_STATE_SEGMENTED_RESPONSE_SERVER ∧
    ((tsm_timer_milliseconds Config.sample
      (run_ticks Config.sample sample_six_segments [2000, 2000]) 2000).slot 0).state =
      TSM_STATE_IDLE ∧
    ((tsm_timer_milliseconds Config.sample
      (run_ticks Config.sample sample_six_segments [2000, 2000]) 2000).slot 0).InvokeID = 1 ∧
    ((tsm_timer_milliseconds Config.sample
      (run_ticks Config.sample sample_six_segments [2000, 2000]) 2000).slot 0).apdu_len = 30 ∧
    ((tsm_timer_milliseconds Config.sample
      (run_ticks Config.sample sample_six_segments [2000, 2000]) 2000).slot 0).apdu =
      some (List.range 30) ∧
    ((tsm_timer_milliseconds Config.sample
      (run_ticks Config.sample sample_six_segments [2000, 2000]) 2000).peer 0).InternalInvokeID =
      1 := by
  decide

/-- C31, amended: a call of `tsm_timer_milliseconds` in which the segment timer
of the slot `i` expires. A slot in SegmentedRequestServer is released: it is idle
with `InvokeID` 0, its reassembly and outgoing buffers are freed (`free_blob`),
and no peer-map entry is bound to the invoke-id it held. A slot in
SegmentedResponseServer whose retry count is 1 becomes idle, and nothing else
changes but its retry count and segment timer: it keeps its `InvokeID` and its
buffers, and (when no other slot holds the invoke-id) the peer-map entries bound
to it stay as they are. -/
theorem timer_expiry_release (cfg : Config) (s : TSM) (ms i : Nat)
    (hi : i < s.TSM_List.length) (hexp : (s.slot i).SegmentTimer ≤ ms) :
    ((s.slot i).state = TSM_STATE_SEGMENTED_REQUEST_SERVER →
      (tsm_timer_milliseconds cfg s ms).slot i =
        { free_blob { s.slot i with SegmentTimer := 0 } with
          InvokeID := 0, state := TSM_STATE_IDLE } ∧
      ((s.slot i).InvokeID ≠ 0 →
        ∀ j, ((tsm_timer_milliseconds cfg s ms).peer j).InternalInvokeID ≠
          (s.slot i).InvokeID)) ∧
    ((s.slot i).state = TSM_STATE_SEGMENTED_RESPONSE_SERVER →
      (s.slot i).SegmentRetryCount = 1 →
      (tsm_timer_milliseconds cfg s ms).slot i =
        { s.slot i with
          SegmentRetryCount := 0
          SegmentTimer := cfg.apdu_segment_timeout
          state := TSM_STATE_IDLE } ∧
      ((s.slot i).InvokeID ≠ 0 →
        (∀ k, k < s.TSM_List.length → k ≠ i → (s.slot k).InvokeID ≠ (s.slot i).InvokeID) →
        ∀ m, (s.peer m).InternalInvokeID = (s.slot i).InvokeID →
          (tsm_timer_milliseconds cfg s ms).peer m = s.peer m)) := by
  obtain ⟨s1, hl, hs, hfin⟩ := timer_at_slot cfg s ms i hi
  have hi1 : i < s1.TSM_List.length := by rw [hl]; exact hi
  have hngt : ¬ (s1.slot i).SegmentTimer > ms := by rw [hs]; exact Nat.not_lt.mpr hexp
  refine ⟨?_, ?_⟩
  · intro hst
    have hslot : (tsm_timer_milliseconds cfg s ms).slot i =
        { free_blob { s.slot i with SegmentTimer := 0 } with
          InvokeID := 0, state := TSM_STATE_IDLE } := by
      rw [hfin, timer_slot_request cfg ms s1 i hi1 (by rw [hs]; exact hst), if_neg hngt]
      rw [slot_setSlot_self (tsm_clear_peer_id s1 (s1.slot i).InvokeID) i _ hi1, hs]
    refine ⟨hslot, ?_⟩
    intro hne j
    rcases (relP_timer cfg s ms).2 i with h | h
    · rw [hslot] at h
      exact absurd h.symm hne
    · by_cases h0 : ((tsm_timer_milliseconds cfg s ms).peer j).InternalInvokeID = 0
      · rw [h0]; exact fun e => hne e.symm
      · exact h j h0
  · intro hst hcnt
    refine ⟨?_, ?_⟩
    · rw [hfin, timer_slot_response cfg ms s1 i hi1 (by rw [hs]; exact hst)]
      show (s1.setSlot i _).slot i = _
      rw [slot_setSlot_self _ i _ hi1, hs]
      unfold response_tick
      rw [if_neg (Nat.not_lt.mpr hexp), hcnt, if_neg (by decide)]
      rfl
    · intro hne honly
      exact timer_response_peers cfg s ms i _ hi hne
        (onlyAt_of_bounded s i _ hne honly) hst

theorem timer_expiry_release_witness :
    ((0 < sample_receiving.TSM_List.length) ∧
    ((sample_receiving.slot 0).SegmentTimer ≤ 8000)) ∧
    (((sample_receiving.slot 0).state = TSM_STATE_SEGMENTED_REQUEST_SERVER →
      (tsm_timer_milliseconds Config.sample sample_receiving 8000).slot 0 =
        { free_blob { sample_receiving.slot 0 with SegmentTimer := 0 } with
          InvokeID := 0, state := TSM_STATE_IDLE } ∧
      ((sample_receiving.slot 0).InvokeID ≠ 0 →
        ∀ j, ((tsm_timer_milliseconds Config.sample sample_receiving 8000).peer j).InternalInvokeID ≠
          (sample_receiving.slot 0).InvokeID)) ∧
    ((sample_receiving.slot 0).state = TSM_STATE_SEGMENTED_RESPONSE_SERVER →
      (sample_receiving.slot 0).SegmentRetryCount = 1 →
      (tsm_timer_milliseconds Config.sample sample_receiving 8000).slot 0 =
        { sample_receiving.slot 0 with
          SegmentRetryCount := 0
          SegmentTimer := Config.sample.apdu_segment_timeout
          state := TSM_STATE_IDLE } ∧
      ((sample_receiving.slot 0).InvokeID ≠ 0 →
        (∀ k, k < sample_receiving.TSM_List.length → k ≠ 0 → (sample_receiving.slot k).InvokeID ≠ (sample_receiving.slot 0).InvokeID) →
        ∀ m, (sample_receiving.peer m).InternalInvokeID = (sample_receiving.slot 0).InvokeID →
          (tsm_timer_milliseconds Config.sample sample_receiving 8000).peer m = sample_receiving.peer m))) :=
  ⟨⟨by decide, by decide⟩,
    timer_expiry_release Config.sample sample_receiving 8000 0 (by decide) (by decide)⟩

/-! ## Request senders -/

/-- A successful allocation: a slot was free, no slot held the id, and the first
free slot was claimed. -/
theorem alloc_nonzero (cfg : Config) (s s1 : TSM) (c : Nat)
    (hlen : s.TSM_List.length ≤ 255) (hcur : s.Current_Invoke_ID < 256)
    (halloc : tsm_next_free_invokeID cfg s = some (c, s1)) (hc : c ≠ 0) :
    held s 0 ∧ ¬ held s c ∧ s1 = claim_slot cfg s c := by
  by_cases h0 : held s 0
  · obtain ⟨k, _, _, hk, heq⟩ := next_free_spec cfg s hlen hcur h0
    rw [heq] at halloc
    injection halloc with h1
    injection h1 with h2 h3
    rw [h2] at hk h3
    exact ⟨h0, hk, h3.symm⟩
  · have hav : tsm_transaction_available s = false := by
      rw [Bool.eq_false_iff]; exact fun h => h0 ((available_iff s).mp h)
    have e : tsm_next_free_invokeID cfg s = some (0, s) := by
      simp [tsm_next_free_invokeID, hav]
    rw [e] at halloc
    injection halloc with h1
    injection h1 with h2 _
    exact absurd h2.symm hc

/-- The allocation always returns on a table of at most 255 slots. -/
theorem alloc_returns (cfg : Config) (s : TSM)
    (hlen : s.TSM_List.length ≤ 255) (hcur : s.Current_Invoke_ID < 256) :
    ∃ c s1, tsm_next_free_invokeID cfg s = some (c, s1) ∧ (c = 0 → s1 = s) := by
  by_cases h0 : held s 0
  · obtain ⟨k, _, _, hk, heq⟩ := next_free_spec cfg s hlen hcur h0
    refine ⟨_, _, heq, ?_⟩
    intro h
    rw [h] at hk
    exact absurd h0 hk
  · have hav : tsm_transaction_available s = false := by
      rw [Bool.eq_false_iff]; exact fun h => h0 ((available_iff s).mp h)
    exact ⟨0, s, by simp [tsm_next_free_invokeID, hav], fun _ => rfl⟩

/-- The slot of a freshly allocated invoke-id. -/
theorem alloc_slot (cfg : Config) (s s1 : TSM) (c : Nat)
    (hlen : s.TSM_List.length ≤ 255) (hcur : s.Current_Invoke_ID < 256)
    (halloc : tsm_next_free_invokeID cfg s = some (c, s1)) (hc : c ≠ 0) :
    ∃ i, i < s.TSM_List.length ∧ s1.TSM_List.length = s.TSM_List.length ∧
      tsm_find_invokeID_index s1 c = i ∧ (s.slot i).InvokeID = 0 ∧
      s1.slot i = { s.slot i with
        InvokeID := c, state := TSM_STATE_IDLE, RequestTimer := cfg.apdu_timeout } ∧
      (∀ j, j ≠ i → s1.slot j = s.slot j) ∧ (∀ j, (s.slot j).InvokeID ≠ c) := by
  obtain ⟨h0, hnot, he⟩ := alloc_nonzero cfg s s1 c hlen hcur halloc hc
  obtain ⟨hi, hi0, _⟩ := find_invokeID_spec s 0 hlen h0
  have hne : ∀ j, (s.slot j).InvokeID ≠ c := by
    intro j hj
    by_cases hl : j < s.TSM_List.length
    · exact hnot ((held_iff_slot s c).mpr ⟨j, hl, hj⟩)
    · rw [slot_of_not_lt s hl] at hj
      exact hc hj.symm
  subst he
  have hself := claim_slot_self cfg s c hi
  have hother : ∀ j, j ≠ tsm_find_invokeID_index s 0 → (claim_slot cfg s c).slot j = s.slot j :=
    fun j hj => claim_slot_ne cfg s c j hj
  refine ⟨tsm_find_invokeID_index s 0, hi, claim_slot_length cfg s c, ?_, hi0, hself, hother, hne⟩
  apply find_invokeID_unique _ c _ (by rw [claim_slot_length]; exact hlen)
    (by rw [claim_slot_length]; exact hi)
  · rw [hself]
  · intro j hj
    rw [hother j hj]
    exact hne j

/-- The transaction of a freshly allocated invoke-id after
`tsm_set_confirmed_unsegmented_transaction` with a non-empty APDU. -/
theorem alloc_set (cfg : Config) (s s1 : TSM) (c : Nat) (dest : BACNET_ADDRESS)
    (npdu : BACNET_NPDU_DATA) (apdu : List Nat) (n : Nat)
    (hlen : s.TSM_List.length ≤ 255) (hcur : s.Current_Invoke_ID < 256)
    (halloc : tsm_next_free_invokeID cfg s = some (c, s1)) (hc : c ≠ 0) (hn : 0 < n) :
    ∃ i, i < s.TSM_List.length ∧ (s.slot i).InvokeID = 0 ∧
      ((tsm_set_confirmed_unsegmented_transaction cfg s1 c dest npdu apdu n).slot i).InvokeID =
        c ∧
      ((tsm_set_confirmed_unsegmented_transaction cfg s1 c dest npdu apdu n).slot i).state =
        TSM_STATE_AWAIT_CONFIRMATION ∧
      ((tsm_set_confirmed_unsegmented_transaction cfg s1 c dest npdu apdu n).slot i).RetryCount =
        0 ∧
      ((tsm_set_confirmed_unsegmented_transaction cfg s1 c dest npdu apdu n).slot
        i).RequestTimer = cfg.apdu_timeout ∧
      ((tsm_set_confirmed_unsegmented_transaction cfg s1 c dest npdu apdu n).slot i).apdu_len =
        n ∧
      ((tsm_set_confirmed_unsegmented_transaction cfg s1 c dest npdu apdu n).slot i).dest =
        dest ∧
      (tsm_set_confirmed_unsegmented_transaction cfg s1 c dest npdu apdu n).TSM_List.length =
        s.TSM_List.length ∧
      (∀ j, j ≠ i →
        (tsm_set_confirmed_unsegmented_transaction cfg s1 c dest npdu apdu n).slot j =
          s.slot j) := by
  obtain ⟨i, hi, hl1, hfind, hi0, hself, hother, _⟩ := alloc_slot cfg s s1 c hlen hcur halloc hc
  have hi1 : i < s1.TSM_List.length := by rw [hl1]; exact hi
  have e : tsm_set_confirmed_unsegmented_transaction cfg s1 c dest npdu apdu n =
      s1.setSlot i { s1.slot i with
        state := TSM_STATE_AWAIT_CONFIRMATION
        RetryCount := 0
        RequestTimer := cfg.apdu_timeout
        apdu := some (writeBytes ((s1.slot i).apdu.getD []) 0 (apdu.take n))
        apdu_len := n
        npdu_data := npdu
        dest := dest } := by
    unfold tsm_set_confirmed_unsegmented_transaction
    rw [if_pos ⟨hc, hn⟩]
    simp only [hfind, MAX_TSM_TRANSACTIONS, hi1, if_true]
  rw [e]
  refine ⟨i, hi, hi0, ?_, ?_, ?_, ?_, ?_, ?_, ?_, ?_⟩
  · rw [slot_setSlot_self s1 i _ hi1, hself]
  · rw [slot_setSlot_self s1 i _ hi1]
  · rw [slot_setSlot_self s1 i _ hi1]
  · rw [slot_setSlot_self s1 i _ hi1]
  · rw [slot_setSlot_self s1 i _ hi1]
  · rw [slot_setSlot_self s1 i _ hi1]
  · rw [length_setSlot, hl1]
  · intro j hj
    rw [slot_setSlot_ne s1 i j _ hj, hother j hj]

/-- A freshly allocated invoke-id freed again: no slot holds it, and every slot
holds the invoke-id it held before the allocation. -/
theorem alloc_free (cfg : Config) (s s1 : TSM) (c : Nat)
    (hlen : s.TSM_List.length ≤ 255) (hcur : s.Current_Invoke_ID < 256)
    (halloc : tsm_next_free_invokeID cfg s = some (c, s1)) (hc : c ≠ 0) :
    ¬ held (tsm_free_invoke_id s1 c) c ∧
    ∀ j, ((tsm_free_invoke_id s1 c).slot j).InvokeID = (s.slot j).InvokeID := by
  obtain ⟨i, hi, hl1, hfind, hi0, hself, hother, hne⟩ := alloc_slot cfg s s1 c hlen hcur halloc hc
  have hi1 : i < s1.TSM_List.length := by rw [hl1]; exact hi
  rw [tsm_free_invoke_id_of_lt s1 c (by rw [hfind]; exact hi1), hfind]
  have hall : ∀ j, ((s1.setSlot i { s1.slot i with
      state := TSM_STATE_IDLE, InvokeID := 0 }).slot j).InvokeID = (s.slot j).InvokeID := by
    intro j
    by_cases hj : j = i
    · subst hj
      rw [slot_setSlot_self s1 j _ hi1, hi0]
    · rw [slot_setSlot_ne s1 i j _ hj, hother j hj]
  refine ⟨?_, hall⟩
  rw [held_iff_slot]
  rintro ⟨j, _, hj⟩
  rw [hall j] at hj
  exact hne j hj

theorem encoded_length (p : Int) (h0 : 0 < p) (h1 : p < 65536) :
    i32 p = p ∧ u32i p = p.toNat ∧ u16 p.toNat = p.toNat ∧ 0 < p.toNat := by
  unfold u32i i32 u16
  omega

/-- The senders on a fresh table of two slots: the request of 14 bytes to the
bound device 9 takes the invoke-id 1 and is transmitted once; with a buffer size
of 14 the event notification of 14 bytes is not sent and the invoke-id is free
again. -/
theorem send_confirmed_request_sample :
    (Send_Write_Property_Request_Data Config.sample SendEnv.sample (TSM.init 2 1) 9 0 1 85
      [68, 66, 200, 0, 0] 5 16 4294967295).map
      (fun r => (r.1, (r.2.1.slot 0).InvokeID, decide ((r.2.1.slot 0).state =
        TSM_STATE_AWAIT_CONFIRMATION), r.2.2.length)) = some (1, 1, true, 1) ∧
    (Send_CEvent_Notify_Address Config.sample SendEnv.sample (TSM.init 2 1)
      (List.replicate 14 0) 14 ⟨[1]⟩ (some sample_peer)).map
      (fun r => (r.1, (r.2.1.slot 0).InvokeID, decide ((r.2.1.slot 0).state = TSM_STATE_IDLE),
        r.2.2.length)) = some (0, 0, true, 0) := by
  decide

/-! ## Duplicates -/

/-- The unsigned 32 bit difference, reduced modulo 256, is the difference
modulo 256. -/
theorem u32sub_mod (a b : Nat) : ((u32sub a b % 256 : Nat) : Int) = ((a : Int) - b) % 256 := by
  unfold u32sub u32i
  omega

/-- C33: `DuplicateInWindow(slot, seq, first, last)` returns true if and only if
`(last − first) mod 256 ≤ ActualWindowSize` and either
`(seq − first) mod 256 ≤ (last − first) mod 256`, or `(last − first) mod 256 = 0`
and `(first − seq) mod 256 ≤ ActualWindowSize`, where the differences are
differences of integers and `mod` has results in 0..255. It holds for all
values of `seq`, `first` and `last`, so for all 8 bit `seq` and 32 bit `first`
and `last`, also when the unsigned subtraction of the code wraps. -/
theorem DuplicateInWindow_iff (d : BACNET_TSM_DATA) (seq first last : Nat) :
    DuplicateInWindow d seq first last = true ↔
      ((last : Int) - first) % 256 ≤ d.ActualWindowSize ∧
      (((seq : Int) - first) % 256 ≤ ((last : Int) - first) % 256 ∨
        (((last : Int) - first) % 256 = 0 ∧
          ((first : Int) - seq) % 256 ≤ d.ActualWindowSize)) := by
  have h1 := u32sub_mod last first
  have h2 := u32sub_mod seq first
  have h3 := u32sub_mod first seq
  unfold DuplicateInWindow u8
  simp only [Nat.mod_mod]
  rw [← h1, ← h2, ← h3]
  split_ifs <;> simp <;> omega

/-! ## In-order segments -/

/-- C34, as stated, fails for timers with four segment timeouts above the APDU
timeout: `sample_receiving` holds segment 0 of the request 7 of `sample_peer` in a
slot in SegmentedRequestServer; under `Config.sample` (segment timeout 2000, APDU
timeout 3000) the in-order segment 1 with more-follows makes the call send an
Abort APPLICATION_EXCEEDED_REPLY_TIME and leaves the slot idle. -/
theorem in_order_segment_default_timers :
    (sample_receiving.slot 0).state = TSM_STATE_SEGMENTED_REQUEST_SERVER ∧
    (sample_receiving.slot 0).LastSequenceNumber = 0 ∧
    (sample_receiving.slot 0).ReceivedSegmentsCount = 1 ∧
    (tsm_set_segmented_confirmed_service_received Config.sample sample_receiving sample_peer
      (sample_segment 7 1 4 true) [4, 5] 2).map (fun r => (r.2.slot 0).state) =
      some TSM_STATE_IDLE ∧
    (tsm_set_segmented_confirmed_service_received Config.sample sample_receiving sample_peer
      (sample_segment 7 1 4 true) [4, 5] 2).map (fun r => r.2.sent) =
      some (sample_receiving.sent ++
        [Event.abort 7 sample_peer ABORT_REASON_APPLICATION_EXCEEDED_REPLY_TIME true]) := by
  decide

/-- C34, amended: a segment that resolves (through the peer-map entry `ix`, the
internal invoke-id `id`) to the slot `index` in SegmentedRequestServer with fewer
than `MAX_SEGMENTS_ACCEPTED` (at most 255) segments counted, whose sequence
number is `(LastSequenceNumber + 1) mod 256` and which has more-follows set,
received when four segment timeouts (16 bit) do not exceed the APDU timeout. The
call returns false; the slot stays in SegmentedRequestServer, the payload is
appended to the blob, `LastSequenceNumber` is the sequence number of the
segment, `ReceivedSegmentsCount` has grown by one, and the only thing that may
be sent is the positive segment-ack at the end of a window: no Abort. -/
theorem in_order_segment_accepted (cfg : Config) (s : TSM) (src : BACNET_ADDRESS)
    (service_data : BACNET_CONFIRMED_SERVICE_DATA) (p content : List Nat)
    (ix id index : Nat)
    (hix : s.TSM_Peer_Ids.findIdx? (peer_entry_matches src service_data.invoke_id) = some ix)
    (hid : (s.peer ix).InternalInvokeID = id)
    (hidx : tsm_find_invokeID_index s id = index)
    (hi : index < s.TSM_List.length)
    (hst : (s.slot index).state = TSM_STATE_SEGMENTED_REQUEST_SERVER)
    (hcount : (s.slot index).ReceivedSegmentsCount < cfg.MAX_SEGMENTS_ACCEPTED)
    (hmax : cfg.MAX_SEGMENTS_ACCEPTED ≤ 255)
    (hseq : service_data.sequence_number = u8 ((s.slot index).LastSequenceNumber + 1) % 256)
    (hmore : service_data.more_follows = true)
    (htime : ¬ u16 (cfg.apdu_segment_timeout * 4) > cfg.apdu_timeout)
    (hblob : BlobHolds (s.slot index) content)
    (hfit : (s.slot index).apdu_blob_allocated + p.length < 4294967296) :
    ∃ s', tsm_set_segmented_confirmed_service_received cfg s src service_data p p.length =
        some (⟨false, id, some p, p.length⟩, s') ∧
      (s'.slot index).state = TSM_STATE_SEGMENTED_REQUEST_SERVER ∧
      BlobHolds (s'.slot index) (content ++ p) ∧
      (s'.slot index).LastSequenceNumber = service_data.sequence_number ∧
      (s'.slot index).ReceivedSegmentsCount = (s.slot index).ReceivedSegmentsCount + 1 ∧
      s'.sent = s.sent ++
        (if service_data.sequence_number =
            u8 ((s.slot index).InitialSequenceNumber + (s.slot index).ActualWindowSize) then
          [Event.segmentack src false true service_data.invoke_id service_data.sequence_number
            (s.slot index).ActualWindowSize]
        else []) ∧
      ∀ a d r b, Event.abort a d r b ∈ s'.sent → Event.abort a d r b ∈ s.sent := by
  have hc : ¬ u8 ((s.slot index).ReceivedSegmentsCount + 1) > cfg.MAX_SEGMENTS_ACCEPTED := by
    unfold u8; omega
  have hres := segment_received_resolved cfg s src service_data p p.length ix id index hix hid
    hidx hi hst
  rw [request_server_accept cfg s index id src service_data p p.length hi htime hseq hc] at hres
  obtain ⟨a1, a2, a3, a4, a5, a6⟩ := accepted_slot_fields cfg (s.slot index) service_data p
    p.length
  obtain ⟨b1, _⟩ := accepted_slot_holds cfg (s.slot index) service_data content p hblob hfit
  have hs := slot_setSlot_self s index (accepted_slot cfg (s.slot index) service_data p
    p.length) hi
  have hcnt : u8 ((s.slot index).ReceivedSegmentsCount + 1) =
      (s.slot index).ReceivedSegmentsCount + 1 := by
    unfold u8; omega
  simp only [hmore, Bool.true_eq_false, or_false, Bool.not_true, if_true] at hres
  by_cases hw : service_data.sequence_number =
      u8 ((s.slot index).InitialSequenceNumber + (s.slot index).ActualWindowSize)
  · rw [if_pos hw] at hres
    rw [if_pos hw]
    refine ⟨_, hres, ?_, ?_, ?_, ?_, rfl, ?_⟩
    · show ((s.setSlot index _).slot index).state = _
      rw [hs, a2]; exact hst
    · show BlobHolds ((s.setSlot index _).slot index) _
      rw [hs]; exact b1
    · show ((s.setSlot index _).slot index).LastSequenceNumber = _
      rw [hs, a3]
    · show ((s.setSlot index _).slot index).ReceivedSegmentsCount = _
      rw [hs, a6, hcnt]
    · intro a d r b hm
      have hm' : Event.abort a d r b ∈ s.sent ++ [Event.segmentack src false true
          service_data.invoke_id service_data.sequence_number (s.slot index).ActualWindowSize] :=
        hm
      rcases List.mem_append.mp hm' with h | h
      · exact h
      · simp at h
  · rw [if_neg hw] at hres
    rw [if_neg hw]
    refine ⟨_, hres, ?_, ?_, ?_, ?_, (List.append_nil _).symm, fun _ _ _ _ h => h⟩
    · rw [hs, a2]; exact hst
    · rw [hs]; exact b1
    · rw [hs, a3]
    · rw [hs, a6, hcnt]

/-- The blob of `sample_receiving` holds the three bytes of segment 0. -/
theorem sample_receiving_blob : BlobHolds (sample_receiving.slot 0) [1, 2, 3] := by
  refine ⟨by decide, by decide, by decide, ?_⟩
  intro b hb
  have h : (sample_receiving.slot 0).apdu_blob = some [1, 2, 3] := by decide
  rw [h] at hb
  cases hb
  decide

theorem in_order_segment_accepted_witness :
    ((sample_receiving.TSM_Peer_Ids.findIdx? (peer_entry_matches sample_peer (sample_segment 7 1 4 true).invoke_id) = some 0) ∧
    ((sample_receiving.peer 0).InternalInvokeID = 1) ∧
    (tsm_find_invokeID_index sample_receiving 1 = 0) ∧
    (0 < sample_receiving.TSM_List.length) ∧
    ((sample_receiving.slot 0).state = TSM_STATE_SEGMENTED_REQUEST_SERVER) ∧
    ((sample_receiving.slot 0).ReceivedSegmentsCount < Config.sample_server.MAX_SEGMENTS_ACCEPTED) ∧
    (Config.sample_server.MAX_SEGMENTS_ACCEPTED ≤ 255) ∧
    ((sample_segment 7 1 4 true).sequence_number = u8 ((sample_receiving.slot 0).LastSequenceNumber + 1) % 256) ∧
    ((sample_segment 7 1 4 true).more_follows = true) ∧
    (¬ u16 (Config.sample_server.apdu_segment_timeout * 4) > Config.sample_server.apdu_timeout) ∧
    (BlobHolds (sample_receiving.slot 0) [1, 2, 3]) ∧
    ((sample_receiving.slot 0).apdu_blob_allocated + [4, 5].length < 4294967296)) ∧
    (∃ s', tsm_set_segmented_confirmed_service_received Config.sample_server sample_receiving sample_peer (sample_segment 7 1 4 true) [4, 5] [4, 5].length =
        some (⟨false, 1, some [4, 5], [4, 5].length⟩, s') ∧
      (s'.slot 0).state = TSM_STATE_SEGMENTED_REQUEST_SERVER ∧
      BlobHolds (s'.slot 0) ([1, 2, 3] ++ [4, 5]) ∧
      (s'.slot 0).LastSequenceNumber = (sample_segment 7 1 4 true).sequence_number ∧
      (s'.slot 0).ReceivedSegmentsCount = (sample_receiving.slot 0).ReceivedSegmentsCount + 1 ∧
      s'.sent = sample_receiving.sent ++
        (if (sample_segment 7 1 4 true).sequence_number =
            u8 ((sample_receiving.slot 0).InitialSequenceNumber + (sample_receiving.slot 0).ActualWindowSize) then
          [Event.segmentack sample_peer false true (sample_segment 7 1 4 true).invoke_id (sample_segment 7 1 4 true).sequence_number
            (sample_receiving.slot 0).ActualWindowSize]
        else []) ∧
      ∀ a d r b, Event.abort a d r b ∈ s'.sent → Event.abort a d r b ∈ sample_receiving.sent) :=
  ⟨⟨by decide, by decide, by decide, by decide, by decide, by decide, by decide, by decide, by decide, by decide, sample_receiving_blob, by decide⟩,
    in_order_segment_accepted Config.sample_server sample_receiving sample_peer ((sample_segment 7 1 4 true)) ([4, 5]) ([1, 2, 3]) 0 1 0 (by decide) (by decide) (by decide) (by decide) (by decide) (by decide) (by decide) (by decide) (by decide) (by decide) (sample_receiving_blob) (by decide)⟩

/-! ## Duplicate counting -/

/-- The `TSM_STATE_SEGMENTED_REQUEST_SERVER` case on a duplicate inside the
window, when four times the segment timeout does not exceed the APDU timeout:
the duplicate is counted, and the one that finds the counter at the window size
is answered with a negative segment-ack. -/
theorem request_server_duplicate (cfg : Config) (s : TSM) (index c : Nat)
    (src : BACNET_ADDRESS) (service_data : BACNET_CONFIRMED_SERVICE_DATA)
    (service_request : List Nat) (service_request_len : Nat)
    (hi : index < s.TSM_List.length)
    (htime : ¬ u16 (cfg.apdu_segment_timeout * 4) > cfg.apdu_timeout)
    (hseq : service_data.sequence_number ≠ u8 ((s.slot index).LastSequenceNumber + 1) % 256)
    (hdup : DuplicateInWindow (s.slot index) service_data.sequence_number
      ((s.slot index).InitialSequenceNumber % 256) (s.slot index).LastSequenceNumber = true) :
    segment_received_request_server cfg s index c src service_data service_request
      service_request_len =
      (if s.Duplicate_Count < (s.slot index).ActualWindowSize then
        { s.setSlot index { s.slot index with
            RequestTimer := 0, SegmentTimer := cfg.apdu_segment_timeout } with
          Duplicate_Count := u8 (s.Duplicate_Count + 1) }
      else if s.Duplicate_Count = (s.slot index).ActualWindowSize then
        { (s.setSlot index { s.slot index with
            RequestTimer := 0
            SegmentTimer := cfg.apdu_segment_timeout
            InitialSequenceNumber := (s.slot index).LastSequenceNumber }).emit
            (Event.segmentack src true true service_data.invoke_id
              (s.slot index).LastSequenceNumber (s.slot index).ActualWindowSize) with
          Duplicate_Count := 0 }
      else s.setSlot index { s.slot index with
        RequestTimer := 0, SegmentTimer := u16 (cfg.apdu_segment_timeout * 4) },
      false, none) := by
  unfold segment_received_request_server
  lift_lets
  extract_lets p5 t11 t10 p4 t9 t8 p3 t7 t6 t5 p2 t4 p1 t3 t2 we p0 t1 blob ack t0
  have e11 : t11.slot index = { s.slot index with
      RequestTimer := 0, SegmentTimer := u16 (cfg.apdu_segment_timeout * 4) } :=
    slot_setSlot_self s index _ hi
  have c9 : ¬ (t11.slot index).SegmentTimer > cfg.apdu_timeout := by rw [e11]; exact htime
  have e9 : t9 = t11 := if_neg c9
  have s9 : t9.slot index = { s.slot index with
      RequestTimer := 0, SegmentTimer := u16 (cfg.apdu_segment_timeout * 4) } := by
    rw [e9]; exact e11
  have cs : service_data.sequence_number ≠
      u8 ((t9.slot index).LastSequenceNumber + 1) % 256 := by
    rw [s9]; exact hseq
  rw [if_pos cs]
  have cd : DuplicateInWindow (t9.slot index) service_data.sequence_number
      ((t9.slot index).InitialSequenceNumber % 256) (t9.slot index).LastSequenceNumber = true := by
    rw [s9]; exact hdup
  rw [if_pos cd]
  have ed : (duplicate_segment_received cfg t9 index service_data src).2 =
      (if s.Duplicate_Count < (s.slot index).ActualWindowSize then
        { s.setSlot index { s.slot index with
            RequestTimer := 0, SegmentTimer := cfg.apdu_segment_timeout } with
          Duplicate_Count := u8 (s.Duplicate_Count + 1) }
      else if s.Duplicate_Count = (s.slot index).ActualWindowSize then
        { (s.setSlot index { s.slot index with
            RequestTimer := 0
            SegmentTimer := cfg.apdu_segment_timeout
            InitialSequenceNumber := (s.slot index).LastSequenceNumber }).emit
            (Event.segmentack src true true service_data.invoke_id
              (s.slot index).LastSequenceNumber (s.slot index).ActualWindowSize) with
          Duplicate_Count := 0 }
      else s.setSlot index { s.slot index with
        RequestTimer := 0, SegmentTimer := u16 (cfg.apdu_segment_timeout * 4) }) := by
    unfold duplicate_segment_received
    lift_lets
    extract_lets Ndup q2 u3 u2 q1 u1 q0 u0
    intro r0 r1 r2
    have hN : Ndup = (s.slot index).ActualWindowSize := by
      show (t9.slot index).ActualWindowSize = _
      rw [s9]
    have hD : t9.Duplicate_Count = s.Duplicate_Count := by rw [e9]; rfl
    by_cases h1 : s.Duplicate_Count < (s.slot index).ActualWindowSize
    · have c1 : t9.Duplicate_Count < Ndup := by rw [hN, hD]; exact h1
      rw [if_pos c1, if_pos h1]
      show { u3 with Duplicate_Count := u8 (u3.Duplicate_Count + 1) } = _
      have e3 : u3 = s.setSlot index { s.slot index with
          RequestTimer := 0, SegmentTimer := cfg.apdu_segment_timeout } := by
        show t9.setSlot index { t9.slot index with
          SegmentTimer := cfg.apdu_segment_timeout } = _
        rw [s9, e9]
        exact setSlot_setSlot s index _ _
      rw [e3]
      rfl
    · have c1 : ¬ t9.Duplicate_Count < Ndup := by rw [hN, hD]; exact h1
      rw [if_neg c1, if_neg h1]
      by_cases h2 : s.Duplicate_Count = (s.slot index).ActualWindowSize
      · have c2 : t9.Duplicate_Count = Ndup := by rw [hN, hD]; exact h2
        rw [if_pos c2, if_pos h2]
        show { u0 with Duplicate_Count := 0 } = _
        have f2 : u2.slot index = { s.slot index with
            RequestTimer := 0, SegmentTimer := u16 (cfg.apdu_segment_timeout * 4) } := s9
        have e1 : u1 = (s.setSlot index { s.slot index with
            RequestTimer := 0, SegmentTimer := cfg.apdu_segment_timeout }).emit
            (Event.segmentack src true true service_data.invoke_id
              (s.slot index).LastSequenceNumber (s.slot index).ActualWindowSize) := by
          show u2.setSlot index { u2.slot index with
            SegmentTimer := cfg.apdu_segment_timeout } = _
          rw [f2]
          show (t9.setSlot index _).emit (Event.segmentack src true true service_data.invoke_id
            (t9.slot index).LastSequenceNumber (t9.slot index).ActualWindowSize) = _
          rw [s9, e9]
          show ((s.setSlot index _).setSlot index _).emit _ = _
          rw [setSlot_setSlot]
        have f1 : u1.slot index = { s.slot index with
            RequestTimer := 0, SegmentTimer := cfg.apdu_segment_timeout } := by
          rw [e1]
          exact slot_setSlot_self s index _ hi
        have e0 : u0 = (s.setSlot index { s.slot index with
            RequestTimer := 0
            SegmentTimer := cfg.apdu_segment_timeout
            InitialSequenceNumber := (s.slot index).LastSequenceNumber }).emit
            (Event.segmentack src true true service_data.invoke_id
              (s.slot index).LastSequenceNumber (s.slot index).ActualWindowSize) := by
          show u1.setSlot index { u1.slot index with
            InitialSequenceNumber := (u1.slot index).LastSequenceNumber } = _
          rw [f1, e1]
          show ((s.setSlot index _).setSlot index _).emit _ = _
          rw [setSlot_setSlot]
        rw [e0]
      · have c2 : ¬ t9.Duplicate_Count = Ndup := by rw [hN, hD]; exact h2
        rw [if_neg c2, if_neg h2, e9]
  rw [ed]

theorem DuplicateInWindow_congr (d d' : BACNET_TSM_DATA) (a b c : Nat)
    (h : d'.ActualWindowSize = d.ActualWindowSize) :
    DuplicateInWindow d' a b c = DuplicateInWindow d a b c := by
  unfold DuplicateInWindow
  rw [h]

/-- A call of `tsm_set_segmented_confirmed_service_received` for a duplicate
inside the window of a slot in SegmentedRequestServer. -/
theorem duplicate_call (cfg : Config) (s : TSM) (src : BACNET_ADDRESS)
    (service_data : BACNET_CONFIRMED_SERVICE_DATA) (service_request : List Nat)
    (service_request_len ix id index : Nat)
    (hix : s.TSM_Peer_Ids.findIdx? (peer_entry_matches src service_data.invoke_id) = some ix)
    (hid : (s.peer ix).InternalInvokeID = id)
    (hidx : tsm_find_invokeID_index s id = index)
    (hi : index < s.TSM_List.length)
    (hst : (s.slot index).state = TSM_STATE_SEGMENTED_REQUEST_SERVER)
    (htime : ¬ u16 (cfg.apdu_segment_timeout * 4) > cfg.apdu_timeout)
    (hseq : service_data.sequence_number ≠ u8 ((s.slot index).LastSequenceNumber + 1) % 256)
    (hdup : DuplicateInWindow (s.slot index) service_data.sequence_number
      ((s.slot index).InitialSequenceNumber % 256) (s.slot index).LastSequenceNumber = true) :
    ∃ s', tsm_set_segmented_confirmed_service_received cfg s src service_data service_request
        service_request_len =
        some (⟨false, id, some service_request, service_request_len⟩, s') ∧
      (s.Duplicate_Count < (s.slot index).ActualWindowSize →
        s'.sent = s.sent ∧ s'.Duplicate_Count = u8 (s.Duplicate_Count + 1) ∧
        (s'.slot index).InitialSequenceNumber = (s.slot index).InitialSequenceNumber ∧
        (s'.slot index).ActualWindowSize = (s.slot index).ActualWindowSize ∧
        (s'.slot index).state = (s.slot index).state ∧
        KeepsReassembly index s s') ∧
      (s.Duplicate_Count = (s.slot index).ActualWindowSize →
        s'.sent = s.sent ++ [Event.segmentack src true true service_data.invoke_id
          (s.slot index).LastSequenceNumber (s.slot index).ActualWindowSize] ∧
        (s'.slot index).InitialSequenceNumber = (s.slot index).LastSequenceNumber ∧
        s'.Duplicate_Count = 0) := by
  have hres := segment_received_resolved cfg s src service_data service_request
    service_request_len ix id index hix hid hidx hi hst
  rw [request_server_duplicate cfg s index id src service_data service_request
    service_request_len hi htime hseq hdup] at hres
  refine ⟨_, hres, ?_, ?_⟩
  · intro h1
    rw [if_pos h1]
    have hs : ∀ d : BACNET_TSM_DATA, (TSM.slot { s.setSlot index d with
        Duplicate_Count := u8 (s.Duplicate_Count + 1) } index) = d :=
      fun d => slot_setSlot_self s index d hi
    refine ⟨rfl, rfl, ?_, ?_, ?_, ?_⟩
    · rw [hs]
    · rw [hs]
    · rw [hs]
    · exact keeps_snoc_dup _ (keeps_snoc_setSlot _ (KeepsReassembly.reflK index s)
        ⟨rfl, rfl, rfl, rfl, rfl, rfl⟩)
  · intro h2
    rw [if_neg (by omega), if_pos h2]
    refine ⟨rfl, ?_, rfl⟩
    show ((s.setSlot index _).slot index).InitialSequenceNumber = _
    rw [slot_setSlot_self s index _ hi]

/-- A run of duplicates inside the window, from a duplicate counter of 0: as
many as the window size are counted and nothing is sent. -/
theorem duplicate_run (cfg : Config) (s : TSM) (src : BACNET_ADDRESS)
    (service_data : BACNET_CONFIRMED_SERVICE_DATA) (service_request : List Nat)
    (service_request_len ix id index : Nat)
    (hix : s.TSM_Peer_Ids.findIdx? (peer_entry_matches src service_data.invoke_id) = some ix)
    (hid : (s.peer ix).InternalInvokeID = id)
    (hidx : tsm_find_invokeID_index s id = index)
    (hi : index < s.TSM_List.length)
    (hst : (s.slot index).state = TSM_STATE_SEGMENTED_REQUEST_SERVER)
    (htime : ¬ u16 (cfg.apdu_segment_timeout * 4) > cfg.apdu_timeout)
    (hseq : service_data.sequence_number ≠ u8 ((s.slot index).LastSequenceNumber + 1) % 256)
    (hdup : DuplicateInWindow (s.slot index) service_data.sequence_number
      ((s.slot index).InitialSequenceNumber % 256) (s.slot index).LastSequenceNumber = true)
    (h0 : s.Duplicate_Count = 0) (hW : (s.slot index).ActualWindowSize < 256) :
    ∀ m, m ≤ (s.slot index).ActualWindowSize →
      ∃ t, receive_repeated cfg src service_data service_request service_request_len m s =
          some t ∧
        t.sent = s.sent ∧ t.Duplicate_Count = m ∧
        (t.slot index).InitialSequenceNumber = (s.slot index).InitialSequenceNumber ∧
        (t.slot index).ActualWindowSize = (s.slot index).ActualWindowSize ∧
        (t.slot index).state = (s.slot index).state ∧
        KeepsReassembly index s t := by
  intro m
  induction m with
  | zero =>
    intro _
    exact ⟨s, rfl, rfl, h0, rfl, rfl, rfl, KeepsReassembly.reflK index s⟩
  | succ m ih =>
    intro hm
    obtain ⟨t, ht, g1, g2, g3, g4, g5, hk⟩ := ih (by omega)
    obtain ⟨s', hs', k1, _⟩ := duplicate_call cfg t src service_data service_request
      service_request_len ix id index (by rw [hk.2.2.1]; exact hix)
      (by rw [keeps_peer hk ix]; exact hid) (by rw [keeps_find hk id]; exact hidx)
      (by rw [hk.2.2.2]; exact hi) (by rw [g5]; exact hst) htime
      (by rw [hk.1.2.2.2.1]; exact hseq)
      (by rw [DuplicateInWindow_congr (s.slot index) (t.slot index) _ _ _ g4, g3,
        hk.1.2.2.2.1]; exact hdup)
    obtain ⟨j1, j2, j3, j4, j5, j6⟩ := k1 (by rw [g2, g4]; omega)
    refine ⟨s', ?_, j1.trans g1, ?_, j3.trans g3, j4.trans g4, j5.trans g5, hk.transK j6⟩
    · show (match receive_repeated cfg src service_data service_request service_request_len
          m s with
        | none => none
        | some t => (tsm_set_segmented_confirmed_service_received cfg t src service_data
            service_request service_request_len).map Prod.snd) = _
      rw [ht]
      show (tsm_set_segmented_confirmed_service_received cfg t src service_data
        service_request service_request_len).map Prod.snd = _
      rw [hs']
      rfl
    · rw [j2, g2]
      unfold u8
      omega

/-- C35, as stated, fails by one: the slot 0 of `sample_receiving` is in
SegmentedRequestServer with the window size 4 and holds segment 0; under
`Config.sample_server` the duplicate of segment 0 received four times sends
nothing and leaves the duplicate counter at 4, and it is the fifth duplicate that
is answered with the negative segment-ack and resets the counter. -/
theorem duplicate_nak_after_window :
    (sample_receiving.slot 0).state = TSM_STATE_SEGMENTED_REQUEST_SERVER ∧
    (sample_receiving.slot 0).ActualWindowSize = 4 ∧
    sample_receiving.Duplicate_Count = 0 ∧
    (receive_repeated Config.sample_server sample_peer (sample_segment 7 0 4 true) [1, 2, 3] 3
      4 sample_receiving).map (fun t => (t.sent, t.Duplicate_Count)) =
      some (sample_receiving.sent, 4) ∧
    (receive_repeated Config.sample_server sample_peer (sample_segment 7 0 4 true) [1, 2, 3] 3
      5 sample_receiving).map (fun t => (t.sent, t.Duplicate_Count)) =
      some (sample_receiving.sent ++ [Event.segmentack sample_peer true true 7 0 4], 0) := by
  decide

/-- C35, amended: a segment that resolves (through the peer-map entry `ix`, the
internal invoke-id `id`) to the slot `index` in SegmentedRequestServer with the
window size `W`, that is not the next segment and is a duplicate inside the
window (`DuplicateInWindow`), received when four segment timeouts do not exceed
the APDU timeout. One call: with the duplicate counter below `W` nothing is sent
and the counter grows by one; with the counter at `W` the negative segment-ack
with `LastSequenceNumber` and `W` is sent, `InitialSequenceNumber` becomes
`LastSequenceNumber` and the counter is reset to 0. Hence, from a counter of 0,
the first `W` receptions of the duplicate send nothing, and reception `W + 1`
sends the negative segment-ack. -/
theorem duplicate_counting (cfg : Config) (s : TSM) (src : BACNET_ADDRESS)
    (service_data : BACNET_CONFIRMED_SERVICE_DATA) (service_request : List Nat)
    (service_request_len ix id index : Nat)
    (hix : s.TSM_Peer_Ids.findIdx? (peer_entry_matches src service_data.invoke_id) = some ix)
    (hid : (s.peer ix).InternalInvokeID = id)
    (hidx : tsm_find_invokeID_index s id = index)
    (hi : index < s.TSM_List.length)
    (hst : (s.slot index).state = TSM_STATE_SEGMENTED_REQUEST_SERVER)
    (htime : ¬ u16 (cfg.apdu_segment_timeout * 4) > cfg.apdu_timeout)
    (hseq : service_data.sequence_number ≠ u8 ((s.slot index).LastSequenceNumber + 1) % 256)
    (hdup : DuplicateInWindow (s.slot index) service_data.sequence_number
      ((s.slot index).InitialSequenceNumber % 256) (s.slot index).LastSequenceNumber = true)
    (hW : (s.slot index).ActualWindowSize < 256) :
    (∃ s', tsm_set_segmented_confirmed_service_received cfg s src service_data service_request
        service_request_len =
        some (⟨false, id, some service_request, service_request_len⟩, s') ∧
      (s.Duplicate_Count < (s.slot index).ActualWindowSize →
        s'.sent = s.sent ∧ s'.Duplicate_Count = s.Duplicate_Count + 1 ∧
        (s'.slot index).InitialSequenceNumber = (s.slot index).InitialSequenceNumber) ∧
      (s.Duplicate_Count = (s.slot index).ActualWindowSize →
        s'.sent = s.sent ++ [Event.segmentack src true true service_data.invoke_id
          (s.slot index).LastSequenceNumber (s.slot index).ActualWindowSize] ∧
        (s'.slot index).InitialSequenceNumber = (s.slot index).LastSequenceNumber ∧
        s'.Duplicate_Count = 0)) ∧
    (s.Duplicate_Count = 0 →
      (∀ m, m ≤ (s.slot index).ActualWindowSize →
        ∃ t, receive_repeated cfg src service_data service_request service_request_len m s =
            some t ∧
          t.sent = s.sent ∧ t.Duplicate_Count = m ∧
          (t.slot index).InitialSequenceNumber = (s.slot index).InitialSequenceNumber) ∧
      ∃ t, receive_repeated cfg src service_data service_request service_request_len
          ((s.slot index).ActualWindowSize + 1) s = some t ∧
        t.sent = s.sent ++ [Event.segmentack src true true service_data.invoke_id
          (s.slot index).LastSequenceNumber (s.slot index).ActualWindowSize] ∧
        (t.slot index).InitialSequenceNumber = (s.slot index).LastSequenceNumber ∧
        t.Duplicate_Count = 0) := by
  refine ⟨?_, ?_⟩
  · obtain ⟨s', hs', k1, k2⟩ := duplicate_call cfg s src service_data service_request
      service_request_len ix id index hix hid hidx hi hst htime hseq hdup
    refine ⟨s', hs', ?_, k2⟩
    intro h1
    obtain ⟨j1, j2, j3, _⟩ := k1 h1
    refine ⟨j1, ?_, j3⟩
    rw [j2]
    unfold u8
    omega
  · intro h0
    have hrun := duplicate_run cfg s src service_data service_request service_request_len
      ix id index hix hid hidx hi hst htime hseq hdup h0 hW
    refine ⟨?_, ?_⟩
    · intro m hm
      obtain ⟨t, ht, g1, g2, g3, _⟩ := hrun m hm
      exact ⟨t, ht, g1, g2, g3⟩
    · obtain ⟨t, ht, g1, g2, g3, g4, g5, hk⟩ := hrun _ (Nat.le_refl _)
      obtain ⟨s', hs', _, k2⟩ := duplicate_call cfg t src service_data service_request
        service_request_len ix id index (by rw [hk.2.2.1]; exact hix)
        (by rw [keeps_peer hk ix]; exact hid) (by rw [keeps_find hk id]; exact hidx)
        (by rw [hk.2.2.2]; exact hi) (by rw [g5]; exact hst) htime
        (by rw [hk.1.2.2.2.1]; exact hseq)
        (by rw [DuplicateInWindow_congr (s.slot index) (t.slot index) _ _ _ g4, g3,
          hk.1.2.2.2.1]; exact hdup)
      obtain ⟨j1, j2, j3⟩ := k2 (by rw [g2, g4])
      refine ⟨s', ?_, ?_, ?_, j3⟩
      · show (match receive_repeated cfg src service_data service_request service_request_len
            (s.slot index).ActualWindowSize s with
          | none => none
          | some t => (tsm_set_segmented_confirmed_service_received cfg t src service_data
              service_request service_request_len).map Prod.snd) = _
        rw [ht]
        show (tsm_set_segmented_confirmed_service_received cfg t src service_data
          service_request service_request_len).map Prod.snd = _
        rw [hs']
        rfl
      · rw [j1, g1, hk.1.2.2.2.1, g4]
      · rw [j2, hk.1.2.2.2.1]

theorem duplicate_counting_witness :
    ((sample_receiving.TSM_Peer_Ids.findIdx? (peer_entry_matches sample_peer (sample_segment 7 0 4 true).invoke_id) = some 0) ∧
    ((sample_receiving.peer 0).InternalInvokeID = 1) ∧
    (tsm_find_invokeID_index sample_receiving 1 = 0) ∧
    (0 < sample_receiving.TSM_List.length) ∧
    ((sample_receiving.slot 0).state = TSM_STATE_SEGMENTED_REQUEST_SERVER) ∧
    (¬ u16 (Config.sample_server.apdu_segment_timeout * 4) > Config.sample_server.apdu_timeout) ∧
    ((sample_segment 7 0 4 true).sequence_number ≠ u8 ((sample_receiving.slot 0).LastSequenceNumber + 1) % 256) ∧
    (DuplicateInWindow (sample_receiving.slot 0) (sample_segment 7 0 4 true).sequence_number
      ((sample_receiving.slot 0).InitialSequenceNumber % 256) (sample_receiving.slot 0).LastSequenceNumber = true) ∧
    ((sample_receiving.slot 0).ActualWindowSize < 256)) ∧
    ((∃ s', tsm_set_segmented_confirmed_service_received Config.sample_server sample_receiving sample_peer (sample_segment 7 0 4 true) [1, 2, 3]
        3 =
        some (⟨false, 1, some [1, 2, 3], 3⟩, s') ∧
      (sample_receiving.Duplicate_Count < (sample_receiving.slot 0).ActualWindowSize →
        s'.sent = sample_receiving.sent ∧ s'.Duplicate_Count = sample_receiving.Duplicate_Count + 1 ∧
        (s'.slot 0).InitialSequenceNumber = (sample_receiving.slot 0).InitialSequenceNumber) ∧
      (sample_receiving.Duplicate_Count = (sample_receiving.slot 0).ActualWindowSize →
        s'.sent = sample_receiving.sent ++ [Event.segmentack sample_peer true true (sample_segment 7 0 4 true).invoke_id
          (sample_receiving.slot 0).LastSequenceNumber (sample_receiving.slot 0).ActualWindowSize] ∧
        (s'.slot 0).InitialSequenceNumber = (sample_receiving.slot 0).LastSequenceNumber ∧
        s'.Duplicate_Count = 0)) ∧
    (sample_receiving.Duplicate_Count = 0 →
      (∀ m, m ≤ (sample_receiving.slot 0).ActualWindowSize →
        ∃ t, receive_repeated Config.sample_server sample_peer (sample_segment 7 0 4 true) [1, 2, 3] 3 m sample_receiving =
            some t ∧
          t.sent = sample_receiving.sent ∧ t.Duplicate_Count = m ∧
          (t.slot 0).InitialSequenceNumber = (sample_receiving.slot 0).InitialSequenceNumber) ∧
      ∃ t, receive_repeated Config.sample_server sample_peer (sample_segment 7 0 4 true) [1, 2, 3] 3
          ((sample_receiving.slot 0).ActualWindowSize + 1) sample_receiving = some t ∧
        t.sent = sample_receiving.sent ++ [Event.segmentack sample_peer true true (sample_segment 7 0 4 true).invoke_id
          (sample_receiving.slot 0).LastSequenceNumber (sample_receiving.slot 0).ActualWindowSize] ∧
        (t.slot 0).InitialSequenceNumber = (sample_receiving.slot 0).LastSequenceNumber ∧
        t.Duplicate_Count = 0)) :=
  ⟨⟨by decide, by decide, by decide, by decide, by decide, by decide, by decide, by decide, by decide⟩,
    duplicate_counting Config.sample_server sample_receiving sample_peer ((sample_segment 7 0 4 true)) ([1, 2, 3]) 3 0 1 0 (by decide) (by decide) (by decide) (by decide) (by decide) (by decide) (by decide) (by decide) (by decide)⟩

/-! ## The window of a segmented response -/

theorem tsm_pdu_send_sent_all (cfg : Config) (index : Nat) (d : BACNET_TSM_DATA) (n : Nat) :
    (tsm_pdu_send cfg index d n).1.SentAllSegments = d.SentAllSegments := by
  unfold tsm_pdu_send
  simp only
  split_ifs <;> try rfl
  all_goals
    split
    · rfl
    · split_ifs <;> rfl

theorem get_apdu_max_segments_lt (d : BACNET_TSM_DATA) :
    get_apdu_max_segments d < 4294967296 := by
  unfold get_apdu_max_segments
  simp only
  split_ifs
  · decide
  · unfold u32
    exact Nat.mod_lt _ (by decide)

/-- The loop of `FillWindow` from the counter `ix` with `fuel` iterations of the
window left: it runs `min fuel (total - (seq + ix))` times, and what it does is
the calls of `tsm_pdu_send` on the consecutive segment numbers from `seq + ix`. -/
theorem FillWindow_loop_run (cfg : Config) (index total seq W : Nat)
    (htotal : total < 4294967296) :
    ∀ (fuel ix : Nat) (d : BACNET_TSM_DATA) (sent : List Event),
      seq + ix < 4294967296 → fuel + ix = W → d.ActualWindowSize = W →
      FillWindow_loop cfg index total seq fuel ix d sent =
        (ix + min fuel (total - (seq + ix)),
          tsm_pdu_send_each cfg index
            (List.range' (seq + ix) (min fuel (total - (seq + ix)))) d sent) := by
  intro fuel
  induction fuel with
  | zero =>
    intro ix d sent _ _ _
    rw [Nat.zero_min]
    rfl
  | succ fuel ih =>
    intro ix d sent hix hf hW
    have hu : u32 (seq + ix) = seq + ix := Nat.mod_eq_of_lt hix
    unfold FillWindow_loop
    rw [hu]
    by_cases hc : seq + ix < total
    · have hcond : ix < d.ActualWindowSize ∧ seq + ix < total := ⟨by omega, hc⟩
      rw [if_pos hcond]
      have a := ih (ix + 1) (tsm_pdu_send cfg index d (seq + ix)).1
        (sent ++ (tsm_pdu_send cfg index d (seq + ix)).2.1)
        (by omega) (by omega) (by rw [(tsm_pdu_send_InvokeID cfg index d _).2]; exact hW)
      have hmin : min (fuel + 1) (total - (seq + ix)) =
          min fuel (total - (seq + (ix + 1))) + 1 := by omega
      show FillWindow_loop cfg index total seq fuel (ix + 1) _ _ = _
      rw [a, hmin, List.range'_succ]
      refine Prod.ext ?_ rfl
      show ix + 1 + _ = ix + (_ + 1)
      omega
    · have hcond : ¬ (ix < d.ActualWindowSize ∧ seq + ix < total) := fun h => hc h.2
      rw [if_neg hcond]
      have hmin : min (fuel + 1) (total - (seq + ix)) = 0 := by omega
      rw [hmin]
      rfl

theorem tsm_pdu_send_each_sent_all (cfg : Config) (index : Nat) (l : List Nat) :
    ∀ (d : BACNET_TSM_DATA) (sent : List Event),
      (tsm_pdu_send_each cfg index l d sent).1.SentAllSegments = d.SentAllSegments := by
  induction l with
  | nil => intro d sent; rfl
  | cons n rest ih =>
    intro d sent
    unfold tsm_pdu_send_each
    rw [ih, tsm_pdu_send_sent_all]

/-- A call of `tsm_pdu_send` for a segmented message does not depend on the
three header fields that an earlier call has written. -/
theorem tsm_pdu_send_rewritten (cfg : Config) (index : Nat) (a b : BACNET_TSM_DATA) (n : Nat)
    (hN : get_apdu_max_segments a ≠ 1) (hab : SameButSegmentFields b a) :
    (tsm_pdu_send cfg index b n).2.1 = (tsm_pdu_send cfg index a n).2.1 ∧
    SameButSegmentFields (tsm_pdu_send cfg index b n).1 a := by
  obtain ⟨x, y, z, rfl⟩ := hab
  have hseg : get_apdu_max_segments { a with
      apdu_fixed_header := { a.apdu_fixed_header with
        segmented_message := x
        more_follows := y
        sequence_number := z } } = get_apdu_max_segments a := rfl
  unfold tsm_pdu_send
  simp only [hseg]
  by_cases h1 : cfg.npdu_encode_pdu a.dest a.npdu_data < 0
  · simp only [if_pos h1]
    exact ⟨trivial, x, y, z, rfl⟩
  · simp only [if_neg h1]
    by_cases h2 : n ≥ get_apdu_max_segments a
    · simp only [if_pos h2]
      exact ⟨trivial, x, y, z, rfl⟩
    · simp only [if_neg h2, if_neg hN]
      refine ⟨trivial, ?_⟩
      split_ifs
      · exact ⟨true, decide (n < get_apdu_max_segments a - 1), u8 n, rfl⟩
      · split
        · exact ⟨true, decide (n < get_apdu_max_segments a - 1), u8 n, rfl⟩
        · split_ifs <;> exact ⟨true, decide (n < get_apdu_max_segments a - 1), u8 n, rfl⟩

/-- The calls of `tsm_pdu_send` for a list of segment numbers of a segmented
message hand to the datalink what each call alone hands to it. -/
theorem tsm_pdu_send_each_events (cfg : Config) (index : Nat) (a : BACNET_TSM_DATA)
    (hN : get_apdu_max_segments a ≠ 1) (l : List Nat) :
    ∀ (b : BACNET_TSM_DATA) (sent : List Event), SameButSegmentFields b a →
      (tsm_pdu_send_each cfg index l b sent).2 =
        sent ++ (l.map (fun n => (tsm_pdu_send cfg index a n).2.1)).flatten := by
  induction l with
  | nil => intro b sent _; simp [tsm_pdu_send_each]
  | cons n rest ih =>
    intro b sent hab
    unfold tsm_pdu_send_each
    have h := tsm_pdu_send_rewritten cfg index a b n hN hab
    rw [ih _ _ h.2, h.1]
    simp

/-- C36: `FillWindow(slot, seq)`, with `N = get_apdu_max_segments(slot)` the
total segment count and `seq` a 32 bit value, invokes `tsm_pdu_send` for exactly
the segment numbers `seq`, `seq + 1`, ..., `min(seq + ActualWindowSize, N) - 1`
in increasing order (none when `seq ≥ N` or `ActualWindowSize = 0`): its result
is the slot after these calls, one after the other, and what they handed to the
datalink, with `SentAllSegments` set to true when `seq + ActualWindowSize ≥ N`;
what it hands to the datalink is what `tsm_pdu_send` on the slot hands to it for
each of these segment numbers, in this order; and `SentAllSegments` is true after
the call exactly when `seq + ActualWindowSize ≥ N`, and has its old value
otherwise. -/
theorem FillWindow_sends_window (cfg : Config) (index : Nat) (d : BACNET_TSM_DATA)
    (seq : Nat) (hseq : seq < 4294967296) :
    FillWindow cfg index d seq =
      ((if seq + d.ActualWindowSize ≥ get_apdu_max_segments d then
          { (tsm_pdu_send_each cfg index
              (List.range' seq (min (seq + d.ActualWindowSize) (get_apdu_max_segments d) - seq))
              d []).1 with SentAllSegments := true }
        else (tsm_pdu_send_each cfg index
          (List.range' seq (min (seq + d.ActualWindowSize) (get_apdu_max_segments d) - seq))
          d []).1),
        (tsm_pdu_send_each cfg index
          (List.range' seq (min (seq + d.ActualWindowSize) (get_apdu_max_segments d) - seq))
          d []).2) ∧
    (FillWindow cfg index d seq).2 =
      ((List.range' seq (min (seq + d.ActualWindowSize) (get_apdu_max_segments d) - seq)).map
        (fun n => (tsm_pdu_send cfg index d n).2.1)).flatten ∧
    (FillWindow cfg index d seq).1.SentAllSegments =
      (if seq + d.ActualWindowSize ≥ get_apdu_max_segments d then true
       else d.SentAllSegments) := by
  have hN := get_apdu_max_segments_lt d
  have a := FillWindow_loop_run cfg index (get_apdu_max_segments d) seq
    d.ActualWindowSize hN d.ActualWindowSize 0 d [] (by omega) rfl rfl
  have hmin : min d.ActualWindowSize (get_apdu_max_segments d - (seq + 0)) =
      min (seq + d.ActualWindowSize) (get_apdu_max_segments d) - seq := by omega
  rw [hmin, Nat.add_zero] at a
  have hu : u32 (0 + (min (seq + d.ActualWindowSize) (get_apdu_max_segments d) - seq) + seq) =
      0 + (min (seq + d.ActualWindowSize) (get_apdu_max_segments d) - seq) + seq :=
    Nat.mod_eq_of_lt (by omega)
  have hev : (tsm_pdu_send_each cfg index
      (List.range' seq (min (seq + d.ActualWindowSize) (get_apdu_max_segments d) - seq))
      d []).2 =
      ((List.range' seq (min (seq + d.ActualWindowSize) (get_apdu_max_segments d) - seq)).map
        (fun n => (tsm_pdu_send cfg index d n).2.1)).flatten := by
    by_cases h1 : get_apdu_max_segments d = 1
    · rw [h1]
      rcases Nat.lt_or_ge (min (seq + d.ActualWindowSize) 1 - seq) 1 with hk | hk
      · have hk0 : min (seq + d.ActualWindowSize) 1 - seq = 0 := by omega
        rw [hk0]
        rfl
      · have hk1 : min (seq + d.ActualWindowSize) 1 - seq = 1 := by omega
        rw [hk1]
        simp [tsm_pdu_send_each]
    · have h := tsm_pdu_send_each_events cfg index d h1
        (List.range' seq (min (seq + d.ActualWindowSize) (get_apdu_max_segments d) - seq)) d []
        ⟨d.apdu_fixed_header.segmented_message, d.apdu_fixed_header.more_follows,
          d.apdu_fixed_header.sequence_number, rfl⟩
      rw [h]
      rfl
  have hF : FillWindow cfg index d seq =
      ((if seq + d.ActualWindowSize ≥ get_apdu_max_segments d then
          { (tsm_pdu_send_each cfg index
              (List.range' seq (min (seq + d.ActualWindowSize) (get_apdu_max_segments d) - seq))
              d []).1 with SentAllSegments := true }
        else (tsm_pdu_send_each cfg index
          (List.range' seq (min (seq + d.ActualWindowSize) (get_apdu_max_segments d) - seq))
          d []).1),
        (tsm_pdu_send_each cfg index
          (List.range' seq (min (seq + d.ActualWindowSize) (get_apdu_max_segments d) - seq))
          d []).2) := by
    unfold FillWindow
    simp only
    rw [a]
    simp only
    rw [hu]
    by_cases hc : seq + d.ActualWindowSize ≥ get_apdu_max_segments d
    · rw [if_pos hc, if_pos (by omega)]
    · rw [if_neg hc, if_neg (by omega)]
  refine ⟨hF, ?_, ?_⟩
  · rw [hF]
    exact hev
  · rw [hF]
    by_cases hc : seq + d.ActualWindowSize ≥ get_apdu_max_segments d
    · simp only [if_pos hc]
    · simp only [if_neg hc]
      exact tsm_pdu_send_each_sent_all cfg index _ d []

/-- On the sample of a response of six segments with a window of 2,
`FillWindow(slot, 4)` hands the segments 4 and 5 to the datalink, in this order,
the first with more-follows set and the last with more-follows clear. -/
theorem FillWindow_sample :
    (FillWindow Config.sample 0 (sample_six_segments.slot 0) 4).2.map
      (fun e => match e with
        | Event.segment _ _ header _ => some (header.sequence_number, header.more_follows)
        | _ => none) = [some (4, true), some (5, false)] := by
  decide

theorem FillWindow_sends_window_witness :
    ((4 < 4294967296)) ∧
    (FillWindow Config.sample 0 (sample_six_segments.slot 0) 4 =
      ((if 4 + (sample_six_segments.slot 0).ActualWindowSize ≥ get_apdu_max_segments (sample_six_segments.slot 0) then
          { (tsm_pdu_send_each Config.sample 0
              (List.range' 4 (min (4 + (sample_six_segments.slot 0).ActualWindowSize) (get_apdu_max_segments (sample_six_segments.slot 0)) - 4))
              (sample_six_segments.slot 0) []).1 with SentAllSegments := true }
        else (tsm_pdu_send_each Config.sample 0
          (List.range' 4 (min (4 + (sample_six_segments.slot 0).ActualWindowSize) (get_apdu_max_segments (sample_six_segments.slot 0)) - 4))
          (sample_six_segments.slot 0) []).1),
        (tsm_pdu_send_each Config.sample 0
          (List.range' 4 (min (4 + (sample_six_segments.slot 0).ActualWindowSize) (get_apdu_max_segments (sample_six_segments.slot 0)) - 4))
          (sample_six_segments.slot 0) []).2) ∧
    (FillWindow Config.sample 0 (sample_six_segments.slot 0) 4).2 =
      ((List.range' 4 (min (4 + (sample_six_segments.slot 0).ActualWindowSize) (get_apdu_max_segments (sample_six_segments.slot 0)) - 4)).map
        (fun n => (tsm_pdu_send Config.sample 0 (sample_six_segments.slot 0) n).2.1)).flatten ∧
    (FillWindow Config.sample 0 (sample_six_segments.slot 0) 4).1.SentAllSegments =
      (if 4 + (sample_six_segments.slot 0).ActualWindowSize ≥ get_apdu_max_segments (sample_six_segments.slot 0) then true
       else (sample_six_segments.slot 0).SentAllSegments)) :=
  ⟨by decide,
    FillWindow_sends_window Config.sample 0 (sample_six_segments.slot 0) 4 (by decide)⟩

/-! ## Analog input objects -/

/-- What `Analog_Input_Write_Property` does for the property UNITS on a valid
instance when the value decodes and has the enumerated tag: the write succeeds,
the units are as before, and the out-of-service flag of the instance is set to
"the value is not 0". -/
theorem analog_input_write_units (env : AiEnv) (s : AnalogInputs)
    (wp_data : BACNET_WRITE_PROPERTY_DATA)
    (hprop : (wp_data.object_property : Int) = PROP_UNITS)
    (hlen : 0 ≤ (env.bacapp_decode_application_data wp_data.application_data
      wp_data.application_data_len).1)
    (htag : env.write_property_type_valid wp_data
      (env.bacapp_decode_application_data wp_data.application_data
        wp_data.application_data_len).2 BACNET_APPLICATION_TAG_ENUMERATED = none)
    (hvalid : Analog_Input_Valid_Instance env wp_data.object_instance = true)
    (hsize : env.MAX_ANALOG_INPUTS ≤ s.Out_Of_Service.length) :
    (Analog_Input_Write_Property env s wp_data).1 = true ∧
    Analog_Input_Units env (Analog_Input_Write_Property env s wp_data).2.2
      wp_data.object_instance = Analog_Input_Units env s wp_data.object_instance ∧
    Analog_Input_Out_Of_Service env (Analog_Input_Write_Property env s wp_data).2.2
      wp_data.object_instance =
      decide ((env.bacapp_decode_application_data wp_data.application_data
        wp_data.application_data_len).2.Enumerated ≠ 0) ∧
    Analog_Input_Present_Value env (Analog_Input_Write_Property env s wp_data).2.2
      wp_data.object_instance = Analog_Input_Present_Value env s wp_data.object_instance := by
  have hi : wp_data.object_instance < env.MAX_ANALOG_INPUTS := by
    unfold Analog_Input_Valid_Instance Analog_Input_Instance_To_Index at hvalid
    by_contra h
    simp [h] at hvalid
  have e : Analog_Input_Write_Property env s wp_data =
      (true, none, Analog_Input_Out_Of_Service_Set env s wp_data.object_instance
        (decide ((env.bacapp_decode_application_data wp_data.application_data
          wp_data.application_data_len).2.Enumerated ≠ 0))) := by
    unfold Analog_Input_Write_Property
    simp only [Int.not_lt.mpr hlen, if_false, hprop, if_true, htag,
      (by decide : ¬ PROP_UNITS = PROP_PRESENT_VALUE),
      (by decide : ¬ PROP_UNITS = PROP_OUT_OF_SERVICE)]
  rw [e]
  unfold Analog_Input_Out_Of_Service_Set Analog_Input_Units Analog_Input_Out_Of_Service
    Analog_Input_Present_Value Analog_Input_Instance_To_Index
  simp only [hi, if_true]
  refine ⟨trivial, trivial, ?_, trivial⟩
  rw [List.getD_eq_getElem?_getD, List.getElem?_set_self (by omega)]
  rfl

/-- C37 at a failing input: the enumerated value 62 written to UNITS of the
analog input 0. The write succeeds, `Analog_Input_Units(0)` is still 95
(`UNITS_NO_UNITS`) and not 62, and `Out_Of_Service` of the instance has changed
from false to true. -/
theorem analog_input_write_units_sample :
    (Analog_Input_Write_Property AiEnv.sample AnalogInputs.sample
      (sample_write_units 0 62)).1 = true ∧
    Analog_Input_Units AiEnv.sample AnalogInputs.sample 0 = 95 ∧
    Analog_Input_Units AiEnv.sample (Analog_Input_Write_Property AiEnv.sample
      AnalogInputs.sample (sample_write_units 0 62)).2.2 0 = 95 ∧
    Analog_Input_Out_Of_Service AiEnv.sample AnalogInputs.sample 0 = false ∧
    Analog_Input_Out_Of_Service AiEnv.sample (Analog_Input_Write_Property AiEnv.sample
      AnalogInputs.sample (sample_write_units 0 62)).2.2 0 = true ∧
    (Analog_Input_Units_Set AiEnv.sample AnalogInputs.sample 0 62).2.Units = [62, 95] := by
  decide

/-! ## Termination of the allocator -/

/-- The candidates that the search loop of the allocator rejects are distinct
non-zero ids that slots hold, so with a free slot there are fewer of them than
slots. -/
theorem rejected_lt_slots (s : TSM) (c k : Nat) (hc1 : 1 ≤ c) (hc2 : c ≤ 255) (hk : k < 256)
    (h0 : held s 0) (hall : ∀ j, j < k → held s (invokeID_increment^[j] c)) :
    k < s.TSM_List.length := by
  have hsub : (Finset.range k).image (fun j => (c - 1 + j) % 255 + 1) ⊆
      (s.TSM_List.map (fun d => d.InvokeID)).toFinset.erase 0 := by
    intro v hv
    obtain ⟨j, hj, rfl⟩ := Finset.mem_image.mp hv
    have hh := hall j (Finset.mem_range.mp hj)
    rw [invokeID_increment_iterate hc1 hc2] at hh
    obtain ⟨d, hd, hdv⟩ := hh
    rw [Finset.mem_erase]
    refine ⟨by omega, ?_⟩
    simp only [List.mem_toFinset, List.mem_map]
    exact ⟨d, hd, hdv⟩
  have hinj : Set.InjOn (fun j => (c - 1 + j) % 255 + 1) (Finset.range k : Set Nat) := by
    intro a ha b hb hab
    have ha' : a < k := Finset.mem_range.mp ha
    have hb' : b < k := Finset.mem_range.mp hb
    simp only at hab
    omega
  have h1 := Finset.card_le_card hsub
  rw [Finset.card_image_of_injOn hinj, Finset.card_range] at h1
  have hmem : (0 : Nat) ∈ (s.TSM_List.map (fun d => d.InvokeID)).toFinset := by
    obtain ⟨d, hd, hd0⟩ := h0
    simp only [List.mem_toFinset, List.mem_map]
    exact ⟨d, hd, hd0⟩
  have h2 := Finset.card_erase_of_mem hmem
  have h3 := List.toFinset_card_le (s.TSM_List.map (fun d => d.InvokeID))
  have h4 : 0 < (s.TSM_List.map (fun d => d.InvokeID)).toFinset.card :=
    Finset.card_pos.mpr ⟨0, hmem⟩
  simp only [List.length_map] at h3
  omega

theorem invokeID_increment_ne_zero (c : Nat) : invokeID_increment c ≠ 0 := by
  unfold invokeID_increment
  split <;> omega

theorem next_free_loop_cursor (cfg : Config) :
    ∀ (fuel : Nat) (s : TSM) (r : Nat × TSM), s.Current_Invoke_ID ≠ 0 →
      tsm_next_free_invokeID_loop cfg fuel s = some r → r.2.Current_Invoke_ID ≠ 0 := by
  intro fuel
  induction fuel with
  | zero => intro s r _ h; cases h
  | succ fuel ih =>
    intro s r hc h
    unfold tsm_next_free_invokeID_loop at h
    simp only at h
    split_ifs at h with h1 h2
    · cases h
      exact invokeID_increment_ne_zero _
    · cases h
      exact hc
    · exact ih _ r (invokeID_increment_ne_zero _) h

/-- C38: the allocator on a table of at most 255 slots with a non-zero cursor.
With a free slot the search loop of `tsm_next_free_invokeID` ends within
`MAX_TSM_TRANSACTIONS` iterations: `MAX_TSM_TRANSACTIONS` units of fuel suffice,
and the loop then returns what `tsm_next_free_invokeID` returns; the candidates
it rejects are fewer than the slots. Without a free slot the loop is not
entered. `Current_Invoke_ID` is not 0 after `tsm_invokeID_set` nor after
`tsm_next_free_invokeID`. -/
theorem tsm_next_free_invokeID_terminates (cfg : Config) (s : TSM)
    (hlen : s.TSM_List.length ≤ 255) (hc : s.Current_Invoke_ID ≠ 0)
    (hcur : s.Current_Invoke_ID < 256) :
    ((∃ d ∈ s.TSM_List, d.InvokeID = 0) →
      ∃ k r, k < MAX_TSM_TRANSACTIONS s ∧
        (∀ j, j < k → held s (invokeID_increment^[j] s.Current_Invoke_ID)) ∧
        ¬ held s (invokeID_increment^[k] s.Current_Invoke_ID) ∧
        tsm_next_free_invokeID_loop cfg (k + 1) s = some r ∧
        tsm_next_free_invokeID_loop cfg (MAX_TSM_TRANSACTIONS s) s = some r ∧
        tsm_next_free_invokeID cfg s = some r) ∧
    ((∀ d ∈ s.TSM_List, d.InvokeID ≠ 0) → tsm_next_free_invokeID cfg s = some (0, s)) ∧
    (∀ invokeID, (tsm_invokeID_set s invokeID).Current_Invoke_ID ≠ 0) ∧
    (∃ r, tsm_next_free_invokeID cfg s = some r ∧ r.2.Current_Invoke_ID ≠ 0) := by
  have hfull : (∀ d ∈ s.TSM_List, d.InvokeID ≠ 0) →
      tsm_next_free_invokeID cfg s = some (0, s) := by
    intro h
    have hav : tsm_transaction_available s = false := by
      rw [Bool.eq_false_iff]
      intro ha
      obtain ⟨d, hd, hd0⟩ := (available_iff s).mp ha
      exact h d hd hd0
    simp [tsm_next_free_invokeID, hav]
  have hfree : (∃ d ∈ s.TSM_List, d.InvokeID = 0) →
      ∃ k r, k < MAX_TSM_TRANSACTIONS s ∧
        (∀ j, j < k → held s (invokeID_increment^[j] s.Current_Invoke_ID)) ∧
        ¬ held s (invokeID_increment^[k] s.Current_Invoke_ID) ∧
        tsm_next_free_invokeID_loop cfg (k + 1) s = some r ∧
        tsm_next_free_invokeID_loop cfg (MAX_TSM_TRANSACTIONS s) s = some r ∧
        tsm_next_free_invokeID cfg s = some r := by
    intro h0
    obtain ⟨k, hk, hall, hnot, heq⟩ := next_free_spec cfg s hlen hcur h0
    have hkn := rejected_lt_slots s s.Current_Invoke_ID k (by omega) (by omega) hk h0 hall
    exact ⟨k, _, hkn, hall, hnot,
      next_free_loop_spec cfg k (k + 1) s hlen h0 hall hnot (by omega),
      next_free_loop_spec cfg k (MAX_TSM_TRANSACTIONS s) s hlen h0 hall hnot hkn, heq⟩
  refine ⟨hfree, hfull, ?_, ?_⟩
  · intro invokeID
    unfold tsm_invokeID_set
    show (if invokeID = 0 then 1 else invokeID) ≠ 0
    split <;> omega
  · by_cases h0 : ∃ d ∈ s.TSM_List, d.InvokeID = 0
    · obtain ⟨k, r, _, _, _, hl, _, heq⟩ := hfree h0
      exact ⟨r, heq, next_free_loop_cursor cfg _ s r hc hl⟩
    · push_neg at h0
      exact ⟨(0, s), hfull h0, hc⟩

theorem tsm_next_free_invokeID_terminates_witness :
    ((sample_allocated.TSM_List.length ≤ 255) ∧
    (sample_allocated.Current_Invoke_ID ≠ 0) ∧
    (sample_allocated.Current_Invoke_ID < 256)) ∧
    (((∃ d ∈ sample_allocated.TSM_List, d.InvokeID = 0) →
      ∃ k r, k < MAX_TSM_TRANSACTIONS sample_allocated ∧
        (∀ j, j < k → held sample_allocated (invokeID_increment^[j] sample_allocated.Current_Invoke_ID)) ∧
        ¬ held sample_allocated (invokeID_increment^[k] sample_allocated.Current_Invoke_ID) ∧
        tsm_next_free_invokeID_loop Config.sample (k + 1) sample_allocated = some r ∧
        tsm_next_free_invokeID_loop Config.sample (MAX_TSM_TRANSACTIONS sample_allocated) sample_allocated = some r ∧
        tsm_next_free_invokeID Config.sample sample_allocated = some r) ∧
    ((∀ d ∈ sample_allocated.TSM_List, d.InvokeID ≠ 0) → tsm_next_free_invokeID Config.sample sample_allocated = some (0, sample_allocated)) ∧
    (∀ invokeID, (tsm_invokeID_set sample_allocated invokeID).Current_Invoke_ID ≠ 0) ∧
    (∃ r, tsm_next_free_invokeID Config.sample sample_allocated = some r ∧ r.2.Current_Invoke_ID ≠ 0)) :=
  ⟨⟨by decide, by decide, by decide⟩,
    tsm_next_free_invokeID_terminates Config.sample sample_allocated (by decide) (by decide) (by decide)⟩

/-- The number of segments of a segmented complex-ack of `L` bytes in APDUs of
at most `A` bytes, against a budget of `K` APDUs. -/
theorem segments_within_budget (L A K q : Nat) (hA : 5 < A)
    (hq : q * (A - 5) ≤ L - 1) (hL : 1 ≤ L) (hb : L + (q + 1) * 5 ≤ K * A) : q + 1 ≤ K := by
  by_contra hcon
  have hK : K ≤ q := by omega
  have h3 : K * A ≤ q * A := Nat.mul_le_mul_right A hK
  have h2 : q * A = q * (A - 5) + q * 5 := by
    rw [← Nat.mul_add]
    congr 1
    omega
  omega

/-- C39: the slot that `tsm_set_complexack_transaction` fills for a complex-ack
of `pdu_len` bytes (a 32 bit length), with the lengths computed by
`bacnet_calc_transmittable_length`, when `apdu_maximum_length > 5`, the response
needs `N ≠ 1` segments and `pdu_len + N × 5 ≤ maximum_transmittable_length`: the
requester accepts segmented responses, and `N` is at most `min(m,
MAX_SEGMENTS_ACCEPTED)`, where `m` is the requester's `max_segs`, or
`MAX_SEGMENTS_ACCEPTED` when `max_segs` is 0 or above 64; and the budget test of
the code, in 32 bit arithmetic, passes. -/
theorem segment_count_within_limit (cfg : Config) (d : BACNET_TSM_DATA)
    (dest : BACNET_ADDRESS) (npdu_data : BACNET_NPDU_DATA)
    (apdu_fixed_header : BACNET_APDU_FIXED_HEADER)
    (confirmed_service_data : BACNET_CONFIRMED_SERVICE_DATA) (pdu : List Nat) (pdu_len : Nat)
    (hack : apdu_fixed_header.pdu_type = PDU_TYPE_COMPLEX_ACK)
    (hlen : pdu_len < 4294967296)
    (hA : (complexack_slot cfg d dest npdu_data apdu_fixed_header confirmed_service_data pdu
      pdu_len).apdu_maximum_length > 5)
    (hN : get_apdu_max_segments (complexack_slot cfg d dest npdu_data apdu_fixed_header
      confirmed_service_data pdu pdu_len) ≠ 1)
    (hbudget : pdu_len + get_apdu_max_segments (complexack_slot cfg d dest npdu_data
        apdu_fixed_header confirmed_service_data pdu pdu_len) * 5 ≤
      (complexack_slot cfg d dest npdu_data apdu_fixed_header confirmed_service_data pdu
        pdu_len).maximum_transmittable_length) :
    confirmed_service_data.segmented_response_accepted = true ∧
    get_apdu_max_segments (complexack_slot cfg d dest npdu_data apdu_fixed_header
      confirmed_service_data pdu pdu_len) ≤
      min (if confirmed_service_data.max_segs = 0 ∨ confirmed_service_data.max_segs > 64 then
          cfg.MAX_SEGMENTS_ACCEPTED else confirmed_service_data.max_segs)
        cfg.MAX_SEGMENTS_ACCEPTED ∧
    ¬ u32 (pdu_len + u32 (get_apdu_max_segments (complexack_slot cfg d dest npdu_data
        apdu_fixed_header confirmed_service_data pdu pdu_len) *
        get_apdu_header_typical_size apdu_fixed_header true)) >
      (complexack_slot cfg d dest npdu_data apdu_fixed_header confirmed_service_data pdu
        pdu_len).maximum_transmittable_length := by
  have hh5 : get_apdu_header_typical_size apdu_fixed_header true = 5 := by
    unfold get_apdu_header_typical_size
    rw [hack]
    rfl
  have hh3 : get_apdu_header_typical_size apdu_fixed_header false = 3 := by
    unfold get_apdu_header_typical_size
    rw [hack]
    rfl
  generalize hcs : complexack_slot cfg d dest npdu_data apdu_fixed_header
    confirmed_service_data pdu pdu_len = cslot at hA hN hbudget ⊢
  have f1 : cslot.apdu_len = pdu_len := by rw [← hcs]; rfl
  have f2 : cslot.apdu_fixed_header = apdu_fixed_header := by rw [← hcs]; rfl
  have f3 : cslot.apdu_maximum_length =
      (bacnet_calc_transmittable_length cfg dest (some confirmed_service_data)).1 := by
    rw [← hcs]; rfl
  have f4 : cslot.maximum_transmittable_length =
      (bacnet_calc_transmittable_length cfg dest (some confirmed_service_data)).2 := by
    rw [← hcs]; rfl
  have hNeq : get_apdu_max_segments cslot =
      if u32 (3 + pdu_len) ≤ cslot.apdu_maximum_length then 1
      else u32 (u32sub pdu_len 1 / u32sub cslot.apdu_maximum_length 5 + 1) := by
    unfold get_apdu_max_segments
    simp only [f1, f2, hh3, hh5]
  have hseg : ¬ u32 (3 + pdu_len) ≤ cslot.apdu_maximum_length := by
    intro h
    rw [hNeq, if_pos h] at hN
    exact hN rfl
  rw [if_neg hseg] at hNeq
  have hu : u32 (3 + pdu_len) ≤ 3 + pdu_len := Nat.mod_le _ _
  have hL : 1 ≤ pdu_len := by
    by_contra h0
    have : pdu_len = 0 := by omega
    rw [this] at hseg
    unfold u32 at hseg
    omega
  have hA32 : cslot.apdu_maximum_length < 4294967296 := by
    have : u32 (3 + pdu_len) < 4294967296 := Nat.mod_lt _ (by decide)
    omega
  have e1 : u32sub pdu_len 1 = pdu_len - 1 := by
    unfold u32sub u32i; omega
  have e2 : u32sub cslot.apdu_maximum_length 5 = cslot.apdu_maximum_length - 5 := by
    unfold u32sub u32i; omega
  rw [e1, e2] at hNeq
  have hq := Nat.div_mul_le_self (pdu_len - 1) (cslot.apdu_maximum_length - 5)
  have hqle : (pdu_len - 1) / (cslot.apdu_maximum_length - 5) ≤ pdu_len - 1 :=
    Nat.div_le_self _ _
  have e3 : u32 ((pdu_len - 1) / (cslot.apdu_maximum_length - 5) + 1) =
      (pdu_len - 1) / (cslot.apdu_maximum_length - 5) + 1 := Nat.mod_eq_of_lt (by omega)
  rw [e3] at hNeq
  rw [hNeq] at hbudget ⊢
  generalize (pdu_len - 1) / (cslot.apdu_maximum_length - 5) = q at hq hqle hbudget hNeq ⊢
  have hacc : confirmed_service_data.segmented_response_accepted = true := by
    by_contra hna
    have hT : cslot.maximum_transmittable_length = cslot.apdu_maximum_length := by
      rw [f4, f3]
      unfold bacnet_calc_transmittable_length
      simp only [hna, Bool.false_eq_true, if_false]
    rw [hT] at hbudget
    unfold u32 at hseg
    omega
  have hT : cslot.maximum_transmittable_length ≤
      min (if confirmed_service_data.max_segs = 0 ∨ confirmed_service_data.max_segs > 64 then
          cfg.MAX_SEGMENTS_ACCEPTED else confirmed_service_data.max_segs)
        cfg.MAX_SEGMENTS_ACCEPTED * cslot.apdu_maximum_length := by
    rw [f4, f3]
    unfold bacnet_calc_transmittable_length
    simp only [hacc, if_true]
    refine Nat.le_trans (Nat.mod_le _ _) (Nat.mul_le_mul_right _ ?_)
    have hu16 : u16 cfg.MAX_SEGMENTS_ACCEPTED ≤ cfg.MAX_SEGMENTS_ACCEPTED := Nat.mod_le _ _
    split_ifs <;> omega
  refine ⟨hacc, ?_, ?_⟩
  · exact segments_within_budget pdu_len cslot.apdu_maximum_length _ q hA hq hL
      (Nat.le_trans hbudget hT)
  · rw [hh5]
    have hx : u32 (pdu_len + u32 ((q + 1) * 5)) ≤ pdu_len + (q + 1) * 5 :=
      Nat.le_trans (Nat.mod_le _ _) (Nat.add_le_add_left (Nat.mod_le _ _) _)
    omega

theorem segment_count_within_limit_witness :
    ((sample_ack_header9.pdu_type = PDU_TYPE_COMPLEX_ACK) ∧
    (30 < 4294967296) ∧
    ((complexack_slot Config.sample default sample_peer2 ⟨false, 0⟩ sample_ack_header9 sample_four_segment_data (List.range 30)
      30).apdu_maximum_length > 5) ∧
    (get_apdu_max_segments (complexack_slot Config.sample default sample_peer2 ⟨false, 0⟩ sample_ack_header9
      sample_four_segment_data (List.range 30) 30) ≠ 1) ∧
    (30 + get_apdu_max_segments (complexack_slot Config.sample default sample_peer2 ⟨false, 0⟩
        sample_ack_header9 sample_four_segment_data (List.range 30) 30) * 5 ≤
      (complexack_slot Config.sample default sample_peer2 ⟨false, 0⟩ sample_ack_header9 sample_four_segment_data (List.range 30)
        30).maximum_transmittable_length)) ∧
    (sample_four_segment_data.segmented_response_accepted = true ∧
    get_apdu_max_segments (complexack_slot Config.sample default sample_peer2 ⟨false, 0⟩ sample_ack_header9
      sample_four_segment_data (List.range 30) 30) ≤
      min (if sample_four_segment_data.max_segs = 0 ∨ sample_four_segment_data.max_segs > 64 then
          Config.sample.MAX_SEGMENTS_ACCEPTED else sample_four_segment_data.max_segs)
        Config.sample.MAX_SEGMENTS_ACCEPTED ∧
    ¬ u32 (30 + u32 (get_apdu_max_segments (complexack_slot Config.sample default sample_peer2 ⟨false, 0⟩
        sample_ack_header9 sample_four_segment_data (List.range 30) 30) *
        get_apdu_header_typical_size sample_ack_header9 true)) >
      (complexack_slot Config.sample default sample_peer2 ⟨false, 0⟩ sample_ack_header9 sample_four_segment_data (List.range 30)
        30).maximum_transmittable_length) :=
  ⟨⟨by decide, by decide, by decide, by decide, by decide⟩,
    segment_count_within_limit Config.sample default sample_peer2 (⟨false, 0⟩) sample_ack_header9 sample_four_segment_data (List.range 30) 30 (by decide) (by decide) (by decide) (by decide) (by decide)⟩

/-- The first length of `bacnet_calc_transmittable_length` for a request with
confirmed-service data is `min(max_resp, MAX_APDU)`. -/
theorem calc_transmittable_apdu_max (cfg : Config) (dest : BACNET_ADDRESS)
    (sd : BACNET_CONFIRMED_SERVICE_DATA) :
    (bacnet_calc_transmittable_length cfg dest (some sd)).1 = min sd.max_resp cfg.MAX_APDU := by
  unfold bacnet_calc_transmittable_length
  dsimp only
  split_ifs <;> rfl

/-- The segment count of the payload that the RPM handler hands over: a
complex-ack of `apdu_len - 3` bytes, the `int` converted to 32 bits, in APDUs of at
most `A` bytes. -/
theorem handover_segments (cfg : Config) (d : BACNET_TSM_DATA) (dest : BACNET_ADDRESS)
    (npdu_data : BACNET_NPDU_DATA) (invoke_id service max_apdu : Nat)
    (sd : BACNET_CONFIRMED_SERVICE_DATA) (pdu : List Nat) (apdu_len : Int)
    (h0 : 0 ≤ apdu_len) (h31 : apdu_len < 2147483648)
    (hA : min sd.max_resp cfg.MAX_APDU > 5) :
    (apdu_len > ((min sd.max_resp cfg.MAX_APDU : Nat) : Int) →
      2 ≤ get_apdu_max_segments (complexack_slot cfg d dest npdu_data
        (apdu_init_fixed_header PDU_TYPE_COMPLEX_ACK invoke_id service max_apdu) sd pdu
        (u32i (apdu_len - 3)))) ∧
    (apdu_len ≤ ((min sd.max_resp cfg.MAX_APDU : Nat) : Int) →
      get_apdu_max_segments (complexack_slot cfg d dest npdu_data
        (apdu_init_fixed_header PDU_TYPE_COMPLEX_ACK invoke_id service max_apdu) sd pdu
        (u32i (apdu_len - 3))) = 1) := by
  generalize hcs : complexack_slot cfg d dest npdu_data
    (apdu_init_fixed_header PDU_TYPE_COMPLEX_ACK invoke_id service max_apdu) sd pdu
    (u32i (apdu_len - 3)) = cslot
  have f1 : cslot.apdu_len = u32i (apdu_len - 3) := by rw [← hcs]; rfl
  have f2 : cslot.apdu_fixed_header =
      apdu_init_fixed_header PDU_TYPE_COMPLEX_ACK invoke_id service max_apdu := by
    rw [← hcs]; rfl
  have f3 : cslot.apdu_maximum_length = min sd.max_resp cfg.MAX_APDU := by
    rw [← hcs]
    exact calc_transmittable_apdu_max cfg dest sd
  have hh5 : get_apdu_header_typical_size cslot.apdu_fixed_header true = 5 := by
    rw [f2]; rfl
  have hh3 : get_apdu_header_typical_size cslot.apdu_fixed_header false = 3 := by
    rw [f2]; rfl
  have hNeq : get_apdu_max_segments cslot =
      if u32 (3 + u32i (apdu_len - 3)) ≤ min sd.max_resp cfg.MAX_APDU then 1
      else u32 (u32sub (u32i (apdu_len - 3)) 1 / u32sub (min sd.max_resp cfg.MAX_APDU) 5 + 1) := by
    unfold get_apdu_max_segments
    simp only [f1, f3, hh3, hh5]
  rw [hNeq]
  generalize min sd.max_resp cfg.MAX_APDU = A at hA ⊢
  have hu : (u32 (3 + u32i (apdu_len - 3)) : Int) = apdu_len := by
    unfold u32 u32i
    omega
  constructor
  · intro h
    have hseg : ¬ u32 (3 + u32i (apdu_len - 3)) ≤ A := by omega
    rw [if_neg hseg]
    have e0 : (u32i (apdu_len - 3) : Int) = apdu_len - 3 := by
      unfold u32i; omega
    have e1 : u32sub (u32i (apdu_len - 3)) 1 = u32i (apdu_len - 3) - 1 := by
      unfold u32sub
      rw [e0]
      unfold u32i
      omega
    have e2 : u32sub A 5 = A - 5 := by
      unfold u32sub u32i; omega
    rw [e1, e2]
    have hq : 1 ≤ (u32i (apdu_len - 3) - 1) / (A - 5) := by
      rw [Nat.le_div_iff_mul_le (by omega)]
      omega
    have hqle : (u32i (apdu_len - 3) - 1) / (A - 5) ≤ u32i (apdu_len - 3) - 1 :=
      Nat.div_le_self _ _
    have e3 : u32 ((u32i (apdu_len - 3) - 1) / (A - 5) + 1) =
        (u32i (apdu_len - 3) - 1) / (A - 5) + 1 := Nat.mod_eq_of_lt (by omega)
    rw [e3]
    omega
  · intro h
    rw [if_pos (by omega)]

/-- C40: the RPM handler and the TSM agree on segmentation. For a response of
`apdu_len` bytes (a non-negative `int`) and a requester with
`min(max_resp, MAX_APDU) > 5`, the slot that `tsm_set_complexack_transaction` fills
for the payload of `apdu_len - 3` bytes behind the complex-ack header has
`apdu_maximum_length = min(max_resp, MAX_APDU)`, and the hand-over condition of
the handler, `apdu_len > min(max_resp, MAX_APDU)`, holds if and only if
`get_apdu_max_segments` of that slot is at least 2; so whenever the sizing
decision of the handler is a hand-over, the segment count of the slot filled from
the arguments handed over is not 1, the test of the unsegmented branch. -/
theorem rpm_handover_is_segmented (cfg : Config) (env : RpmEnv) (d : BACNET_TSM_DATA)
    (src : BACNET_ADDRESS) (sd : BACNET_CONFIRMED_SERVICE_DATA) (st : RpmLocals)
    (hM : cfg.MAX_APDU = env.MAX_APDU)
    (h0 : 0 ≤ st.apdu_len) (h31 : st.apdu_len < 2147483648)
    (hA : min sd.max_resp env.MAX_APDU > 5) :
    (complexack_slot cfg d src ⟨true, 0⟩
      (apdu_init_fixed_header PDU_TYPE_COMPLEX_ACK sd.invoke_id
        SERVICE_CONFIRMED_READ_PROP_MULTIPLE sd.max_resp)
      sd (st.buf.drop 3) (u32i (st.apdu_len - 3))).apdu_maximum_length =
      min sd.max_resp env.MAX_APDU ∧
    (st.apdu_len > ((min sd.max_resp env.MAX_APDU : Nat) : Int) ↔
      2 ≤ get_apdu_max_segments (complexack_slot cfg d src ⟨true, 0⟩
        (apdu_init_fixed_header PDU_TYPE_COMPLEX_ACK sd.invoke_id
          SERVICE_CONFIRMED_READ_PROP_MULTIPLE sd.max_resp)
        sd (st.buf.drop 3) (u32i (st.apdu_len - 3)))) ∧
    (∀ (dest : BACNET_ADDRESS) (npdu_data : BACNET_NPDU_DATA)
        (header : BACNET_APDU_FIXED_HEADER) (sd2 : BACNET_CONFIRMED_SERVICE_DATA)
        (pdu : List Nat) (pdu_len : Int),
      rpm_sizing env src sd st = RpmOutcome.handoff dest npdu_data header sd2 pdu pdu_len →
      1 ≠ get_apdu_max_segments (complexack_slot cfg d dest npdu_data header sd2 pdu
        (u32i pdu_len))) := by
  rw [← hM] at hA ⊢
  have hs := handover_segments cfg d src ⟨true, 0⟩ sd.invoke_id
    SERVICE_CONFIRMED_READ_PROP_MULTIPLE sd.max_resp sd (st.buf.drop 3) st.apdu_len h0 h31 hA
  have hmin : ((if sd.max_resp < env.MAX_APDU then (sd.max_resp : Int) else (env.MAX_APDU : Int))) =
      ((min sd.max_resp cfg.MAX_APDU : Nat) : Int) := by
    rw [hM]
    split_ifs with h
    · rw [Nat.min_eq_left (by omega)]
    · rw [Nat.min_eq_right (by omega)]
  refine ⟨?_, ⟨hs.1, ?_⟩, ?_⟩
  · exact calc_transmittable_apdu_max cfg src sd
  · intro h2
    by_contra hle
    have := hs.2 (by omega)
    omega
  · intro dest npdu_data header sd2 pdu pdu_len hout
    unfold rpm_sizing at hout
    simp only [hmin] at hout
    split_ifs at hout with hb hgt hacc
    · injection hout with e1 e2 e3 e4 e5 e6
      subst e1 e2 e3 e4 e5 e6
      have := hs.1 hgt
      show 1 ≠ get_apdu_max_segments (complexack_slot cfg d src ⟨true, 0⟩
        (apdu_init_fixed_header PDU_TYPE_COMPLEX_ACK sd.invoke_id
          SERVICE_CONFIRMED_READ_PROP_MULTIPLE sd.max_resp)
        sd (st.buf.drop 3) (u32i (st.apdu_len - 3)))
      omega
    all_goals
      unfold rpm_finish at hout
      exact absurd hout (by simp)

theorem rpm_handover_is_segmented_witness :
    ((Config.sample_rpm.MAX_APDU = RpmEnv.sample.MAX_APDU) ∧
    (0 ≤ sample_handover_locals.apdu_len) ∧
    (sample_handover_locals.apdu_len < 2147483648) ∧
    (min sample_four_segment_data.max_resp RpmEnv.sample.MAX_APDU > 5)) ∧
    ((complexack_slot Config.sample_rpm default sample_peer ⟨true, 0⟩
      (apdu_init_fixed_header PDU_TYPE_COMPLEX_ACK sample_four_segment_data.invoke_id
        SERVICE_CONFIRMED_READ_PROP_MULTIPLE sample_four_segment_data.max_resp)
      sample_four_segment_data (sample_handover_locals.buf.drop 3) (u32i (sample_handover_locals.apdu_len - 3))).apdu_maximum_length =
      min sample_four_segment_data.max_resp RpmEnv.sample.MAX_APDU ∧
    (sample_handover_locals.apdu_len > ((min sample_four_segment_data.max_resp RpmEnv.sample.MAX_APDU : Nat) : Int) ↔
      2 ≤ get_apdu_max_segments (complexack_slot Config.sample_rpm default sample_peer ⟨true, 0⟩
        (apdu_init_fixed_header PDU_TYPE_COMPLEX_ACK sample_four_segment_data.invoke_id
          SERVICE_CONFIRMED_READ_PROP_MULTIPLE sample_four_segment_data.max_resp)
        sample_four_segment_data (sample_handover_locals.buf.drop 3) (u32i (sample_handover_locals.apdu_len - 3)))) ∧
    (∀ (dest : BACNET_ADDRESS) (npdu_data : BACNET_NPDU_DATA)
        (header : BACNET_APDU_FIXED_HEADER) (sd2 : BACNET_CONFIRMED_SERVICE_DATA)
        (pdu : List Nat) (pdu_len : Int),
      rpm_sizing RpmEnv.sample sample_peer sample_four_segment_data sample_handover_locals = RpmOutcome.handoff dest npdu_data header sd2 pdu pdu_len →
      1 ≠ get_apdu_max_segments (complexack_slot Config.sample_rpm default dest npdu_data header sd2 pdu
        (u32i pdu_len)))) :=
  ⟨⟨by decide, by decide, by decide, by decide⟩,
    rpm_handover_is_segmented Config.sample_rpm RpmEnv.sample default sample_peer sample_four_segment_data sample_handover_locals (by decide) (by decide) (by decide) (by decide)⟩

end Bacnet
